import Mathlib

/-!
# nPZero driver (npz.c, npz_device_control.c): register codec and configuration pass

A shallow embedding of the register writers of `npz.c` and of the configuration
orchestrator of `npz_device_control.c`.

* Machine integers are natural numbers, reduced `% 2^w` wherever the C code narrows
  (bit-field assignment, `uint8_t` parameters, the two bytes of a transfer).
* The bus transport `npz_hal_write` is a parameter: a function from the transfers
  issued so far and the current transfer to a status.  Every transfer of the driver
  is the two bytes `{register, value}`, recorded in `State.log`.
* The file-scope statics `m_configured_indices`, `m_configured_count`, `m_sram_count`
  are fields of `State`.
* Dereferencing a null pointer (an absent peripheral or ADC channel) is undefined
  behaviour in C; the embedding returns `none` there.
-/

namespace NPZ

/-! ## npz_registers.h -/

abbrev REG_SLEEP_RST : Nat := 0x00
abbrev REG_PSWCTL : Nat := 0x04
abbrev REG_SYSCFG1 : Nat := 0x05
abbrev REG_SYSCFG2 : Nat := 0x06
abbrev REG_SYSCFG3 : Nat := 0x07
abbrev REG_TOUT_L : Nat := 0x08
abbrev REG_TOUT_H : Nat := 0x09
abbrev REG_INTCFG : Nat := 0x0A

abbrev REG_CFGP1 : Nat := 0x10
abbrev REG_MODP1 : Nat := 0x11
abbrev REG_PERP1_L : Nat := 0x12
abbrev REG_PERP1_H : Nat := 0x13
abbrev REG_NCMDP1 : Nat := 0x14
abbrev REG_ADDRP1 : Nat := 0x15
abbrev REG_RREGP1 : Nat := 0x16
abbrev REG_THROVP1_L : Nat := 0x17
abbrev REG_THROVP1_H : Nat := 0x18
abbrev REG_THRUNP1_L : Nat := 0x19
abbrev REG_THRUNP1_H : Nat := 0x1A
abbrev REG_TWTP1 : Nat := 0x1B
abbrev REG_TCFGP1 : Nat := 0x1C

abbrev REG_CFGP2 : Nat := 0x1D
abbrev REG_MODP2 : Nat := 0x1E
abbrev REG_PERP2_L : Nat := 0x1F
abbrev REG_PERP2_H : Nat := 0x20
abbrev REG_NCMDP2 : Nat := 0x21
abbrev REG_ADDRP2 : Nat := 0x22
abbrev REG_RREGP2 : Nat := 0x23
abbrev REG_THROVP2_L : Nat := 0x24
abbrev REG_THROVP2_H : Nat := 0x25
abbrev REG_THRUNP2_L : Nat := 0x26
abbrev REG_THRUNP2_H : Nat := 0x27
abbrev REG_TWTP2 : Nat := 0x28
abbrev REG_TCFGP2 : Nat := 0x29

abbrev REG_CFGP3 : Nat := 0x2A
abbrev REG_MODP3 : Nat := 0x2B
abbrev REG_PERP3_L : Nat := 0x2C
abbrev REG_PERP3_H : Nat := 0x2D
abbrev REG_NCMDP3 : Nat := 0x2E
abbrev REG_ADDRP3 : Nat := 0x2F
abbrev REG_RREGP3 : Nat := 0x30
abbrev REG_THROVP3_L : Nat := 0x31
abbrev REG_THROVP3_H : Nat := 0x32
abbrev REG_THRUNP3_L : Nat := 0x33
abbrev REG_THRUNP3_H : Nat := 0x34
abbrev REG_TWTP3 : Nat := 0x35
abbrev REG_TCFGP3 : Nat := 0x36

abbrev REG_CFGP4 : Nat := 0x37
abbrev REG_MODP4 : Nat := 0x38
abbrev REG_PERP4_L : Nat := 0x39
abbrev REG_PERP4_H : Nat := 0x3A
abbrev REG_NCMDP4 : Nat := 0x3B
abbrev REG_ADDRP4 : Nat := 0x3C
abbrev REG_RREGP4 : Nat := 0x3D
abbrev REG_THROVP4_L : Nat := 0x3E
abbrev REG_THROVP4_H : Nat := 0x3F
abbrev REG_THRUNP4_L : Nat := 0x40
abbrev REG_THRUNP4_H : Nat := 0x41
abbrev REG_TWTP4 : Nat := 0x42
abbrev REG_TCFGP4 : Nat := 0x43

abbrev REG_THROVA1 : Nat := 0x44
abbrev REG_THRUNA1 : Nat := 0x45
abbrev REG_THROVA2 : Nat := 0x46
abbrev REG_THRUNA2 : Nat := 0x47

abbrev REG_VALP1_L : Nat := 0x50
abbrev REG_VALP1_H : Nat := 0x51
abbrev REG_VALP2_L : Nat := 0x52
abbrev REG_VALP2_H : Nat := 0x53
abbrev REG_VALP3_L : Nat := 0x54
abbrev REG_VALP3_H : Nat := 0x55
abbrev REG_VALP4_L : Nat := 0x56
abbrev REG_VALP4_H : Nat := 0x57

/-- The `#define SRAM_START 0x80` of npz_device_control.c. -/
abbrev SRAM_START : Nat := 0x80
/-- The `#define SRAM_SIZE 128` of npz_device_control.c. -/
abbrev SRAM_SIZE : Nat := 128

/-! ## npz.h: enumerations -/

/-- Operation value `npz_status_e`. -/
inductive npz_status_e where
  | OK
  | ERR
  | INVALID_PARAM
  deriving DecidableEq, Repr

open npz_status_e

abbrev HOST_POWER_MODE_SWITCH : Nat := 1
abbrev HOST_POWER_MODE_LOGIC_OUTPUT : Nat := 2
abbrev HOST_POWER_MODE_LOGIC_OUTPUT_INV : Nat := 3

abbrev PSW_LP1 : Nat := 1
abbrev PSW_LP2 : Nat := 2
abbrev PSW_LP3 : Nat := 3
abbrev PSW_LP4 : Nat := 4

abbrev POWER_MODE_DISABLED : Nat := 0
abbrev POWER_MODE_PERIODIC : Nat := 1
abbrev POWER_MODE_ALWAYS_ON : Nat := 3

abbrev POLLING_MODE_PERIODIC_READ_COMPARE_THRESHOLD : Nat := 0
abbrev POLLING_MODE_PERIODIC_WAIT_INTERRUPT_COMPARE_THRESHOLD : Nat := 1
abbrev POLLING_MODE_PERIODIC_WAIT_INTERRUPT : Nat := 2
abbrev POLLING_MODE_ASYNC_WAIT_INTERRUPT : Nat := 3

abbrev POWER_SWITCH_MODE_LOGIC_OUTPUT_HIGH : Nat := 2
abbrev INTERRUPT_PIN_MODE_INPUT_ACTIVE_HIGH : Nat := 0
abbrev COMPARISON_MODE_INSIDE_THRESHOLD : Nat := 0
abbrev DATA_TYPE_INT16 : Nat := 1
abbrev SPIMOD_SPI_MODE_0 : Nat := 0

abbrev SYS_CLOCK_10HZ : Nat := 0

abbrev SCLK_DIV_DISABLE : Nat := 0
abbrev SCLK_DIV_2 : Nat := 1
abbrev SCLK_DIV_4 : Nat := 3
abbrev SCLK_DIV_8 : Nat := 5
abbrev SCLK_DIV_16 : Nat := 7

abbrev ADC_CLK_SC : Nat := 0
abbrev ADC_CLK_64 : Nat := 1
abbrev ADC_CLK_256 : Nat := 2
abbrev ADC_CLK_1024 : Nat := 3

abbrev IO_STR_NORMAL : Nat := 0
abbrev I2C_PULL_AUTO : Nat := 3
abbrev SPI_PINS_ALWAYS_ON : Nat := 0
abbrev XO_CLK_OFF : Nat := 0

abbrev ENABLED : Nat := 1
abbrev MULTIBYTE_TRANSFER_ENABLE : Nat := 1

abbrev COM_I2C : Nat := 0
abbrev COM_SPI : Nat := 1

abbrev ENDIAN_BIG : Nat := 1

abbrev INT_PIN_PULL_DISABLED : Nat := 0
abbrev INT_PIN_PULL_LOW : Nat := 1
abbrev INT_PIN_PULL_HIGH : Nat := 3

abbrev PRE_WAIT_TIME_DISABLED : Nat := 0
abbrev PRE_WAIT_TIME_EXTEND_256 : Nat := 1
abbrev PRE_WAIT_TIME_EXTEND_4096 : Nat := 3

abbrev POST_WAIT_TIME_DISABLED : Nat := 0
abbrev POST_WAIT_TIME_EXTEND_256 : Nat := 1
abbrev POST_WAIT_TIME_EXTEND_4096 : Nat := 3

abbrev WAKEUP_ANY : Nat := 0

/-! ## npz.h: register structures (bit-field widths in the comments) -/

/-- Register PSWCTL: `pswint_p1..4 : 1`, `pswh_mode : 2`, `psw_en_vn : 1`, `psw_vn_on : 1`. -/
structure npz_register_pswctl_s where
  pswint_p1 : Nat := 0
  pswint_p2 : Nat := 0
  pswint_p3 : Nat := 0
  pswint_p4 : Nat := 0
  pswh_mode : Nat := 0
  psw_en_vn : Nat := 0
  psw_vn_on : Nat := 0

/-- Register SYSCFG1: seven 1-bit fields and one padding bit. -/
structure npz_register_syscfg1_s where
  wup1 : Nat := 0
  wup2 : Nat := 0
  wup3 : Nat := 0
  wup4 : Nat := 0
  adc_int_wakeup_enable : Nat := 0
  adc_ext_wakeup_enable : Nat := 0
  wake_up_any_or_all : Nat := 0
  padding : Nat := 0

/-- Register SYSCFG2: `sclk_div_en : 1`, `sclk_div_sel : 2`, `sclk_sel : 1`,
`adc_ext_on : 1`, `adc_clk_sel : 2`, `padding : 1`. -/
structure npz_register_syscfg2_s where
  sclk_div_en : Nat := 0
  sclk_div_sel : Nat := 0
  sclk_sel : Nat := 0
  adc_ext_on : Nat := 0
  adc_clk_sel : Nat := 0
  padding : Nat := 0

/-- Register SYSCFG3: `io_str : 1`, `i2c_pup_en : 1`, `i2c_pup_auto : 1`, `spi_auto : 1`,
`xo_clkout_div : 3`, `sclk_sel_status : 1`. -/
structure npz_register_syscfg3_s where
  io_str : Nat := 0
  i2c_pup_en : Nat := 0
  i2c_pup_auto : Nat := 0
  spi_auto : Nat := 0
  xo_clkout_div : Nat := 0
  sclk_sel_status : Nat := 0

/-- Register pair TOUT_L / TOUT_H (two `uint8_t`). -/
structure npz_register_tout_s where
  tout_l : Nat := 0
  tout_h : Nat := 0

/-- Register INTCFG: eight 1-bit fields. -/
structure npz_register_intcfg_s where
  pu_int1 : Nat := 0
  pu_s_int1 : Nat := 0
  pu_int2 : Nat := 0
  pu_s_int2 : Nat := 0
  pu_int3 : Nat := 0
  pu_s_int3 : Nat := 0
  pu_int4 : Nat := 0
  pu_s_int4 : Nat := 0

/-- Register CFGP: four 2-bit fields. -/
structure npz_register_cfgp_s where
  pwmod : Nat := 0
  tmod : Nat := 0
  pswmod : Nat := 0
  intmod : Nat := 0

/-- Register MODP: `cmod : 1`, `dtype : 2`, `seqrw : 1`, `wunak : 1`, `swprreg : 1`,
`spimod : 2`. -/
structure npz_register_modp_s where
  cmod : Nat := 0
  dtype : Nat := 0
  seqrw : Nat := 0
  wunak : Nat := 0
  swprreg : Nat := 0
  spimod : Nat := 0

/-- Register pair PERP_L / PERP_H (two `uint8_t`). -/
structure npz_register_perp_s where
  perp_l : Nat := 0
  perp_h : Nat := 0

/-- Register NCMDP: `ncmdp : 7`, `padding : 1`. -/
structure npz_register_ncmdp_s where
  ncmdp : Nat := 0
  padding : Nat := 0

/-- Register ADDRP: `addrp : 7`, `spi_en : 1`. -/
structure npz_register_addrp_s where
  addrp : Nat := 0
  spi_en : Nat := 0

/-- Register RREGP (one `uint8_t`). -/
structure npz_register_rregp_s where
  rregp : Nat := 0

/-- Register pair THROVP_L / THROVP_H. -/
structure npz_register_throvp_s where
  throvp_l : Nat := 0
  throvp_h : Nat := 0

/-- Register pair THRUNP_L / THRUNP_H. -/
structure npz_register_thrunp_s where
  thrunp_l : Nat := 0
  thrunp_h : Nat := 0

/-- Register TWTP (one `uint8_t`). -/
structure npz_register_twtp_s where
  twtp : Nat := 0

/-- Register TCFGP: `twt_en : 1`, `twt_ext : 1`, `tinit_en : 1`, `tinit_ext : 1`,
`i2cret : 2`, `padding : 2`. -/
structure npz_register_tcfgp_s where
  twt_en : Nat := 0
  twt_ext : Nat := 0
  tinit_en : Nat := 0
  tinit_ext : Nat := 0
  i2cret : Nat := 0
  padding : Nat := 0

/-- Registers THROVA1 / THROVA2: `throva : 5`, `padding : 3`. -/
structure npz_register_throva_s where
  throva : Nat := 0
  padding : Nat := 0

/-- Registers THRUNA1 / THRUNA2: `thruna : 5`, `padding : 3`. -/
structure npz_register_thruna_s where
  thruna : Nat := 0
  padding : Nat := 0

/-! ## Transport and driver state -/

/-- One bus transfer of the driver: the two bytes `{register address, value}` handed to
`npz_hal_write`. -/
abbrev Write := Nat × Nat

/-- The transport collaborator `npz_hal_write`: given the transfers issued so far and the
current one, it reports a status.  (The placeholder in npz_hal.c always reports `OK`.) -/
abbrev Transport := List Write → Write → npz_status_e

/-- The transport that always succeeds, as the placeholder of npz_hal.c does. -/
def hal_ok : Transport := fun _ _ => OK

/-- The transfers issued so far together with the file-scope statics of
npz_device_control.c. -/
structure State where
  log : List Write := []
  m_configured_indices : List Int := [-1, -1, -1, -1]
  m_configured_count : Nat := 0
  m_sram_count : Nat := 0

/-- The state at start-up: static initialisers, no transfer issued. -/
def State.init : State := {}

/-- `npz_hal_write(NPZ_I2C_ADDRESS, transmitData, 2, timeout)` with
`transmitData = {reg, val}`; both are `uint8_t`. -/
def npz_hal_write (hal : Transport) (reg val : Nat) (s : State) : npz_status_e × State :=
  (hal s.log (reg % 256, val % 256), { s with log := s.log ++ [(reg % 256, val % 256)] })

/-- The `switch (sw)` of the slot-dependent functions of npz.c: the four cases assign the
register address, and there is no `default`, so the zero initialiser stays otherwise. -/
def psw_switch (sw r1 r2 r3 r4 : Nat) : Nat :=
  if sw = PSW_LP1 then r1
  else if sw = PSW_LP2 then r2
  else if sw = PSW_LP3 then r3
  else if sw = PSW_LP4 then r4
  else 0

/-! The register address each `switch (sw)` of npz.c selects, per register family. -/

/-- Address selected by the `switch (sw)` over `REG_CFGP1`, ... , `REG_CFGP4`. -/
def REG_CFGP (sw : Nat) : Nat :=
  psw_switch sw REG_CFGP1 REG_CFGP2 REG_CFGP3 REG_CFGP4

/-- Address selected by the `switch (sw)` over `REG_MODP1`, ... , `REG_MODP4`. -/
def REG_MODP (sw : Nat) : Nat :=
  psw_switch sw REG_MODP1 REG_MODP2 REG_MODP3 REG_MODP4

/-- Address selected by the `switch (sw)` over `REG_PERP1_L`, ... , `REG_PERP4_L`. -/
def REG_PERP_L (sw : Nat) : Nat :=
  psw_switch sw REG_PERP1_L REG_PERP2_L REG_PERP3_L REG_PERP4_L

/-- Address selected by the `switch (sw)` over `REG_PERP1_H`, ... , `REG_PERP4_H`. -/
def REG_PERP_H (sw : Nat) : Nat :=
  psw_switch sw REG_PERP1_H REG_PERP2_H REG_PERP3_H REG_PERP4_H

/-- Address selected by the `switch (sw)` over `REG_NCMDP1`, ... , `REG_NCMDP4`. -/
def REG_NCMDP (sw : Nat) : Nat :=
  psw_switch sw REG_NCMDP1 REG_NCMDP2 REG_NCMDP3 REG_NCMDP4

/-- Address selected by the `switch (sw)` over `REG_ADDRP1`, ... , `REG_ADDRP4`. -/
def REG_ADDRP (sw : Nat) : Nat :=
  psw_switch sw REG_ADDRP1 REG_ADDRP2 REG_ADDRP3 REG_ADDRP4

/-- Address selected by the `switch (sw)` over `REG_RREGP1`, ... , `REG_RREGP4`. -/
def REG_RREGP (sw : Nat) : Nat :=
  psw_switch sw REG_RREGP1 REG_RREGP2 REG_RREGP3 REG_RREGP4

/-- Address selected by the `switch (sw)` over `REG_THROVP1_L`, ... , `REG_THROVP4_L`. -/
def REG_THROVP_L (sw : Nat) : Nat :=
  psw_switch sw REG_THROVP1_L REG_THROVP2_L REG_THROVP3_L REG_THROVP4_L

/-- Address selected by the `switch (sw)` over `REG_THROVP1_H`, ... , `REG_THROVP4_H`. -/
def REG_THROVP_H (sw : Nat) : Nat :=
  psw_switch sw REG_THROVP1_H REG_THROVP2_H REG_THROVP3_H REG_THROVP4_H

/-- Address selected by the `switch (sw)` over `REG_THRUNP1_L`, ... , `REG_THRUNP4_L`. -/
def REG_THRUNP_L (sw : Nat) : Nat :=
  psw_switch sw REG_THRUNP1_L REG_THRUNP2_L REG_THRUNP3_L REG_THRUNP4_L

/-- Address selected by the `switch (sw)` over `REG_THRUNP1_H`, ... , `REG_THRUNP4_H`. -/
def REG_THRUNP_H (sw : Nat) : Nat :=
  psw_switch sw REG_THRUNP1_H REG_THRUNP2_H REG_THRUNP3_H REG_THRUNP4_H

/-- Address selected by the `switch (sw)` over `REG_TWTP1`, ... , `REG_TWTP4`. -/
def REG_TWTP (sw : Nat) : Nat :=
  psw_switch sw REG_TWTP1 REG_TWTP2 REG_TWTP3 REG_TWTP4

/-- Address selected by the `switch (sw)` over `REG_TCFGP1`, ... , `REG_TCFGP4`. -/
def REG_TCFGP (sw : Nat) : Nat :=
  psw_switch sw REG_TCFGP1 REG_TCFGP2 REG_TCFGP3 REG_TCFGP4

/-! ## npz.c: register writers -/

/-- Writer `npz_write_SLEEP_RST`. -/
def npz_write_SLEEP_RST (hal : Transport) (sleep_rst_value : Nat) (s : State) :
    npz_status_e × State :=
  npz_hal_write hal REG_SLEEP_RST sleep_rst_value s

/-- Writer `npz_write_PSWCTL`. -/
def npz_write_PSWCTL (hal : Transport) (pswctl : npz_register_pswctl_s) (s : State) :
    npz_status_e × State :=
  let d := (pswctl.pswint_p1 % 2) ||| ((pswctl.pswint_p2 % 2) <<< 1)
    ||| ((pswctl.pswint_p3 % 2) <<< 2) ||| ((pswctl.pswint_p4 % 2) <<< 3)
    ||| ((pswctl.pswh_mode % 4) <<< 4) ||| ((pswctl.psw_en_vn % 2) <<< 6)
  npz_hal_write hal REG_PSWCTL d s

/-- Writer `npz_write_SYSCFG1`. -/
def npz_write_SYSCFG1 (hal : Transport) (syscfg1 : npz_register_syscfg1_s) (s : State) :
    npz_status_e × State :=
  let d := (syscfg1.wup1 % 2) ||| ((syscfg1.wup2 % 2) <<< 1) ||| ((syscfg1.wup3 % 2) <<< 2)
    ||| ((syscfg1.wup4 % 2) <<< 3) ||| ((syscfg1.adc_int_wakeup_enable % 2) <<< 4)
    ||| ((syscfg1.adc_ext_wakeup_enable % 2) <<< 5)
    ||| ((syscfg1.wake_up_any_or_all % 2) <<< 6)
  npz_hal_write hal REG_SYSCFG1 d s

/-- Writer `npz_write_SYSCFG2`. -/
def npz_write_SYSCFG2 (hal : Transport) (syscfg2 : npz_register_syscfg2_s) (s : State) :
    npz_status_e × State :=
  let d := (syscfg2.sclk_div_en % 2) ||| ((syscfg2.sclk_div_sel % 4) <<< 1)
    ||| ((syscfg2.sclk_sel % 2) <<< 3) ||| ((syscfg2.adc_ext_on % 2) <<< 4)
    ||| ((syscfg2.adc_clk_sel % 4) <<< 5)
  npz_hal_write hal REG_SYSCFG2 d s

/-- Writer `npz_write_SYSCFG3`. -/
def npz_write_SYSCFG3 (hal : Transport) (syscfg3 : npz_register_syscfg3_s) (s : State) :
    npz_status_e × State :=
  let d := (syscfg3.io_str % 2) ||| ((syscfg3.i2c_pup_en % 2) <<< 1)
    ||| ((syscfg3.i2c_pup_auto % 2) <<< 2) ||| ((syscfg3.spi_auto % 2) <<< 3)
    ||| ((syscfg3.xo_clkout_div % 8) <<< 4) ||| ((syscfg3.sclk_sel_status % 2) <<< 7)
  npz_hal_write hal REG_SYSCFG3 d s

/-- Writer `npz_write_TOUT`: low byte, then (only if that succeeded) high byte. -/
def npz_write_TOUT (hal : Transport) (tout : npz_register_tout_s) (s : State) :
    npz_status_e × State :=
  let r := npz_hal_write hal REG_TOUT_L tout.tout_l s
  if r.1 ≠ OK then (ERR, r.2)
  else npz_hal_write hal REG_TOUT_H tout.tout_h r.2

/-- Writer `npz_write_INTCFG`. -/
def npz_write_INTCFG (hal : Transport) (intcfg : npz_register_intcfg_s) (s : State) :
    npz_status_e × State :=
  let d := (intcfg.pu_int1 % 2) ||| ((intcfg.pu_s_int1 % 2) <<< 1)
    ||| ((intcfg.pu_int2 % 2) <<< 2) ||| ((intcfg.pu_s_int2 % 2) <<< 3)
    ||| ((intcfg.pu_int3 % 2) <<< 4) ||| ((intcfg.pu_s_int3 % 2) <<< 5)
    ||| ((intcfg.pu_int4 % 2) <<< 6) ||| ((intcfg.pu_s_int4 % 2) <<< 7)
  npz_hal_write hal REG_INTCFG d s

/-- Writer `npz_write_THROVA1`. -/
def npz_write_THROVA1 (hal : Transport) (throva1 : npz_register_throva_s) (s : State) :
    npz_status_e × State :=
  npz_hal_write hal REG_THROVA1 (throva1.throva % 32) s

/-- Writer `npz_write_THROVA2`. -/
def npz_write_THROVA2 (hal : Transport) (throva2 : npz_register_throva_s) (s : State) :
    npz_status_e × State :=
  npz_hal_write hal REG_THROVA2 (throva2.throva % 32) s

/-- Writer `npz_write_THRUNA1`. -/
def npz_write_THRUNA1 (hal : Transport) (thruna1 : npz_register_thruna_s) (s : State) :
    npz_status_e × State :=
  npz_hal_write hal REG_THRUNA1 (thruna1.thruna % 32) s

/-- Writer `npz_write_THRUNA2`. -/
def npz_write_THRUNA2 (hal : Transport) (thruna2 : npz_register_thruna_s) (s : State) :
    npz_status_e × State :=
  npz_hal_write hal REG_THRUNA2 (thruna2.thruna % 32) s

/-- Writer `npz_write_SRAM(const uint8_t sram_reg, const uint8_t SRAM)`: both parameters
are narrowed to 8 bits by the call. -/
def npz_write_SRAM (hal : Transport) (sram_reg SRAM : Nat) (s : State) :
    npz_status_e × State :=
  npz_hal_write hal (sram_reg % 256) (SRAM % 256) s

/-- Writer `npz_write_CFGP`. -/
def npz_write_CFGP (hal : Transport) (sw : Nat) (cfgp : npz_register_cfgp_s) (s : State) :
    npz_status_e × State :=
  let reg := REG_CFGP sw
  let d := (cfgp.pwmod % 4) ||| ((cfgp.tmod % 4) <<< 2) ||| ((cfgp.pswmod % 4) <<< 4)
    ||| ((cfgp.intmod % 4) <<< 6)
  npz_hal_write hal reg d s

/-- Writer `npz_write_MODP`. -/
def npz_write_MODP (hal : Transport) (sw : Nat) (modp : npz_register_modp_s) (s : State) :
    npz_status_e × State :=
  let reg := REG_MODP sw
  let d := (modp.cmod % 2) ||| ((modp.dtype % 4) <<< 1) ||| ((modp.seqrw % 2) <<< 3)
    ||| ((modp.wunak % 2) <<< 4) ||| ((modp.swprreg % 2) <<< 5)
    ||| ((modp.spimod % 4) <<< 6)
  npz_hal_write hal reg d s

/-- Writer `npz_write_PERP`: a zero period is refused before the `switch`; otherwise the
low byte goes to the slot's `PERP_L` and then the high byte to its `PERP_H`. -/
def npz_write_PERP (hal : Transport) (sw : Nat) (perp : npz_register_perp_s) (s : State) :
    npz_status_e × State :=
  if perp.perp_l % 256 = 0 ∧ perp.perp_h % 256 = 0 then (INVALID_PARAM, s)
  else
    let reg_l := REG_PERP_L sw
    let reg_h := REG_PERP_H sw
    let d_l := if sw = PSW_LP1 ∨ sw = PSW_LP2 ∨ sw = PSW_LP3 ∨ sw = PSW_LP4
      then perp.perp_l else 0
    let r := npz_hal_write hal reg_l d_l s
    if r.1 ≠ OK then (ERR, r.2)
    else npz_hal_write hal reg_h perp.perp_h r.2

/-- Writer `npz_write_NCMDP`. -/
def npz_write_NCMDP (hal : Transport) (sw : Nat) (ncmdp : npz_register_ncmdp_s) (s : State) :
    npz_status_e × State :=
  let reg := REG_NCMDP sw
  npz_hal_write hal reg (ncmdp.ncmdp % 128) s

/-- Writer `npz_write_ADDRP`. -/
def npz_write_ADDRP (hal : Transport) (sw : Nat) (addrp : npz_register_addrp_s) (s : State) :
    npz_status_e × State :=
  let reg := REG_ADDRP sw
  let d := (addrp.addrp % 128) ||| ((addrp.spi_en % 2) <<< 7)
  npz_hal_write hal reg d s

/-- Writer `npz_write_RREGP`. -/
def npz_write_RREGP (hal : Transport) (sw : Nat) (rregp : npz_register_rregp_s) (s : State) :
    npz_status_e × State :=
  let reg := REG_RREGP sw
  npz_hal_write hal reg rregp.rregp s

/-- Writer `npz_write_THROVP`: low byte, then (only if that succeeded) high byte. -/
def npz_write_THROVP (hal : Transport) (sw : Nat) (throvp : npz_register_throvp_s)
    (s : State) : npz_status_e × State :=
  let reg_l := REG_THROVP_L sw
  let reg_h := REG_THROVP_H sw
  let r := npz_hal_write hal reg_l throvp.throvp_l s
  if r.1 ≠ OK then (ERR, r.2)
  else npz_hal_write hal reg_h throvp.throvp_h r.2

/-- Writer `npz_write_THRUNP`: low byte, then (only if that succeeded) high byte. -/
def npz_write_THRUNP (hal : Transport) (sw : Nat) (thrunp : npz_register_thrunp_s)
    (s : State) : npz_status_e × State :=
  let reg_l := REG_THRUNP_L sw
  let reg_h := REG_THRUNP_H sw
  let r := npz_hal_write hal reg_l thrunp.thrunp_l s
  if r.1 ≠ OK then (ERR, r.2)
  else npz_hal_write hal reg_h thrunp.thrunp_h r.2

/-- Writer `npz_write_TWTP`. -/
def npz_write_TWTP (hal : Transport) (sw : Nat) (twtp : npz_register_twtp_s) (s : State) :
    npz_status_e × State :=
  let reg := REG_TWTP sw
  npz_hal_write hal reg twtp.twtp s

/-- Writer `npz_write_TCFGP`. -/
def npz_write_TCFGP (hal : Transport) (sw : Nat) (tcfgp : npz_register_tcfgp_s) (s : State) :
    npz_status_e × State :=
  let reg := REG_TCFGP sw
  let d := (tcfgp.twt_en % 2) ||| ((tcfgp.twt_ext % 2) <<< 1) ||| ((tcfgp.tinit_en % 2) <<< 2)
    ||| ((tcfgp.tinit_ext % 2) <<< 3) ||| ((tcfgp.i2cret % 4) <<< 4)
  npz_hal_write hal reg d s

/-! ## npz.h: user configuration -/

/-- Structure `npz_adc_config_channels_s`: two `uint8_t` thresholds and the 1-bit
`wakeup_enable`. -/
structure npz_adc_config_channels_s where
  over_threshold : Nat := 0
  under_threshold : Nat := 0
  wakeup_enable : Nat := 0

/-- Structure `npz_peripheral_config_s`.  The anonymous union of `i2c_cfg` and `spi_cfg` is
kept as its bytes, `cfg_union k` being the byte at offset `k` from the start of the union
(offsets past the declared arrays are whatever memory follows them); the members are read
through the accessors below. -/
structure npz_peripheral_config_s where
  communication_protocol : Nat := 0
  power_mode : Nat := 0
  polling_mode : Nat := 0
  power_switch_mode : Nat := 0
  interrupt_pin_mode : Nat := 0
  comparison_mode : Nat := 0
  sensor_data_type : Nat := 0
  multi_byte_transfer_enable : Nat := 0
  swap_registers : Nat := 0
  polling_period : Nat := 0
  cfg_union : Nat → Nat := fun _ => 0
  threshold_over : Nat := 0
  threshold_under : Nat := 0
  time_to_wait : Nat := 0
  pre_wait_time : Nat := 0
  post_wait_time : Nat := 0

/-- Member `i2c_cfg.command_num` (`uint8_t`, offset 0 of the union). -/
def i2c_cfg_command_num (p : npz_peripheral_config_s) : Nat := p.cfg_union 0 % 256
/-- Member `i2c_cfg.sensor_address` (`uint8_t`, offset 1). -/
def i2c_cfg_sensor_address (p : npz_peripheral_config_s) : Nat := p.cfg_union 1 % 256
/-- Member `i2c_cfg.reg_address_value` (`uint8_t`, offset 2). -/
def i2c_cfg_reg_address_value (p : npz_peripheral_config_s) : Nat := p.cfg_union 2 % 256
/-- Member `i2c_cfg.wake_on_nak : 1` (bit 0 of offset 3). -/
def i2c_cfg_wake_on_nak (p : npz_peripheral_config_s) : Nat := p.cfg_union 3 % 2
/-- Member `i2c_cfg.num_of_retries_on_nak : 2` (bits 1..2 of offset 3). -/
def i2c_cfg_num_of_retries_on_nak (p : npz_peripheral_config_s) : Nat :=
  (p.cfg_union 3 / 2) % 4
/-- Member `i2c_cfg.bytes_from_sram[i]` (`uint8_t[40]` at offset 4). -/
def i2c_cfg_bytes_from_sram (p : npz_peripheral_config_s) (i : Nat) : Nat :=
  p.cfg_union (4 + i) % 256

/-- Member `spi_cfg.bytes_from_sram_num` (`uint8_t`, offset 0 of the union: the same byte
as `i2c_cfg.command_num`). -/
def spi_cfg_bytes_from_sram_num (p : npz_peripheral_config_s) : Nat := p.cfg_union 0 % 256
/-- Member `spi_cfg.bytes_from_sram_read_num` (`uint8_t`, offset 1). -/
def spi_cfg_bytes_from_sram_read_num (p : npz_peripheral_config_s) : Nat :=
  p.cfg_union 1 % 256
/-- Member `spi_cfg.bytes_from_sram[i]` (`uint8_t[40]` at offset 2). -/
def spi_cfg_bytes_from_sram (p : npz_peripheral_config_s) (i : Nat) : Nat :=
  p.cfg_union (2 + i) % 256
/-- Member `spi_cfg.bytes_from_sram_read[i]` (`uint8_t[40]` at offset 42). -/
def spi_cfg_bytes_from_sram_read (p : npz_peripheral_config_s) (i : Nat) : Nat :=
  p.cfg_union (42 + i) % 256
/-- Member `spi_cfg.mode` (an `int`-sized enum at offset 84, little-endian). -/
def spi_cfg_mode (p : npz_peripheral_config_s) : Nat :=
  p.cfg_union 84 % 256 + 256 * (p.cfg_union 85 % 256) + 65536 * (p.cfg_union 86 % 256)
    + 16777216 * (p.cfg_union 87 % 256)

/-- The bytes of the union after a designated initialiser of `i2c_cfg`. -/
def i2c_cfg_init (command_num sensor_address reg_address_value wake_on_nak
    num_of_retries_on_nak : Nat) (bytes_from_sram : List Nat) : Nat → Nat := fun k =>
  if k = 0 then command_num % 256
  else if k = 1 then sensor_address % 256
  else if k = 2 then reg_address_value % 256
  else if k = 3 then wake_on_nak % 2 + 2 * (num_of_retries_on_nak % 4)
  else if k < 44 then bytes_from_sram.getD (k - 4) 0 % 256
  else 0

/-- The bytes of the union after a designated initialiser of `spi_cfg`. -/
def spi_cfg_init (bytes_from_sram_num bytes_from_sram_read_num : Nat)
    (bytes_from_sram bytes_from_sram_read : List Nat) (mode : Nat) : Nat → Nat := fun k =>
  if k = 0 then bytes_from_sram_num % 256
  else if k = 1 then bytes_from_sram_read_num % 256
  else if k < 42 then bytes_from_sram.getD (k - 2) 0 % 256
  else if k < 82 then bytes_from_sram_read.getD (k - 42) 0 % 256
  else if 84 ≤ k ∧ k < 88 then (mode / 256 ^ (k - 84)) % 256
  else 0

/-- Structure `npz_device_config_s`.  `peripherals` and `adc_channels` are arrays of
pointers: `none` is a null pointer, and entries past the end of the list are null. -/
structure npz_device_config_s where
  power_switch_normal_mode_per1 : Nat := 0
  power_switch_normal_mode_per2 : Nat := 0
  power_switch_normal_mode_per3 : Nat := 0
  power_switch_normal_mode_per4 : Nat := 0
  host_power_mode : Nat := 0
  power_switch_gate_boost : Nat := 0
  wake_up_per1 : Nat := 0
  wake_up_per2 : Nat := 0
  wake_up_per3 : Nat := 0
  wake_up_per4 : Nat := 0
  wake_up_any_or_all : Nat := 0
  system_clock_divider : Nat := 0
  system_clock_source : Nat := 0
  io_strength : Nat := 0
  i2c_pull_mode : Nat := 0
  spi_auto : Nat := 0
  xo_clock_out_sel : Nat := 0
  global_timeout : Nat := 0
  interrupt_pin_pull_up_pin1 : Nat := 0
  interrupt_pin_pull_up_pin2 : Nat := 0
  interrupt_pin_pull_up_pin3 : Nat := 0
  interrupt_pin_pull_up_pin4 : Nat := 0
  peripherals : List (Option npz_peripheral_config_s) := []
  adc_ext_sampling_enable : Nat := 0
  adc_clock_sel : Nat := 0
  adc_channels : List (Option npz_adc_config_channels_s) := []

/-- The pointer `device_config->peripherals[index]`; `none` when it is null or `index` is
outside the array. -/
def npz_device_config_s.peripheral_at (device_config : npz_device_config_s) (index : Int) :
    Option npz_peripheral_config_s :=
  if 0 ≤ index ∧ index < 4 then device_config.peripherals.getD index.toNat none else none

/-- The pointer `device_config->adc_channels[k]`; `none` when it is null. -/
def npz_device_config_s.adc_channel_at (device_config : npz_device_config_s) (k : Nat) :
    Option npz_adc_config_channels_s :=
  if k < 2 then device_config.adc_channels.getD k none else none

/-! ## npz_device_control.c: private data -/

/-- Structure `peripheral_config_s`: the register images of one peripheral. -/
structure peripheral_config_s where
  cfgp : npz_register_cfgp_s := {}
  modp : npz_register_modp_s := {}
  perp : npz_register_perp_s := {}
  ncmdp : npz_register_ncmdp_s := {}
  addrp : npz_register_addrp_s := {}
  rregp : npz_register_rregp_s := {}
  throvp : npz_register_throvp_s := {}
  thrunp : npz_register_thrunp_s := {}
  twtp : npz_register_twtp_s := {}
  tcfgp : npz_register_tcfgp_s := {}

/-- The local array `peripheral_config_s peripherals[4]` of `configure_peripherals`,
indexed like the C array. -/
abbrev Images := Int → peripheral_config_s

/-- The initialiser `peripherals[4] = {0}`. -/
def Images.zero : Images := fun _ => {}

/-- Result of a `bool` function of the global group: `none` is a null dereference. -/
abbrev GRes := Option (Bool × State)

/-- Result of a `bool` function of the peripheral group, with the updated register
images: `none` is a null dereference. -/
abbrev PRes := Option (Bool × Images × State)

/-- The idiom `if (!step(...)) { printf(...); return false; }` followed by the rest of the
function body. -/
def GRes.andThen (r : GRes) (rest : State → GRes) : GRes :=
  match r with
  | none => none
  | some (false, s) => some (false, s)
  | some (true, s) => rest s

/-- The idiom `if (!step(...)) { printf(...); return false; }` followed by the rest of the
loop body, for the peripheral group. -/
def PRes.andThen (r : PRes) (rest : Images → State → PRes) : PRes :=
  match r with
  | none => none
  | some (false, im, s) => some (false, im, s)
  | some (true, im, s) => rest im s

/-! ## npz_device_control.c: global group -/

/-- Function `set_global_timeout` (`global_timeout` is a `uint16_t`). -/
def set_global_timeout (hal : Transport) (device_config : npz_device_config_s) (s : State) :
    GRes :=
  if device_config.global_timeout % 65536 > 0 then
    let time_out_config : npz_register_tout_s :=
      { tout_l := (device_config.global_timeout % 65536) % 256
        tout_h := ((device_config.global_timeout % 65536) / 256) % 256 }
    let r := npz_write_TOUT hal time_out_config s
    if r.1 ≠ OK then some (false, r.2) else some (true, r.2)
  else some (false, s)

/-- Function `set_power_switch_control`.  The four normal-mode fields and the gate-boost
field are 1-bit fields of the configuration. -/
def set_power_switch_control (hal : Transport) (device_config : npz_device_config_s)
    (s : State) : GRes :=
  if device_config.power_switch_normal_mode_per1 % 2 > 1 then some (false, s)
  else if device_config.power_switch_normal_mode_per2 % 2 > 1 then some (false, s)
  else if device_config.power_switch_normal_mode_per3 % 2 > 1 then some (false, s)
  else if device_config.power_switch_normal_mode_per4 % 2 > 1 then some (false, s)
  else if ¬ (device_config.host_power_mode = HOST_POWER_MODE_SWITCH
      ∨ device_config.host_power_mode = HOST_POWER_MODE_LOGIC_OUTPUT
      ∨ device_config.host_power_mode = HOST_POWER_MODE_LOGIC_OUTPUT_INV) then some (false, s)
  else if device_config.power_switch_gate_boost % 2 > 1 then some (false, s)
  else
    let pswctl : npz_register_pswctl_s :=
      { pswint_p1 := device_config.power_switch_normal_mode_per1 % 2
        pswint_p2 := device_config.power_switch_normal_mode_per2 % 2
        pswint_p3 := device_config.power_switch_normal_mode_per3 % 2
        pswint_p4 := device_config.power_switch_normal_mode_per4 % 2
        pswh_mode := device_config.host_power_mode % 4
        psw_en_vn := device_config.power_switch_gate_boost % 2 }
    let r := npz_write_PSWCTL hal pswctl s
    if r.1 ≠ OK then some (false, r.2) else some (true, r.2)

/-- Function `set_system_config1`: both `adc_channels` pointers are dereferenced without
a check. -/
def set_system_config1 (hal : Transport) (device_config : npz_device_config_s) (s : State) :
    GRes :=
  match device_config.adc_channel_at 0, device_config.adc_channel_at 1 with
  | some adc0, some adc1 =>
    let syscfg1 : npz_register_syscfg1_s :=
      { wup1 := device_config.wake_up_per1 % 2
        wup2 := device_config.wake_up_per2 % 2
        wup3 := device_config.wake_up_per3 % 2
        wup4 := device_config.wake_up_per4 % 2
        adc_int_wakeup_enable := adc0.wakeup_enable % 2
        adc_ext_wakeup_enable := adc1.wakeup_enable % 2
        wake_up_any_or_all := device_config.wake_up_any_or_all % 2 }
    let r := npz_write_SYSCFG1 hal syscfg1 s
    if r.1 ≠ OK then some (false, r.2) else some (true, r.2)
  | _, _ => none

/-- The first `switch` of `set_system_config2`: `(sclk_div_en, sclk_div_sel)` for a mapped
divider, `none` for the `default` case. -/
def sclk_div_switch (system_clock_divider : Nat) : Option (Nat × Nat) :=
  if system_clock_divider = SCLK_DIV_DISABLE then some (0, 0)
  else if system_clock_divider = SCLK_DIV_2 then some (1, 0)
  else if system_clock_divider = SCLK_DIV_4 then some (1, 1)
  else if system_clock_divider = SCLK_DIV_8 then some (1, 2)
  else if system_clock_divider = SCLK_DIV_16 then some (1, 3)
  else none

/-- The second `switch` of `set_system_config2`: `adc_clk_sel` for a mapped selector,
`none` for the `default` case. -/
def adc_clk_switch (adc_clock_sel : Nat) : Option Nat :=
  if adc_clock_sel = ADC_CLK_SC then some 0
  else if adc_clock_sel = ADC_CLK_64 then some 1
  else if adc_clock_sel = ADC_CLK_256 then some 2
  else if adc_clock_sel = ADC_CLK_1024 then some 3
  else none

/-- Function `set_system_config2`. -/
def set_system_config2 (hal : Transport) (device_config : npz_device_config_s) (s : State) :
    GRes :=
  match sclk_div_switch device_config.system_clock_divider with
  | none => some (false, s)
  | some (div_en, div_sel) =>
    match adc_clk_switch device_config.adc_clock_sel with
    | none => some (false, s)
    | some clk_sel =>
      let syscfg2 : npz_register_syscfg2_s :=
        { sclk_div_en := div_en
          sclk_div_sel := div_sel
          sclk_sel := device_config.system_clock_source % 2
          adc_ext_on := device_config.adc_ext_sampling_enable % 2
          adc_clk_sel := clk_sel }
      let r := npz_write_SYSCFG2 hal syscfg2 s
      if r.1 ≠ OK then some (false, r.2) else some (true, r.2)

/-- Function `set_system_config3`. -/
def set_system_config3 (hal : Transport) (device_config : npz_device_config_s) (s : State) :
    GRes :=
  let syscfg3 : npz_register_syscfg3_s :=
    { io_str := device_config.io_strength % 2
      i2c_pup_en := device_config.i2c_pull_mode % 2
      i2c_pup_auto := (device_config.i2c_pull_mode / 2) % 2
      spi_auto := device_config.spi_auto % 2
      xo_clkout_div := device_config.xo_clock_out_sel % 8 }
  let r := npz_write_SYSCFG3 hal syscfg3 s
  if r.1 ≠ OK then some (false, r.2) else some (true, r.2)

/-- One `switch` of `set_interrupt_pin_config`: `(pu_int, pu_s_int)` for a mapped policy,
`none` for the `default` case. -/
def int_pin_switch (pull : Nat) : Option (Nat × Nat) :=
  if pull = INT_PIN_PULL_DISABLED then some (0, 0)
  else if pull = INT_PIN_PULL_LOW then some (1, INT_PIN_PULL_LOW >>> 1)
  else if pull = INT_PIN_PULL_HIGH then some (1, INT_PIN_PULL_HIGH >>> 1)
  else none

/-- Function `set_interrupt_pin_config`. -/
def set_interrupt_pin_config (hal : Transport) (device_config : npz_device_config_s)
    (s : State) : GRes :=
  match int_pin_switch device_config.interrupt_pin_pull_up_pin1 with
  | none => some (false, s)
  | some (e1, s1) =>
    match int_pin_switch device_config.interrupt_pin_pull_up_pin2 with
    | none => some (false, s)
    | some (e2, s2) =>
      match int_pin_switch device_config.interrupt_pin_pull_up_pin3 with
      | none => some (false, s)
      | some (e3, s3) =>
        match int_pin_switch device_config.interrupt_pin_pull_up_pin4 with
        | none => some (false, s)
        | some (e4, s4) =>
          let intcfg : npz_register_intcfg_s :=
            { pu_int1 := e1, pu_s_int1 := s1, pu_int2 := e2, pu_s_int2 := s2
              pu_int3 := e3, pu_s_int3 := s3, pu_int4 := e4, pu_s_int4 := s4 }
          let r := npz_write_INTCFG hal intcfg s
          if r.1 ≠ OK then some (false, r.2) else some (true, r.2)

/-- Function `configure_global_settings`. -/
def configure_global_settings (hal : Transport) (device_config : npz_device_config_s)
    (s : State) : GRes :=
  (set_global_timeout hal device_config s).andThen fun s =>
  (set_system_config1 hal device_config s).andThen fun s =>
  (set_system_config2 hal device_config s).andThen fun s =>
  (set_system_config3 hal device_config s).andThen fun s =>
  (set_power_switch_control hal device_config s).andThen fun s =>
  (set_interrupt_pin_config hal device_config s).andThen fun s =>
  some (true, s)

/-! ## npz_device_control.c: ADC channels -/

/-- Function `configure_internal_adc`. -/
def configure_internal_adc (hal : Transport) (device_config : npz_device_config_s)
    (s : State) : GRes :=
  match device_config.adc_channel_at 0 with
  | none => none
  | some adc0 =>
    if adc0.over_threshold % 256 > 0 ∧ adc0.under_threshold % 256 > 0 then
      let r := npz_write_THROVA1 hal { throva := (adc0.over_threshold % 256) % 32 } s
      if r.1 ≠ OK then some (false, r.2)
      else
        let r2 := npz_write_THRUNA1 hal { thruna := (adc0.under_threshold % 256) % 32 } r.2
        if r2.1 ≠ OK then some (false, r2.2) else some (true, r2.2)
    else some (false, s)

/-- Function `configure_external_adc`. -/
def configure_external_adc (hal : Transport) (device_config : npz_device_config_s)
    (s : State) : GRes :=
  match device_config.adc_channel_at 1 with
  | none => none
  | some adc1 =>
    if adc1.over_threshold % 256 > 0 ∧ adc1.under_threshold % 256 > 0 then
      let r := npz_write_THROVA2 hal { throva := (adc1.over_threshold % 256) % 32 } s
      if r.1 ≠ OK then some (false, r.2)
      else
        let r2 := npz_write_THRUNA2 hal { thruna := (adc1.under_threshold % 256) % 32 } r.2
        if r2.1 ≠ OK then some (false, r2.2) else some (true, r2.2)
    else some (false, s)

/-! ## npz_device_control.c: peripheral group -/

/-- The assignment `peripheral[index].field = ...`: the image of `index` is replaced. -/
def Images.set (peripheral : Images) (index : Int)
    (f : peripheral_config_s → peripheral_config_s) : Images :=
  Function.update peripheral index (f (peripheral index))

/-- Function `set_peripheral_power_mode`. -/
def set_peripheral_power_mode (hal : Transport) (device_config : npz_device_config_s)
    (peripheral : Images) (index : Int) (switch_id : Nat) (s : State) : PRes :=
  match device_config.peripheral_at index with
  | none => none
  | some p =>
    let cfgp : npz_register_cfgp_s :=
      { pwmod := p.power_mode % 4
        tmod := p.polling_mode % 4
        pswmod := p.power_switch_mode % 4
        intmod := p.interrupt_pin_mode % 4 }
    let peripheral := peripheral.set index fun im => { im with cfgp := cfgp }
    let r := npz_write_CFGP hal switch_id (peripheral index).cfgp s
    if r.1 ≠ OK then some (false, peripheral, r.2) else some (true, peripheral, r.2)

/-- Function `set_peripheral_mode`: `wunak` is assigned only for I2C and `spimod` only for
SPI; the other one keeps the value of the image. -/
def set_peripheral_mode (hal : Transport) (device_config : npz_device_config_s)
    (peripheral : Images) (index : Int) (switch_id : Nat) (s : State) : PRes :=
  match device_config.peripheral_at index with
  | none => none
  | some p =>
    let peripheral := peripheral.set index fun im =>
      { im with modp := { im.modp with
          cmod := p.comparison_mode % 2
          dtype := p.sensor_data_type % 4
          seqrw := p.multi_byte_transfer_enable % 2 } }
    let peripheral :=
      if p.communication_protocol = COM_I2C then
        peripheral.set index fun im =>
          { im with modp := { im.modp with wunak := i2c_cfg_wake_on_nak p } }
      else if p.communication_protocol = COM_SPI then
        peripheral.set index fun im =>
          { im with modp := { im.modp with spimod := spi_cfg_mode p % 4 } }
      else peripheral
    let peripheral := peripheral.set index fun im =>
      { im with modp := { im.modp with swprreg := p.swap_registers % 2 } }
    let r := npz_write_MODP hal switch_id (peripheral index).modp s
    if r.1 ≠ OK then some (false, peripheral, r.2) else some (true, peripheral, r.2)

/-- Function `set_peripheral_polling_period` (`polling_period` is a `uint16_t`). -/
def set_peripheral_polling_period (hal : Transport) (device_config : npz_device_config_s)
    (peripheral : Images) (index : Int) (switch_id : Nat) (s : State) : PRes :=
  match device_config.peripheral_at index with
  | none => none
  | some p =>
    let perp : npz_register_perp_s :=
      { perp_l := (p.polling_period % 65536) % 256
        perp_h := ((p.polling_period % 65536) / 256) % 256 }
    let peripheral := peripheral.set index fun im => { im with perp := perp }
    let r := npz_write_PERP hal switch_id (peripheral index).perp s
    if r.1 ≠ OK then some (false, peripheral, r.2) else some (true, peripheral, r.2)

/-- The loop `for (uint8_t i = 0; i < SRAM_number_bytes_2_write; i++)` of
`set_peripheral_init_cmds_number`, entered at counter `i` with `n` iterations left:
each iteration writes `src[i]` to the 8-bit address `SRAM_START + m_sram_count`; a failed
write returns `false` at once, a successful one increments `m_sram_count`. -/
def sram_write_loop (hal : Transport) (src : Nat → Nat) : Nat → Nat → State → Bool × State
  | 0, _, s => (true, s)
  | n + 1, i, s =>
    let r := npz_write_SRAM hal (SRAM_START + s.m_sram_count) (src i) s
    if r.1 ≠ OK then (false, r.2)
    else sram_write_loop hal src n (i + 1) { r.2 with m_sram_count := r.2.m_sram_count + 1 }

/-- The arena part of `set_peripheral_init_cmds_number`: the `if` / `else if` over the
communication protocol that precedes the NCMDP write.  The result `false` is one of the
early `return false` after a failed `npz_write_SRAM`.  `SRAM_number_bytes_2_write` is a
`uint8_t`; in the SPI branch the first count is read through `i2c_cfg.command_num`, and
the read-sequence loop is guarded by `bytes_from_sram_read_num > 0` only. -/
def init_cmds_arena (hal : Transport) (p : npz_peripheral_config_s) (s : State) :
    Bool × State :=
  if p.communication_protocol = COM_I2C then
    if s.m_sram_count ≤ SRAM_SIZE then
      sram_write_loop hal (i2c_cfg_bytes_from_sram p) ((i2c_cfg_command_num p * 2) % 256) 0 s
    else (true, s)
  else if p.communication_protocol = COM_SPI then
    let r1 :=
      if s.m_sram_count ≤ SRAM_SIZE then
        sram_write_loop hal (spi_cfg_bytes_from_sram p) (i2c_cfg_command_num p) 0 s
      else (true, s)
    if r1.1 = false then r1
    else if spi_cfg_bytes_from_sram_read_num p > 0 then
      sram_write_loop hal (spi_cfg_bytes_from_sram_read p)
        (spi_cfg_bytes_from_sram_read_num p) 0 r1.2
    else (true, r1.2)
  else (true, s)

/-- Function `set_peripheral_init_cmds_number`: the image of NCMDP is assigned in the I2C
and in the SPI branch, the arena bytes are staged, and NCMDP is written last. -/
def set_peripheral_init_cmds_number (hal : Transport) (device_config : npz_device_config_s)
    (peripheral : Images) (index : Int) (switch_id : Nat) (s : State) : PRes :=
  match device_config.peripheral_at index with
  | none => none
  | some p =>
    let peripheral :=
      if p.communication_protocol = COM_I2C then
        peripheral.set index fun im =>
          { im with ncmdp := { ncmdp := i2c_cfg_command_num p % 128 } }
      else if p.communication_protocol = COM_SPI then
        peripheral.set index fun im =>
          { im with ncmdp := { ncmdp := spi_cfg_bytes_from_sram_num p % 128 } }
      else peripheral
    let a := init_cmds_arena hal p s
    if a.1 = false then some (false, peripheral, a.2)
    else
      let r := npz_write_NCMDP hal switch_id (peripheral index).ncmdp a.2
      if r.1 ≠ OK then some (false, peripheral, r.2) else some (true, peripheral, r.2)

/-- Function `set_peripheral_address`. -/
def set_peripheral_address (hal : Transport) (device_config : npz_device_config_s)
    (peripheral : Images) (index : Int) (switch_id : Nat) (s : State) : PRes :=
  match device_config.peripheral_at index with
  | none => none
  | some p =>
    let peripheral :=
      if p.communication_protocol = COM_I2C then
        peripheral.set index fun im =>
          { im with addrp := { im.addrp with addrp := i2c_cfg_sensor_address p % 128 } }
      else if p.communication_protocol = COM_SPI then
        peripheral.set index fun im =>
          { im with addrp := { im.addrp with addrp := spi_cfg_bytes_from_sram_read_num p % 128 } }
      else peripheral
    let peripheral := peripheral.set index fun im =>
      { im with addrp := { im.addrp with spi_en := p.communication_protocol % 2 } }
    let r := npz_write_ADDRP hal switch_id (peripheral index).addrp s
    if r.1 ≠ OK then some (false, peripheral, r.2) else some (true, peripheral, r.2)

/-- Function `set_peripheral_i2c_read_register`: the register is written only for a
non-null peripheral whose protocol is `COM_I2C`; otherwise the function returns `true`
without a write. -/
def set_peripheral_i2c_read_register (hal : Transport) (device_config : npz_device_config_s)
    (peripheral : Images) (index : Int) (switch_id : Nat) (s : State) : PRes :=
  if 0 ≤ index ∧ index < 4 then
    match device_config.peripheral_at index with
    | none => some (true, peripheral, s)
    | some p =>
      if p.communication_protocol = COM_I2C then
        let peripheral := peripheral.set index fun im =>
          { im with rregp := { rregp := i2c_cfg_reg_address_value p } }
        let r := npz_write_RREGP hal switch_id (peripheral index).rregp s
        if r.1 ≠ OK then some (false, peripheral, r.2) else some (true, peripheral, r.2)
      else some (true, peripheral, s)
  else none

/-- Function `set_peripheral_under_threshold`. -/
def set_peripheral_under_threshold (hal : Transport) (device_config : npz_device_config_s)
    (peripheral : Images) (index : Int) (switch_id : Nat) (s : State) : PRes :=
  match device_config.peripheral_at index with
  | none => none
  | some p =>
    let thrunp : npz_register_thrunp_s :=
      { thrunp_l := (p.threshold_under % 65536) % 256
        thrunp_h := ((p.threshold_under % 65536) / 256) % 256 }
    let peripheral := peripheral.set index fun im => { im with thrunp := thrunp }
    let r := npz_write_THRUNP hal switch_id (peripheral index).thrunp s
    if r.1 ≠ OK then some (false, peripheral, r.2) else some (true, peripheral, r.2)

/-- Function `set_peripheral_over_threshold`. -/
def set_peripheral_over_threshold (hal : Transport) (device_config : npz_device_config_s)
    (peripheral : Images) (index : Int) (switch_id : Nat) (s : State) : PRes :=
  match device_config.peripheral_at index with
  | none => none
  | some p =>
    let throvp : npz_register_throvp_s :=
      { throvp_l := (p.threshold_over % 65536) % 256
        throvp_h := ((p.threshold_over % 65536) / 256) % 256 }
    let peripheral := peripheral.set index fun im => { im with throvp := throvp }
    let r := npz_write_THROVP hal switch_id (peripheral index).throvp s
    if r.1 ≠ OK then some (false, peripheral, r.2) else some (true, peripheral, r.2)

/-- The first `switch` of `set_peripheral_time_to_wait_config`: `(twt_en, twt_ext)`. -/
def pre_wait_switch (pre_wait_time : Nat) : Option (Nat × Nat) :=
  if pre_wait_time = PRE_WAIT_TIME_DISABLED then some (0, 0)
  else if pre_wait_time = PRE_WAIT_TIME_EXTEND_256 then some (1, PRE_WAIT_TIME_EXTEND_256 >>> 1)
  else if pre_wait_time = PRE_WAIT_TIME_EXTEND_4096 then
    some (1, PRE_WAIT_TIME_EXTEND_4096 >>> 1)
  else none

/-- The second `switch` of `set_peripheral_time_to_wait_config`: `(tinit_en, tinit_ext)`. -/
def post_wait_switch (post_wait_time : Nat) : Option (Nat × Nat) :=
  if post_wait_time = POST_WAIT_TIME_DISABLED then some (0, 0)
  else if post_wait_time = POST_WAIT_TIME_EXTEND_256 then some (1, 0)
  else if post_wait_time = POST_WAIT_TIME_EXTEND_4096 then some (1, 1)
  else none

/-- Function `set_peripheral_time_to_wait_config`. -/
def set_peripheral_time_to_wait_config (hal : Transport) (device_config : npz_device_config_s)
    (peripheral : Images) (index : Int) (switch_id : Nat) (s : State) : PRes :=
  match device_config.peripheral_at index with
  | none => none
  | some p =>
    match pre_wait_switch p.pre_wait_time with
    | none => some (false, peripheral, s)
    | some (twt_en, twt_ext) =>
      let peripheral := peripheral.set index fun im =>
        { im with tcfgp := { im.tcfgp with twt_en := twt_en, twt_ext := twt_ext } }
      match post_wait_switch p.post_wait_time with
      | none => some (false, peripheral, s)
      | some (tinit_en, tinit_ext) =>
        let peripheral := peripheral.set index fun im =>
          { im with tcfgp := { im.tcfgp with tinit_en := tinit_en, tinit_ext := tinit_ext } }
        let peripheral :=
          if p.communication_protocol = COM_I2C then
            peripheral.set index fun im =>
              { im with tcfgp := { im.tcfgp with i2cret := i2c_cfg_num_of_retries_on_nak p } }
          else peripheral
        let r := npz_write_TCFGP hal switch_id (peripheral index).tcfgp s
        if r.1 ≠ OK then some (false, peripheral, r.2) else some (true, peripheral, r.2)

/-- Function `set_peripheral_time_to_wait`. -/
def set_peripheral_time_to_wait (hal : Transport) (device_config : npz_device_config_s)
    (peripheral : Images) (index : Int) (switch_id : Nat) (s : State) : PRes :=
  match device_config.peripheral_at index with
  | none => none
  | some p =>
    let peripheral := peripheral.set index fun im =>
      { im with twtp := { twtp := p.time_to_wait % 256 } }
    let r := npz_write_TWTP hal switch_id (peripheral index).twtp s
    if r.1 ≠ OK then some (false, peripheral, r.2) else some (true, peripheral, r.2)

/-- The loop of `validate_peripherals` over the slots still to visit. -/
def validate_peripherals_loop (device_config : npz_device_config_s) : List Nat → State → State
  | [], s => s
  | i :: rest, s =>
    match device_config.peripheral_at i with
    | some _ =>
      validate_peripherals_loop device_config rest
        { s with
          m_configured_indices := s.m_configured_indices.set s.m_configured_count i
          m_configured_count := s.m_configured_count + 1 }
    | none => validate_peripherals_loop device_config rest s

/-- Function `validate_peripherals`: the count is reset, then the indices of the non-null
peripherals are stored in ascending order.  It always returns `true`. -/
def validate_peripherals (device_config : npz_device_config_s) (s : State) : Bool × State :=
  (true, validate_peripherals_loop device_config [0, 1, 2, 3] { s with m_configured_count := 0 })

/-- The element `switches[i]` of `{PSW_LP1, PSW_LP2, PSW_LP3, PSW_LP4}`. -/
def switches (i : Int) : Nat := (i + 1).toNat

/-- The body of the `for` loop of `configure_peripherals` for the configured index `i`. -/
def configure_peripherals_body (hal : Transport) (device_config : npz_device_config_s)
    (peripherals : Images) (i : Int) (s : State) : PRes :=
  match device_config.peripheral_at i with
  | none => none
  | some p =>
    (set_peripheral_power_mode hal device_config peripherals i (switches i) s).andThen
    fun peripherals s =>
    (set_peripheral_mode hal device_config peripherals i (switches i) s).andThen
    fun peripherals s =>
    (set_peripheral_polling_period hal device_config peripherals i (switches i) s).andThen
    fun peripherals s =>
    (set_peripheral_init_cmds_number hal device_config peripherals i (switches i) s).andThen
    fun peripherals s =>
    (if p.polling_mode = POLLING_MODE_PERIODIC_READ_COMPARE_THRESHOLD
        ∨ p.polling_mode = POLLING_MODE_PERIODIC_WAIT_INTERRUPT_COMPARE_THRESHOLD
        ∨ p.polling_mode = POLLING_MODE_PERIODIC_WAIT_INTERRUPT then
      set_peripheral_address hal device_config peripherals i (switches i) s
     else some (true, peripherals, s)).andThen
    fun peripherals s =>
    (if p.polling_mode = POLLING_MODE_PERIODIC_READ_COMPARE_THRESHOLD
        ∨ p.polling_mode = POLLING_MODE_PERIODIC_WAIT_INTERRUPT_COMPARE_THRESHOLD then
      (set_peripheral_i2c_read_register hal device_config peripherals i (switches i) s).andThen
      fun peripherals s =>
      (set_peripheral_under_threshold hal device_config peripherals i (switches i) s).andThen
      fun peripherals s =>
      set_peripheral_over_threshold hal device_config peripherals i (switches i) s
     else some (true, peripherals, s)).andThen
    fun peripherals s =>
    (set_peripheral_time_to_wait hal device_config peripherals i (switches i) s).andThen
    fun peripherals s =>
    set_peripheral_time_to_wait_config hal device_config peripherals i (switches i) s

/-- The `for (int j = 0; j < m_configured_count; j++)` loop of `configure_peripherals`,
entered at `j` with `n` iterations left. -/
def configure_peripherals_loop (hal : Transport) (device_config : npz_device_config_s) :
    Nat → Nat → Images → State → PRes
  | 0, _, peripherals, s => some (true, peripherals, s)
  | n + 1, j, peripherals, s =>
    (configure_peripherals_body hal device_config peripherals
      (s.m_configured_indices.getD j (-1)) s).andThen
    fun peripherals s => configure_peripherals_loop hal device_config n (j + 1) peripherals s

/-- Function `configure_peripherals`. -/
def configure_peripherals (hal : Transport) (device_config : npz_device_config_s)
    (s : State) : GRes :=
  match configure_peripherals_loop hal device_config s.m_configured_count 0 Images.zero s with
  | none => none
  | some (ok, _, s) => some (ok, s)

/-- Function `npz_device_configure`; the argument is the pointer `device_config`, `none`
when null.  The result is the state after the call, or `none` after a null dereference. -/
def npz_device_configure (hal : Transport) (device_config : Option npz_device_config_s)
    (s : State) : Option State :=
  match device_config with
  | none => some s
  | some dc =>
    match configure_global_settings hal dc s with
    | none => none
    | some (false, s) => some s
    | some (true, s) =>
      let v := validate_peripherals dc s
      match (if v.1 then configure_peripherals hal dc v.2 else some (true, v.2)) with
      | none => none
      | some (false, s) => some s
      | some (true, s) =>
        match dc.adc_channel_at 0 with
        | none => none
        | some adc0 =>
          match (if adc0.wakeup_enable % 2 = 1 then configure_internal_adc hal dc s
                 else some (true, s)) with
          | none => none
          | some (false, s) => some s
          | some (true, s) =>
            match dc.adc_channel_at 1 with
            | none => none
            | some adc1 =>
              if adc1.wakeup_enable % 2 = 1 ∧ dc.adc_ext_sampling_enable % 2 = 1 then
                match configure_external_adc hal dc s with
                | none => none
                | some (_, s) => some s
              else some s

/-! ## npz_device_control.c: sleep and reset -/

/-- Function `npz_device_go_to_sleep`: the status of the write only selects a console
message. -/
def npz_device_go_to_sleep (hal : Transport) (s : State) : State :=
  let sleep_rst_value := 0xFF
  let r := npz_write_SLEEP_RST hal sleep_rst_value s
  if r.1 ≠ OK then r.2 else r.2

/-- Function `npz_device_soft_reset`: the status of the write only selects a console
message. -/
def npz_device_soft_reset (hal : Transport) (s : State) : State :=
  let sleep_rst_value := 0xA5
  let r := npz_write_SLEEP_RST hal sleep_rst_value s
  if r.1 ≠ OK then r.2 else r.2

/-! ## main.c: the configuration of the example application -/

/-- Object `peripheral_3` of main.c. -/
def peripheral_3 : npz_peripheral_config_s :=
  { power_mode := POWER_MODE_PERIODIC
    communication_protocol := COM_SPI
    polling_mode := POLLING_MODE_PERIODIC_READ_COMPARE_THRESHOLD
    power_switch_mode := POWER_SWITCH_MODE_LOGIC_OUTPUT_HIGH
    interrupt_pin_mode := INTERRUPT_PIN_MODE_INPUT_ACTIVE_HIGH
    comparison_mode := COMPARISON_MODE_INSIDE_THRESHOLD
    sensor_data_type := DATA_TYPE_INT16
    multi_byte_transfer_enable := 0
    swap_registers := 0
    cfg_union := spi_cfg_init 2 1 [0x20, 0x10] [0xA8] SPIMOD_SPI_MODE_0
    polling_period := 50
    pre_wait_time := PRE_WAIT_TIME_EXTEND_256
    post_wait_time := POST_WAIT_TIME_EXTEND_256
    time_to_wait := 10
    threshold_over := 1000
    threshold_under := 64536 }

/-- Object `peripheral_4` of main.c. -/
def peripheral_4 : npz_peripheral_config_s :=
  { communication_protocol := COM_I2C
    power_mode := POWER_MODE_PERIODIC
    polling_mode := POLLING_MODE_PERIODIC_READ_COMPARE_THRESHOLD
    power_switch_mode := POWER_SWITCH_MODE_LOGIC_OUTPUT_HIGH
    interrupt_pin_mode := INTERRUPT_PIN_MODE_INPUT_ACTIVE_HIGH
    comparison_mode := COMPARISON_MODE_INSIDE_THRESHOLD
    sensor_data_type := DATA_TYPE_INT16
    multi_byte_transfer_enable := MULTIBYTE_TRANSFER_ENABLE
    swap_registers := ENDIAN_BIG
    polling_period := 0x012C
    cfg_union := i2c_cfg_init 2 0x49 0x00 ENABLED 3 [0x01, 0x82, 0x02, 0xA0]
    time_to_wait := 0x31
    pre_wait_time := POST_WAIT_TIME_EXTEND_256
    post_wait_time := POST_WAIT_TIME_EXTEND_256
    threshold_over := 3200
    threshold_under := 1280 }

/-- Object `npz_adc_internal_config` of main.c. -/
def npz_adc_internal_config : npz_adc_config_channels_s :=
  { wakeup_enable := 0, over_threshold := 0x2B, under_threshold := 0x28 }

/-- Object `npz_adc_external_config` of main.c. -/
def npz_adc_external_config : npz_adc_config_channels_s :=
  { wakeup_enable := 0, over_threshold := 0x2D, under_threshold := 0x26 }

/-- Object `npz_configuration` of main.c (its `adc_channels` are `{0, 0}`). -/
def npz_configuration : npz_device_config_s :=
  { host_power_mode := HOST_POWER_MODE_LOGIC_OUTPUT
    power_switch_normal_mode_per1 := 0
    power_switch_normal_mode_per2 := 0
    power_switch_normal_mode_per3 := 1
    power_switch_normal_mode_per4 := 1
    power_switch_gate_boost := 0
    system_clock_divider := SCLK_DIV_DISABLE
    system_clock_source := SYS_CLOCK_10HZ
    io_strength := IO_STR_NORMAL
    i2c_pull_mode := I2C_PULL_AUTO
    spi_auto := SPI_PINS_ALWAYS_ON
    xo_clock_out_sel := XO_CLK_OFF
    wake_up_per1 := 0
    wake_up_per2 := 0
    wake_up_per3 := 1
    wake_up_per4 := 1
    wake_up_any_or_all := WAKEUP_ANY
    global_timeout := 0x0BB8
    interrupt_pin_pull_up_pin1 := INT_PIN_PULL_HIGH
    interrupt_pin_pull_up_pin2 := INT_PIN_PULL_HIGH
    interrupt_pin_pull_up_pin3 := INT_PIN_PULL_HIGH
    interrupt_pin_pull_up_pin4 := INT_PIN_PULL_HIGH
    adc_ext_sampling_enable := 0
    adc_clock_sel := ADC_CLK_256
    adc_channels := [none, none]
    peripherals := [none, none, some peripheral_3, some peripheral_4] }

/-- The transfers of a log whose register address lies in the command arena
`0x80..0xFF`. -/
def arena_writes (log : List Write) : List Write :=
  log.filter fun w => decide (0x80 ≤ w.1)

/-! ## Configurations used as concrete inputs -/

/-- The configuration of main.c with its two ADC channel objects wired into
`adc_channels` (main.c itself leaves both pointers null). -/
def npz_configuration_adc : npz_device_config_s :=
  { npz_configuration with
    adc_channels := [some npz_adc_internal_config, some npz_adc_external_config] }

/-- An SPI peripheral that uses both 40-byte arrays in full: 40 initialisation bytes
`0x11` and 40 read-sequence bytes `0xFF`, asynchronous polling mode. -/
def spi_full : npz_peripheral_config_s :=
  { communication_protocol := COM_SPI
    power_mode := POWER_MODE_PERIODIC
    polling_mode := POLLING_MODE_ASYNC_WAIT_INTERRUPT
    polling_period := 50
    cfg_union := spi_cfg_init 40 40 (List.replicate 40 0x11) (List.replicate 40 0xFF)
      SPIMOD_SPI_MODE_0
    pre_wait_time := PRE_WAIT_TIME_DISABLED
    post_wait_time := POST_WAIT_TIME_DISABLED }

/-- Slots 1 and 2 each hold `spi_full`; the global fields are those of main.c. -/
def two_spi_configuration : npz_device_config_s :=
  { npz_configuration_adc with peripherals := [some spi_full, some spi_full, none, none] }

/-- An I2C peripheral with 20 commands, that is the 40 bytes of `bytes_from_sram`. -/
def i2c_full : npz_peripheral_config_s :=
  { communication_protocol := COM_I2C
    power_mode := POWER_MODE_PERIODIC
    polling_mode := POLLING_MODE_PERIODIC_READ_COMPARE_THRESHOLD
    polling_period := 50
    cfg_union := i2c_cfg_init 20 0x49 0x00 0 0 (List.replicate 40 0x22)
    pre_wait_time := PRE_WAIT_TIME_DISABLED
    post_wait_time := POST_WAIT_TIME_DISABLED }

/-- All four slots hold `i2c_full`; the global fields are those of main.c. -/
def four_i2c_configuration : npz_device_config_s :=
  { npz_configuration_adc with
    peripherals := [some i2c_full, some i2c_full, some i2c_full, some i2c_full] }

/-- Slots 1 to 3 hold the peripheral `i2c_full` and slot 4 is null; the global fields are
those of `main.c`.  One call leaves the arena cursor at 120. -/
def three_i2c_configuration : npz_device_config_s :=
  { npz_configuration_adc with
    peripherals := [some i2c_full, some i2c_full, some i2c_full, none] }

/-- The peripheral pass of `npz_device_configure`: `validate_peripherals`, then
`configure_peripherals`. -/
def peripheral_pass (hal : Transport) (device_config : npz_device_config_s) (s : State) :
    GRes :=
  configure_peripherals hal device_config (validate_peripherals device_config s).2

/-- The two-transfer pattern of the 16-bit writers of npz.c: the low byte goes to
`reg_l`; if that transfer fails the result is `ERR`, otherwise the high byte goes to
`reg_h` and its status is returned. -/
def two_byte_write (hal : Transport) (reg_l reg_h l h : Nat) (s : State) :
    npz_status_e × State :=
  let r := npz_hal_write hal reg_l l s
  if r.1 ≠ OK then (ERR, r.2) else npz_hal_write hal reg_h h r.2

/-! ## Vocabulary of the statements -/

/-- The state `s` after the transfers `l` have been issued; the statics are unchanged. -/
def State.after (s : State) (l : List Write) : State := { s with log := s.log ++ l }

/-- The register addresses of a list of transfers, in order. -/
def regs_of (l : List Write) : List Nat := l.map Prod.fst

/-- A step of the global group that writes the registers `regs`: it issues transfers to
an initial segment of `regs` and nothing else, changes no static, and when it returns
`true` it has written all of `regs`. -/
def GStep (regs : List Nat) (s : State) (r : GRes) : Prop :=
  ∃ b l, r = some (b, s.after l) ∧ regs_of l <+: regs ∧ (b = true → regs_of l = regs)

/-- A computation of the global group that returns `false` after transfers to an initial
segment of `regs` and nothing else. -/
def GFail (regs : List Nat) (s : State) (r : GRes) : Prop :=
  ∃ l, r = some (false, s.after l) ∧ regs_of l <+: regs

/-- The registers of the global group in the order `configure_global_settings` writes
them. -/
def global_order : List Nat :=
  [REG_TOUT_L, REG_TOUT_H, REG_SYSCFG1, REG_SYSCFG2, REG_SYSCFG3, REG_PSWCTL, REG_INTCFG]

/-- The configuration of main.c (ADC channels wired) with an invalid host power mode,
the value 0 being none of the three enumerators. -/
def invalid_host_mode_configuration : npz_device_config_s :=
  { npz_configuration_adc with host_power_mode := 0 }

/-- A step of the peripheral group that writes the registers `regs`: it issues transfers
to an initial segment of `regs` and nothing else, changes no static, and when it returns
`true` it has written all of `regs`. -/
def PStep (regs : List Nat) (s : State) (r : PRes) : Prop :=
  ∃ b im l, r = some (b, im, s.after l) ∧ regs_of l <+: regs ∧ (b = true → regs_of l = regs)

/-- A computation of the peripheral group that returns `false` after transfers to an
initial segment of `regs` and nothing else, with no static changed. -/
def PFail (regs : List Nat) (s : State) (r : PRes) : Prop :=
  ∃ im l, r = some (false, im, s.after l) ∧ regs_of l <+: regs

/-- A computation of the peripheral group that returns `true` after transfers to exactly
the registers `regs`, in that order. -/
def PDone (regs : List Nat) (s : State) (r : PRes) : Prop :=
  ∃ im s1 l, r = some (true, im, s1) ∧ s1.log = s.log ++ l ∧ regs_of l = regs

/-- A peripheral of slot 1 whose polling period is 0; every other field is valid. -/
def zero_period_peripheral : npz_peripheral_config_s :=
  { communication_protocol := COM_I2C
    power_mode := POWER_MODE_PERIODIC
    polling_mode := POLLING_MODE_PERIODIC_READ_COMPARE_THRESHOLD
    power_switch_mode := POWER_SWITCH_MODE_LOGIC_OUTPUT_HIGH
    sensor_data_type := DATA_TYPE_INT16
    polling_period := 0
    cfg_union := i2c_cfg_init 1 0x49 0x00 0 0 [0x01, 0x82] }

/-- Slot 1 holds `zero_period_peripheral`; the global fields are those of main.c. -/
def zero_period_configuration : npz_device_config_s :=
  { npz_configuration_adc with peripherals := [some zero_period_peripheral, none, none, none] }

/-- The transfers of `n` iterations of the arena loop when each one is accepted, for the
entry cursor `c` and the entry counter `i`: byte `src[i + k]` goes to the 8-bit address
`SRAM_START + (c + k)`. -/
def arena_image (src : Nat → Nat) : Nat → Nat → Nat → List Write
  | 0, _, _ => []
  | n + 1, c, i => ((SRAM_START + c) % 256, src i % 256) :: arena_image src n (c + 1) (i + 1)

/-- The number of arena bytes `set_peripheral_init_cmds_number` asks for: the 8-bit
`command_num * 2` for I2C, the init count plus the read-sequence count for SPI. -/
def arena_request (p : npz_peripheral_config_s) : Nat :=
  if p.communication_protocol = COM_I2C then (i2c_cfg_command_num p * 2) % 256
  else if p.communication_protocol = COM_SPI then
    i2c_cfg_command_num p + spi_cfg_bytes_from_sram_read_num p
  else 0

/-- A computation of the peripheral group that returns, having issued only transfers whose
register address satisfies `A`. -/
def PAll (A : Nat → Prop) (s : State) (r : PRes) : Prop :=
  ∃ b im s1 l, r = some (b, im, s1) ∧ s1.log = s.log ++ l ∧ ∀ x ∈ regs_of l, A x

/-- The register addresses the sequence of one peripheral may target when its arena bytes
stay inside `0x80..0xFF`: the ungated registers of slot `sw`, the arena, `ADDRP` in the
three periodic polling modes, and `RREGP` and the threshold registers in the two
compare-threshold modes. -/
def gated_targets (p : npz_peripheral_config_s) (sw : Nat) (x : Nat) : Prop :=
  x = REG_CFGP sw ∨ x = REG_MODP sw ∨ x = REG_PERP_L sw ∨ x = REG_PERP_H sw
  ∨ SRAM_START ≤ x ∨ x = REG_NCMDP sw ∨ x = REG_TWTP sw ∨ x = REG_TCFGP sw
  ∨ ((p.polling_mode = POLLING_MODE_PERIODIC_READ_COMPARE_THRESHOLD
        ∨ p.polling_mode = POLLING_MODE_PERIODIC_WAIT_INTERRUPT_COMPARE_THRESHOLD
        ∨ p.polling_mode = POLLING_MODE_PERIODIC_WAIT_INTERRUPT) ∧ x = REG_ADDRP sw)
  ∨ ((p.polling_mode = POLLING_MODE_PERIODIC_READ_COMPARE_THRESHOLD
        ∨ p.polling_mode = POLLING_MODE_PERIODIC_WAIT_INTERRUPT_COMPARE_THRESHOLD)
      ∧ (x = REG_RREGP sw ∨ x = REG_THRUNP_L sw ∨ x = REG_THRUNP_H sw
        ∨ x = REG_THROVP_L sw ∨ x = REG_THROVP_H sw))

/-! ## npz.c: register readers -/

/-- The transport collaborator `npz_hal_read` for a one-byte read: given the registers read
so far and the register addressed, it reports a status and the byte it leaves in the
destination buffer. -/
abbrev ReadTransport := List Nat → Nat → npz_status_e × Nat

/-- `npz_hal_read(NPZ_I2C_ADDRESS, reg, pData, 1, timeout)`: the status, the byte left in
`*pData`, and the registers read so far. -/
def npz_hal_read (rd : ReadTransport) (reg : Nat) (rlog : List Nat) :
    npz_status_e × Nat × List Nat :=
  ((rd rlog (reg % 256)).1, (rd rlog (reg % 256)).2 % 256, rlog ++ [reg % 256])

/-- The bit-field overlay of `npz_register_pswctl_s` on one byte (the `(uint8_t*)` cast of
the readers): the first-declared field sits at the least-significant bit. -/
def overlay_pswctl (b : Nat) : npz_register_pswctl_s :=
  { pswint_p1 := b % 2, pswint_p2 := b / 2 % 2, pswint_p3 := b / 4 % 2
    pswint_p4 := b / 8 % 2, pswh_mode := b / 16 % 4, psw_en_vn := b / 64 % 2
    psw_vn_on := b / 128 % 2 }

/-- The bit-field overlay of `npz_register_syscfg1_s` on one byte. -/
def overlay_syscfg1 (b : Nat) : npz_register_syscfg1_s :=
  { wup1 := b % 2, wup2 := b / 2 % 2, wup3 := b / 4 % 2, wup4 := b / 8 % 2
    adc_int_wakeup_enable := b / 16 % 2, adc_ext_wakeup_enable := b / 32 % 2
    wake_up_any_or_all := b / 64 % 2, padding := b / 128 % 2 }

/-- The bit-field overlay of `npz_register_syscfg2_s` on one byte. -/
def overlay_syscfg2 (b : Nat) : npz_register_syscfg2_s :=
  { sclk_div_en := b % 2, sclk_div_sel := b / 2 % 4, sclk_sel := b / 8 % 2
    adc_ext_on := b / 16 % 2, adc_clk_sel := b / 32 % 4, padding := b / 128 % 2 }

/-- The bit-field overlay of `npz_register_syscfg3_s` on one byte. -/
def overlay_syscfg3 (b : Nat) : npz_register_syscfg3_s :=
  { io_str := b % 2, i2c_pup_en := b / 2 % 2, i2c_pup_auto := b / 4 % 2
    spi_auto := b / 8 % 2, xo_clkout_div := b / 16 % 8, sclk_sel_status := b / 128 % 2 }

/-- The bit-field overlay of `npz_register_intcfg_s` on one byte. -/
def overlay_intcfg (b : Nat) : npz_register_intcfg_s :=
  { pu_int1 := b % 2, pu_s_int1 := b / 2 % 2, pu_int2 := b / 4 % 2, pu_s_int2 := b / 8 % 2
    pu_int3 := b / 16 % 2, pu_s_int3 := b / 32 % 2, pu_int4 := b / 64 % 2
    pu_s_int4 := b / 128 % 2 }

/-- The bit-field overlay of `npz_register_cfgp_s` on one byte. -/
def overlay_cfgp (b : Nat) : npz_register_cfgp_s :=
  { pwmod := b % 4, tmod := b / 4 % 4, pswmod := b / 16 % 4, intmod := b / 64 % 4 }

/-- The bit-field overlay of `npz_register_modp_s` on one byte. -/
def overlay_modp (b : Nat) : npz_register_modp_s :=
  { cmod := b % 2, dtype := b / 2 % 4, seqrw := b / 8 % 2, wunak := b / 16 % 2
    swprreg := b / 32 % 2, spimod := b / 64 % 4 }

/-- The bit-field overlay of `npz_register_ncmdp_s` on one byte. -/
def overlay_ncmdp (b : Nat) : npz_register_ncmdp_s :=
  { ncmdp := b % 128, padding := b / 128 % 2 }

/-- The bit-field overlay of `npz_register_addrp_s` on one byte. -/
def overlay_addrp (b : Nat) : npz_register_addrp_s :=
  { addrp := b % 128, spi_en := b / 128 % 2 }

/-- The bit-field overlay of `npz_register_tcfgp_s` on one byte. -/
def overlay_tcfgp (b : Nat) : npz_register_tcfgp_s :=
  { twt_en := b % 2, twt_ext := b / 2 % 2, tinit_en := b / 4 % 2, tinit_ext := b / 8 % 2
    i2cret := b / 16 % 4, padding := b / 64 % 4 }

/-- The bit-field overlay of `npz_register_throva1_s` / `npz_register_throva2_s`. -/
def overlay_throva (b : Nat) : npz_register_throva_s :=
  { throva := b % 32, padding := b / 32 % 8 }

/-- The bit-field overlay of `npz_register_thruna1_s` / `npz_register_thruna2_s`. -/
def overlay_thruna (b : Nat) : npz_register_thruna_s :=
  { thruna := b % 32, padding := b / 32 % 8 }

/-- Reader `npz_read_PSWCTL`. -/
def npz_read_PSWCTL (rd : ReadTransport) (rlog : List Nat) :
    npz_status_e × npz_register_pswctl_s × List Nat :=
  let r := npz_hal_read rd REG_PSWCTL rlog
  (r.1, overlay_pswctl r.2.1, r.2.2)

/-- Reader `npz_read_SYSCFG1`. -/
def npz_read_SYSCFG1 (rd : ReadTransport) (rlog : List Nat) :
    npz_status_e × npz_register_syscfg1_s × List Nat :=
  let r := npz_hal_read rd REG_SYSCFG1 rlog
  (r.1, overlay_syscfg1 r.2.1, r.2.2)

/-- Reader `npz_read_SYSCFG2`. -/
def npz_read_SYSCFG2 (rd : ReadTransport) (rlog : List Nat) :
    npz_status_e × npz_register_syscfg2_s × List Nat :=
  let r := npz_hal_read rd REG_SYSCFG2 rlog
  (r.1, overlay_syscfg2 r.2.1, r.2.2)

/-- Reader `npz_read_SYSCFG3`. -/
def npz_read_SYSCFG3 (rd : ReadTransport) (rlog : List Nat) :
    npz_status_e × npz_register_syscfg3_s × List Nat :=
  let r := npz_hal_read rd REG_SYSCFG3 rlog
  (r.1, overlay_syscfg3 r.2.1, r.2.2)

/-- Reader `npz_read_TOUT`: the low byte into `tout->tout_l`, then (only if that read
succeeded) the high byte into `tout->tout_h`. -/
def npz_read_TOUT (rd : ReadTransport) (tout : npz_register_tout_s) (rlog : List Nat) :
    npz_status_e × npz_register_tout_s × List Nat :=
  let r := npz_hal_read rd REG_TOUT_L rlog
  if r.1 = OK then
    let r2 := npz_hal_read rd REG_TOUT_H r.2.2
    (r2.1, { tout_l := r.2.1, tout_h := r2.2.1 }, r2.2.2)
  else (r.1, { tout with tout_l := r.2.1 }, r.2.2)

/-- Reader `npz_read_INTCFG`. -/
def npz_read_INTCFG (rd : ReadTransport) (rlog : List Nat) :
    npz_status_e × npz_register_intcfg_s × List Nat :=
  let r := npz_hal_read rd REG_INTCFG rlog
  (r.1, overlay_intcfg r.2.1, r.2.2)

/-- Reader `npz_read_THROVA1`. -/
def npz_read_THROVA1 (rd : ReadTransport) (rlog : List Nat) :
    npz_status_e × npz_register_throva_s × List Nat :=
  let r := npz_hal_read rd REG_THROVA1 rlog
  (r.1, overlay_throva r.2.1, r.2.2)

/-- Reader `npz_read_THROVA2`. -/
def npz_read_THROVA2 (rd : ReadTransport) (rlog : List Nat) :
    npz_status_e × npz_register_throva_s × List Nat :=
  let r := npz_hal_read rd REG_THROVA2 rlog
  (r.1, overlay_throva r.2.1, r.2.2)

/-- Reader `npz_read_THRUNA1`. -/
def npz_read_THRUNA1 (rd : ReadTransport) (rlog : List Nat) :
    npz_status_e × npz_register_thruna_s × List Nat :=
  let r := npz_hal_read rd REG_THRUNA1 rlog
  (r.1, overlay_thruna r.2.1, r.2.2)

/-- Reader `npz_read_THRUNA2`. -/
def npz_read_THRUNA2 (rd : ReadTransport) (rlog : List Nat) :
    npz_status_e × npz_register_thruna_s × List Nat :=
  let r := npz_hal_read rd REG_THRUNA2 rlog
  (r.1, overlay_thruna r.2.1, r.2.2)

/-- Reader `npz_read_CFGP`. -/
def npz_read_CFGP (rd : ReadTransport) (sw : Nat) (rlog : List Nat) :
    npz_status_e × npz_register_cfgp_s × List Nat :=
  let reg := psw_switch sw REG_CFGP1 REG_CFGP2 REG_CFGP3 REG_CFGP4
  let r := npz_hal_read rd reg rlog
  (r.1, overlay_cfgp r.2.1, r.2.2)

/-- Reader `npz_read_MODP`. -/
def npz_read_MODP (rd : ReadTransport) (sw : Nat) (rlog : List Nat) :
    npz_status_e × npz_register_modp_s × List Nat :=
  let reg := psw_switch sw REG_MODP1 REG_MODP2 REG_MODP3 REG_MODP4
  let r := npz_hal_read rd reg rlog
  (r.1, overlay_modp r.2.1, r.2.2)

/-- Reader `npz_read_PERP`: low byte, then (only if that read succeeded) high byte. -/
def npz_read_PERP (rd : ReadTransport) (sw : Nat) (perp : npz_register_perp_s)
    (rlog : List Nat) : npz_status_e × npz_register_perp_s × List Nat :=
  let reg_l := psw_switch sw REG_PERP1_L REG_PERP2_L REG_PERP3_L REG_PERP4_L
  let reg_h := psw_switch sw REG_PERP1_H REG_PERP2_H REG_PERP3_H REG_PERP4_H
  let r := npz_hal_read rd reg_l rlog
  if r.1 = OK then
    let r2 := npz_hal_read rd reg_h r.2.2
    (r2.1, { perp_l := r.2.1, perp_h := r2.2.1 }, r2.2.2)
  else (r.1, { perp with perp_l := r.2.1 }, r.2.2)

/-- Reader `npz_read_NCMDP`. -/
def npz_read_NCMDP (rd : ReadTransport) (sw : Nat) (rlog : List Nat) :
    npz_status_e × npz_register_ncmdp_s × List Nat :=
  let reg := psw_switch sw REG_NCMDP1 REG_NCMDP2 REG_NCMDP3 REG_NCMDP4
  let r := npz_hal_read rd reg rlog
  (r.1, overlay_ncmdp r.2.1, r.2.2)

/-- Reader `npz_read_ADDRP`. -/
def npz_read_ADDRP (rd : ReadTransport) (sw : Nat) (rlog : List Nat) :
    npz_status_e × npz_register_addrp_s × List Nat :=
  let reg := psw_switch sw REG_ADDRP1 REG_ADDRP2 REG_ADDRP3 REG_ADDRP4
  let r := npz_hal_read rd reg rlog
  (r.1, overlay_addrp r.2.1, r.2.2)

/-- Reader `npz_read_RREGP`. -/
def npz_read_RREGP (rd : ReadTransport) (sw : Nat) (rlog : List Nat) :
    npz_status_e × npz_register_rregp_s × List Nat :=
  let reg := psw_switch sw REG_RREGP1 REG_RREGP2 REG_RREGP3 REG_RREGP4
  let r := npz_hal_read rd reg rlog
  (r.1, { rregp := r.2.1 }, r.2.2)

/-- Reader `npz_read_THROVP`: low byte, then (only if that read succeeded) high byte. -/
def npz_read_THROVP (rd : ReadTransport) (sw : Nat) (throvp : npz_register_throvp_s)
    (rlog : List Nat) : npz_status_e × npz_register_throvp_s × List Nat :=
  let reg_l := psw_switch sw REG_THROVP1_L REG_THROVP2_L REG_THROVP3_L REG_THROVP4_L
  let reg_h := psw_switch sw REG_THROVP1_H REG_THROVP2_H REG_THROVP3_H REG_THROVP4_H
  let r := npz_hal_read rd reg_l rlog
  if r.1 = OK then
    let r2 := npz_hal_read rd reg_h r.2.2
    (r2.1, { throvp_l := r.2.1, throvp_h := r2.2.1 }, r2.2.2)
  else (r.1, { throvp with throvp_l := r.2.1 }, r.2.2)

/-- Reader `npz_read_THRUNP`: low byte, then (only if that read succeeded) high byte. -/
def npz_read_THRUNP (rd : ReadTransport) (sw : Nat) (thrunp : npz_register_thrunp_s)
    (rlog : List Nat) : npz_status_e × npz_register_thrunp_s × List Nat :=
  let reg_l := psw_switch sw REG_THRUNP1_L REG_THRUNP2_L REG_THRUNP3_L REG_THRUNP4_L
  let reg_h := psw_switch sw REG_THRUNP1_H REG_THRUNP2_H REG_THRUNP3_H REG_THRUNP4_H
  let r := npz_hal_read rd reg_l rlog
  if r.1 = OK then
    let r2 := npz_hal_read rd reg_h r.2.2
    (r2.1, { thrunp_l := r.2.1, thrunp_h := r2.2.1 }, r2.2.2)
  else (r.1, { thrunp with thrunp_l := r.2.1 }, r.2.2)

/-- Reader `npz_read_TWTP`. -/
def npz_read_TWTP (rd : ReadTransport) (sw : Nat) (rlog : List Nat) :
    npz_status_e × npz_register_twtp_s × List Nat :=
  let reg := psw_switch sw REG_TWTP1 REG_TWTP2 REG_TWTP3 REG_TWTP4
  let r := npz_hal_read rd reg rlog
  (r.1, { twtp := r.2.1 }, r.2.2)

/-- Reader `npz_read_TCFGP`. -/
def npz_read_TCFGP (rd : ReadTransport) (sw : Nat) (rlog : List Nat) :
    npz_status_e × npz_register_tcfgp_s × List Nat :=
  let reg := psw_switch sw REG_TCFGP1 REG_TCFGP2 REG_TCFGP3 REG_TCFGP4
  let r := npz_hal_read rd reg rlog
  (r.1, overlay_tcfgp r.2.1, r.2.2)

/-! ## npz.c and npz_device_control.c: reading a peripheral value -/

/-- Register pair VALP_L / VALP_H (two `uint8_t`, read only). -/
structure npz_register_valp_s where
  valp_l : Nat := 0
  valp_h : Nat := 0

/-- Address selected by the `switch (sw)` over `REG_VALP1_L`, ... , `REG_VALP4_L`. -/
def REG_VALP_L (sw : Nat) : Nat :=
  psw_switch sw REG_VALP1_L REG_VALP2_L REG_VALP3_L REG_VALP4_L

/-- Address selected by the `switch (sw)` over `REG_VALP1_H`, ... , `REG_VALP4_H`. -/
def REG_VALP_H (sw : Nat) : Nat :=
  psw_switch sw REG_VALP1_H REG_VALP2_H REG_VALP3_H REG_VALP4_H

/-- Reader `npz_read_VALP`: low byte, then (only if that read succeeded) high byte; the
status is the one of the last read issued. -/
def npz_read_VALP (rd : ReadTransport) (sw : Nat) (valp : npz_register_valp_s)
    (rlog : List Nat) : npz_status_e × npz_register_valp_s × List Nat :=
  let reg_l := REG_VALP_L sw
  let reg_h := REG_VALP_H sw
  let r := npz_hal_read rd reg_l rlog
  if r.1 = OK then
    let r2 := npz_hal_read rd reg_h r.2.2
    (r2.1, { valp_l := r.2.1, valp_h := r2.2.1 }, r2.2.2)
  else (r.1, { valp with valp_l := r.2.1 }, r.2.2)

/-- Function `npz_device_read_peripheral_value(psw_lp, index, peripheral_value)`: the
result, the value of `*peripheral_value` after the call (its argument is the value before
the call), and the registers read.  `index` is not used by the function. -/
def npz_device_read_peripheral_value (rd : ReadTransport) (psw_lp : Nat) (_index : Int)
    (peripheral_value : Int) (rlog : List Nat) : Bool × Int × List Nat :=
  let r := npz_read_CFGP rd psw_lp rlog
  if r.1 ≠ OK then (false, peripheral_value, r.2.2)
  else
    let cfgp := r.2.1
    if cfgp.tmod = POLLING_MODE_PERIODIC_READ_COMPARE_THRESHOLD
        ∨ cfgp.tmod = POLLING_MODE_PERIODIC_WAIT_INTERRUPT_COMPARE_THRESHOLD then
      let v := npz_read_VALP rd psw_lp {} r.2.2
      if v.1 ≠ OK then (false, peripheral_value, v.2.2)
      else
        let valp := v.2.1
        let a := npz_read_ADDRP rd psw_lp v.2.2
        if a.1 ≠ OK then (false, peripheral_value, a.2.2)
        else if a.2.1.spi_en = 0 then
          (true, Int.ofNat ((valp.valp_h <<< 8) ||| valp.valp_l), a.2.2)
        else (true, Int.ofNat ((valp.valp_h <<< 8) ||| valp.valp_l), a.2.2)
    else (true, peripheral_value, r.2.2)

/-! ## npz_device_control.c: ADC code tables -/

/-- Table `adc_ext_code_map`: pairs `{code, millivolts}` in the order of the source. -/
def adc_ext_code_map : List (Nat × Nat) :=
  [(0x00, 600), (0x08, 700), (0x0F, 800), (0x15, 900), (0x19, 1000),
    (0x1C, 1100), (0x1F, 1200), (0x22, 1300), (0x23, 1400), (0x24, 1500), (0x26, 1600),
    (0x28, 1700), (0x29, 1800), (0x2A, 1900), (0x2B, 2000), (0x2C, 2100), (0x2D, 2200),
    (0x2E, 2300), (0x2F, 2400), (0x30, 3600), (0x31, 2700), (0x32, 2900), (0x33, 3100),
    (0x34, 3400)]

/-- Table `adc_core_code_map`: pairs `{code, millivolts}` in the order of the source. -/
def adc_core_code_map : List (Nat × Nat) :=
  [(0x24, 1500), (0x26, 1600), (0x28, 1700), (0x29, 1800), (0x2A, 1900),
    (0x2B, 2000), (0x2C, 2100), (0x2D, 2200), (0x2E, 2300), (0x2F, 2400), (0x30, 2600),
    (0x31, 2800), (0x32, 3000), (0x33, 3200), (0x34, 3400)]

/-- The search loop `for (n = 0; n < n_max; n++)` of the two lookup functions over the
entries still to visit: at the first entry whose code matches it prints
`millivolts / 1000` and `millivolts % 1000`, sets `code_found` and breaks.  The result is
`code_found` and the two numbers printed, `none` when the loop printed nothing. -/
def code_map_loop : List (Nat × Nat) → Nat → Bool × Option (Nat × Nat)
  | [], _ => (false, none)
  | (c, millivolts) :: rest, code =>
    if c = code then (true, some (millivolts / 1000, millivolts % 1000))
    else code_map_loop rest code

/-- Function `adc_ext_code_to_voltage(uint8_t code)`: its result and the voltage it
prints. -/
def adc_ext_code_to_voltage (code : Nat) : Bool × Option (Nat × Nat) :=
  let r := code_map_loop adc_ext_code_map (code % 256)
  if ¬ r.1 then (false, r.2) else (true, r.2)

/-- Function `adc_core_code_to_voltage(uint8_t code)`: its result and the voltage it
prints. -/
def adc_core_code_to_voltage (code : Nat) : Bool × Option (Nat × Nat) :=
  let r := code_map_loop adc_core_code_map (code % 256)
  if ¬ r.1 then (false, r.2) else (true, r.2)

/-! ## Vocabulary of the statements on the codec and on aborted runs -/

/-- The thirteen register addresses of slot `k` as npz_registers.h defines them, in the
order CFGP, MODP, PERP_L, PERP_H, NCMDP, ADDRP, RREGP, THROVP_L, THROVP_H, THRUNP_L,
THRUNP_H, TWTP, TCFGP. -/
def slot_block : Nat → List Nat
  | 1 => [REG_CFGP1, REG_MODP1, REG_PERP1_L, REG_PERP1_H, REG_NCMDP1, REG_ADDRP1, REG_RREGP1,
      REG_THROVP1_L, REG_THROVP1_H, REG_THRUNP1_L, REG_THRUNP1_H, REG_TWTP1, REG_TCFGP1]
  | 2 => [REG_CFGP2, REG_MODP2, REG_PERP2_L, REG_PERP2_H, REG_NCMDP2, REG_ADDRP2, REG_RREGP2,
      REG_THROVP2_L, REG_THROVP2_H, REG_THRUNP2_L, REG_THRUNP2_H, REG_TWTP2, REG_TCFGP2]
  | 3 => [REG_CFGP3, REG_MODP3, REG_PERP3_L, REG_PERP3_H, REG_NCMDP3, REG_ADDRP3, REG_RREGP3,
      REG_THROVP3_L, REG_THROVP3_H, REG_THRUNP3_L, REG_THRUNP3_H, REG_TWTP3, REG_TCFGP3]
  | 4 => [REG_CFGP4, REG_MODP4, REG_PERP4_L, REG_PERP4_H, REG_NCMDP4, REG_ADDRP4, REG_RREGP4,
      REG_THROVP4_L, REG_THROVP4_H, REG_THRUNP4_L, REG_THRUNP4_H, REG_TWTP4, REG_TCFGP4]
  | _ => []

/-- What a two-byte writer does with low byte `lo` for address `A` and high byte `hi`: the
low byte goes to `A`; if that transfer is refused the result is `ERR` and nothing else is
issued; otherwise the high byte goes to `A + 1` and the result is that transfer's status. -/
def split_write (hal : Transport) (A lo hi : Nat) (s : State) (r : npz_status_e × State) :
    Prop :=
  (hal s.log (A, lo) ≠ OK → r = (ERR, s.after [(A, lo)]))
  ∧ (hal s.log (A, lo) = OK →
      r = (hal (s.log ++ [(A, lo)]) (A + 1, hi), s.after [(A, lo), (A + 1, hi)]))
  ∧ (r.1 = OK → hal s.log (A, lo) = OK ∧ hal (s.log ++ [(A, lo)]) (A + 1, hi) = OK)

/-- Round trip of a one-byte register: the writer issues one transfer `(reg, d)`, and a
read of `reg` that returns `d` makes the reader yield `v`. -/
def round_trip_byte {α : Type} (w : Transport → State → npz_status_e × State)
    (r : ReadTransport → List Nat → npz_status_e × α × List Nat) (reg : Nat) (v : α) : Prop :=
  ∀ (hal : Transport) (s : State), ∃ d, (w hal s).2.log = s.log ++ [(reg, d)]
    ∧ ∀ (rd : ReadTransport) (rlog : List Nat), rd rlog reg = (OK, d) →
        r rd rlog = (OK, v, rlog ++ [reg])

/-- Round trip of a two-byte register pair: with a succeeding transport the writer issues
`(reg_l, lo)` then `(reg_h, hi)`, and reads of `reg_l` and `reg_h` that return `lo` and
`hi` make the reader yield `v`. -/
def round_trip_pair {α : Type} (w : Transport → State → npz_status_e × State)
    (r : ReadTransport → α → List Nat → npz_status_e × α × List Nat) (reg_l reg_h : Nat)
    (v : α) : Prop :=
  ∀ (s : State), ∃ lo hi, (w hal_ok s).2.log = s.log ++ [(reg_l, lo), (reg_h, hi)]
    ∧ ∀ (rd : ReadTransport) (rlog : List Nat) (v0 : α), rd rlog reg_l = (OK, lo) →
        rd (rlog ++ [reg_l]) reg_h = (OK, hi) → r rd v0 rlog = (OK, v, rlog ++ [reg_l, reg_h])

/-- The registers targeted when the ten slot writers of npz.c run one after the other for
`sw` with a succeeding transport, in the order CFGP, MODP, PERP, NCMDP, ADDRP, RREGP, THROVP,
THRUNP, TWTP, TCFGP. -/
def write_targets (sw : Nat) (cfgp : npz_register_cfgp_s) (modp : npz_register_modp_s)
    (perp : npz_register_perp_s) (ncmdp : npz_register_ncmdp_s) (addrp : npz_register_addrp_s)
    (rregp : npz_register_rregp_s) (throvp : npz_register_throvp_s)
    (thrunp : npz_register_thrunp_s) (twtp : npz_register_twtp_s)
    (tcfgp : npz_register_tcfgp_s) : List Nat :=
  let s := (npz_write_CFGP hal_ok sw cfgp State.init).2
  let s := (npz_write_MODP hal_ok sw modp s).2
  let s := (npz_write_PERP hal_ok sw perp s).2
  let s := (npz_write_NCMDP hal_ok sw ncmdp s).2
  let s := (npz_write_ADDRP hal_ok sw addrp s).2
  let s := (npz_write_RREGP hal_ok sw rregp s).2
  let s := (npz_write_THROVP hal_ok sw throvp s).2
  let s := (npz_write_THRUNP hal_ok sw thrunp s).2
  let s := (npz_write_TWTP hal_ok sw twtp s).2
  regs_of (npz_write_TCFGP hal_ok sw tcfgp s).2.log

/-- The registers a read transport is asked for when the ten slot readers of npz.c run one
after the other for `sw`, in the same order. -/
def read_targets (rd : ReadTransport) (sw : Nat) : List Nat :=
  let l := (npz_read_CFGP rd sw []).2.2
  let l := (npz_read_MODP rd sw l).2.2
  let l := (npz_read_PERP rd sw {} l).2.2
  let l := (npz_read_NCMDP rd sw l).2.2
  let l := (npz_read_ADDRP rd sw l).2.2
  let l := (npz_read_RREGP rd sw l).2.2
  let l := (npz_read_THROVP rd sw {} l).2.2
  let l := (npz_read_THRUNP rd sw {} l).2.2
  let l := (npz_read_TWTP rd sw l).2.2
  (npz_read_TCFGP rd sw l).2.2

/-- Every field of a `npz_register_pswctl_s` fits its declared bit width. -/
def npz_register_pswctl_s.fits (v : npz_register_pswctl_s) : Prop :=
  v.pswint_p1 < 2 ∧ v.pswint_p2 < 2 ∧ v.pswint_p3 < 2 ∧ v.pswint_p4 < 2 ∧ v.pswh_mode < 4
    ∧ v.psw_en_vn < 2 ∧ v.psw_vn_on < 2

/-- Every field of a `npz_register_syscfg1_s` fits its declared bit width. -/
def npz_register_syscfg1_s.fits (v : npz_register_syscfg1_s) : Prop :=
  v.wup1 < 2 ∧ v.wup2 < 2 ∧ v.wup3 < 2 ∧ v.wup4 < 2 ∧ v.adc_int_wakeup_enable < 2
    ∧ v.adc_ext_wakeup_enable < 2 ∧ v.wake_up_any_or_all < 2 ∧ v.padding < 2

/-- Every field of a `npz_register_syscfg2_s` fits its declared bit width. -/
def npz_register_syscfg2_s.fits (v : npz_register_syscfg2_s) : Prop :=
  v.sclk_div_en < 2 ∧ v.sclk_div_sel < 4 ∧ v.sclk_sel < 2 ∧ v.adc_ext_on < 2
    ∧ v.adc_clk_sel < 4 ∧ v.padding < 2

/-- Every field of a `npz_register_syscfg3_s` fits its declared bit width. -/
def npz_register_syscfg3_s.fits (v : npz_register_syscfg3_s) : Prop :=
  v.io_str < 2 ∧ v.i2c_pup_en < 2 ∧ v.i2c_pup_auto < 2 ∧ v.spi_auto < 2
    ∧ v.xo_clkout_div < 8 ∧ v.sclk_sel_status < 2

/-- Every field of a `npz_register_intcfg_s` fits its declared bit width. -/
def npz_register_intcfg_s.fits (v : npz_register_intcfg_s) : Prop :=
  v.pu_int1 < 2 ∧ v.pu_s_int1 < 2 ∧ v.pu_int2 < 2 ∧ v.pu_s_int2 < 2 ∧ v.pu_int3 < 2
    ∧ v.pu_s_int3 < 2 ∧ v.pu_int4 < 2 ∧ v.pu_s_int4 < 2

/-- Every field of a `npz_register_cfgp_s` fits its declared bit width. -/
def npz_register_cfgp_s.fits (v : npz_register_cfgp_s) : Prop :=
  v.pwmod < 4 ∧ v.tmod < 4 ∧ v.pswmod < 4 ∧ v.intmod < 4

/-- Every field of a `npz_register_modp_s` fits its declared bit width. -/
def npz_register_modp_s.fits (v : npz_register_modp_s) : Prop :=
  v.cmod < 2 ∧ v.dtype < 4 ∧ v.seqrw < 2 ∧ v.wunak < 2 ∧ v.swprreg < 2 ∧ v.spimod < 4

/-- Every field of a `npz_register_addrp_s` fits its declared bit width. -/
def npz_register_addrp_s.fits (v : npz_register_addrp_s) : Prop :=
  v.addrp < 128 ∧ v.spi_en < 2

/-- Every field of a `npz_register_tcfgp_s` fits its declared bit width. -/
def npz_register_tcfgp_s.fits (v : npz_register_tcfgp_s) : Prop :=
  v.twt_en < 2 ∧ v.twt_ext < 2 ∧ v.tinit_en < 2 ∧ v.tinit_ext < 2 ∧ v.i2cret < 4
    ∧ v.padding < 4

/-- Every field of a `npz_register_ncmdp_s` fits its declared bit width. -/
def npz_register_ncmdp_s.fits (v : npz_register_ncmdp_s) : Prop :=
  v.ncmdp < 128 ∧ v.padding < 2

/-- Every field of a `npz_register_throva1_s` / `npz_register_throva2_s` fits its declared
bit width. -/
def npz_register_throva_s.fits (v : npz_register_throva_s) : Prop :=
  v.throva < 32 ∧ v.padding < 8

/-- Every field of a `npz_register_thruna1_s` / `npz_register_thruna2_s` fits its declared
bit width. -/
def npz_register_thruna_s.fits (v : npz_register_thruna_s) : Prop :=
  v.thruna < 32 ∧ v.padding < 8

/-- The thirteen register addresses the writers of npz.c select for `sw`, in the order of
`slot_block`. -/
def slot_registers (sw : Nat) : List Nat :=
  [REG_CFGP sw, REG_MODP sw, REG_PERP_L sw, REG_PERP_H sw, REG_NCMDP sw, REG_ADDRP sw,
    REG_RREGP sw, REG_THROVP_L sw, REG_THROVP_H sw, REG_THRUNP_L sw, REG_THRUNP_H sw,
    REG_TWTP sw, REG_TCFGP sw]

/-- Every transfer of `l`, issued in order after the history `h`, is accepted by the
transport. -/
def accepted (hal : Transport) : List Write → List Write → Bool
  | _, [] => true
  | h, w :: l => decide (hal h w = OK) && accepted hal (h ++ [w]) l

/-- The state after the transfers `l` have been issued and `k` arena bytes staged. -/
def State.grow (s : State) (l : List Write) (k : Nat) : State :=
  { s with log := s.log ++ l, m_sram_count := s.m_sram_count + k }

/-- The run from `s` stopped at the first transfer the transport refused: the transfers
`l_ok` of the run with a succeeding transport start with accepted transfers `l0` and the
refused one `w`, and the run ended in `s1` having issued `l0` and `w` and nothing else. -/
def Aborts (hal : Transport) (s : State) (l_ok : List Write) (s1 : State) : Prop :=
  ∃ l0 w t k0, l_ok = l0 ++ w :: t ∧ accepted hal s.log l0 = true
    ∧ hal (s.log ++ l0) w ≠ OK ∧ s1 = s.grow (l0 ++ [w]) k0

/-- A step of the global group under `hal`, compared with the same step under a succeeding
transport: the latter returns, and either the two agree and every transfer was accepted,
or the former returned `false` at the first refused transfer. -/
def GSim (hal : Transport) (s : State) (r r_ok : GRes) : Prop :=
  ∃ b l k, r_ok = some (b, s.grow l k)
    ∧ ((r = r_ok ∧ accepted hal s.log l = true)
      ∨ ∃ s1, r = some (false, s1) ∧ Aborts hal s l s1)

/-- The comparison `GSim` for a step of the peripheral group. -/
def PSim (hal : Transport) (s : State) (r r_ok : PRes) : Prop :=
  ∃ b im l k, r_ok = some (b, im, s.grow l k)
    ∧ ((r = r_ok ∧ accepted hal s.log l = true)
      ∨ ∃ im1 s1, r = some (false, im1, s1) ∧ Aborts hal s l s1)

/-- A step of the global group that succeeded, having issued one transfer to each register
of `regs`, in that order. -/
def GDone (regs : List Nat) (s : State) (r : GRes) : Prop :=
  ∃ l, r = some (true, s.after l) ∧ regs_of l = regs

/-- The indices of the non-null entries of `peripherals[0..3]`, in ascending order. -/
def configured_slots (device_config : npz_device_config_s) : List Int :=
  ([0, 1, 2, 3] : List Int).filter fun i => (device_config.peripheral_at i).isSome

/-- The part of `npz_device_configure` that follows `validate_peripherals`, for non-null
ADC channel objects `adc0` and `adc1`: the peripheral sequences, then the internal and the
external ADC channel when enabled. -/
def device_tail (hal : Transport) (device_config : npz_device_config_s)
    (adc0 adc1 : npz_adc_config_channels_s) (s : State) : GRes :=
  (configure_peripherals hal device_config s).andThen fun s =>
  (if adc0.wakeup_enable % 2 = 1 then configure_internal_adc hal device_config s
   else some (true, s)).andThen fun s =>
  if adc1.wakeup_enable % 2 = 1 ∧ device_config.adc_ext_sampling_enable % 2 = 1 then
    configure_external_adc hal device_config s
  else some (true, s)

/-! ## Further concrete inputs -/

/-- A device configuration with interrupt pin 2 pulled high and the other three pins
disabled. -/
def pin2_high_configuration : npz_device_config_s :=
  { interrupt_pin_pull_up_pin1 := INT_PIN_PULL_DISABLED
    interrupt_pin_pull_up_pin2 := INT_PIN_PULL_HIGH
    interrupt_pin_pull_up_pin3 := INT_PIN_PULL_DISABLED
    interrupt_pin_pull_up_pin4 := INT_PIN_PULL_DISABLED }

/-- A transport that refuses the transfer issued after `n` earlier ones and accepts every
other one. -/
def hal_fail_at (n : Nat) : Transport := fun h _ => if h.length = n then ERR else OK

/-- Slot 1 is left null and slots 2 and 3 each hold `spi_full`; the global fields are those
of main.c. -/
def null_slot_configuration : npz_device_config_s :=
  { npz_configuration_adc with peripherals := [none, some spi_full, some spi_full, none] }

/-! ## Vocabulary of the statements on the register bytes -/

/-- The transfers of an I2C command sequence staged in full from the entry cursor `c`:
byte `bytes_from_sram[i]` at the address `SRAM_START + c + i`, for `i` below `k`. -/
def staged (p : npz_peripheral_config_s) (c k : Nat) : List Write :=
  (List.range k).map fun i => (SRAM_START + c + i, i2c_cfg_bytes_from_sram p i)

/-- A device configuration whose only non-zero field is the I2C pull-up policy
`I2C_PULL_AUTO`. -/
def pull_auto_configuration : npz_device_config_s :=
  { i2c_pull_mode := I2C_PULL_AUTO }

/-! ## Vocabulary of the statements on the arena, the ADC channels and the telemetry -/

/-- The transfers of an SPI byte sequence `src` of `k` bytes staged in full from the
cursor `c`: byte `src[i]` at the address `SRAM_START + c + i`. -/
def staged_bytes (src : Nat → Nat) (c k : Nat) : List Write :=
  (List.range k).map fun i => (SRAM_START + c + i, src i)

/-- Slots 1, 2 and 3 each hold `spi_full`; the global fields are those of main.c. -/
def three_spi_configuration : npz_device_config_s :=
  { npz_configuration_adc with peripherals := [some spi_full, some spi_full, some spi_full, none] }

/-- A read transport that always succeeds and returns the byte `mem reg` of a register
file. -/
def rd_mem (mem : Nat → Nat) : ReadTransport := fun _ reg => (OK, mem reg)

/-- A read transport like `rd_mem` that refuses the read issued after `n` earlier ones. -/
def rd_fail_at (n : Nat) (mem : Nat → Nat) : ReadTransport := fun h reg =>
  if h.length = n then (ERR, mem reg) else (OK, mem reg)

/-- A device configuration with both ADC channels enabled and the given thresholds
`(over, under)` of the internal and of the external channel; the other fields are those
of main.c, without peripherals. -/
def adc_configuration (int_over int_under ext_over ext_under : Nat) : npz_device_config_s :=
  { npz_configuration with
    peripherals := [none, none, none, none]
    adc_ext_sampling_enable := 1
    adc_channels :=
      [some { wakeup_enable := 1, over_threshold := int_over, under_threshold := int_under },
       some { wakeup_enable := 1, over_threshold := ext_over, under_threshold := ext_under }] }

/-! # Theorems -/

/-! ## Lemmas on the transport log and on the steps of the pass -/

theorem state_after_nil (s : State) : s.after [] = s := by
  simp [State.after]

theorem state_after_after (s : State) (l1 l2 : List Write) :
    (s.after l1).after l2 = s.after (l1 ++ l2) := by
  simp [State.after, List.append_assoc]

theorem state_after_log (s : State) (l : List Write) : (s.after l).log = s.log ++ l := rfl

theorem state_after_sram (s : State) (l : List Write) :
    (s.after l).m_sram_count = s.m_sram_count := rfl

theorem npz_hal_write_eq (hal : Transport) (reg val : Nat) (s : State) :
    npz_hal_write hal reg val s
      = (hal s.log (reg % 256, val % 256), s.after [(reg % 256, val % 256)]) := rfl

theorem regs_of_append (l1 l2 : List Write) : regs_of (l1 ++ l2) = regs_of l1 ++ regs_of l2 := by
  simp [regs_of]

/-- A single transfer to `reg` whose step returns whether the transport accepted it. -/
theorem gstep_single (hal : Transport) (reg val : Nat) (s : State) (hreg : reg < 256) :
    GStep [reg] s
      (if (npz_hal_write hal reg val s).1 ≠ OK then some (false, (npz_hal_write hal reg val s).2)
       else some (true, (npz_hal_write hal reg val s).2)) := by
  have hr : reg % 256 = reg := Nat.mod_eq_of_lt hreg
  refine ⟨decide ((npz_hal_write hal reg val s).1 = OK), [(reg, val % 256)], ?_, ?_, ?_⟩
  · by_cases h : hal s.log (reg, val % 256) = OK
    · simp [h, npz_hal_write_eq, hr]
    · simp [h, npz_hal_write_eq, hr]
  · simp [regs_of]
  · intro _; simp [regs_of]

theorem gstep_two (hal : Transport) (reg_l reg_h l h : Nat) (s : State)
    (hl : reg_l < 256) (hh : reg_h < 256) :
    GStep [reg_l, reg_h] s
      (if (two_byte_write hal reg_l reg_h l h s).1 ≠ OK
        then some (false, (two_byte_write hal reg_l reg_h l h s).2)
       else some (true, (two_byte_write hal reg_l reg_h l h s).2)) := by
  have hrl : reg_l % 256 = reg_l := Nat.mod_eq_of_lt hl
  have hrh : reg_h % 256 = reg_h := Nat.mod_eq_of_lt hh
  by_cases h1 : hal s.log (reg_l, l % 256) = OK
  · by_cases h2 : hal (s.log ++ [(reg_l, l % 256)]) (reg_h, h % 256) = OK
    · refine ⟨true, [(reg_l, l % 256), (reg_h, h % 256)], ?_, ?_, ?_⟩
      · simp [two_byte_write, npz_hal_write_eq, hrl, hrh, h1, h2, state_after_after, state_after_log]
      · simp [regs_of]
      · intro _; simp [regs_of]
    · refine ⟨false, [(reg_l, l % 256), (reg_h, h % 256)], ?_, ?_, ?_⟩
      · simp [two_byte_write, npz_hal_write_eq, hrl, hrh, h1, h2, state_after_after, state_after_log]
      · simp [regs_of]
      · intro hc; cases hc
  · refine ⟨false, [(reg_l, l % 256)], ?_, ?_, ?_⟩
    · simp [two_byte_write, npz_hal_write_eq, hrl, h1]
    · simp [regs_of]
    · intro hc; cases hc

theorem gstep_andThen {R1 R2 : List Nat} {s : State} {r : GRes} {rest : State → GRes}
    (h1 : GStep R1 s r) (h2 : ∀ s1, GStep R2 s1 (rest s1)) :
    GStep (R1 ++ R2) s (r.andThen rest) := by
  obtain ⟨b, l, hr, hp, he⟩ := h1
  subst hr
  cases b with
  | false =>
    refine ⟨false, l, rfl, hp.trans (List.prefix_append _ _), ?_⟩
    intro hc; cases hc
  | true =>
    obtain ⟨b2, l2, hr2, hp2, he2⟩ := h2 (s.after l)
    refine ⟨b2, l ++ l2, ?_, ?_, ?_⟩
    · simp only [GRes.andThen, hr2, state_after_after]
    · rw [regs_of_append, he rfl]
      exact (List.prefix_append_right_inj _).mpr hp2
    · intro hb
      rw [regs_of_append, he rfl, he2 hb]

theorem gfail_of_eq {s : State} {r : GRes} (h : r = some (false, s)) : GFail [] s r :=
  ⟨[], by simp [h, state_after_nil], by simp [regs_of]⟩

theorem gfail_andThen {R : List Nat} {s : State} {r : GRes} (rest : State → GRes)
    (h : GFail R s r) : GFail R s (r.andThen rest) := by
  obtain ⟨l, hr, hp⟩ := h
  subst hr
  exact ⟨l, rfl, hp⟩

theorem gfail_after_step {R1 R2 : List Nat} {s : State} {r : GRes} {rest : State → GRes}
    (h1 : GStep R1 s r) (h2 : ∀ s1, GFail R2 s1 (rest s1)) :
    GFail (R1 ++ R2) s (r.andThen rest) := by
  obtain ⟨b, l, hr, hp, he⟩ := h1
  subst hr
  cases b with
  | false => exact ⟨l, rfl, hp.trans (List.prefix_append _ _)⟩
  | true =>
    obtain ⟨l2, hr2, hp2⟩ := h2 (s.after l)
    refine ⟨l ++ l2, ?_, ?_⟩
    · simp only [GRes.andThen, hr2, state_after_after]
    · rw [regs_of_append, he rfl]
      exact (List.prefix_append_right_inj _).mpr hp2

theorem gstep_of_fail (R : List Nat) {s : State} {r : GRes} (h : r = some (false, s)) :
    GStep R s r :=
  ⟨false, [], by simp [h, state_after_nil], by simp [regs_of], by intro hc; cases hc⟩

/-! ## Steps of the global group -/

theorem set_global_timeout_step (hal : Transport) (dc : npz_device_config_s) (s : State) :
    GStep [REG_TOUT_L, REG_TOUT_H] s (set_global_timeout hal dc s) := by
  unfold set_global_timeout
  split
  · exact gstep_two hal REG_TOUT_L REG_TOUT_H _ _ s (by decide) (by decide)
  · exact gstep_of_fail _ rfl

theorem set_global_timeout_zero (hal : Transport) (dc : npz_device_config_s) (s : State)
    (h : dc.global_timeout % 65536 = 0) : set_global_timeout hal dc s = some (false, s) := by
  simp [set_global_timeout, h]

theorem set_system_config1_step (hal : Transport) (dc : npz_device_config_s) (s : State)
    {adc0 adc1 : npz_adc_config_channels_s} (h0 : dc.adc_channel_at 0 = some adc0)
    (h1 : dc.adc_channel_at 1 = some adc1) :
    GStep [REG_SYSCFG1] s (set_system_config1 hal dc s) := by
  simp only [set_system_config1, h0, h1]
  exact gstep_single hal REG_SYSCFG1 _ s (by decide)

theorem sclk_div_switch_none (d : Nat)
    (h : ¬ (d = SCLK_DIV_DISABLE ∨ d = SCLK_DIV_2 ∨ d = SCLK_DIV_4 ∨ d = SCLK_DIV_8
      ∨ d = SCLK_DIV_16)) : sclk_div_switch d = none := by
  simp only [not_or] at h
  obtain ⟨h1, h2, h3, h4, h5⟩ := h
  simp [sclk_div_switch, h1, h2, h3, h4, h5]

theorem adc_clk_switch_none (a : Nat)
    (h : ¬ (a = ADC_CLK_SC ∨ a = ADC_CLK_64 ∨ a = ADC_CLK_256 ∨ a = ADC_CLK_1024)) :
    adc_clk_switch a = none := by
  simp only [not_or] at h
  obtain ⟨h1, h2, h3, h4⟩ := h
  simp [adc_clk_switch, h1, h2, h3, h4]

theorem int_pin_switch_none (p : Nat)
    (h : ¬ (p = INT_PIN_PULL_DISABLED ∨ p = INT_PIN_PULL_LOW ∨ p = INT_PIN_PULL_HIGH)) :
    int_pin_switch p = none := by
  simp only [not_or] at h
  obtain ⟨h1, h2, h3⟩ := h
  simp [int_pin_switch, h1, h2, h3]

theorem set_system_config2_step (hal : Transport) (dc : npz_device_config_s) (s : State) :
    GStep [REG_SYSCFG2] s (set_system_config2 hal dc s) := by
  unfold set_system_config2
  split
  · exact gstep_of_fail _ rfl
  · split
    · exact gstep_of_fail _ rfl
    · exact gstep_single hal REG_SYSCFG2 _ s (by decide)

theorem set_system_config2_invalid (hal : Transport) (dc : npz_device_config_s) (s : State)
    (h : sclk_div_switch dc.system_clock_divider = none
      ∨ adc_clk_switch dc.adc_clock_sel = none) :
    set_system_config2 hal dc s = some (false, s) := by
  unfold set_system_config2
  rcases h with h | h
  · simp [h]
  · split
    · rfl
    · simp [h]

theorem set_system_config3_step (hal : Transport) (dc : npz_device_config_s) (s : State) :
    GStep [REG_SYSCFG3] s (set_system_config3 hal dc s) :=
  gstep_single hal REG_SYSCFG3 _ s (by decide)

theorem set_power_switch_control_step (hal : Transport) (dc : npz_device_config_s)
    (s : State) : GStep [REG_PSWCTL] s (set_power_switch_control hal dc s) := by
  unfold set_power_switch_control
  split_ifs
  all_goals first
    | exact gstep_of_fail _ rfl
    | exact gstep_single hal REG_PSWCTL _ s (by decide)

theorem set_power_switch_control_invalid (hal : Transport) (dc : npz_device_config_s)
    (s : State)
    (h : ¬ (dc.host_power_mode = HOST_POWER_MODE_SWITCH
      ∨ dc.host_power_mode = HOST_POWER_MODE_LOGIC_OUTPUT
      ∨ dc.host_power_mode = HOST_POWER_MODE_LOGIC_OUTPUT_INV)) :
    set_power_switch_control hal dc s = some (false, s) := by
  unfold set_power_switch_control
  simp only [h, not_false_eq_true, if_true]
  repeat (first | rfl | split)

theorem set_interrupt_pin_config_step (hal : Transport) (dc : npz_device_config_s)
    (s : State) : GStep [REG_INTCFG] s (set_interrupt_pin_config hal dc s) := by
  unfold set_interrupt_pin_config
  repeat' split
  all_goals first
    | exact gstep_of_fail _ rfl
    | exact gstep_single hal REG_INTCFG _ s (by decide)

theorem set_interrupt_pin_config_invalid (hal : Transport) (dc : npz_device_config_s)
    (s : State)
    (h : int_pin_switch dc.interrupt_pin_pull_up_pin1 = none
      ∨ int_pin_switch dc.interrupt_pin_pull_up_pin2 = none
      ∨ int_pin_switch dc.interrupt_pin_pull_up_pin3 = none
      ∨ int_pin_switch dc.interrupt_pin_pull_up_pin4 = none) :
    set_interrupt_pin_config hal dc s = some (false, s) := by
  unfold set_interrupt_pin_config
  rcases h with h | h | h | h
  · simp [h]
  · split
    · rfl
    · simp [h]
  · split
    · rfl
    · split
      · rfl
      · simp [h]
  · split
    · rfl
    · split
      · rfl
      · split
        · rfl
        · simp [h]

theorem npz_device_configure_global_fail (hal : Transport) (dc : npz_device_config_s)
    (s s1 : State) (h : configure_global_settings hal dc s = some (false, s1)) :
    npz_device_configure hal (some dc) s = some s1 := by
  simp [npz_device_configure, h]

/-! ## Steps of the peripheral group, any transport -/

theorem psw_switch_lt (sw r1 r2 r3 r4 : Nat) (h1 : r1 < 256) (h2 : r2 < 256) (h3 : r3 < 256)
    (h4 : r4 < 256) : psw_switch sw r1 r2 r3 r4 < 256 := by
  unfold psw_switch
  split_ifs <;> first | assumption | decide

theorem pstep_single (hal : Transport) (reg val : Nat) (im : Images) (s : State)
    (hreg : reg < 256) :
    PStep [reg] s
      (if (npz_hal_write hal reg val s).1 ≠ OK
        then some (false, im, (npz_hal_write hal reg val s).2)
       else some (true, im, (npz_hal_write hal reg val s).2)) := by
  have hr : reg % 256 = reg := Nat.mod_eq_of_lt hreg
  refine ⟨decide (hal s.log (reg, val % 256) = OK), im, [(reg, val % 256)], ?_, ?_, ?_⟩
  · by_cases h : hal s.log (reg, val % 256) = OK
    · simp [h, npz_hal_write_eq, hr]
    · simp [h, npz_hal_write_eq, hr]
  · simp [regs_of]
  · intro _; simp [regs_of]

theorem pstep_two (hal : Transport) (reg_l reg_h l h : Nat) (im : Images) (s : State)
    (hl : reg_l < 256) (hh : reg_h < 256) :
    PStep [reg_l, reg_h] s
      (if (two_byte_write hal reg_l reg_h l h s).1 ≠ OK
        then some (false, im, (two_byte_write hal reg_l reg_h l h s).2)
       else some (true, im, (two_byte_write hal reg_l reg_h l h s).2)) := by
  have hrl : reg_l % 256 = reg_l := Nat.mod_eq_of_lt hl
  have hrh : reg_h % 256 = reg_h := Nat.mod_eq_of_lt hh
  by_cases h1 : hal s.log (reg_l, l % 256) = OK
  · by_cases h2 : hal (s.log ++ [(reg_l, l % 256)]) (reg_h, h % 256) = OK
    · refine ⟨true, im, [(reg_l, l % 256), (reg_h, h % 256)], ?_, ?_, ?_⟩
      · simp [two_byte_write, npz_hal_write_eq, hrl, hrh, h1, h2, state_after_after,
          state_after_log]
      · simp [regs_of]
      · intro _; simp [regs_of]
    · refine ⟨false, im, [(reg_l, l % 256), (reg_h, h % 256)], ?_, ?_, ?_⟩
      · simp [two_byte_write, npz_hal_write_eq, hrl, hrh, h1, h2, state_after_after,
          state_after_log]
      · simp [regs_of]
      · intro hc; cases hc
  · refine ⟨false, im, [(reg_l, l % 256)], ?_, ?_, ?_⟩
    · simp [two_byte_write, npz_hal_write_eq, hrl, h1]
    · simp [regs_of]
    · intro hc; cases hc

theorem pstep_of_fail (R : List Nat) {s : State} {r : PRes} {im : Images}
    (h : r = some (false, im, s)) : PStep R s r :=
  ⟨false, im, [], by simp [h, state_after_nil], by simp [regs_of], by intro hc; cases hc⟩

theorem pstep_of_skip {s : State} {r : PRes} {im : Images}
    (h : r = some (true, im, s)) : PStep [] s r :=
  ⟨true, im, [], by simp [h, state_after_nil], by simp [regs_of], by intro _; simp [regs_of]⟩

theorem pstep_andThen {R1 R2 : List Nat} {s : State} {r : PRes}
    {rest : Images → State → PRes}
    (h1 : PStep R1 s r) (h2 : ∀ im s1, PStep R2 s1 (rest im s1)) :
    PStep (R1 ++ R2) s (r.andThen rest) := by
  obtain ⟨b, im, l, hr, hp, he⟩ := h1
  subst hr
  cases b with
  | false =>
    refine ⟨false, im, l, rfl, hp.trans (List.prefix_append _ _), ?_⟩
    intro hc; cases hc
  | true =>
    obtain ⟨b2, im2, l2, hr2, hp2, he2⟩ := h2 im (s.after l)
    refine ⟨b2, im2, l ++ l2, ?_, ?_, ?_⟩
    · simp only [PRes.andThen, hr2, state_after_after]
    · rw [regs_of_append, he rfl]
      exact (List.prefix_append_right_inj _).mpr hp2
    · intro hb
      rw [regs_of_append, he rfl, he2 hb]

theorem pfail_of_eq {s : State} {r : PRes} {im : Images} (h : r = some (false, im, s)) :
    PFail [] s r :=
  ⟨im, [], by simp [h, state_after_nil], by simp [regs_of]⟩

theorem pfail_andThen {R : List Nat} {s : State} {r : PRes} (rest : Images → State → PRes)
    (h : PFail R s r) : PFail R s (r.andThen rest) := by
  obtain ⟨im, l, hr, hp⟩ := h
  subst hr
  exact ⟨im, l, rfl, hp⟩

theorem pfail_after_step {R1 R2 : List Nat} {s : State} {r : PRes}
    {rest : Images → State → PRes}
    (h1 : PStep R1 s r) (h2 : ∀ im s1, PFail R2 s1 (rest im s1)) :
    PFail (R1 ++ R2) s (r.andThen rest) := by
  obtain ⟨b, im, l, hr, hp, he⟩ := h1
  subst hr
  cases b with
  | false => exact ⟨im, l, rfl, hp.trans (List.prefix_append _ _)⟩
  | true =>
    obtain ⟨im2, l2, hr2, hp2⟩ := h2 im (s.after l)
    refine ⟨im2, l ++ l2, ?_, ?_⟩
    · simp only [PRes.andThen, hr2, state_after_after]
    · rw [regs_of_append, he rfl]
      exact (List.prefix_append_right_inj _).mpr hp2

theorem REG_CFGP_lt (sw : Nat) : REG_CFGP sw < 256 :=
  psw_switch_lt sw _ _ _ _ (by decide) (by decide) (by decide) (by decide)

theorem REG_MODP_lt (sw : Nat) : REG_MODP sw < 256 :=
  psw_switch_lt sw _ _ _ _ (by decide) (by decide) (by decide) (by decide)

theorem REG_PERP_L_lt (sw : Nat) : REG_PERP_L sw < 256 :=
  psw_switch_lt sw _ _ _ _ (by decide) (by decide) (by decide) (by decide)

theorem REG_PERP_H_lt (sw : Nat) : REG_PERP_H sw < 256 :=
  psw_switch_lt sw _ _ _ _ (by decide) (by decide) (by decide) (by decide)

theorem REG_NCMDP_lt (sw : Nat) : REG_NCMDP sw < 256 :=
  psw_switch_lt sw _ _ _ _ (by decide) (by decide) (by decide) (by decide)

theorem REG_ADDRP_lt (sw : Nat) : REG_ADDRP sw < 256 :=
  psw_switch_lt sw _ _ _ _ (by decide) (by decide) (by decide) (by decide)

theorem REG_RREGP_lt (sw : Nat) : REG_RREGP sw < 256 :=
  psw_switch_lt sw _ _ _ _ (by decide) (by decide) (by decide) (by decide)

theorem REG_THROVP_L_lt (sw : Nat) : REG_THROVP_L sw < 256 :=
  psw_switch_lt sw _ _ _ _ (by decide) (by decide) (by decide) (by decide)

theorem REG_THROVP_H_lt (sw : Nat) : REG_THROVP_H sw < 256 :=
  psw_switch_lt sw _ _ _ _ (by decide) (by decide) (by decide) (by decide)

theorem REG_THRUNP_L_lt (sw : Nat) : REG_THRUNP_L sw < 256 :=
  psw_switch_lt sw _ _ _ _ (by decide) (by decide) (by decide) (by decide)

theorem REG_THRUNP_H_lt (sw : Nat) : REG_THRUNP_H sw < 256 :=
  psw_switch_lt sw _ _ _ _ (by decide) (by decide) (by decide) (by decide)

theorem REG_TWTP_lt (sw : Nat) : REG_TWTP sw < 256 :=
  psw_switch_lt sw _ _ _ _ (by decide) (by decide) (by decide) (by decide)

theorem REG_TCFGP_lt (sw : Nat) : REG_TCFGP sw < 256 :=
  psw_switch_lt sw _ _ _ _ (by decide) (by decide) (by decide) (by decide)

theorem set_peripheral_power_mode_step (hal : Transport) (dc : npz_device_config_s)
    (im : Images) (i : Int) (sw : Nat) (s : State) {p : npz_peripheral_config_s}
    (hp : dc.peripheral_at i = some p) :
    PStep [REG_CFGP sw] s (set_peripheral_power_mode hal dc im i sw s) := by
  simp only [set_peripheral_power_mode, hp]
  exact pstep_single hal (REG_CFGP sw) _ _ s (REG_CFGP_lt sw)

theorem set_peripheral_mode_step (hal : Transport) (dc : npz_device_config_s)
    (im : Images) (i : Int) (sw : Nat) (s : State) {p : npz_peripheral_config_s}
    (hp : dc.peripheral_at i = some p) :
    PStep [REG_MODP sw] s (set_peripheral_mode hal dc im i sw s) := by
  simp only [set_peripheral_mode, hp]
  exact pstep_single hal (REG_MODP sw) _ _ s (REG_MODP_lt sw)

theorem npz_write_PERP_zero (hal : Transport) (sw : Nat) (perp : npz_register_perp_s)
    (s : State) (hl : perp.perp_l % 256 = 0) (hh : perp.perp_h % 256 = 0) :
    npz_write_PERP hal sw perp s = (INVALID_PARAM, s) := by
  simp [npz_write_PERP, hl, hh]

theorem images_set_self (im : Images) (i : Int)
    (f : peripheral_config_s → peripheral_config_s) : (im.set i f) i = f (im i) := by
  simp [Images.set]

theorem set_peripheral_polling_period_zero (hal : Transport) (dc : npz_device_config_s)
    (im : Images) (i : Int) (sw : Nat) (s : State) {p : npz_peripheral_config_s}
    (hp : dc.peripheral_at i = some p) (hz : p.polling_period % 65536 = 0) :
    ∃ im1, set_peripheral_polling_period hal dc im i sw s = some (false, im1, s) := by
  simp only [set_peripheral_polling_period, hp, images_set_self]
  rw [npz_write_PERP_zero hal sw _ s (by simp [hz]) (by simp [hz])]
  exact ⟨_, if_pos (by simp)⟩

/-! ## Steps of the peripheral group, succeeding transport -/

theorem single_ok (reg val : Nat) (im : Images) (s : State) (hreg : reg < 256) :
    (if (npz_hal_write hal_ok reg val s).1 ≠ OK
      then some (false, im, (npz_hal_write hal_ok reg val s).2)
     else some (true, im, (npz_hal_write hal_ok reg val s).2))
      = some (true, im, s.after [(reg, val % 256)]) := by
  simp [npz_hal_write_eq, hal_ok, Nat.mod_eq_of_lt hreg]

theorem two_ok (reg_l reg_h l h : Nat) (im : Images) (s : State)
    (hl : reg_l < 256) (hh : reg_h < 256) :
    (if (two_byte_write hal_ok reg_l reg_h l h s).1 ≠ OK
      then some (false, im, (two_byte_write hal_ok reg_l reg_h l h s).2)
     else some (true, im, (two_byte_write hal_ok reg_l reg_h l h s).2))
      = some (true, im, s.after [(reg_l, l % 256), (reg_h, h % 256)]) := by
  simp [two_byte_write, npz_hal_write_eq, hal_ok, Nat.mod_eq_of_lt hl, Nat.mod_eq_of_lt hh,
    state_after_after]

theorem pdone_of_eq {s : State} {r : PRes} {im : Images} (l : List Write)
    (h : r = some (true, im, s.after l)) : PDone (regs_of l) s r :=
  ⟨im, s.after l, l, h, rfl, rfl⟩

theorem pdone_andThen {R1 R2 : List Nat} {s : State} {r : PRes}
    {rest : Images → State → PRes}
    (h1 : PDone R1 s r) (h2 : ∀ im s1, PDone R2 s1 (rest im s1)) :
    PDone (R1 ++ R2) s (r.andThen rest) := by
  obtain ⟨im, s1, l, hr, hl, he⟩ := h1
  subst hr
  obtain ⟨im2, s2, l2, hr2, hl2, he2⟩ := h2 im s1
  refine ⟨im2, s2, l ++ l2, ?_, ?_, ?_⟩
  · simp only [PRes.andThen, hr2]
  · rw [hl2, hl, List.append_assoc]
  · rw [regs_of_append, he, he2]

theorem set_peripheral_power_mode_done (dc : npz_device_config_s)
    (im : Images) (i : Int) (sw : Nat) (s : State) {p : npz_peripheral_config_s}
    (hp : dc.peripheral_at i = some p) :
    PDone [REG_CFGP sw] s (set_peripheral_power_mode hal_ok dc im i sw s) := by
  simp only [set_peripheral_power_mode, hp]
  exact pdone_of_eq [(REG_CFGP sw, _)] (single_ok (REG_CFGP sw) _ _ s (REG_CFGP_lt sw))

theorem set_peripheral_mode_done (dc : npz_device_config_s)
    (im : Images) (i : Int) (sw : Nat) (s : State) {p : npz_peripheral_config_s}
    (hp : dc.peripheral_at i = some p) :
    PDone [REG_MODP sw] s (set_peripheral_mode hal_ok dc im i sw s) := by
  simp only [set_peripheral_mode, hp]
  exact pdone_of_eq [(REG_MODP sw, _)] (single_ok (REG_MODP sw) _ _ s (REG_MODP_lt sw))

theorem npz_write_PERP_nonzero (hal : Transport) (sw : Nat) (perp : npz_register_perp_s)
    (s : State) (h : ¬ (perp.perp_l % 256 = 0 ∧ perp.perp_h % 256 = 0)) :
    ∃ d, npz_write_PERP hal sw perp s
      = two_byte_write hal (REG_PERP_L sw) (REG_PERP_H sw) d perp.perp_h s := by
  simp only [npz_write_PERP, h, if_false]
  exact ⟨_, rfl⟩

theorem set_peripheral_polling_period_done (dc : npz_device_config_s)
    (im : Images) (i : Int) (sw : Nat) (s : State) {p : npz_peripheral_config_s}
    (hp : dc.peripheral_at i = some p) (hz : p.polling_period % 65536 ≠ 0) :
    PDone [REG_PERP_L sw, REG_PERP_H sw] s
      (set_peripheral_polling_period hal_ok dc im i sw s) := by
  simp only [set_peripheral_polling_period, hp, images_set_self]
  obtain ⟨d, hd⟩ := npz_write_PERP_nonzero hal_ok sw
    { perp_l := p.polling_period % 65536 % 256
      perp_h := p.polling_period % 65536 / 256 % 256 } s (by simp only; omega)
  rw [hd]
  exact pdone_of_eq [(REG_PERP_L sw, _), (REG_PERP_H sw, _)]
    (two_ok _ _ _ _ _ s (REG_PERP_L_lt sw) (REG_PERP_H_lt sw))

theorem sram_write_loop_ok (src : Nat → Nat) (n : Nat) :
    ∀ (i : Nat) (s : State), sram_write_loop hal_ok src n i s
      = (true, { s with log := s.log ++ arena_image src n s.m_sram_count i
                        m_sram_count := s.m_sram_count + n }) := by
  induction n with
  | zero => intro i s; simp [sram_write_loop, arena_image]
  | succ n ih =>
    intro i s
    rw [sram_write_loop]
    simp only [npz_write_SRAM, npz_hal_write_eq, hal_ok, ne_eq, not_true_eq_false, if_false]
    rw [ih]
    simp [State.after, arena_image, List.append_assoc, Nat.add_assoc, Nat.add_comm 1 n]

theorem init_cmds_arena_ok (p : npz_peripheral_config_s) (s : State) :
    ∃ s1 l, init_cmds_arena hal_ok p s = (true, s1) ∧ s1.log = s.log ++ l := by
  unfold init_cmds_arena
  simp only [sram_write_loop_ok]
  split_ifs
  all_goals first
    | (exfalso; assumption)
    | exact ⟨_, _, rfl, rfl⟩
    | exact ⟨_, _, rfl, (List.append_nil _).symm⟩
    | exact ⟨_, _, rfl, List.append_assoc _ _ _⟩

theorem set_peripheral_init_cmds_number_done (dc : npz_device_config_s)
    (im : Images) (i : Int) (sw : Nat) (s : State) {p : npz_peripheral_config_s}
    (hp : dc.peripheral_at i = some p) :
    ∃ a, PDone (a ++ [REG_NCMDP sw]) s
      (set_peripheral_init_cmds_number hal_ok dc im i sw s) := by
  obtain ⟨s1, l, h1, h2⟩ := init_cmds_arena_ok p s
  simp only [set_peripheral_init_cmds_number, hp, h1, npz_write_NCMDP]
  rw [if_neg (by simp), single_ok _ _ _ _ (REG_NCMDP_lt sw)]
  exact ⟨regs_of l, _, _, _, rfl, by rw [state_after_log, h2, List.append_assoc],
    by simp [regs_of]⟩

theorem peripheral_at_range (dc : npz_device_config_s) (i : Int)
    {p : npz_peripheral_config_s} (hp : dc.peripheral_at i = some p) : 0 ≤ i ∧ i < 4 := by
  unfold npz_device_config_s.peripheral_at at hp
  by_contra h
  simp [h] at hp

theorem set_peripheral_address_done (dc : npz_device_config_s)
    (im : Images) (i : Int) (sw : Nat) (s : State) {p : npz_peripheral_config_s}
    (hp : dc.peripheral_at i = some p) :
    PDone [REG_ADDRP sw] s (set_peripheral_address hal_ok dc im i sw s) := by
  simp only [set_peripheral_address, hp]
  exact pdone_of_eq [(REG_ADDRP sw, _)] (single_ok (REG_ADDRP sw) _ _ s (REG_ADDRP_lt sw))

theorem set_peripheral_i2c_read_register_done (dc : npz_device_config_s)
    (im : Images) (i : Int) (sw : Nat) (s : State) {p : npz_peripheral_config_s}
    (hp : dc.peripheral_at i = some p) :
    PDone (if p.communication_protocol = COM_I2C then [REG_RREGP sw] else []) s
      (set_peripheral_i2c_read_register hal_ok dc im i sw s) := by
  by_cases hc : p.communication_protocol = COM_I2C
  · simp only [set_peripheral_i2c_read_register, hp, peripheral_at_range dc i hp, and_self,
      if_true, hc]
    exact pdone_of_eq [(REG_RREGP sw, _)] (single_ok (REG_RREGP sw) _ _ s (REG_RREGP_lt sw))
  · simp only [set_peripheral_i2c_read_register, hp, peripheral_at_range dc i hp, and_self,
      if_true, hc, if_false]
    exact pdone_of_eq [] (by rw [state_after_nil])

theorem set_peripheral_under_threshold_done (dc : npz_device_config_s)
    (im : Images) (i : Int) (sw : Nat) (s : State) {p : npz_peripheral_config_s}
    (hp : dc.peripheral_at i = some p) :
    PDone [REG_THRUNP_L sw, REG_THRUNP_H sw] s
      (set_peripheral_under_threshold hal_ok dc im i sw s) := by
  simp only [set_peripheral_under_threshold, hp]
  exact pdone_of_eq [(REG_THRUNP_L sw, _), (REG_THRUNP_H sw, _)]
    (two_ok _ _ _ _ _ s (REG_THRUNP_L_lt sw) (REG_THRUNP_H_lt sw))

theorem set_peripheral_over_threshold_done (dc : npz_device_config_s)
    (im : Images) (i : Int) (sw : Nat) (s : State) {p : npz_peripheral_config_s}
    (hp : dc.peripheral_at i = some p) :
    PDone [REG_THROVP_L sw, REG_THROVP_H sw] s
      (set_peripheral_over_threshold hal_ok dc im i sw s) := by
  simp only [set_peripheral_over_threshold, hp]
  exact pdone_of_eq [(REG_THROVP_L sw, _), (REG_THROVP_H sw, _)]
    (two_ok _ _ _ _ _ s (REG_THROVP_L_lt sw) (REG_THROVP_H_lt sw))

theorem set_peripheral_time_to_wait_done (dc : npz_device_config_s)
    (im : Images) (i : Int) (sw : Nat) (s : State) {p : npz_peripheral_config_s}
    (hp : dc.peripheral_at i = some p) :
    PDone [REG_TWTP sw] s (set_peripheral_time_to_wait hal_ok dc im i sw s) := by
  simp only [set_peripheral_time_to_wait, hp]
  exact pdone_of_eq [(REG_TWTP sw, _)] (single_ok (REG_TWTP sw) _ _ s (REG_TWTP_lt sw))

theorem pre_wait_switch_some (t : Nat)
    (h : t = PRE_WAIT_TIME_DISABLED ∨ t = PRE_WAIT_TIME_EXTEND_256
      ∨ t = PRE_WAIT_TIME_EXTEND_4096) : ∃ x, pre_wait_switch t = some x := by
  rcases h with h | h | h <;> subst h <;> exact ⟨_, rfl⟩

theorem post_wait_switch_some (t : Nat)
    (h : t = POST_WAIT_TIME_DISABLED ∨ t = POST_WAIT_TIME_EXTEND_256
      ∨ t = POST_WAIT_TIME_EXTEND_4096) : ∃ x, post_wait_switch t = some x := by
  rcases h with h | h | h <;> subst h <;> exact ⟨_, rfl⟩

theorem set_peripheral_time_to_wait_config_done (dc : npz_device_config_s)
    (im : Images) (i : Int) (sw : Nat) (s : State) {p : npz_peripheral_config_s}
    (hp : dc.peripheral_at i = some p)
    (hpre : p.pre_wait_time = PRE_WAIT_TIME_DISABLED
      ∨ p.pre_wait_time = PRE_WAIT_TIME_EXTEND_256
      ∨ p.pre_wait_time = PRE_WAIT_TIME_EXTEND_4096)
    (hpost : p.post_wait_time = POST_WAIT_TIME_DISABLED
      ∨ p.post_wait_time = POST_WAIT_TIME_EXTEND_256
      ∨ p.post_wait_time = POST_WAIT_TIME_EXTEND_4096) :
    PDone [REG_TCFGP sw] s (set_peripheral_time_to_wait_config hal_ok dc im i sw s) := by
  obtain ⟨x, hx⟩ := pre_wait_switch_some _ hpre
  obtain ⟨y, hy⟩ := post_wait_switch_some _ hpost
  simp only [set_peripheral_time_to_wait_config, hp, hx, hy]
  exact pdone_of_eq [(REG_TCFGP sw, _)] (single_ok (REG_TCFGP sw) _ _ s (REG_TCFGP_lt sw))

theorem pdone_andThen_ex {R1 : List Nat} {F : List Nat → List Nat} {s : State} {r : PRes}
    {rest : Images → State → PRes}
    (h1 : PDone R1 s r) (h2 : ∀ im s1, ∃ a, PDone (F a) s1 (rest im s1)) :
    ∃ a, PDone (R1 ++ F a) s (r.andThen rest) := by
  obtain ⟨im, s1, l, hr, hl, he⟩ := h1
  subst hr
  obtain ⟨a, im2, s2, l2, hr2, hl2, he2⟩ := h2 im s1
  refine ⟨a, im2, s2, l ++ l2, ?_, ?_, ?_⟩
  · simp only [PRes.andThen, hr2]
  · rw [hl2, hl, List.append_assoc]
  · rw [regs_of_append, he, he2]

theorem pdone_ex_andThen {R2 : List Nat} {F : List Nat → List Nat} {s : State} {r : PRes}
    {rest : Images → State → PRes}
    (h1 : ∃ a, PDone (F a) s r) (h2 : ∀ im s1, PDone R2 s1 (rest im s1)) :
    ∃ a, PDone (F a ++ R2) s (r.andThen rest) := by
  obtain ⟨a, h⟩ := h1
  exact ⟨a, pdone_andThen h h2⟩

theorem set_peripheral_power_mode_ok (dc : npz_device_config_s)
    (im : Images) (i : Int) (sw : Nat) (s : State) {p : npz_peripheral_config_s}
    (hp : dc.peripheral_at i = some p) :
    ∃ im1 d, set_peripheral_power_mode hal_ok dc im i sw s
      = some (true, im1, s.after [(REG_CFGP sw, d)]) := by
  simp only [set_peripheral_power_mode, hp]
  exact ⟨_, _, single_ok (REG_CFGP sw) _ _ s (REG_CFGP_lt sw)⟩

theorem set_peripheral_mode_ok (dc : npz_device_config_s)
    (im : Images) (i : Int) (sw : Nat) (s : State) {p : npz_peripheral_config_s}
    (hp : dc.peripheral_at i = some p) :
    ∃ im1 d, set_peripheral_mode hal_ok dc im i sw s
      = some (true, im1, s.after [(REG_MODP sw, d)]) := by
  simp only [set_peripheral_mode, hp]
  exact ⟨_, _, single_ok (REG_MODP sw) _ _ s (REG_MODP_lt sw)⟩

theorem psw_switch_unmapped (sw r1 r2 r3 r4 : Nat)
    (hsw : ¬ (sw = PSW_LP1 ∨ sw = PSW_LP2 ∨ sw = PSW_LP3 ∨ sw = PSW_LP4)) :
    psw_switch sw r1 r2 r3 r4 = 0 := by
  simp only [not_or] at hsw
  obtain ⟨h1, h2, h3, h4⟩ := hsw
  simp [psw_switch, h1, h2, h3, h4]

/-! ## The arena loop, any transport -/

theorem sram_write_loop_spec (hal : Transport) (src : Nat → Nat) (n : Nat) :
    ∀ (i : Nat) (s : State), ∃ b l k,
      sram_write_loop hal src n i s
        = (b, { s with log := s.log ++ l, m_sram_count := s.m_sram_count + k })
      ∧ k ≤ n
      ∧ ∀ w ∈ l, ∃ j, j < n ∧ w.1 = (SRAM_START + (s.m_sram_count + j)) % 256 := by
  induction n with
  | zero =>
    intro i s
    exact ⟨true, [], 0, by simp [sram_write_loop], le_refl _, by simp⟩
  | succ n ih =>
    intro i s
    rw [sram_write_loop]
    by_cases h : hal s.log ((SRAM_START + s.m_sram_count) % 256, src i % 256) = OK
    · obtain ⟨b, l, k, h1, h2, h3⟩ := ih (i + 1)
        { s with log := s.log ++ [((SRAM_START + s.m_sram_count) % 256, src i % 256)]
                 m_sram_count := s.m_sram_count + 1 }
      refine ⟨b, ((SRAM_START + s.m_sram_count) % 256, src i % 256) :: l, k + 1, ?_, ?_, ?_⟩
      · simp only [npz_write_SRAM, npz_hal_write_eq, State.after, Nat.mod_mod, h, ne_eq,
          not_true_eq_false, if_false]
        rw [h1]
        simp [List.append_assoc, Nat.add_assoc, Nat.add_comm 1 k]
      · omega
      · intro w hw
        rcases List.mem_cons.mp hw with hw | hw
        · exact ⟨0, by omega, by subst hw; simp⟩
        · obtain ⟨j, hj, hwj⟩ := h3 w hw
          exact ⟨j + 1, by omega, by rw [hwj]; simp [Nat.add_assoc, Nat.add_comm 1 j]⟩
    · refine ⟨false, [((SRAM_START + s.m_sram_count) % 256, src i % 256)], 0, ?_, ?_, ?_⟩
      · simp [npz_write_SRAM, npz_hal_write_eq, State.after, h]
      · omega
      · intro w hw
        rw [List.mem_singleton] at hw
        exact ⟨0, by omega, by subst hw; simp⟩

theorem state_same (s : State) :
    s = { s with log := s.log ++ [], m_sram_count := s.m_sram_count + 0 } := by
  simp

theorem init_cmds_arena_spec (hal : Transport) (p : npz_peripheral_config_s) (s : State) :
    ∃ b l k,
      init_cmds_arena hal p s
        = (b, { s with log := s.log ++ l, m_sram_count := s.m_sram_count + k })
      ∧ ∀ w ∈ l, ∃ j, j < arena_request p
          ∧ w.1 = (SRAM_START + (s.m_sram_count + j)) % 256 := by
  unfold init_cmds_arena
  by_cases hI : p.communication_protocol = COM_I2C
  · have hreq : arena_request p = i2c_cfg_command_num p * 2 % 256 := by
      simp [arena_request, hI]
    rw [hreq]
    simp only [hI, if_true]
    by_cases hc : s.m_sram_count ≤ SRAM_SIZE
    · simp only [hc, if_true]
      obtain ⟨b, l, k, h1, _, h3⟩ :=
        sram_write_loop_spec hal (i2c_cfg_bytes_from_sram p) (i2c_cfg_command_num p * 2 % 256) 0 s
      exact ⟨b, l, k, h1, h3⟩
    · simp only [hc, if_false]
      exact ⟨true, [], 0, by simp, by simp⟩
  · by_cases hS : p.communication_protocol = COM_SPI
    · have hreq : arena_request p
          = i2c_cfg_command_num p + spi_cfg_bytes_from_sram_read_num p := by
        simp [arena_request, hI, hS]
      rw [hreq]
      simp only [hI, hS, if_false, if_true]
      obtain ⟨b1, l1, k1, e1, hk1, hm1⟩ : ∃ b1 l1 k1,
          (if s.m_sram_count ≤ SRAM_SIZE then
              sram_write_loop hal (spi_cfg_bytes_from_sram p) (i2c_cfg_command_num p) 0 s
            else (true, s))
            = (b1, { s with log := s.log ++ l1, m_sram_count := s.m_sram_count + k1 })
          ∧ k1 ≤ i2c_cfg_command_num p
          ∧ ∀ w ∈ l1, ∃ j, j < i2c_cfg_command_num p
              ∧ w.1 = (SRAM_START + (s.m_sram_count + j)) % 256 := by
        split_ifs
        · exact sram_write_loop_spec hal _ _ 0 s
        · exact ⟨true, [], 0, by simp, Nat.zero_le _, by simp⟩
      rw [e1]
      cases b1 with
      | false =>
        refine ⟨false, l1, k1, by simp, ?_⟩
        intro w hw
        obtain ⟨j, hj, hwj⟩ := hm1 w hw
        exact ⟨j, by omega, hwj⟩
      | true =>
        by_cases hr : spi_cfg_bytes_from_sram_read_num p > 0
        · obtain ⟨b2, l2, k2, e2, _, hm2⟩ :=
            sram_write_loop_spec hal (spi_cfg_bytes_from_sram_read p)
              (spi_cfg_bytes_from_sram_read_num p) 0
              { s with log := s.log ++ l1, m_sram_count := s.m_sram_count + k1 }
          refine ⟨b2, l1 ++ l2, k1 + k2, ?_, ?_⟩
          · simp only [Bool.true_eq_false, if_false, hr, if_true, e2]
            simp [List.append_assoc, Nat.add_assoc]
          · intro w hw
            rcases List.mem_append.mp hw with hw | hw
            · obtain ⟨j, hj, hwj⟩ := hm1 w hw
              exact ⟨j, by omega, hwj⟩
            · obtain ⟨j, hj, hwj⟩ := hm2 w hw
              exact ⟨k1 + j, by omega, by rw [hwj]; simp [Nat.add_assoc]⟩
        · refine ⟨true, l1, k1, by simp [hr], ?_⟩
          intro w hw
          obtain ⟨j, hj, hwj⟩ := hm1 w hw
          exact ⟨j, by omega, hwj⟩
    · simp only [hI, hS, if_false]
      exact ⟨true, [], 0, by simp, by simp⟩

/-! ## Remaining steps of the peripheral group, any transport -/

theorem set_peripheral_polling_period_step (hal : Transport) (dc : npz_device_config_s)
    (im : Images) (i : Int) (sw : Nat) (s : State) {p : npz_peripheral_config_s}
    (hp : dc.peripheral_at i = some p) :
    PStep [REG_PERP_L sw, REG_PERP_H sw] s
      (set_peripheral_polling_period hal dc im i sw s) := by
  simp only [set_peripheral_polling_period, hp, images_set_self]
  by_cases hz : (p.polling_period % 65536 % 256) % 256 = 0
      ∧ (p.polling_period % 65536 / 256 % 256) % 256 = 0
  · rw [npz_write_PERP_zero hal sw _ s hz.1 hz.2]
    exact pstep_of_fail _ (if_pos (by simp))
  · obtain ⟨d, hd⟩ := npz_write_PERP_nonzero hal sw
      { perp_l := p.polling_period % 65536 % 256
        perp_h := p.polling_period % 65536 / 256 % 256 } s hz
    rw [hd]
    exact pstep_two hal _ _ _ _ _ s (REG_PERP_L_lt sw) (REG_PERP_H_lt sw)

theorem set_peripheral_address_step (hal : Transport) (dc : npz_device_config_s)
    (im : Images) (i : Int) (sw : Nat) (s : State) {p : npz_peripheral_config_s}
    (hp : dc.peripheral_at i = some p) :
    PStep [REG_ADDRP sw] s (set_peripheral_address hal dc im i sw s) := by
  simp only [set_peripheral_address, hp]
  exact pstep_single hal (REG_ADDRP sw) _ _ s (REG_ADDRP_lt sw)

theorem set_peripheral_i2c_read_register_step (hal : Transport) (dc : npz_device_config_s)
    (im : Images) (i : Int) (sw : Nat) (s : State) {p : npz_peripheral_config_s}
    (hp : dc.peripheral_at i = some p) :
    PStep (if p.communication_protocol = COM_I2C then [REG_RREGP sw] else []) s
      (set_peripheral_i2c_read_register hal dc im i sw s) := by
  by_cases hc : p.communication_protocol = COM_I2C
  · simp only [set_peripheral_i2c_read_register, hp, peripheral_at_range dc i hp, and_self,
      if_true, hc]
    exact pstep_single hal (REG_RREGP sw) _ _ s (REG_RREGP_lt sw)
  · simp only [set_peripheral_i2c_read_register, hp, peripheral_at_range dc i hp, and_self,
      if_true, hc, if_false]
    exact pstep_of_skip rfl

theorem set_peripheral_under_threshold_step (hal : Transport) (dc : npz_device_config_s)
    (im : Images) (i : Int) (sw : Nat) (s : State) {p : npz_peripheral_config_s}
    (hp : dc.peripheral_at i = some p) :
    PStep [REG_THRUNP_L sw, REG_THRUNP_H sw] s
      (set_peripheral_under_threshold hal dc im i sw s) := by
  simp only [set_peripheral_under_threshold, hp]
  exact pstep_two hal _ _ _ _ _ s (REG_THRUNP_L_lt sw) (REG_THRUNP_H_lt sw)

theorem set_peripheral_over_threshold_step (hal : Transport) (dc : npz_device_config_s)
    (im : Images) (i : Int) (sw : Nat) (s : State) {p : npz_peripheral_config_s}
    (hp : dc.peripheral_at i = some p) :
    PStep [REG_THROVP_L sw, REG_THROVP_H sw] s
      (set_peripheral_over_threshold hal dc im i sw s) := by
  simp only [set_peripheral_over_threshold, hp]
  exact pstep_two hal _ _ _ _ _ s (REG_THROVP_L_lt sw) (REG_THROVP_H_lt sw)

theorem set_peripheral_time_to_wait_step (hal : Transport) (dc : npz_device_config_s)
    (im : Images) (i : Int) (sw : Nat) (s : State) {p : npz_peripheral_config_s}
    (hp : dc.peripheral_at i = some p) :
    PStep [REG_TWTP sw] s (set_peripheral_time_to_wait hal dc im i sw s) := by
  simp only [set_peripheral_time_to_wait, hp]
  exact pstep_single hal (REG_TWTP sw) _ _ s (REG_TWTP_lt sw)

theorem set_peripheral_time_to_wait_config_step (hal : Transport)
    (dc : npz_device_config_s) (im : Images) (i : Int) (sw : Nat) (s : State)
    {p : npz_peripheral_config_s} (hp : dc.peripheral_at i = some p) :
    PStep [REG_TCFGP sw] s (set_peripheral_time_to_wait_config hal dc im i sw s) := by
  simp only [set_peripheral_time_to_wait_config, hp]
  split
  · exact pstep_of_fail _ rfl
  · split
    · exact pstep_of_fail _ rfl
    · exact pstep_single hal (REG_TCFGP sw) _ _ s (REG_TCFGP_lt sw)

/-! ## Which registers a peripheral's sequence can target -/

theorem pall_of_pstep {A : Nat → Prop} {R : List Nat} {s : State} {r : PRes}
    (h : PStep R s r) (hA : ∀ x ∈ R, A x) : PAll A s r := by
  obtain ⟨b, im, l, hr, hpre, _⟩ := h
  exact ⟨b, im, s.after l, l, hr, rfl, fun x hx => hA x (hpre.subset hx)⟩

theorem pall_andThen {A : Nat → Prop} {s : State} {r : PRes}
    {rest : Images → State → PRes}
    (h1 : PAll A s r) (h2 : ∀ im s1, PAll A s1 (rest im s1)) :
    PAll A s (r.andThen rest) := by
  obtain ⟨b, im, s1, l, hr, hl, hA⟩ := h1
  subst hr
  cases b with
  | false => exact ⟨false, im, s1, l, rfl, hl, hA⟩
  | true =>
    obtain ⟨b2, im2, s2, l2, hr2, hl2, hA2⟩ := h2 im s1
    refine ⟨b2, im2, s2, l ++ l2, ?_, ?_, ?_⟩
    · simp only [PRes.andThen, hr2]
    · rw [hl2, hl, List.append_assoc]
    · intro x hx
      rw [regs_of_append] at hx
      rcases List.mem_append.mp hx with hx | hx
      · exact hA x hx
      · exact hA2 x hx

theorem pall_after_pstep {A : Nat → Prop} {R : List Nat} {s : State} {r : PRes}
    {rest : Images → State → PRes}
    (h1 : PStep R s r) (hA : ∀ x ∈ R, A x)
    (h2 : ∀ im l, PAll A (s.after l) (rest im (s.after l))) :
    PAll A s (r.andThen rest) := by
  obtain ⟨b, im, l, hr, hpre, _⟩ := h1
  subst hr
  cases b with
  | false => exact ⟨false, im, s.after l, l, rfl, rfl, fun x hx => hA x (hpre.subset hx)⟩
  | true =>
    obtain ⟨b2, im2, s2, l2, hr2, hl2, hA2⟩ := h2 im l
    refine ⟨b2, im2, s2, l ++ l2, ?_, ?_, ?_⟩
    · simp only [PRes.andThen, hr2]
    · rw [hl2, state_after_log, List.append_assoc]
    · intro x hx
      rw [regs_of_append] at hx
      rcases List.mem_append.mp hx with hx | hx
      · exact hA x (hpre.subset hx)
      · exact hA2 x hx

theorem pall_skip (A : Nat → Prop) (im : Images) (s : State) :
    PAll A s (some (true, im, s)) :=
  ⟨true, im, s, [], rfl, by simp, by simp [regs_of]⟩

theorem set_peripheral_init_cmds_number_pall (hal : Transport) (dc : npz_device_config_s)
    (im : Images) (i : Int) (sw : Nat) (s : State) {p : npz_peripheral_config_s}
    (hp : dc.peripheral_at i = some p)
    (hfit : s.m_sram_count + arena_request p ≤ SRAM_SIZE)
    (A : Nat → Prop) (hA1 : ∀ x, SRAM_START ≤ x → A x) (hA2 : A (REG_NCMDP sw)) :
    PAll A s (set_peripheral_init_cmds_number hal dc im i sw s) := by
  obtain ⟨b, l, k, h1, h2⟩ := init_cmds_arena_spec hal p s
  have hl : ∀ x ∈ regs_of l, A x := by
    intro x hx
    obtain ⟨w, hw, rfl⟩ := List.mem_map.mp hx
    obtain ⟨j, hj, hwj⟩ := h2 w hw
    apply hA1
    rw [hwj]
    have : SRAM_START + (s.m_sram_count + j) < 256 := by
      have := hfit
      simp only [SRAM_START, SRAM_SIZE] at *
      omega
    rw [Nat.mod_eq_of_lt this]
    omega
  simp only [set_peripheral_init_cmds_number, hp, h1]
  cases b with
  | false => exact ⟨false, _, _, l, if_pos rfl, rfl, hl⟩
  | true =>
    simp only [Bool.true_eq_false, if_false, npz_write_NCMDP]
    have hs := pstep_single hal (REG_NCMDP sw)
      (((if p.communication_protocol = COM_I2C then
            im.set i fun im => { im with ncmdp := { ncmdp := i2c_cfg_command_num p % 128 } }
          else if p.communication_protocol = COM_SPI then
            im.set i fun im =>
              { im with ncmdp := { ncmdp := spi_cfg_bytes_from_sram_num p % 128 } }
          else im) i).ncmdp.ncmdp % 128)
      (if p.communication_protocol = COM_I2C then
            im.set i fun im => { im with ncmdp := { ncmdp := i2c_cfg_command_num p % 128 } }
          else if p.communication_protocol = COM_SPI then
            im.set i fun im =>
              { im with ncmdp := { ncmdp := spi_cfg_bytes_from_sram_num p % 128 } }
          else im)
      { s with log := s.log ++ l, m_sram_count := s.m_sram_count + k } (REG_NCMDP_lt sw)
    obtain ⟨b2, im2, s2, l2, hr2, hl2, hA3⟩ :=
      pall_of_pstep (A := A) hs (by intro x hx; rw [List.mem_singleton] at hx; rw [hx]; exact hA2)
    refine ⟨b2, im2, s2, l ++ l2, hr2, ?_, ?_⟩
    · rw [hl2, List.append_assoc]
    · intro x hx
      rw [regs_of_append] at hx
      rcases List.mem_append.mp hx with hx | hx
      · exact hl x hx
      · exact hA3 x hx

theorem body_targets_gated (hal : Transport) (dc : npz_device_config_s) (images : Images)
    (i : Int) (p : npz_peripheral_config_s) (s : State)
    (hp : dc.peripheral_at i = some p)
    (hfit : s.m_sram_count + arena_request p ≤ SRAM_SIZE) :
    PAll (gated_targets p (switches i)) s (configure_peripherals_body hal dc images i s) := by
  have gate1 : ∀ im1 s1, PAll (gated_targets p (switches i)) s1
      (if p.polling_mode = POLLING_MODE_PERIODIC_READ_COMPARE_THRESHOLD
          ∨ p.polling_mode = POLLING_MODE_PERIODIC_WAIT_INTERRUPT_COMPARE_THRESHOLD
          ∨ p.polling_mode = POLLING_MODE_PERIODIC_WAIT_INTERRUPT then
        set_peripheral_address hal dc im1 i (switches i) s1
       else some (true, im1, s1)) := by
    intro im1 s1
    split_ifs with h
    · refine pall_of_pstep (set_peripheral_address_step hal dc im1 i _ s1 hp) ?_
      intro x hx
      rw [List.mem_singleton] at hx
      simp [gated_targets, hx, h]
    · exact pall_skip _ _ _
  have gate2 : ∀ im1 s1, PAll (gated_targets p (switches i)) s1
      (if p.polling_mode = POLLING_MODE_PERIODIC_READ_COMPARE_THRESHOLD
          ∨ p.polling_mode = POLLING_MODE_PERIODIC_WAIT_INTERRUPT_COMPARE_THRESHOLD then
        (set_peripheral_i2c_read_register hal dc im1 i (switches i) s1).andThen
        fun peripherals s =>
        (set_peripheral_under_threshold hal dc peripherals i (switches i) s).andThen
        fun peripherals s =>
        set_peripheral_over_threshold hal dc peripherals i (switches i) s
       else some (true, im1, s1)) := by
    intro im1 s1
    split_ifs with h
    · refine pall_andThen (pall_of_pstep
        (set_peripheral_i2c_read_register_step hal dc im1 i _ s1 hp) ?_) fun im2 s2 =>
        pall_andThen (pall_of_pstep
          (set_peripheral_under_threshold_step hal dc im2 i _ s2 hp) ?_) fun im3 s3 =>
        pall_of_pstep (set_peripheral_over_threshold_step hal dc im3 i _ s3 hp) ?_
      · intro x hx
        have hx2 : x = REG_RREGP (switches i) := by
          split_ifs at hx
          · exact List.mem_singleton.mp hx
          · simp at hx
        simp [gated_targets, hx2, h]
      · intro x hx
        simp only [List.mem_cons, List.mem_singleton, List.not_mem_nil, or_false] at hx
        rcases hx with hx | hx <;> simp [gated_targets, hx, h]
      · intro x hx
        simp only [List.mem_cons, List.mem_singleton, List.not_mem_nil, or_false] at hx
        rcases hx with hx | hx <;> simp [gated_targets, hx, h]
    · exact pall_skip _ _ _
  simp only [configure_peripherals_body, hp]
  refine pall_after_pstep (set_peripheral_power_mode_step hal dc images i _ s hp) ?_
    fun im1 l1 =>
    pall_after_pstep (set_peripheral_mode_step hal dc im1 i _ _ hp) ?_ fun im2 l2 =>
    pall_after_pstep (set_peripheral_polling_period_step hal dc im2 i _ _ hp) ?_
    fun im3 l3 =>
    pall_andThen
      (set_peripheral_init_cmds_number_pall hal dc im3 i _ (((s.after l1).after l2).after l3) hp
        (show (((s.after l1).after l2).after l3).m_sram_count + arena_request p ≤ SRAM_SIZE
          from hfit) _ ?_ ?_) fun im4 s4 =>
    pall_andThen (gate1 im4 s4) fun im5 s5 =>
    pall_andThen (gate2 im5 s5) fun im6 s6 =>
    pall_andThen (pall_of_pstep (set_peripheral_time_to_wait_step hal dc im6 i _ s6 hp) ?_)
    fun im7 s7 =>
    pall_of_pstep (set_peripheral_time_to_wait_config_step hal dc im7 i _ s7 hp) ?_
  · intro x hx
    rw [List.mem_singleton] at hx
    simp [gated_targets, hx]
  · intro x hx
    rw [List.mem_singleton] at hx
    simp [gated_targets, hx]
  · intro x hx
    simp only [List.mem_cons, List.mem_singleton, List.not_mem_nil, or_false] at hx
    rcases hx with hx | hx <;> simp [gated_targets, hx]
  · intro x hx
    simp [gated_targets, hx]
  · simp [gated_targets]
  · intro x hx
    rw [List.mem_singleton] at hx
    simp [gated_targets, hx]
  · intro x hx
    rw [List.mem_singleton] at hx
    simp [gated_targets, hx]

theorem switches_of_range (i : Int) (h : 0 ≤ i ∧ i < 4) :
    switches i = PSW_LP1 ∨ switches i = PSW_LP2 ∨ switches i = PSW_LP3
      ∨ switches i = PSW_LP4 := by
  have : i = 0 ∨ i = 1 ∨ i = 2 ∨ i = 3 := by omega
  rcases this with h | h | h | h <;> subst h <;> simp [switches]

/-- Polling-mode gating where the arena does not overflow. For a
configured peripheral whose arena request fits (`m_sram_count + request ≤ 128` on
entry), and for every transport, the peripheral's sequence returns and, among the
transfers it has issued, one to `ADDRP` of the slot occurs only in polling modes 0, 1, 2
and one to `RREGP`, `THRUNP_L/H` or `THROVP_L/H` of the slot only in polling modes 0, 1. -/
theorem gating_without_arena_overflow (hal : Transport) (dc : npz_device_config_s)
    (images : Images) (i : Int) (p : npz_peripheral_config_s) (s : State)
    (hp : dc.peripheral_at i = some p)
    (hfit : s.m_sram_count + arena_request p ≤ SRAM_SIZE) :
    ∃ b im s1 l, configure_peripherals_body hal dc images i s = some (b, im, s1)
      ∧ s1.log = s.log ++ l
      ∧ (REG_ADDRP (switches i) ∈ regs_of l →
          p.polling_mode = POLLING_MODE_PERIODIC_READ_COMPARE_THRESHOLD
          ∨ p.polling_mode = POLLING_MODE_PERIODIC_WAIT_INTERRUPT_COMPARE_THRESHOLD
          ∨ p.polling_mode = POLLING_MODE_PERIODIC_WAIT_INTERRUPT)
      ∧ (∀ x ∈ [REG_RREGP (switches i), REG_THRUNP_L (switches i),
            REG_THRUNP_H (switches i), REG_THROVP_L (switches i), REG_THROVP_H (switches i)],
          x ∈ regs_of l →
          p.polling_mode = POLLING_MODE_PERIODIC_READ_COMPARE_THRESHOLD
          ∨ p.polling_mode = POLLING_MODE_PERIODIC_WAIT_INTERRUPT_COMPARE_THRESHOLD) := by
  obtain ⟨b, im, s1, l, h1, h2, h3⟩ := body_targets_gated hal dc images i p s hp hfit
  refine ⟨b, im, s1, l, h1, h2, ?_, ?_⟩
  · intro hx
    have hg := h3 _ hx
    rcases switches_of_range i (peripheral_at_range dc i hp) with hs | hs | hs | hs <;>
      rw [hs] at hg <;>
      simp [gated_targets, REG_ADDRP, REG_CFGP, REG_MODP, REG_PERP_L, REG_PERP_H, REG_NCMDP,
        REG_TWTP, REG_TCFGP, REG_RREGP, REG_THRUNP_L, REG_THRUNP_H, REG_THROVP_L,
        REG_THROVP_H, psw_switch] at hg <;>
      first
        | exact hg
        | exact hg.resolve_left (by decide)
  · intro x hx hxl
    have hg := h3 _ hxl
    simp only [List.mem_cons, List.mem_singleton, List.not_mem_nil, or_false] at hx
    rcases switches_of_range i (peripheral_at_range dc i hp) with hs | hs | hs | hs <;>
      rw [hs] at hg hx <;>
      rcases hx with hx | hx | hx | hx | hx <;>
      rw [hx] at hg <;>
      simp [gated_targets, REG_ADDRP, REG_CFGP, REG_MODP, REG_PERP_L, REG_PERP_H, REG_NCMDP,
        REG_TWTP, REG_TCFGP, REG_RREGP, REG_THRUNP_L, REG_THRUNP_H, REG_THROVP_L,
        REG_THROVP_H, psw_switch] at hg <;>
      first
        | exact hg
        | exact hg.resolve_left (by decide)

/-! ## The command arena (C1 to C5) -/

/-- C1. Arena scenario of main.c: from the start-up state (cursor 0) and with a transport
that always succeeds, the peripheral pass over slot 3 (SPI, 2 init bytes, 1 read byte) and
slot 4 (I2C, 2 commands) succeeds, writes the SPI init bytes to `0x80`, `0x81`, the SPI
read byte to `0x82`, the four I2C bytes to `0x83..0x86`, in that order, and leaves
`m_sram_count = 7`; the same holds for the whole of `npz_device_configure` once the two
ADC channel objects of main.c are wired in. -/
theorem arena_scenario_main :
    State.init.m_sram_count = 0 ∧
    (peripheral_pass hal_ok npz_configuration State.init).map
        (fun r => (r.1, arena_writes r.2.log, r.2.m_sram_count))
      = some (true, [(0x80, 0x20), (0x81, 0x10), (0x82, 0xA8), (0x83, 0x01), (0x84, 0x82),
          (0x85, 0x02), (0x86, 0xA0)], 7) ∧
    (npz_device_configure hal_ok (some npz_configuration_adc) State.init).map
        (fun s => (arena_writes s.log, s.m_sram_count))
      = some ([(0x80, 0x20), (0x81, 0x10), (0x82, 0xA8), (0x83, 0x01), (0x84, 0x82),
          (0x85, 0x02), (0x86, 0xA0)], 7) := by
  decide

set_option maxRecDepth 100000 in
/-- C2 (evaluation at the failing input). With two SPI peripherals whose byte counts are
exactly the 40 bytes of each source array, `npz_device_configure` started at cursor 0 with
a succeeding transport ends with `m_sram_count = 160`, which is above `SRAM_SIZE`. -/
theorem cursor_exceeds_sram_size :
    spi_cfg_bytes_from_sram_num spi_full = 40 ∧
    spi_cfg_bytes_from_sram_read_num spi_full = 40 ∧
    (npz_device_configure hal_ok (some two_spi_configuration) State.init).map
        (fun s => (s.m_sram_count, decide (s.m_sram_count ≤ SRAM_SIZE)))
      = some (160, false) := by
  decide

set_option maxRecDepth 100000 in
/-- C3 (evaluation at the failing input). With two SPI peripherals of 40 + 40 bytes each,
the arena loop of `set_peripheral_init_cmds_number` reaches cursor 128, where the 8-bit
address `SRAM_START + m_sram_count` is `0x00`: the pass issues the transfer
`(REG_SLEEP_RST, 0xFF)`, and only 128 of its 160 arena bytes land in `0x80..0xFF`. -/
theorem arena_write_hits_sleep_register :
    (npz_device_configure hal_ok (some two_spi_configuration) State.init).map
        (fun s => (decide ((REG_SLEEP_RST, 0xFF) ∈ s.log), (arena_writes s.log).length,
          s.m_sram_count))
      = some (true, 128, 160) := by
  decide

set_option maxRecDepth 100000 in
/-- C4 (evaluation at the failing input). With four I2C peripherals of 20 commands each,
slot 4 requests 40 bytes at cursor 120; the request is not rejected: the pass succeeds,
all 160 arena bytes (value `0x22`) are written and the cursor ends at 160. -/
theorem arena_request_not_rejected :
    i2c_cfg_command_num i2c_full = 20 ∧
    (peripheral_pass hal_ok four_i2c_configuration State.init).map
        (fun r => (r.1, (r.2.log.filter fun w => decide (w.2 = 0x22)).length,
          r.2.m_sram_count))
      = some (true, 160, 160) := by
  decide

/-- C5 (evaluation at the failing input). Two calls of `npz_device_configure` in a row on
the configuration of main.c: the second pass starts at cursor 7, so its first arena byte
goes to `0x87`, and the cursor ends at 14. -/
theorem second_pass_continues_cursor :
    ((npz_device_configure hal_ok (some npz_configuration_adc) State.init).bind
        (npz_device_configure hal_ok (some npz_configuration_adc))).map
        (fun s => (arena_writes s.log, s.m_sram_count))
      = some ([(0x80, 0x20), (0x81, 0x10), (0x82, 0xA8), (0x83, 0x01), (0x84, 0x82),
          (0x85, 0x02), (0x86, 0xA0), (0x87, 0x20), (0x88, 0x10), (0x89, 0xA8), (0x8A, 0x01),
          (0x8B, 0x82), (0x8C, 0x02), (0x8D, 0xA0)], 14) := by
  decide

/-! ## Validation and gating of the orchestrator and the codec (C6 to C10) -/

/-- C6 (as amended). A peripheral whose 16-bit polling period is 0 fails at the
polling-period step, the third of its sequence: `configure_peripherals` returns `false`
for it, the arena cursor and the other statics are unchanged, and the only transfers
issued for it are the two of the earlier steps, to its `CFGP` and then its `MODP`
register (fewer if the transport rejects one); with a succeeding transport both are
issued.  No transfer goes to its polling-period registers or to any later register. -/
theorem zero_polling_period_stops_after_mode (hal : Transport) (dc : npz_device_config_s)
    (images : Images) (i : Int) (p : npz_peripheral_config_s) (s : State)
    (hp : dc.peripheral_at i = some p) (hz : p.polling_period % 65536 = 0) :
    (∃ im l, configure_peripherals_body hal dc images i s = some (false, im, s.after l)
      ∧ regs_of l <+: [REG_CFGP (switches i), REG_MODP (switches i)]) ∧
    (∃ im l, configure_peripherals_body hal_ok dc images i s = some (false, im, s.after l)
      ∧ regs_of l = [REG_CFGP (switches i), REG_MODP (switches i)]) := by
  have key : ∀ hal : Transport, PFail [REG_CFGP (switches i), REG_MODP (switches i)] s
      (configure_peripherals_body hal dc images i s) := by
    intro hal
    simp only [configure_peripherals_body, hp]
    exact pfail_after_step (set_peripheral_power_mode_step hal dc images i _ s hp)
      fun im1 s1 =>
      pfail_after_step (set_peripheral_mode_step hal dc im1 i _ s1 hp) fun im2 s2 =>
      pfail_andThen _
        (pfail_of_eq (set_peripheral_polling_period_zero hal dc im2 i _ s2 hp hz).choose_spec)
  refine ⟨key hal, ?_⟩
  obtain ⟨im1, d1, e1⟩ := set_peripheral_power_mode_ok dc images i (switches i) s hp
  obtain ⟨im2, d2, e2⟩ := set_peripheral_mode_ok dc im1 i (switches i)
    (s.after [(REG_CFGP (switches i), d1)]) hp
  obtain ⟨im3, e3⟩ := set_peripheral_polling_period_zero hal_ok dc im2 i (switches i)
    ((s.after [(REG_CFGP (switches i), d1)]).after [(REG_MODP (switches i), d2)]) hp hz
  refine ⟨im3, [(REG_CFGP (switches i), d1), (REG_MODP (switches i), d2)], ?_, ?_⟩
  · simp only [configure_peripherals_body, hp, e1, e2, e3, PRes.andThen]
    rw [state_after_after]
    rfl
  · simp [regs_of]

/-- C6 (counter-example). Slot 1 holds a peripheral with polling period 0 and the transport
succeeds: the pass fails, but two transfers have been issued for that peripheral, to its
`CFGP` and `MODP` registers. -/
theorem zero_polling_period_two_writes :
    zero_period_peripheral.polling_period = 0 ∧
    (peripheral_pass hal_ok zero_period_configuration State.init).map
        (fun r => (r.1, r.2.log))
      = some (false, [(REG_CFGP1, 0x21), (REG_MODP1, 0x02)]) := by
  decide

/-- C6 (witness). The amended statement at slot 1 of `zero_period_configuration`. -/
theorem zero_polling_period_witness :
    (zero_period_configuration.peripheral_at 0 = some zero_period_peripheral
      ∧ zero_period_peripheral.polling_period % 65536 = 0) ∧
    ((∃ im l, configure_peripherals_body hal_ok zero_period_configuration Images.zero 0
          State.init = some (false, im, State.init.after l)
        ∧ regs_of l <+: [REG_CFGP (switches 0), REG_MODP (switches 0)]) ∧
     (∃ im l, configure_peripherals_body hal_ok zero_period_configuration Images.zero 0
          State.init = some (false, im, State.init.after l)
        ∧ regs_of l = [REG_CFGP (switches 0), REG_MODP (switches 0)])) :=
  ⟨⟨rfl, rfl⟩,
   zero_polling_period_stops_after_mode hal_ok zero_period_configuration Images.zero 0
     zero_period_peripheral State.init rfl rfl⟩

set_option maxRecDepth 100000 in
/-- C7 (evaluation at the failing input). Slots 1 and 2 hold SPI peripherals of 40 + 40
arena bytes, both in polling mode `POLLING_MODE_ASYNC_WAIT_INTERRUPT`. The arena loop of
slot 2 runs past cursor 128 and its 8-bit addresses wrap, so the pass issues transfers to
`ADDRP`, `RREGP`, `THRUNP_L/H` and `THROVP_L/H` of slot 1 although the polling mode of
slot 1 is 3. -/
theorem gated_registers_hit_by_arena_write :
    spi_full.polling_mode = POLLING_MODE_ASYNC_WAIT_INTERRUPT ∧
    (peripheral_pass hal_ok two_spi_configuration State.init).map
        (fun r => [REG_ADDRP1, REG_RREGP1, REG_THRUNP1_L, REG_THRUNP1_H, REG_THROVP1_L,
          REG_THROVP1_H].map fun a => decide (a ∈ regs_of r.2.log))
      = some [true, true, true, true, true, true] := by
  decide

/-- C8 (as amended). For a configured peripheral in polling mode
`POLLING_MODE_PERIODIC_READ_COMPARE_THRESHOLD` with a non-zero polling period, valid
wait-time selectors and a succeeding transport, the peripheral's sequence succeeds and
its transfers go, in order, to `CFGP`, `MODP`, `PERP_L`, `PERP_H`, the arena bytes,
`NCMDP`, `ADDRP`, then `RREGP` only when the protocol is `COM_I2C`, then `THRUNP_L`,
`THRUNP_H`, `THROVP_L`, `THROVP_H`, `TWTP`, `TCFGP`: the address register and the four
threshold bytes are written for either protocol, the read-register for I2C only. -/
theorem periodic_read_compare_writes (dc : npz_device_config_s) (images : Images) (i : Int)
    (p : npz_peripheral_config_s) (s : State)
    (hp : dc.peripheral_at i = some p)
    (hmode : p.polling_mode = POLLING_MODE_PERIODIC_READ_COMPARE_THRESHOLD)
    (hper : p.polling_period % 65536 ≠ 0)
    (hpre : p.pre_wait_time = PRE_WAIT_TIME_DISABLED
      ∨ p.pre_wait_time = PRE_WAIT_TIME_EXTEND_256
      ∨ p.pre_wait_time = PRE_WAIT_TIME_EXTEND_4096)
    (hpost : p.post_wait_time = POST_WAIT_TIME_DISABLED
      ∨ p.post_wait_time = POST_WAIT_TIME_EXTEND_256
      ∨ p.post_wait_time = POST_WAIT_TIME_EXTEND_4096) :
    ∃ im s1 l a, configure_peripherals_body hal_ok dc images i s = some (true, im, s1)
      ∧ s1.log = s.log ++ l
      ∧ regs_of l =
        [REG_CFGP (switches i), REG_MODP (switches i), REG_PERP_L (switches i),
          REG_PERP_H (switches i)] ++ a
        ++ [REG_NCMDP (switches i), REG_ADDRP (switches i)]
        ++ (if p.communication_protocol = COM_I2C then [REG_RREGP (switches i)] else [])
        ++ [REG_THRUNP_L (switches i), REG_THRUNP_H (switches i), REG_THROVP_L (switches i),
          REG_THROVP_H (switches i), REG_TWTP (switches i), REG_TCFGP (switches i)] := by
  have tail : ∀ im1 s1, PDone _ s1 _ := fun im1 s1 =>
    pdone_andThen (set_peripheral_address_done dc im1 i (switches i) s1 hp) fun im2 s2 =>
    pdone_andThen
      (pdone_andThen (set_peripheral_i2c_read_register_done dc im2 i (switches i) s2 hp)
        fun im3 s3 =>
        pdone_andThen (set_peripheral_under_threshold_done dc im3 i (switches i) s3 hp)
        fun im4 s4 => set_peripheral_over_threshold_done dc im4 i (switches i) s4 hp)
    fun im5 s5 =>
    pdone_andThen (set_peripheral_time_to_wait_done dc im5 i (switches i) s5 hp)
    fun im6 s6 =>
    set_peripheral_time_to_wait_config_done dc im6 i (switches i) s6 hp hpre hpost
  have all := pdone_andThen_ex (set_peripheral_power_mode_done dc images i (switches i) s hp)
    fun im1 s1 =>
    pdone_andThen_ex (set_peripheral_mode_done dc im1 i (switches i) s1 hp) fun im2 s2 =>
    pdone_andThen_ex (set_peripheral_polling_period_done dc im2 i (switches i) s2 hp hper)
    fun im3 s3 =>
    pdone_ex_andThen (set_peripheral_init_cmds_number_done dc im3 i (switches i) s3 hp)
      (tail · ·)
  obtain ⟨a, im, s1, l, h1, h2, h3⟩ := all
  refine ⟨im, s1, l, a, ?_, h2, ?_⟩
  · rw [← h1]
    simp only [configure_peripherals_body, hp, hmode, true_or, if_true]
  · rw [h3]
    simp only [List.append_assoc, List.cons_append, List.nil_append]

/-- C8 (counter-example). The SPI peripheral of main.c (slot 3) is in polling mode
`POLLING_MODE_PERIODIC_READ_COMPARE_THRESHOLD`, all its fields are valid and the transport
succeeds, yet no transfer of the pass goes to its read-register `REG_RREGP3`. -/
theorem spi_read_register_not_written :
    peripheral_3.polling_mode = POLLING_MODE_PERIODIC_READ_COMPARE_THRESHOLD ∧
    peripheral_3.communication_protocol = COM_SPI ∧
    (peripheral_pass hal_ok npz_configuration State.init).map
        (fun r => (r.1, decide (REG_RREGP3 ∈ regs_of r.2.log)))
      = some (true, false) := by
  decide

/-- C8 (witness). The amended statement at slot 3 of the configuration of main.c. -/
theorem periodic_read_compare_witness :
    (npz_configuration.peripheral_at 2 = some peripheral_3
      ∧ peripheral_3.polling_mode = POLLING_MODE_PERIODIC_READ_COMPARE_THRESHOLD
      ∧ peripheral_3.polling_period % 65536 ≠ 0
      ∧ (peripheral_3.pre_wait_time = PRE_WAIT_TIME_DISABLED
        ∨ peripheral_3.pre_wait_time = PRE_WAIT_TIME_EXTEND_256
        ∨ peripheral_3.pre_wait_time = PRE_WAIT_TIME_EXTEND_4096)
      ∧ (peripheral_3.post_wait_time = POST_WAIT_TIME_DISABLED
        ∨ peripheral_3.post_wait_time = POST_WAIT_TIME_EXTEND_256
        ∨ peripheral_3.post_wait_time = POST_WAIT_TIME_EXTEND_4096)) ∧
    ∃ im s1 l a, configure_peripherals_body hal_ok npz_configuration Images.zero 2 State.init
        = some (true, im, s1)
      ∧ s1.log = State.init.log ++ l
      ∧ regs_of l =
        [REG_CFGP (switches 2), REG_MODP (switches 2), REG_PERP_L (switches 2),
          REG_PERP_H (switches 2)] ++ a
        ++ [REG_NCMDP (switches 2), REG_ADDRP (switches 2)]
        ++ (if peripheral_3.communication_protocol = COM_I2C then [REG_RREGP (switches 2)]
            else [])
        ++ [REG_THRUNP_L (switches 2), REG_THRUNP_H (switches 2), REG_THROVP_L (switches 2),
          REG_THROVP_H (switches 2), REG_TWTP (switches 2), REG_TCFGP (switches 2)] :=
  ⟨⟨rfl, rfl, by decide, by decide, by decide⟩,
   periodic_read_compare_writes npz_configuration Images.zero 2 peripheral_3 State.init rfl
     rfl (by decide) (by decide) (by decide)⟩

/-- C9 (as amended). For a slot argument outside `PSW_LP1..PSW_LP4` no writer rejects the
slot: the `switch` leaves the address byte at its zero initialiser, so every
slot-dependent writer sends its transfer(s) to register `0x00` (`REG_SLEEP_RST`) and
returns the status of the transport; only `npz_write_PERP` with a zero period returns
`INVALID_PARAM` without a transfer. -/
theorem unmapped_slot_targets_register_zero (hal : Transport) (sw : Nat) (s : State)
    (hsw : ¬ (sw = PSW_LP1 ∨ sw = PSW_LP2 ∨ sw = PSW_LP3 ∨ sw = PSW_LP4)) :
    (∀ cfgp, ∃ d, npz_write_CFGP hal sw cfgp s = npz_hal_write hal REG_SLEEP_RST d s) ∧
    (∀ modp, ∃ d, npz_write_MODP hal sw modp s = npz_hal_write hal REG_SLEEP_RST d s) ∧
    (∀ perp, npz_write_PERP hal sw perp s =
      if perp.perp_l % 256 = 0 ∧ perp.perp_h % 256 = 0 then (INVALID_PARAM, s)
      else two_byte_write hal REG_SLEEP_RST REG_SLEEP_RST 0 perp.perp_h s) ∧
    (∀ ncmdp, ∃ d, npz_write_NCMDP hal sw ncmdp s = npz_hal_write hal REG_SLEEP_RST d s) ∧
    (∀ addrp, ∃ d, npz_write_ADDRP hal sw addrp s = npz_hal_write hal REG_SLEEP_RST d s) ∧
    (∀ rregp, npz_write_RREGP hal sw rregp s
      = npz_hal_write hal REG_SLEEP_RST rregp.rregp s) ∧
    (∀ throvp, npz_write_THROVP hal sw throvp s
      = two_byte_write hal REG_SLEEP_RST REG_SLEEP_RST throvp.throvp_l throvp.throvp_h s) ∧
    (∀ thrunp, npz_write_THRUNP hal sw thrunp s
      = two_byte_write hal REG_SLEEP_RST REG_SLEEP_RST thrunp.thrunp_l thrunp.thrunp_h s) ∧
    (∀ twtp, npz_write_TWTP hal sw twtp s = npz_hal_write hal REG_SLEEP_RST twtp.twtp s) ∧
    (∀ tcfgp, ∃ d, npz_write_TCFGP hal sw tcfgp s = npz_hal_write hal REG_SLEEP_RST d s) := by
  have hu := psw_switch_unmapped sw
  have hsw2 := hsw
  simp only [not_or] at hsw2
  obtain ⟨h1, h2, h3, h4⟩ := hsw2
  refine ⟨?_, ?_, ?_, ?_, ?_, ?_, ?_, ?_, ?_, ?_⟩
  · intro cfgp
    exact ⟨_, by simp only [npz_write_CFGP, REG_CFGP, hu _ _ _ _ hsw]; rfl⟩
  · intro modp
    exact ⟨_, by simp only [npz_write_MODP, REG_MODP, hu _ _ _ _ hsw]; rfl⟩
  · intro perp
    simp only [npz_write_PERP, REG_PERP_L, REG_PERP_H, hu _ _ _ _ hsw, two_byte_write,
      h1, h2, h3, h4, or_self, if_false]
  · intro ncmdp
    exact ⟨_, by simp only [npz_write_NCMDP, REG_NCMDP, hu _ _ _ _ hsw]; rfl⟩
  · intro addrp
    exact ⟨_, by simp only [npz_write_ADDRP, REG_ADDRP, hu _ _ _ _ hsw]; rfl⟩
  · intro rregp
    simp only [npz_write_RREGP, REG_RREGP, hu _ _ _ _ hsw]
  · intro throvp
    simp only [npz_write_THROVP, REG_THROVP_L, REG_THROVP_H, hu _ _ _ _ hsw, two_byte_write]
  · intro thrunp
    simp only [npz_write_THRUNP, REG_THRUNP_L, REG_THRUNP_H, hu _ _ _ _ hsw, two_byte_write]
  · intro twtp
    simp only [npz_write_TWTP, REG_TWTP, hu _ _ _ _ hsw]
  · intro tcfgp
    exact ⟨_, by simp only [npz_write_TCFGP, REG_TCFGP, hu _ _ _ _ hsw]; rfl⟩

/-- C9 (counter-example). With the unmapped slot value 5 and a succeeding transport,
`npz_write_CFGP` returns `OK` and has issued the transfer `(0x00, 0xFF)`: the slot is not
rejected and the sleep/reset register is written. -/
theorem unmapped_slot_not_rejected :
    (npz_write_CFGP hal_ok 5 { pwmod := 3, tmod := 3, pswmod := 3, intmod := 3 } State.init).1
      = OK ∧
    (npz_write_CFGP hal_ok 5 { pwmod := 3, tmod := 3, pswmod := 3, intmod := 3 }
      State.init).2.log = [(REG_SLEEP_RST, 0xFF)] := by
  decide

/-- C9 (witness). The amended statement at slot value 5, for the threshold writer. -/
theorem unmapped_slot_witness :
    ¬ ((5 : Nat) = PSW_LP1 ∨ (5 : Nat) = PSW_LP2 ∨ (5 : Nat) = PSW_LP3 ∨ (5 : Nat) = PSW_LP4) ∧
    npz_write_THROVP hal_ok 5 { throvp_l := 1, throvp_h := 2 } State.init
      = two_byte_write hal_ok REG_SLEEP_RST REG_SLEEP_RST 1 2 State.init :=
  ⟨by decide,
   (unmapped_slot_targets_register_zero hal_ok 5 State.init (by decide)).2.2.2.2.2.2.1
     { throvp_l := 1, throvp_h := 2 }⟩

/-- C10 (as amended). Validation of the global group is interleaved with its writes. With
both ADC channels present, an invalid global field stops `npz_device_configure` at the
step that owns the field: no transfer is issued for that step or anything after it, and
the only transfers issued are to registers of the earlier steps, in the order
`TOUT_L, TOUT_H, SYSCFG1, SYSCFG2, SYSCFG3, PSWCTL`.  A zero global timeout issues no
transfer at all; an unmapped clock divider or ADC clock selector comes after `TOUT_L`,
`TOUT_H`, `SYSCFG1`; an invalid host power mode after these and `SYSCFG2`, `SYSCFG3`; an
invalid interrupt-pin policy after these and `PSWCTL`. -/
theorem invalid_global_field_stops_pass (hal : Transport) (dc : npz_device_config_s)
    (s : State) (adc0 adc1 : npz_adc_config_channels_s)
    (h0 : dc.adc_channel_at 0 = some adc0) (h1 : dc.adc_channel_at 1 = some adc1) :
    (dc.global_timeout % 65536 = 0 → npz_device_configure hal (some dc) s = some s) ∧
    ((¬ (dc.system_clock_divider = SCLK_DIV_DISABLE ∨ dc.system_clock_divider = SCLK_DIV_2
          ∨ dc.system_clock_divider = SCLK_DIV_4 ∨ dc.system_clock_divider = SCLK_DIV_8
          ∨ dc.system_clock_divider = SCLK_DIV_16)
        ∨ ¬ (dc.adc_clock_sel = ADC_CLK_SC ∨ dc.adc_clock_sel = ADC_CLK_64
          ∨ dc.adc_clock_sel = ADC_CLK_256 ∨ dc.adc_clock_sel = ADC_CLK_1024)) →
      ∃ l, npz_device_configure hal (some dc) s = some (s.after l)
        ∧ regs_of l <+: [REG_TOUT_L, REG_TOUT_H, REG_SYSCFG1]) ∧
    (¬ (dc.host_power_mode = HOST_POWER_MODE_SWITCH
        ∨ dc.host_power_mode = HOST_POWER_MODE_LOGIC_OUTPUT
        ∨ dc.host_power_mode = HOST_POWER_MODE_LOGIC_OUTPUT_INV) →
      ∃ l, npz_device_configure hal (some dc) s = some (s.after l)
        ∧ regs_of l <+: [REG_TOUT_L, REG_TOUT_H, REG_SYSCFG1, REG_SYSCFG2, REG_SYSCFG3]) ∧
    ((¬ (dc.interrupt_pin_pull_up_pin1 = INT_PIN_PULL_DISABLED
          ∨ dc.interrupt_pin_pull_up_pin1 = INT_PIN_PULL_LOW
          ∨ dc.interrupt_pin_pull_up_pin1 = INT_PIN_PULL_HIGH)
        ∨ ¬ (dc.interrupt_pin_pull_up_pin2 = INT_PIN_PULL_DISABLED
          ∨ dc.interrupt_pin_pull_up_pin2 = INT_PIN_PULL_LOW
          ∨ dc.interrupt_pin_pull_up_pin2 = INT_PIN_PULL_HIGH)
        ∨ ¬ (dc.interrupt_pin_pull_up_pin3 = INT_PIN_PULL_DISABLED
          ∨ dc.interrupt_pin_pull_up_pin3 = INT_PIN_PULL_LOW
          ∨ dc.interrupt_pin_pull_up_pin3 = INT_PIN_PULL_HIGH)
        ∨ ¬ (dc.interrupt_pin_pull_up_pin4 = INT_PIN_PULL_DISABLED
          ∨ dc.interrupt_pin_pull_up_pin4 = INT_PIN_PULL_LOW
          ∨ dc.interrupt_pin_pull_up_pin4 = INT_PIN_PULL_HIGH)) →
      ∃ l, npz_device_configure hal (some dc) s = some (s.after l)
        ∧ regs_of l <+: [REG_TOUT_L, REG_TOUT_H, REG_SYSCFG1, REG_SYSCFG2, REG_SYSCFG3,
            REG_PSWCTL]) := by
  have conclude : ∀ R, GFail R s (configure_global_settings hal dc s) →
      ∃ l, npz_device_configure hal (some dc) s = some (s.after l) ∧ regs_of l <+: R := by
    intro R hf
    obtain ⟨l, hr, hp⟩ := hf
    exact ⟨l, npz_device_configure_global_fail hal dc s _ hr, hp⟩
  refine ⟨?_, ?_, ?_, ?_⟩
  · intro hz
    apply npz_device_configure_global_fail
    simp [configure_global_settings, set_global_timeout_zero hal dc s hz, GRes.andThen]
  · intro hinv
    apply conclude
    have h2 : ∀ s2, set_system_config2 hal dc s2 = some (false, s2) := fun s2 =>
      set_system_config2_invalid hal dc s2
        (hinv.imp (sclk_div_switch_none _) (adc_clk_switch_none _))
    exact gfail_after_step (set_global_timeout_step hal dc s) fun s1 =>
      gfail_after_step (set_system_config1_step hal dc s1 h0 h1) fun s2 =>
      gfail_andThen _ (gfail_of_eq (h2 s2))
  · intro hinv
    apply conclude
    exact gfail_after_step (set_global_timeout_step hal dc s) fun s1 =>
      gfail_after_step (set_system_config1_step hal dc s1 h0 h1) fun s2 =>
      gfail_after_step (set_system_config2_step hal dc s2) fun s3 =>
      gfail_after_step (set_system_config3_step hal dc s3) fun s4 =>
      gfail_andThen _ (gfail_of_eq (set_power_switch_control_invalid hal dc s4 hinv))
  · intro hinv
    apply conclude
    have h6 : ∀ s6, set_interrupt_pin_config hal dc s6 = some (false, s6) := fun s6 =>
      set_interrupt_pin_config_invalid hal dc s6
        (hinv.imp (int_pin_switch_none _) fun h => h.imp (int_pin_switch_none _) fun h =>
          h.imp (int_pin_switch_none _) (int_pin_switch_none _))
    exact gfail_after_step (set_global_timeout_step hal dc s) fun s1 =>
      gfail_after_step (set_system_config1_step hal dc s1 h0 h1) fun s2 =>
      gfail_after_step (set_system_config2_step hal dc s2) fun s3 =>
      gfail_after_step (set_system_config3_step hal dc s3) fun s4 =>
      gfail_after_step (set_power_switch_control_step hal dc s4) fun s5 =>
      gfail_andThen _ (gfail_of_eq (h6 s5))

/-- C10 (counter-example). The configuration of main.c with the invalid host power mode 0
and a succeeding transport: `npz_device_configure` has issued five transfers of the
global group (`TOUT_L`, `TOUT_H`, `SYSCFG1`, `SYSCFG2`, `SYSCFG3`) before the mode is
rejected. -/
theorem invalid_host_mode_after_five_writes :
    ¬ (invalid_host_mode_configuration.host_power_mode = HOST_POWER_MODE_SWITCH
      ∨ invalid_host_mode_configuration.host_power_mode = HOST_POWER_MODE_LOGIC_OUTPUT
      ∨ invalid_host_mode_configuration.host_power_mode = HOST_POWER_MODE_LOGIC_OUTPUT_INV) ∧
    (npz_device_configure hal_ok (some invalid_host_mode_configuration) State.init).map
        (fun s => s.log)
      = some [(REG_TOUT_L, 0xB8), (REG_TOUT_H, 0x0B), (REG_SYSCFG1, 0x0C), (REG_SYSCFG2, 0x40),
          (REG_SYSCFG3, 0x06)] := by
  decide

/-- C10 (witness). The amended statement at the configuration of main.c with, in turn, a
zero global timeout, the unmapped clock divider 2, the host power mode 0 and the
interrupt-pin policy 2 on pin 3. -/
theorem invalid_global_field_witness :
    (invalid_host_mode_configuration.adc_channel_at 0 = some npz_adc_internal_config
      ∧ invalid_host_mode_configuration.adc_channel_at 1 = some npz_adc_external_config
      ∧ ¬ (invalid_host_mode_configuration.host_power_mode = HOST_POWER_MODE_SWITCH
        ∨ invalid_host_mode_configuration.host_power_mode = HOST_POWER_MODE_LOGIC_OUTPUT
        ∨ invalid_host_mode_configuration.host_power_mode
            = HOST_POWER_MODE_LOGIC_OUTPUT_INV)) ∧
    (∃ l, npz_device_configure hal_ok (some invalid_host_mode_configuration) State.init
          = some (State.init.after l)
        ∧ regs_of l <+: [REG_TOUT_L, REG_TOUT_H, REG_SYSCFG1, REG_SYSCFG2, REG_SYSCFG3]) ∧
    npz_device_configure hal_ok (some { npz_configuration_adc with global_timeout := 0 })
        State.init = some State.init ∧
    (∃ l, npz_device_configure hal_ok
          (some { npz_configuration_adc with system_clock_divider := 2 }) State.init
          = some (State.init.after l)
        ∧ regs_of l <+: [REG_TOUT_L, REG_TOUT_H, REG_SYSCFG1]) ∧
    (∃ l, npz_device_configure hal_ok
          (some { npz_configuration_adc with interrupt_pin_pull_up_pin3 := 2 }) State.init
          = some (State.init.after l)
        ∧ regs_of l <+: [REG_TOUT_L, REG_TOUT_H, REG_SYSCFG1, REG_SYSCFG2, REG_SYSCFG3,
            REG_PSWCTL]) :=
  ⟨⟨rfl, rfl, by decide⟩,
   (invalid_global_field_stops_pass hal_ok invalid_host_mode_configuration State.init
      npz_adc_internal_config npz_adc_external_config rfl rfl).2.2.1 (by decide),
   (invalid_global_field_stops_pass hal_ok { npz_configuration_adc with global_timeout := 0 }
      State.init npz_adc_internal_config npz_adc_external_config rfl rfl).1 (by decide),
   (invalid_global_field_stops_pass hal_ok
      { npz_configuration_adc with system_clock_divider := 2 }
      State.init npz_adc_internal_config npz_adc_external_config rfl rfl).2.1
      (Or.inl (by decide)),
   (invalid_global_field_stops_pass hal_ok
      { npz_configuration_adc with interrupt_pin_pull_up_pin3 := 2 }
      State.init npz_adc_internal_config npz_adc_external_config rfl rfl).2.2.2
      (Or.inr (Or.inr (Or.inl (by decide))))⟩

/-! ## The codec: bit packing, overlays and two-byte writers -/

theorem or_shift_eq_add (x y k : Nat) (h : x < 2 ^ k) : x ||| (y <<< k) = x + 2 ^ k * y := by
  rw [Nat.shiftLeft_eq, Nat.lor_comm, Nat.mul_comm, ← Nat.mul_add_lt_is_or h, Nat.add_comm]

theorem pack_intcfg (a b c d e f g h : Nat) :
    (a % 2) ||| ((b % 2) <<< 1) ||| ((c % 2) <<< 2) ||| ((d % 2) <<< 3) ||| ((e % 2) <<< 4)
      ||| ((f % 2) <<< 5) ||| ((g % 2) <<< 6) ||| ((h % 2) <<< 7)
    = a % 2 + 2 * (b % 2) + 4 * (c % 2) + 8 * (d % 2) + 16 * (e % 2) + 32 * (f % 2)
      + 64 * (g % 2) + 128 * (h % 2) := by
  rw [or_shift_eq_add _ _ 1 (by omega), or_shift_eq_add _ _ 2 (by omega),
    or_shift_eq_add _ _ 3 (by omega), or_shift_eq_add _ _ 4 (by omega),
    or_shift_eq_add _ _ 5 (by omega), or_shift_eq_add _ _ 6 (by omega),
    or_shift_eq_add _ _ 7 (by omega)]
  omega

theorem pack_pswctl (a b c d e f : Nat) :
    (a % 2) ||| ((b % 2) <<< 1) ||| ((c % 2) <<< 2) ||| ((d % 2) <<< 3) ||| ((e % 4) <<< 4)
      ||| ((f % 2) <<< 6)
    = a % 2 + 2 * (b % 2) + 4 * (c % 2) + 8 * (d % 2) + 16 * (e % 4) + 64 * (f % 2) := by
  rw [or_shift_eq_add _ _ 1 (by omega), or_shift_eq_add _ _ 2 (by omega),
    or_shift_eq_add _ _ 3 (by omega), or_shift_eq_add _ _ 4 (by omega),
    or_shift_eq_add _ _ 6 (by omega)]
  omega

theorem pack_syscfg1 (a b c d e f g : Nat) :
    (a % 2) ||| ((b % 2) <<< 1) ||| ((c % 2) <<< 2) ||| ((d % 2) <<< 3) ||| ((e % 2) <<< 4)
      ||| ((f % 2) <<< 5) ||| ((g % 2) <<< 6)
    = a % 2 + 2 * (b % 2) + 4 * (c % 2) + 8 * (d % 2) + 16 * (e % 2) + 32 * (f % 2)
      + 64 * (g % 2) := by
  rw [or_shift_eq_add _ _ 1 (by omega), or_shift_eq_add _ _ 2 (by omega),
    or_shift_eq_add _ _ 3 (by omega), or_shift_eq_add _ _ 4 (by omega),
    or_shift_eq_add _ _ 5 (by omega), or_shift_eq_add _ _ 6 (by omega)]
  omega

theorem pack_syscfg2 (a b c d e : Nat) :
    (a % 2) ||| ((b % 4) <<< 1) ||| ((c % 2) <<< 3) ||| ((d % 2) <<< 4) ||| ((e % 4) <<< 5)
    = a % 2 + 2 * (b % 4) + 8 * (c % 2) + 16 * (d % 2) + 32 * (e % 4) := by
  rw [or_shift_eq_add _ _ 1 (by omega), or_shift_eq_add _ _ 3 (by omega),
    or_shift_eq_add _ _ 4 (by omega), or_shift_eq_add _ _ 5 (by omega)]
  omega

theorem pack_syscfg3 (a b c d e f : Nat) :
    (a % 2) ||| ((b % 2) <<< 1) ||| ((c % 2) <<< 2) ||| ((d % 2) <<< 3) ||| ((e % 8) <<< 4)
      ||| ((f % 2) <<< 7)
    = a % 2 + 2 * (b % 2) + 4 * (c % 2) + 8 * (d % 2) + 16 * (e % 8) + 128 * (f % 2) := by
  rw [or_shift_eq_add _ _ 1 (by omega), or_shift_eq_add _ _ 2 (by omega),
    or_shift_eq_add _ _ 3 (by omega), or_shift_eq_add _ _ 4 (by omega),
    or_shift_eq_add _ _ 7 (by omega)]
  omega

theorem pack_cfgp (a b c d : Nat) :
    (a % 4) ||| ((b % 4) <<< 2) ||| ((c % 4) <<< 4) ||| ((d % 4) <<< 6)
    = a % 4 + 4 * (b % 4) + 16 * (c % 4) + 64 * (d % 4) := by
  rw [or_shift_eq_add _ _ 2 (by omega), or_shift_eq_add _ _ 4 (by omega),
    or_shift_eq_add _ _ 6 (by omega)]
  omega

theorem pack_modp (a b c d e f : Nat) :
    (a % 2) ||| ((b % 4) <<< 1) ||| ((c % 2) <<< 3) ||| ((d % 2) <<< 4) ||| ((e % 2) <<< 5)
      ||| ((f % 4) <<< 6)
    = a % 2 + 2 * (b % 4) + 8 * (c % 2) + 16 * (d % 2) + 32 * (e % 2) + 64 * (f % 4) := by
  rw [or_shift_eq_add _ _ 1 (by omega), or_shift_eq_add _ _ 3 (by omega),
    or_shift_eq_add _ _ 4 (by omega), or_shift_eq_add _ _ 5 (by omega),
    or_shift_eq_add _ _ 6 (by omega)]
  omega

theorem pack_addrp (a b : Nat) :
    (a % 128) ||| ((b % 2) <<< 7) = a % 128 + 128 * (b % 2) := by
  rw [or_shift_eq_add _ _ 7 (by omega)]
  omega

theorem pack_tcfgp (a b c d e : Nat) :
    (a % 2) ||| ((b % 2) <<< 1) ||| ((c % 2) <<< 2) ||| ((d % 2) <<< 3) ||| ((e % 4) <<< 4)
    = a % 2 + 2 * (b % 2) + 4 * (c % 2) + 8 * (d % 2) + 16 * (e % 4) := by
  rw [or_shift_eq_add _ _ 1 (by omega), or_shift_eq_add _ _ 2 (by omega),
    or_shift_eq_add _ _ 3 (by omega), or_shift_eq_add _ _ 4 (by omega)]
  omega

theorem overlay_pswctl_pack (v : npz_register_pswctl_s) (h : v.fits) :
    overlay_pswctl (((v.pswint_p1 % 2) ||| ((v.pswint_p2 % 2) <<< 1) |||
      ((v.pswint_p3 % 2) <<< 2) ||| ((v.pswint_p4 % 2) <<< 3) ||| ((v.pswh_mode % 4) <<< 4) |||
      ((v.psw_en_vn % 2) <<< 6)) % 256 % 256) = { v with psw_vn_on := 0 } := by
  obtain ⟨a, b, c, d, e, f, g⟩ := v
  simp only [npz_register_pswctl_s.fits] at h
  obtain ⟨h1, h2, h3, h4, h5, h6, h7⟩ := h
  simp only [pack_pswctl]
  simp only [Nat.mod_eq_of_lt h1, Nat.mod_eq_of_lt h2, Nat.mod_eq_of_lt h3, Nat.mod_eq_of_lt h4,
    Nat.mod_eq_of_lt h5, Nat.mod_eq_of_lt h6]
  rw [Nat.mod_mod, Nat.mod_eq_of_lt (by omega)]
  simp only [overlay_pswctl, npz_register_pswctl_s.mk.injEq]
  refine ⟨?_, ?_, ?_, ?_, ?_, ?_, ?_⟩ <;> omega

theorem overlay_syscfg1_pack (v : npz_register_syscfg1_s) (h : v.fits) :
    overlay_syscfg1 (((v.wup1 % 2) ||| ((v.wup2 % 2) <<< 1) ||| ((v.wup3 % 2) <<< 2) |||
      ((v.wup4 % 2) <<< 3) ||| ((v.adc_int_wakeup_enable % 2) <<< 4) |||
      ((v.adc_ext_wakeup_enable % 2) <<< 5) ||| ((v.wake_up_any_or_all % 2) <<< 6)) % 256 % 256)
      = { v with padding := 0 } := by
  obtain ⟨a, b, c, d, e, f, g, i⟩ := v
  simp only [npz_register_syscfg1_s.fits] at h
  obtain ⟨h1, h2, h3, h4, h5, h6, h7, h8⟩ := h
  simp only [pack_syscfg1]
  simp only [Nat.mod_eq_of_lt h1, Nat.mod_eq_of_lt h2, Nat.mod_eq_of_lt h3, Nat.mod_eq_of_lt h4,
    Nat.mod_eq_of_lt h5, Nat.mod_eq_of_lt h6, Nat.mod_eq_of_lt h7]
  rw [Nat.mod_mod, Nat.mod_eq_of_lt (by omega)]
  simp only [overlay_syscfg1, npz_register_syscfg1_s.mk.injEq]
  refine ⟨?_, ?_, ?_, ?_, ?_, ?_, ?_, ?_⟩ <;> omega

theorem overlay_syscfg2_pack (v : npz_register_syscfg2_s) (h : v.fits) :
    overlay_syscfg2 (((v.sclk_div_en % 2) ||| ((v.sclk_div_sel % 4) <<< 1) |||
      ((v.sclk_sel % 2) <<< 3) ||| ((v.adc_ext_on % 2) <<< 4) ||| ((v.adc_clk_sel % 4) <<< 5)) %
      256 % 256) = { v with padding := 0 } := by
  obtain ⟨a, b, c, d, e, f⟩ := v
  simp only [npz_register_syscfg2_s.fits] at h
  obtain ⟨h1, h2, h3, h4, h5, h6⟩ := h
  simp only [pack_syscfg2]
  simp only [Nat.mod_eq_of_lt h1, Nat.mod_eq_of_lt h2, Nat.mod_eq_of_lt h3, Nat.mod_eq_of_lt h4,
    Nat.mod_eq_of_lt h5]
  rw [Nat.mod_mod, Nat.mod_eq_of_lt (by omega)]
  simp only [overlay_syscfg2, npz_register_syscfg2_s.mk.injEq]
  refine ⟨?_, ?_, ?_, ?_, ?_, ?_⟩ <;> omega

theorem overlay_syscfg3_pack (v : npz_register_syscfg3_s) (h : v.fits) :
    overlay_syscfg3 (((v.io_str % 2) ||| ((v.i2c_pup_en % 2) <<< 1) |||
      ((v.i2c_pup_auto % 2) <<< 2) ||| ((v.spi_auto % 2) <<< 3) |||
      ((v.xo_clkout_div % 8) <<< 4) ||| ((v.sclk_sel_status % 2) <<< 7)) % 256 % 256) = v := by
  obtain ⟨a, b, c, d, e, f⟩ := v
  simp only [npz_register_syscfg3_s.fits] at h
  obtain ⟨h1, h2, h3, h4, h5, h6⟩ := h
  simp only [pack_syscfg3]
  simp only [Nat.mod_eq_of_lt h1, Nat.mod_eq_of_lt h2, Nat.mod_eq_of_lt h3, Nat.mod_eq_of_lt h4,
    Nat.mod_eq_of_lt h5, Nat.mod_eq_of_lt h6]
  rw [Nat.mod_mod, Nat.mod_eq_of_lt (by omega)]
  simp only [overlay_syscfg3, npz_register_syscfg3_s.mk.injEq]
  refine ⟨?_, ?_, ?_, ?_, ?_, ?_⟩ <;> omega

theorem overlay_intcfg_pack (v : npz_register_intcfg_s) (h : v.fits) :
    overlay_intcfg (((v.pu_int1 % 2) ||| ((v.pu_s_int1 % 2) <<< 1) ||| ((v.pu_int2 % 2) <<< 2)
      ||| ((v.pu_s_int2 % 2) <<< 3) ||| ((v.pu_int3 % 2) <<< 4) ||| ((v.pu_s_int3 % 2) <<< 5)
      ||| ((v.pu_int4 % 2) <<< 6) ||| ((v.pu_s_int4 % 2) <<< 7)) % 256 % 256) = v := by
  obtain ⟨a, b, c, d, e, f, g, i⟩ := v
  simp only [npz_register_intcfg_s.fits] at h
  obtain ⟨h1, h2, h3, h4, h5, h6, h7, h8⟩ := h
  simp only [pack_intcfg]
  simp only [Nat.mod_eq_of_lt h1, Nat.mod_eq_of_lt h2, Nat.mod_eq_of_lt h3, Nat.mod_eq_of_lt h4,
    Nat.mod_eq_of_lt h5, Nat.mod_eq_of_lt h6, Nat.mod_eq_of_lt h7, Nat.mod_eq_of_lt h8]
  rw [Nat.mod_mod, Nat.mod_eq_of_lt (by omega)]
  simp only [overlay_intcfg, npz_register_intcfg_s.mk.injEq]
  refine ⟨?_, ?_, ?_, ?_, ?_, ?_, ?_, ?_⟩ <;> omega

theorem overlay_cfgp_pack (v : npz_register_cfgp_s) (h : v.fits) :
    overlay_cfgp (((v.pwmod % 4) ||| ((v.tmod % 4) <<< 2) ||| ((v.pswmod % 4) <<< 4) |||
      ((v.intmod % 4) <<< 6)) % 256 % 256) = v := by
  obtain ⟨a, b, c, d⟩ := v
  simp only [npz_register_cfgp_s.fits] at h
  obtain ⟨h1, h2, h3, h4⟩ := h
  simp only [pack_cfgp]
  simp only [Nat.mod_eq_of_lt h1, Nat.mod_eq_of_lt h2, Nat.mod_eq_of_lt h3, Nat.mod_eq_of_lt h4]
  rw [Nat.mod_mod, Nat.mod_eq_of_lt (by omega)]
  simp only [overlay_cfgp, npz_register_cfgp_s.mk.injEq]
  refine ⟨?_, ?_, ?_, ?_⟩ <;> omega

theorem overlay_modp_pack (v : npz_register_modp_s) (h : v.fits) :
    overlay_modp (((v.cmod % 2) ||| ((v.dtype % 4) <<< 1) ||| ((v.seqrw % 2) <<< 3) |||
      ((v.wunak % 2) <<< 4) ||| ((v.swprreg % 2) <<< 5) ||| ((v.spimod % 4) <<< 6)) % 256 % 256)
      = v := by
  obtain ⟨a, b, c, d, e, f⟩ := v
  simp only [npz_register_modp_s.fits] at h
  obtain ⟨h1, h2, h3, h4, h5, h6⟩ := h
  simp only [pack_modp]
  simp only [Nat.mod_eq_of_lt h1, Nat.mod_eq_of_lt h2, Nat.mod_eq_of_lt h3, Nat.mod_eq_of_lt h4,
    Nat.mod_eq_of_lt h5, Nat.mod_eq_of_lt h6]
  rw [Nat.mod_mod, Nat.mod_eq_of_lt (by omega)]
  simp only [overlay_modp, npz_register_modp_s.mk.injEq]
  refine ⟨?_, ?_, ?_, ?_, ?_, ?_⟩ <;> omega

theorem overlay_addrp_pack (v : npz_register_addrp_s) (h : v.fits) :
    overlay_addrp (((v.addrp % 128) ||| ((v.spi_en % 2) <<< 7)) % 256 % 256) = v := by
  obtain ⟨a, b⟩ := v
  simp only [npz_register_addrp_s.fits] at h
  obtain ⟨h1, h2⟩ := h
  simp only [pack_addrp]
  simp only [Nat.mod_eq_of_lt h1, Nat.mod_eq_of_lt h2]
  rw [Nat.mod_mod, Nat.mod_eq_of_lt (by omega)]
  simp only [overlay_addrp, npz_register_addrp_s.mk.injEq]
  refine ⟨?_, ?_⟩ <;> omega

theorem overlay_tcfgp_pack (v : npz_register_tcfgp_s) (h : v.fits) :
    overlay_tcfgp (((v.twt_en % 2) ||| ((v.twt_ext % 2) <<< 1) ||| ((v.tinit_en % 2) <<< 2) |||
      ((v.tinit_ext % 2) <<< 3) ||| ((v.i2cret % 4) <<< 4)) % 256 % 256) =
      { v with padding := 0 } := by
  obtain ⟨a, b, c, d, e, f⟩ := v
  simp only [npz_register_tcfgp_s.fits] at h
  obtain ⟨h1, h2, h3, h4, h5, h6⟩ := h
  simp only [pack_tcfgp]
  simp only [Nat.mod_eq_of_lt h1, Nat.mod_eq_of_lt h2, Nat.mod_eq_of_lt h3, Nat.mod_eq_of_lt h4,
    Nat.mod_eq_of_lt h5]
  rw [Nat.mod_mod, Nat.mod_eq_of_lt (by omega)]
  simp only [overlay_tcfgp, npz_register_tcfgp_s.mk.injEq]
  refine ⟨?_, ?_, ?_, ?_, ?_, ?_⟩ <;> omega

theorem overlay_ncmdp_pack (v : npz_register_ncmdp_s) (h : v.fits) :
    overlay_ncmdp (v.ncmdp % 128 % 256 % 256) = { v with padding := 0 } := by
  obtain ⟨a, b⟩ := v
  simp only [npz_register_ncmdp_s.fits] at h
  obtain ⟨h1, h2⟩ := h
  simp only [Nat.mod_eq_of_lt h1]
  rw [Nat.mod_mod, Nat.mod_eq_of_lt (by omega)]
  simp only [overlay_ncmdp, npz_register_ncmdp_s.mk.injEq]
  refine ⟨?_, ?_⟩ <;> omega

theorem overlay_throva_pack (v : npz_register_throva_s) (h : v.fits) :
    overlay_throva (v.throva % 32 % 256 % 256) = { v with padding := 0 } := by
  obtain ⟨a, b⟩ := v
  simp only [npz_register_throva_s.fits] at h
  obtain ⟨h1, h2⟩ := h
  simp only [Nat.mod_eq_of_lt h1]
  rw [Nat.mod_mod, Nat.mod_eq_of_lt (by omega)]
  simp only [overlay_throva, npz_register_throva_s.mk.injEq]
  refine ⟨?_, ?_⟩ <;> omega

theorem overlay_thruna_pack (v : npz_register_thruna_s) (h : v.fits) :
    overlay_thruna (v.thruna % 32 % 256 % 256) = { v with padding := 0 } := by
  obtain ⟨a, b⟩ := v
  simp only [npz_register_thruna_s.fits] at h
  obtain ⟨h1, h2⟩ := h
  simp only [Nat.mod_eq_of_lt h1]
  rw [Nat.mod_mod, Nat.mod_eq_of_lt (by omega)]
  simp only [overlay_thruna, npz_register_thruna_s.mk.injEq]
  refine ⟨?_, ?_⟩ <;> omega

theorem int_pin_switch_valid (p : Nat) (h : p = 0 ∨ p = 1 ∨ p = 3) :
    int_pin_switch p = some (p % 2, p / 2) := by
  rcases h with rfl | rfl | rfl <;> rfl

theorem two_byte_write_split (hal : Transport) (A lo hi : Nat) (s : State) (hA : A + 1 < 256) :
    split_write hal A (lo % 256) (hi % 256) s (two_byte_write hal A (A + 1) lo hi s) := by
  have e1 : A % 256 = A := Nat.mod_eq_of_lt (by omega)
  have e2 : (A + 1) % 256 = A + 1 := Nat.mod_eq_of_lt hA
  simp only [split_write, two_byte_write, npz_hal_write_eq, e1, e2, state_after_after,
    state_after_log]
  refine ⟨fun h => by simp [h], fun h => by simp [h], ?_⟩
  by_cases h : hal s.log (A, lo % 256) = OK
  · simp [h]
  · simp [h]

theorem round_trip_byte_of {α : Type} (w : Transport → State → npz_status_e × State)
    (r : ReadTransport → List Nat → npz_status_e × α × List Nat) (reg : Nat) (v : α) (d : Nat)
    (hw : ∀ hal s, (w hal s).2.log = s.log ++ [(reg, d)])
    (hr : ∀ rd rlog, rd rlog reg = (OK, d) → r rd rlog = (OK, v, rlog ++ [reg])) :
    round_trip_byte w r reg v :=
  fun hal s => ⟨d, hw hal s, hr⟩

theorem round_trip_pair_of {α : Type} (w : Transport → State → npz_status_e × State)
    (r : ReadTransport → α → List Nat → npz_status_e × α × List Nat) (reg_l reg_h : Nat)
    (v : α) (lo hi : Nat)
    (hw : ∀ s, (w hal_ok s).2.log = s.log ++ [(reg_l, lo), (reg_h, hi)])
    (hr : ∀ rd rlog v0, rd rlog reg_l = (OK, lo) → rd (rlog ++ [reg_l]) reg_h = (OK, hi) →
      r rd v0 rlog = (OK, v, rlog ++ [reg_l, reg_h])) :
    round_trip_pair w r reg_l reg_h v :=
  fun s => ⟨lo, hi, hw s, hr⟩

theorem npz_hal_read_eq (rd : ReadTransport) (rlog : List Nat) (reg d : Nat) (hreg : reg < 256)
    (h : rd rlog reg = (OK, d)) : npz_hal_read rd reg rlog = (OK, d % 256, rlog ++ [reg]) := by
  simp [npz_hal_read, Nat.mod_eq_of_lt hreg, h]

theorem npz_read_CFGP_eq (rd : ReadTransport) (sw : Nat) (rlog : List Nat) :
    npz_read_CFGP rd sw rlog = ((npz_hal_read rd (REG_CFGP sw) rlog).1,
      overlay_cfgp (npz_hal_read rd (REG_CFGP sw) rlog).2.1,
      (npz_hal_read rd (REG_CFGP sw) rlog).2.2) := rfl

theorem npz_read_MODP_eq (rd : ReadTransport) (sw : Nat) (rlog : List Nat) :
    npz_read_MODP rd sw rlog = ((npz_hal_read rd (REG_MODP sw) rlog).1,
      overlay_modp (npz_hal_read rd (REG_MODP sw) rlog).2.1,
      (npz_hal_read rd (REG_MODP sw) rlog).2.2) := rfl

theorem npz_read_NCMDP_eq (rd : ReadTransport) (sw : Nat) (rlog : List Nat) :
    npz_read_NCMDP rd sw rlog = ((npz_hal_read rd (REG_NCMDP sw) rlog).1,
      overlay_ncmdp (npz_hal_read rd (REG_NCMDP sw) rlog).2.1,
      (npz_hal_read rd (REG_NCMDP sw) rlog).2.2) := rfl

theorem npz_read_ADDRP_eq (rd : ReadTransport) (sw : Nat) (rlog : List Nat) :
    npz_read_ADDRP rd sw rlog = ((npz_hal_read rd (REG_ADDRP sw) rlog).1,
      overlay_addrp (npz_hal_read rd (REG_ADDRP sw) rlog).2.1,
      (npz_hal_read rd (REG_ADDRP sw) rlog).2.2) := rfl

theorem npz_read_TCFGP_eq (rd : ReadTransport) (sw : Nat) (rlog : List Nat) :
    npz_read_TCFGP rd sw rlog = ((npz_hal_read rd (REG_TCFGP sw) rlog).1,
      overlay_tcfgp (npz_hal_read rd (REG_TCFGP sw) rlog).2.1,
      (npz_hal_read rd (REG_TCFGP sw) rlog).2.2) := rfl

theorem npz_read_PERP_eq (rd : ReadTransport) (sw : Nat) (perp : npz_register_perp_s)
    (rlog : List Nat) :
    npz_read_PERP rd sw perp rlog =
      if (npz_hal_read rd (REG_PERP_L sw) rlog).1 = OK then
        ((npz_hal_read rd (REG_PERP_H sw) (npz_hal_read rd (REG_PERP_L sw) rlog).2.2).1,
          { perp_l := (npz_hal_read rd (REG_PERP_L sw) rlog).2.1
            perp_h := (npz_hal_read rd (REG_PERP_H sw)
              (npz_hal_read rd (REG_PERP_L sw) rlog).2.2).2.1 },
          (npz_hal_read rd (REG_PERP_H sw) (npz_hal_read rd (REG_PERP_L sw) rlog).2.2).2.2)
      else ((npz_hal_read rd (REG_PERP_L sw) rlog).1,
        { perp with perp_l := (npz_hal_read rd (REG_PERP_L sw) rlog).2.1 },
        (npz_hal_read rd (REG_PERP_L sw) rlog).2.2) := rfl

theorem npz_read_THROVP_eq (rd : ReadTransport) (sw : Nat) (throvp : npz_register_throvp_s)
    (rlog : List Nat) :
    npz_read_THROVP rd sw throvp rlog =
      if (npz_hal_read rd (REG_THROVP_L sw) rlog).1 = OK then
        ((npz_hal_read rd (REG_THROVP_H sw) (npz_hal_read rd (REG_THROVP_L sw) rlog).2.2).1,
          { throvp_l := (npz_hal_read rd (REG_THROVP_L sw) rlog).2.1
            throvp_h := (npz_hal_read rd (REG_THROVP_H sw)
              (npz_hal_read rd (REG_THROVP_L sw) rlog).2.2).2.1 },
          (npz_hal_read rd (REG_THROVP_H sw) (npz_hal_read rd (REG_THROVP_L sw) rlog).2.2).2.2)
      else ((npz_hal_read rd (REG_THROVP_L sw) rlog).1,
        { throvp with throvp_l := (npz_hal_read rd (REG_THROVP_L sw) rlog).2.1 },
        (npz_hal_read rd (REG_THROVP_L sw) rlog).2.2) := rfl

theorem npz_read_THRUNP_eq (rd : ReadTransport) (sw : Nat) (thrunp : npz_register_thrunp_s)
    (rlog : List Nat) :
    npz_read_THRUNP rd sw thrunp rlog =
      if (npz_hal_read rd (REG_THRUNP_L sw) rlog).1 = OK then
        ((npz_hal_read rd (REG_THRUNP_H sw) (npz_hal_read rd (REG_THRUNP_L sw) rlog).2.2).1,
          { thrunp_l := (npz_hal_read rd (REG_THRUNP_L sw) rlog).2.1
            thrunp_h := (npz_hal_read rd (REG_THRUNP_H sw)
              (npz_hal_read rd (REG_THRUNP_L sw) rlog).2.2).2.1 },
          (npz_hal_read rd (REG_THRUNP_H sw) (npz_hal_read rd (REG_THRUNP_L sw) rlog).2.2).2.2)
      else ((npz_hal_read rd (REG_THRUNP_L sw) rlog).1,
        { thrunp with thrunp_l := (npz_hal_read rd (REG_THRUNP_L sw) rlog).2.1 },
        (npz_hal_read rd (REG_THRUNP_L sw) rlog).2.2) := rfl

/-! ## A run under any transport against the run under a succeeding transport -/

theorem accepted_append (hal : Transport) (l1 : List Write) :
    ∀ (h l2 : List Write),
      accepted hal h (l1 ++ l2) = (accepted hal h l1 && accepted hal (h ++ l1) l2) := by
  induction l1 with
  | nil => intro h l2; simp [accepted]
  | cons w l1 ih =>
    intro h l2
    have e := ih (h ++ [w]) l2
    simp only [List.append_assoc, List.singleton_append] at e
    show (decide (hal h w = OK) && accepted hal (h ++ [w]) (l1 ++ l2))
      = (decide (hal h w = OK) && accepted hal (h ++ [w]) l1 && accepted hal (h ++ w :: l1) l2)
    rw [e, Bool.and_assoc]

theorem accepted_ok (l : List Write) : ∀ h, accepted hal_ok h l = true := by
  induction l with
  | nil => intro h; rfl
  | cons w l ih => intro h; simp [accepted, hal_ok, ih]

theorem grow_nil (s : State) : s.grow [] 0 = s := by
  simp [State.grow]

theorem grow_grow (s : State) (l1 l2 : List Write) (k1 k2 : Nat) :
    (s.grow l1 k1).grow l2 k2 = s.grow (l1 ++ l2) (k1 + k2) := by
  simp [State.grow, List.append_assoc, Nat.add_assoc]

theorem grow_log (s : State) (l : List Write) (k : Nat) : (s.grow l k).log = s.log ++ l := rfl

theorem after_eq_grow (s : State) (l : List Write) : s.after l = s.grow l 0 := by
  simp [State.after, State.grow]

theorem aborts_append (hal : Transport) (s s1 : State) (l l2 : List Write)
    (h : Aborts hal s l s1) : Aborts hal s (l ++ l2) s1 := by
  obtain ⟨l0, w, t, k0, e, ha, hw, hs⟩ := h
  exact ⟨l0, w, t ++ l2, k0, by simp [e], ha, hw, hs⟩

theorem aborts_shift (hal : Transport) (s s1 : State) (l l2 : List Write) (k : Nat)
    (hacc : accepted hal s.log l = true) (h : Aborts hal (s.grow l k) l2 s1) :
    Aborts hal s (l ++ l2) s1 := by
  obtain ⟨l0, w, t, k0, e, ha, hw, hs⟩ := h
  refine ⟨l ++ l0, w, t, k + k0, by simp [e], ?_, ?_, ?_⟩
  · rw [accepted_append, hacc]; simpa [grow_log] using ha
  · simpa [grow_log, List.append_assoc] using hw
  · rw [hs, grow_grow, List.append_assoc]

theorem gsim_andThen {hal : Transport} {s : State} {r r_ok : GRes} {rest rest_ok : State → GRes}
    (h1 : GSim hal s r r_ok)
    (h2 : ∀ l k, GSim hal (s.grow l k) (rest (s.grow l k)) (rest_ok (s.grow l k))) :
    GSim hal s (r.andThen rest) (r_ok.andThen rest_ok) := by
  obtain ⟨b, l, k, e, h⟩ := h1
  subst e
  cases b with
  | false =>
    refine ⟨false, l, k, rfl, ?_⟩
    rcases h with ⟨e, hacc⟩ | ⟨s1, e, ha⟩
    · subst e; exact Or.inl ⟨rfl, hacc⟩
    · subst e; exact Or.inr ⟨s1, rfl, ha⟩
  | true =>
    obtain ⟨b2, l2, k2, e2, h'⟩ := h2 l k
    refine ⟨b2, l ++ l2, k + k2, ?_, ?_⟩
    · simp only [GRes.andThen, e2, grow_grow]
    · rcases h with ⟨e, hacc⟩ | ⟨s1, e, ha⟩
      · subst e
        rcases h' with ⟨e3, hacc2⟩ | ⟨s2, e3, ha2⟩
        · left
          refine ⟨by simp only [GRes.andThen, e3], ?_⟩
          rw [accepted_append, hacc]; simpa [grow_log] using hacc2
        · right
          exact ⟨s2, by simp only [GRes.andThen, e3], aborts_shift hal s s2 l l2 k hacc ha2⟩
      · subst e
        right
        exact ⟨s1, rfl, aborts_append hal s s1 l l2 ha⟩

theorem psim_andThen {hal : Transport} {s : State} {r r_ok : PRes}
    {rest rest_ok : Images → State → PRes}
    (h1 : PSim hal s r r_ok)
    (h2 : ∀ im l k, PSim hal (s.grow l k) (rest im (s.grow l k)) (rest_ok im (s.grow l k))) :
    PSim hal s (r.andThen rest) (r_ok.andThen rest_ok) := by
  obtain ⟨b, im, l, k, e, h⟩ := h1
  subst e
  cases b with
  | false =>
    refine ⟨false, im, l, k, rfl, ?_⟩
    rcases h with ⟨e, hacc⟩ | ⟨im1, s1, e, ha⟩
    · subst e; exact Or.inl ⟨rfl, hacc⟩
    · subst e; exact Or.inr ⟨im1, s1, rfl, ha⟩
  | true =>
    obtain ⟨b2, im2, l2, k2, e2, h'⟩ := h2 im l k
    refine ⟨b2, im2, l ++ l2, k + k2, ?_, ?_⟩
    · simp only [PRes.andThen, e2, grow_grow]
    · rcases h with ⟨e, hacc⟩ | ⟨im1, s1, e, ha⟩
      · subst e
        rcases h' with ⟨e3, hacc2⟩ | ⟨im3, s2, e3, ha2⟩
        · left
          refine ⟨by simp only [PRes.andThen, e3], ?_⟩
          rw [accepted_append, hacc]; simpa [grow_log] using hacc2
        · right
          exact ⟨im3, s2, by simp only [PRes.andThen, e3],
            aborts_shift hal s s2 l l2 k hacc ha2⟩
      · subst e
        right
        exact ⟨im1, s1, rfl, aborts_append hal s s1 l l2 ha⟩

theorem gsim_refl (hal : Transport) (b : Bool) (s : State) :
    GSim hal s (some (b, s)) (some (b, s)) :=
  ⟨b, [], 0, by rw [grow_nil], Or.inl ⟨rfl, rfl⟩⟩

theorem psim_refl (hal : Transport) (b : Bool) (im : Images) (s : State) :
    PSim hal s (some (b, im, s)) (some (b, im, s)) :=
  ⟨b, im, [], 0, by rw [grow_nil], Or.inl ⟨rfl, rfl⟩⟩

theorem gsim_single (hal : Transport) (reg val : Nat) (s : State) :
    GSim hal s
      (if (npz_hal_write hal reg val s).1 ≠ OK then some (false, (npz_hal_write hal reg val s).2)
       else some (true, (npz_hal_write hal reg val s).2))
      (if (npz_hal_write hal_ok reg val s).1 ≠ OK
        then some (false, (npz_hal_write hal_ok reg val s).2)
       else some (true, (npz_hal_write hal_ok reg val s).2)) := by
  refine ⟨true, [(reg % 256, val % 256)], 0, ?_, ?_⟩
  · simp [npz_hal_write_eq, hal_ok, after_eq_grow]
  · by_cases h : hal s.log (reg % 256, val % 256) = OK
    · left
      simp [npz_hal_write_eq, hal_ok, h, accepted]
    · right
      refine ⟨s.after [(reg % 256, val % 256)], by simp [npz_hal_write_eq, h], [], _, [], 0,
        rfl, rfl, by simpa using h, by simp [after_eq_grow]⟩

theorem psim_single (hal : Transport) (reg val : Nat) (im : Images) (s : State) :
    PSim hal s
      (if (npz_hal_write hal reg val s).1 ≠ OK
        then some (false, im, (npz_hal_write hal reg val s).2)
       else some (true, im, (npz_hal_write hal reg val s).2))
      (if (npz_hal_write hal_ok reg val s).1 ≠ OK
        then some (false, im, (npz_hal_write hal_ok reg val s).2)
       else some (true, im, (npz_hal_write hal_ok reg val s).2)) := by
  refine ⟨true, im, [(reg % 256, val % 256)], 0, ?_, ?_⟩
  · simp [npz_hal_write_eq, hal_ok, after_eq_grow]
  · by_cases h : hal s.log (reg % 256, val % 256) = OK
    · left
      simp [npz_hal_write_eq, hal_ok, h, accepted]
    · right
      refine ⟨im, s.after [(reg % 256, val % 256)], by simp [npz_hal_write_eq, h], [], _, [], 0,
        rfl, rfl, by simpa using h, by simp [after_eq_grow]⟩

theorem two_byte_write_cases (hal : Transport) (reg_l reg_h l h : Nat) (s : State) :
    (hal s.log (reg_l % 256, l % 256) ≠ OK
      ∧ two_byte_write hal reg_l reg_h l h s = (ERR, s.after [(reg_l % 256, l % 256)]))
    ∨ (hal s.log (reg_l % 256, l % 256) = OK
      ∧ two_byte_write hal reg_l reg_h l h s
        = (hal (s.log ++ [(reg_l % 256, l % 256)]) (reg_h % 256, h % 256),
            s.after [(reg_l % 256, l % 256), (reg_h % 256, h % 256)])) := by
  by_cases h1 : hal s.log (reg_l % 256, l % 256) = OK
  · right
    simp [two_byte_write, npz_hal_write_eq, h1, state_after_after, state_after_log]
  · left
    simp [two_byte_write, npz_hal_write_eq, h1]

theorem two_byte_aborts (hal : Transport) (reg_l reg_h l h : Nat) (s : State)
    (hne : (two_byte_write hal reg_l reg_h l h s).1 ≠ OK) :
    Aborts hal s [(reg_l % 256, l % 256), (reg_h % 256, h % 256)]
      (two_byte_write hal reg_l reg_h l h s).2 := by
  rcases two_byte_write_cases hal reg_l reg_h l h s with ⟨h1, e⟩ | ⟨h1, e⟩
  · rw [e]
    exact ⟨[], _, [_], 0, rfl, rfl, by simpa using h1, by simp [after_eq_grow]⟩
  · rw [e] at hne ⊢
    refine ⟨[_], _, [], 0, rfl, by simp [accepted, h1], by simpa using hne,
      by simp [after_eq_grow]⟩

theorem two_byte_accepted (hal : Transport) (reg_l reg_h l h : Nat) (s : State)
    (heq : (two_byte_write hal reg_l reg_h l h s).1 = OK) :
    accepted hal s.log [(reg_l % 256, l % 256), (reg_h % 256, h % 256)] = true
    ∧ (two_byte_write hal reg_l reg_h l h s).2
      = s.grow [(reg_l % 256, l % 256), (reg_h % 256, h % 256)] 0 := by
  rcases two_byte_write_cases hal reg_l reg_h l h s with ⟨h1, e⟩ | ⟨h1, e⟩
  · rw [e] at heq; cases heq
  · rw [e] at heq ⊢
    simp only at heq
    exact ⟨by simp [accepted, h1, heq], by simp [after_eq_grow]⟩

theorem two_byte_ok (reg_l reg_h l h : Nat) (s : State) :
    two_byte_write hal_ok reg_l reg_h l h s
      = (OK, s.grow [(reg_l % 256, l % 256), (reg_h % 256, h % 256)] 0) := by
  simp [two_byte_write, npz_hal_write_eq, hal_ok, after_eq_grow, grow_grow]

theorem gsim_two (hal : Transport) (reg_l reg_h l h : Nat) (s : State) :
    GSim hal s
      (if (two_byte_write hal reg_l reg_h l h s).1 ≠ OK
        then some (false, (two_byte_write hal reg_l reg_h l h s).2)
       else some (true, (two_byte_write hal reg_l reg_h l h s).2))
      (if (two_byte_write hal_ok reg_l reg_h l h s).1 ≠ OK
        then some (false, (two_byte_write hal_ok reg_l reg_h l h s).2)
       else some (true, (two_byte_write hal_ok reg_l reg_h l h s).2)) := by
  refine ⟨true, [(reg_l % 256, l % 256), (reg_h % 256, h % 256)], 0, ?_, ?_⟩
  · simp [two_byte_ok]
  · by_cases hc : (two_byte_write hal reg_l reg_h l h s).1 = OK
    · left
      obtain ⟨ha, hs⟩ := two_byte_accepted hal reg_l reg_h l h s hc
      simp [hc, hs, two_byte_ok, ha]
    · right
      exact ⟨_, by simp [hc], two_byte_aborts hal reg_l reg_h l h s hc⟩

theorem psim_two (hal : Transport) (reg_l reg_h l h : Nat) (im : Images) (s : State) :
    PSim hal s
      (if (two_byte_write hal reg_l reg_h l h s).1 ≠ OK
        then some (false, im, (two_byte_write hal reg_l reg_h l h s).2)
       else some (true, im, (two_byte_write hal reg_l reg_h l h s).2))
      (if (two_byte_write hal_ok reg_l reg_h l h s).1 ≠ OK
        then some (false, im, (two_byte_write hal_ok reg_l reg_h l h s).2)
       else some (true, im, (two_byte_write hal_ok reg_l reg_h l h s).2)) := by
  refine ⟨true, im, [(reg_l % 256, l % 256), (reg_h % 256, h % 256)], 0, ?_, ?_⟩
  · simp [two_byte_ok]
  · by_cases hc : (two_byte_write hal reg_l reg_h l h s).1 = OK
    · left
      obtain ⟨ha, hs⟩ := two_byte_accepted hal reg_l reg_h l h s hc
      simp [hc, hs, two_byte_ok, ha]
    · right
      exact ⟨im, _, by simp [hc], two_byte_aborts hal reg_l reg_h l h s hc⟩

/-! ### Steps of the global group -/

theorem set_global_timeout_sim (hal : Transport) (dc : npz_device_config_s) (s : State) :
    GSim hal s (set_global_timeout hal dc s) (set_global_timeout hal_ok dc s) := by
  unfold set_global_timeout
  split_ifs
  · exact gsim_two hal _ _ _ _ s
  · exact gsim_refl hal false s

theorem set_system_config1_sim (hal : Transport) (dc : npz_device_config_s) (s : State)
    {adc0 adc1 : npz_adc_config_channels_s} (h0 : dc.adc_channel_at 0 = some adc0)
    (h1 : dc.adc_channel_at 1 = some adc1) :
    GSim hal s (set_system_config1 hal dc s) (set_system_config1 hal_ok dc s) := by
  simp only [set_system_config1, h0, h1]
  exact gsim_single hal _ _ s

theorem set_system_config2_sim (hal : Transport) (dc : npz_device_config_s) (s : State) :
    GSim hal s (set_system_config2 hal dc s) (set_system_config2 hal_ok dc s) := by
  unfold set_system_config2
  cases sclk_div_switch dc.system_clock_divider with
  | none => exact gsim_refl hal false s
  | some x =>
    cases adc_clk_switch dc.adc_clock_sel with
    | none => exact gsim_refl hal false s
    | some y => exact gsim_single hal _ _ s

theorem set_system_config3_sim (hal : Transport) (dc : npz_device_config_s) (s : State) :
    GSim hal s (set_system_config3 hal dc s) (set_system_config3 hal_ok dc s) := by
  unfold set_system_config3
  exact gsim_single hal _ _ s

theorem set_power_switch_control_sim (hal : Transport) (dc : npz_device_config_s) (s : State) :
    GSim hal s (set_power_switch_control hal dc s) (set_power_switch_control hal_ok dc s) := by
  unfold set_power_switch_control
  split_ifs
  all_goals first
    | exact gsim_refl hal false s
    | exact gsim_single hal _ _ s

theorem set_interrupt_pin_config_sim (hal : Transport) (dc : npz_device_config_s) (s : State) :
    GSim hal s (set_interrupt_pin_config hal dc s) (set_interrupt_pin_config hal_ok dc s) := by
  unfold set_interrupt_pin_config
  cases int_pin_switch dc.interrupt_pin_pull_up_pin1 with
  | none => exact gsim_refl hal false s
  | some x1 =>
    cases int_pin_switch dc.interrupt_pin_pull_up_pin2 with
    | none => exact gsim_refl hal false s
    | some x2 =>
      cases int_pin_switch dc.interrupt_pin_pull_up_pin3 with
      | none => exact gsim_refl hal false s
      | some x3 =>
        cases int_pin_switch dc.interrupt_pin_pull_up_pin4 with
        | none => exact gsim_refl hal false s
        | some x4 => exact gsim_single hal _ _ s

theorem configure_global_settings_sim (hal : Transport) (dc : npz_device_config_s) (s : State)
    {adc0 adc1 : npz_adc_config_channels_s} (h0 : dc.adc_channel_at 0 = some adc0)
    (h1 : dc.adc_channel_at 1 = some adc1) :
    GSim hal s (configure_global_settings hal dc s) (configure_global_settings hal_ok dc s) := by
  unfold configure_global_settings
  exact gsim_andThen (set_global_timeout_sim hal dc s) fun l1 k1 =>
    gsim_andThen (set_system_config1_sim hal dc _ h0 h1) fun l2 k2 =>
    gsim_andThen (set_system_config2_sim hal dc _) fun l3 k3 =>
    gsim_andThen (set_system_config3_sim hal dc _) fun l4 k4 =>
    gsim_andThen (set_power_switch_control_sim hal dc _) fun l5 k5 =>
    gsim_andThen (set_interrupt_pin_config_sim hal dc _) fun l6 k6 =>
    gsim_refl hal true _

theorem gsim_pair (hal : Transport) (r1 v1 r2 v2 : Nat) (s : State) :
    GSim hal s
      (if (npz_hal_write hal r1 v1 s).1 ≠ OK then some (false, (npz_hal_write hal r1 v1 s).2)
       else if (npz_hal_write hal r2 v2 (npz_hal_write hal r1 v1 s).2).1 ≠ OK
        then some (false, (npz_hal_write hal r2 v2 (npz_hal_write hal r1 v1 s).2).2)
       else some (true, (npz_hal_write hal r2 v2 (npz_hal_write hal r1 v1 s).2).2))
      (if (npz_hal_write hal_ok r1 v1 s).1 ≠ OK
        then some (false, (npz_hal_write hal_ok r1 v1 s).2)
       else if (npz_hal_write hal_ok r2 v2 (npz_hal_write hal_ok r1 v1 s).2).1 ≠ OK
        then some (false, (npz_hal_write hal_ok r2 v2 (npz_hal_write hal_ok r1 v1 s).2).2)
       else some (true, (npz_hal_write hal_ok r2 v2 (npz_hal_write hal_ok r1 v1 s).2).2)) := by
  have h := @gsim_andThen hal s _ _
    (fun s1 =>
      if (npz_hal_write hal r2 v2 s1).1 ≠ OK then some (false, (npz_hal_write hal r2 v2 s1).2)
      else some (true, (npz_hal_write hal r2 v2 s1).2))
    (fun s1 =>
      if (npz_hal_write hal_ok r2 v2 s1).1 ≠ OK
        then some (false, (npz_hal_write hal_ok r2 v2 s1).2)
      else some (true, (npz_hal_write hal_ok r2 v2 s1).2))
    (gsim_single hal r1 v1 s) (fun l k => gsim_single hal r2 v2 (s.grow l k))
  have e : ∀ (t : Transport),
      (if (npz_hal_write t r1 v1 s).1 ≠ OK then some (false, (npz_hal_write t r1 v1 s).2)
       else if (npz_hal_write t r2 v2 (npz_hal_write t r1 v1 s).2).1 ≠ OK
        then some (false, (npz_hal_write t r2 v2 (npz_hal_write t r1 v1 s).2).2)
       else some (true, (npz_hal_write t r2 v2 (npz_hal_write t r1 v1 s).2).2) : GRes)
      = (if (npz_hal_write t r1 v1 s).1 ≠ OK then some (false, (npz_hal_write t r1 v1 s).2)
         else some (true, (npz_hal_write t r1 v1 s).2) : GRes).andThen fun s1 =>
          if (npz_hal_write t r2 v2 s1).1 ≠ OK then some (false, (npz_hal_write t r2 v2 s1).2)
          else some (true, (npz_hal_write t r2 v2 s1).2) := by
    intro t
    by_cases c : (npz_hal_write t r1 v1 s).1 = OK <;> simp [c, GRes.andThen]
  rw [e hal, e hal_ok]
  exact h

theorem configure_internal_adc_sim (hal : Transport) (dc : npz_device_config_s) (s : State)
    {adc0 : npz_adc_config_channels_s} (h0 : dc.adc_channel_at 0 = some adc0) :
    GSim hal s (configure_internal_adc hal dc s) (configure_internal_adc hal_ok dc s) := by
  simp only [configure_internal_adc, h0]
  split
  · exact gsim_pair hal _ _ _ _ s
  · exact gsim_refl hal false s

theorem configure_external_adc_sim (hal : Transport) (dc : npz_device_config_s) (s : State)
    {adc1 : npz_adc_config_channels_s} (h1 : dc.adc_channel_at 1 = some adc1) :
    GSim hal s (configure_external_adc hal dc s) (configure_external_adc hal_ok dc s) := by
  simp only [configure_external_adc, h1]
  split
  · exact gsim_pair hal _ _ _ _ s
  · exact gsim_refl hal false s

/-! ### Steps of the peripheral group -/

theorem set_peripheral_power_mode_sim (hal : Transport) (dc : npz_device_config_s)
    (im : Images) (i : Int) (sw : Nat) (s : State) {p : npz_peripheral_config_s}
    (hp : dc.peripheral_at i = some p) :
    PSim hal s (set_peripheral_power_mode hal dc im i sw s)
      (set_peripheral_power_mode hal_ok dc im i sw s) := by
  simp only [set_peripheral_power_mode, hp]
  exact psim_single hal _ _ _ s

theorem set_peripheral_mode_sim (hal : Transport) (dc : npz_device_config_s)
    (im : Images) (i : Int) (sw : Nat) (s : State) {p : npz_peripheral_config_s}
    (hp : dc.peripheral_at i = some p) :
    PSim hal s (set_peripheral_mode hal dc im i sw s)
      (set_peripheral_mode hal_ok dc im i sw s) := by
  simp only [set_peripheral_mode, hp]
  exact psim_single hal _ _ _ s

theorem set_peripheral_polling_period_sim (hal : Transport) (dc : npz_device_config_s)
    (im : Images) (i : Int) (sw : Nat) (s : State) {p : npz_peripheral_config_s}
    (hp : dc.peripheral_at i = some p) :
    PSim hal s (set_peripheral_polling_period hal dc im i sw s)
      (set_peripheral_polling_period hal_ok dc im i sw s) := by
  simp only [set_peripheral_polling_period, hp, images_set_self]
  generalize ({ perp_l := p.polling_period % 65536 % 256
                perp_h := p.polling_period % 65536 / 256 % 256 } : npz_register_perp_s) = v
  by_cases hv : v.perp_l % 256 = 0 ∧ v.perp_h % 256 = 0
  · rw [npz_write_PERP_zero hal sw v s hv.1 hv.2, npz_write_PERP_zero hal_ok sw v s hv.1 hv.2]
    simp only [ne_eq, reduceCtorEq, not_false_eq_true, if_true]
    exact psim_refl hal false _ s
  · simp only [npz_write_PERP, hv, if_false]
    exact psim_two hal _ _ _ _ _ s

theorem set_peripheral_address_sim (hal : Transport) (dc : npz_device_config_s)
    (im : Images) (i : Int) (sw : Nat) (s : State) {p : npz_peripheral_config_s}
    (hp : dc.peripheral_at i = some p) :
    PSim hal s (set_peripheral_address hal dc im i sw s)
      (set_peripheral_address hal_ok dc im i sw s) := by
  simp only [set_peripheral_address, hp]
  exact psim_single hal _ _ _ s

theorem set_peripheral_i2c_read_register_sim (hal : Transport) (dc : npz_device_config_s)
    (im : Images) (i : Int) (sw : Nat) (s : State) {p : npz_peripheral_config_s}
    (hp : dc.peripheral_at i = some p) :
    PSim hal s (set_peripheral_i2c_read_register hal dc im i sw s)
      (set_peripheral_i2c_read_register hal_ok dc im i sw s) := by
  by_cases hc : p.communication_protocol = COM_I2C
  · simp only [set_peripheral_i2c_read_register, hp, peripheral_at_range dc i hp, and_self,
      if_true, hc]
    exact psim_single hal _ _ _ s
  · simp only [set_peripheral_i2c_read_register, hp, peripheral_at_range dc i hp, and_self,
      if_true, hc, if_false]
    exact psim_refl hal true _ s

theorem set_peripheral_under_threshold_sim (hal : Transport) (dc : npz_device_config_s)
    (im : Images) (i : Int) (sw : Nat) (s : State) {p : npz_peripheral_config_s}
    (hp : dc.peripheral_at i = some p) :
    PSim hal s (set_peripheral_under_threshold hal dc im i sw s)
      (set_peripheral_under_threshold hal_ok dc im i sw s) := by
  simp only [set_peripheral_under_threshold, hp]
  exact psim_two hal _ _ _ _ _ s

theorem set_peripheral_over_threshold_sim (hal : Transport) (dc : npz_device_config_s)
    (im : Images) (i : Int) (sw : Nat) (s : State) {p : npz_peripheral_config_s}
    (hp : dc.peripheral_at i = some p) :
    PSim hal s (set_peripheral_over_threshold hal dc im i sw s)
      (set_peripheral_over_threshold hal_ok dc im i sw s) := by
  simp only [set_peripheral_over_threshold, hp]
  exact psim_two hal _ _ _ _ _ s

theorem set_peripheral_time_to_wait_sim (hal : Transport) (dc : npz_device_config_s)
    (im : Images) (i : Int) (sw : Nat) (s : State) {p : npz_peripheral_config_s}
    (hp : dc.peripheral_at i = some p) :
    PSim hal s (set_peripheral_time_to_wait hal dc im i sw s)
      (set_peripheral_time_to_wait hal_ok dc im i sw s) := by
  simp only [set_peripheral_time_to_wait, hp]
  exact psim_single hal _ _ _ s

theorem set_peripheral_time_to_wait_config_sim (hal : Transport) (dc : npz_device_config_s)
    (im : Images) (i : Int) (sw : Nat) (s : State) {p : npz_peripheral_config_s}
    (hp : dc.peripheral_at i = some p) :
    PSim hal s (set_peripheral_time_to_wait_config hal dc im i sw s)
      (set_peripheral_time_to_wait_config hal_ok dc im i sw s) := by
  simp only [set_peripheral_time_to_wait_config, hp]
  cases pre_wait_switch p.pre_wait_time with
  | none => exact psim_refl hal false _ s
  | some x =>
    cases post_wait_switch p.post_wait_time with
    | none => exact psim_refl hal false _ s
    | some y => exact psim_single hal _ _ _ s

/-! ### The arena loop -/

theorem some_andThen (r : Bool × State) (rest : State → GRes) :
    GRes.andThen (some r) rest = if r.1 = false then some r else rest r.2 := by
  obtain ⟨b, s⟩ := r
  cases b <;> simp [GRes.andThen]

theorem sram_step_grow (s : State) (w : Write) :
    ({ s.after [w] with m_sram_count := (s.after [w]).m_sram_count + 1 } : State)
      = s.grow [w] 1 := by
  simp [State.after, State.grow]

theorem sram_write_loop_sim (hal : Transport) (src : Nat → Nat) (n : Nat) :
    ∀ (i : Nat) (s : State),
      GSim hal s (some (sram_write_loop hal src n i s)) (some (sram_write_loop hal_ok src n i s))
    := by
  induction n with
  | zero => intro i s; exact gsim_refl hal true s
  | succ n ih =>
    intro i s
    rw [sram_write_loop, sram_write_loop]
    simp only [npz_write_SRAM, npz_hal_write_eq, hal_ok, ne_eq, not_true_eq_false, if_false,
      Nat.mod_mod, sram_step_grow]
    obtain ⟨b, l, k, e1, h1⟩ := ih (i + 1)
      (s.grow [((SRAM_START + s.m_sram_count) % 256, src i % 256)] 1)
    refine ⟨b, ((SRAM_START + s.m_sram_count) % 256, src i % 256) :: l, 1 + k,
      by rw [e1, grow_grow]; rfl, ?_⟩
    by_cases h : hal s.log ((SRAM_START + s.m_sram_count) % 256, src i % 256) = OK
    · simp only [h, not_true_eq_false, if_false]
      rcases h1 with ⟨e2, hacc⟩ | ⟨s1, e2, ha⟩
      · left
        refine ⟨by rw [e2, e1, grow_grow], ?_⟩
        simp only [accepted, h, decide_True, Bool.true_and]
        simpa [grow_log] using hacc
      · right
        refine ⟨s1, e2, ?_⟩
        have := aborts_shift hal s s1 [_] l 1 (by simp [accepted, h]) ha
        simpa using this
    · simp only [h, not_false_eq_true, if_true]
      exact Or.inr ⟨_, rfl, [], _, l, 0, rfl, rfl, by simpa using h, by simp [after_eq_grow]⟩

theorem init_cmds_arena_sim (hal : Transport) (p : npz_peripheral_config_s) (s : State) :
    GSim hal s (some (init_cmds_arena hal p s)) (some (init_cmds_arena hal_ok p s)) := by
  unfold init_cmds_arena
  by_cases hi : p.communication_protocol = COM_I2C
  · simp only [hi, if_true]
    by_cases hc : s.m_sram_count ≤ SRAM_SIZE
    · simp only [hc, if_true]; exact sram_write_loop_sim hal _ _ 0 s
    · simp only [hc, if_false]; exact gsim_refl hal true s
  · simp only [hi, if_false]
    by_cases hs : p.communication_protocol = COM_SPI
    · simp only [hs, if_true]
      have key : ∀ (t : Transport) (r1 : Bool × State),
          (some (if r1.1 = false then r1
            else if spi_cfg_bytes_from_sram_read_num p > 0 then
              sram_write_loop t (spi_cfg_bytes_from_sram_read p)
                (spi_cfg_bytes_from_sram_read_num p) 0 r1.2
            else (true, r1.2)) : GRes)
          = GRes.andThen (some r1) fun s1 =>
              some (if spi_cfg_bytes_from_sram_read_num p > 0 then
                sram_write_loop t (spi_cfg_bytes_from_sram_read p)
                  (spi_cfg_bytes_from_sram_read_num p) 0 s1
              else (true, s1)) := by
        intro t r1
        rw [some_andThen]
        split_ifs <;> rfl
      rw [key hal, key hal_ok]
      refine gsim_andThen ?_ fun l k => ?_
      · by_cases hc : s.m_sram_count ≤ SRAM_SIZE
        · simp only [hc, if_true]; exact sram_write_loop_sim hal _ _ 0 s
        · simp only [hc, if_false]; exact gsim_refl hal true s
      · by_cases hr : spi_cfg_bytes_from_sram_read_num p > 0
        · simp only [hr, if_true]; exact sram_write_loop_sim hal _ _ 0 _
        · simp only [hr, if_false]; exact gsim_refl hal true _
    · simp only [hs, if_false]; exact gsim_refl hal true s

theorem psim_of_arena {hal : Transport} {s : State} {a a_ok : Bool × State} (im : Images)
    (rest rest_ok : State → PRes)
    (h1 : GSim hal s (some a) (some a_ok))
    (h2 : ∀ l k, PSim hal (s.grow l k) (rest (s.grow l k)) (rest_ok (s.grow l k))) :
    PSim hal s (if a.1 = false then some (false, im, a.2) else rest a.2)
      (if a_ok.1 = false then some (false, im, a_ok.2) else rest_ok a_ok.2) := by
  obtain ⟨b, l, k, e, h⟩ := h1
  obtain ⟨rfl⟩ : a_ok = (b, s.grow l k) := Option.some.inj e
  cases b with
  | false =>
    refine ⟨false, im, l, k, by simp, ?_⟩
    rcases h with ⟨e1, hacc⟩ | ⟨s1, e1, ha⟩
    · obtain ⟨rfl⟩ : a = (false, s.grow l k) := Option.some.inj e1
      exact Or.inl ⟨by simp, hacc⟩
    · obtain ⟨rfl⟩ : a = (false, s1) := Option.some.inj e1
      exact Or.inr ⟨im, s1, by simp, ha⟩
  | true =>
    obtain ⟨b2, im2, l2, k2, e2, h'⟩ := h2 l k
    refine ⟨b2, im2, l ++ l2, k + k2, by simp [e2, grow_grow], ?_⟩
    rcases h with ⟨e1, hacc⟩ | ⟨s1, e1, ha⟩
    · obtain ⟨rfl⟩ : a = (true, s.grow l k) := Option.some.inj e1
      rcases h' with ⟨e3, hacc2⟩ | ⟨im3, s2, e3, ha2⟩
      · left
        refine ⟨by simp [e3], ?_⟩
        rw [accepted_append, hacc]; simpa [grow_log] using hacc2
      · right
        exact ⟨im3, s2, by simp [e3], aborts_shift hal s s2 l l2 k hacc ha2⟩
    · obtain ⟨rfl⟩ : a = (false, s1) := Option.some.inj e1
      right
      exact ⟨im, s1, by simp, aborts_append hal s s1 l l2 ha⟩

theorem set_peripheral_init_cmds_number_sim (hal : Transport) (dc : npz_device_config_s)
    (im : Images) (i : Int) (sw : Nat) (s : State) {p : npz_peripheral_config_s}
    (hp : dc.peripheral_at i = some p) :
    PSim hal s (set_peripheral_init_cmds_number hal dc im i sw s)
      (set_peripheral_init_cmds_number hal_ok dc im i sw s) := by
  simp only [set_peripheral_init_cmds_number, hp]
  exact psim_of_arena _
    (fun s1 =>
      if (npz_write_NCMDP hal sw _ s1).1 ≠ OK
        then some (false, _, (npz_write_NCMDP hal sw _ s1).2)
      else some (true, _, (npz_write_NCMDP hal sw _ s1).2))
    (fun s1 =>
      if (npz_write_NCMDP hal_ok sw _ s1).1 ≠ OK
        then some (false, _, (npz_write_NCMDP hal_ok sw _ s1).2)
      else some (true, _, (npz_write_NCMDP hal_ok sw _ s1).2))
    (init_cmds_arena_sim hal p s) fun l k => psim_single hal _ _ _ _

theorem configure_peripherals_body_sim (hal : Transport) (dc : npz_device_config_s)
    (im : Images) (i : Int) (s : State) {p : npz_peripheral_config_s}
    (hp : dc.peripheral_at i = some p) :
    PSim hal s (configure_peripherals_body hal dc im i s)
      (configure_peripherals_body hal_ok dc im i s) := by
  simp only [configure_peripherals_body, hp]
  refine psim_andThen (set_peripheral_power_mode_sim hal dc im i _ s hp) fun im1 l1 k1 => ?_
  refine psim_andThen (set_peripheral_mode_sim hal dc im1 i _ _ hp) fun im2 l2 k2 => ?_
  refine psim_andThen (set_peripheral_polling_period_sim hal dc im2 i _ _ hp) fun im3 l3 k3 => ?_
  refine psim_andThen (set_peripheral_init_cmds_number_sim hal dc im3 i _ _ hp)
    fun im4 l4 k4 => ?_
  refine psim_andThen ?_ fun im5 l5 k5 => ?_
  · split
    · exact set_peripheral_address_sim hal dc im4 i _ _ hp
    · exact psim_refl hal true _ _
  refine psim_andThen ?_ fun im6 l6 k6 => ?_
  · split
    · refine psim_andThen (set_peripheral_i2c_read_register_sim hal dc im5 i _ _ hp)
        fun im7 l7 k7 => ?_
      exact psim_andThen (set_peripheral_under_threshold_sim hal dc im7 i _ _ hp)
        fun im8 l8 k8 => set_peripheral_over_threshold_sim hal dc im8 i _ _ hp
    · exact psim_refl hal true _ _
  exact psim_andThen (set_peripheral_time_to_wait_sim hal dc im6 i _ _ hp)
    fun im9 l9 k9 => set_peripheral_time_to_wait_config_sim hal dc im9 i _ _ hp

theorem configure_peripherals_loop_sim (hal : Transport) (dc : npz_device_config_s) (n : Nat) :
    ∀ (j : Nat) (im : Images) (s : State),
      (∀ j', j ≤ j' → j' < j + n →
        ∃ p, dc.peripheral_at (s.m_configured_indices.getD j' (-1)) = some p) →
      PSim hal s (configure_peripherals_loop hal dc n j im s)
        (configure_peripherals_loop hal_ok dc n j im s) := by
  induction n with
  | zero => intro j im s _; exact psim_refl hal true im s
  | succ n ih =>
    intro j im s hall
    obtain ⟨p, hp⟩ := hall j (Nat.le_refl j) (by omega)
    rw [configure_peripherals_loop, configure_peripherals_loop]
    refine psim_andThen (configure_peripherals_body_sim hal dc im _ s hp) fun im1 l k => ?_
    exact ih (j + 1) im1 (s.grow l k) fun j' h1 h2 => hall j' (by omega) (by omega)

theorem configure_peripherals_sim (hal : Transport) (dc : npz_device_config_s) (s : State)
    (hall : ∀ j', j' < s.m_configured_count →
      ∃ p, dc.peripheral_at (s.m_configured_indices.getD j' (-1)) = some p) :
    GSim hal s (configure_peripherals hal dc s) (configure_peripherals hal_ok dc s) := by
  unfold configure_peripherals
  obtain ⟨b, im, l, k, e, h⟩ := configure_peripherals_loop_sim hal dc s.m_configured_count 0
    Images.zero s fun j' _ h2 => hall j' (by omega)
  rw [e]
  refine ⟨b, l, k, rfl, ?_⟩
  rcases h with ⟨e1, hacc⟩ | ⟨im1, s1, e1, ha⟩
  · exact Or.inl ⟨by rw [e1, e], hacc⟩
  · exact Or.inr ⟨s1, by rw [e1], ha⟩

/-! ### Validation of the peripheral table -/

theorem validate_peripherals_spec (dc : npz_device_config_s) (s : State)
    (hlen : s.m_configured_indices.length = 4) :
    (validate_peripherals dc s).1 = true
    ∧ (validate_peripherals dc s).2.log = s.log
    ∧ (validate_peripherals dc s).2.m_sram_count = s.m_sram_count
    ∧ (validate_peripherals dc s).2.m_configured_count = (configured_slots dc).length
    ∧ (validate_peripherals dc s).2.m_configured_indices.take
        (validate_peripherals dc s).2.m_configured_count = configured_slots dc
    ∧ (validate_peripherals dc s).2.m_configured_indices.length = 4 := by
  obtain ⟨log, ind, cnt, sram⟩ := s
  simp only at hlen
  match ind, hlen with
  | [a, b, c, d], _ =>
    cases h0 : dc.peripheral_at 0 <;> cases h1 : dc.peripheral_at 1 <;>
      cases h2 : dc.peripheral_at 2 <;> cases h3 : dc.peripheral_at 3 <;>
      simp [validate_peripherals, validate_peripherals_loop, configured_slots, h0, h1, h2, h3,
        List.filter]

theorem configured_slots_ascending (dc : npz_device_config_s) :
    (configured_slots dc).Pairwise (· < ·) :=
  List.Pairwise.sublist (List.filter_sublist _) (by decide)

theorem validated_slots_present (dc : npz_device_config_s) (s : State)
    (hlen : s.m_configured_indices.length = 4) :
    ∀ j, j < (validate_peripherals dc s).2.m_configured_count →
      ∃ p, dc.peripheral_at ((validate_peripherals dc s).2.m_configured_indices.getD j (-1))
        = some p := by
  obtain ⟨-, -, -, hc, ht, hl⟩ := validate_peripherals_spec dc s hlen
  intro j hj
  have hj4 : j < (validate_peripherals dc s).2.m_configured_indices.length := by
    have : (configured_slots dc).length ≤ 4 := by
      unfold configured_slots
      exact (List.length_filter_le _ _)
    omega
  have hmem : (validate_peripherals dc s).2.m_configured_indices.getD j (-1)
      ∈ configured_slots dc := by
    rw [← ht, List.getD_eq_getElem _ _ hj4]
    exact List.mem_take_iff_getElem.mpr ⟨j, by omega, rfl⟩
  unfold configured_slots at hmem
  have := (List.mem_filter.mp hmem).2
  exact Option.isSome_iff_exists.mp this

theorem npz_device_configure_eq (hal : Transport) (dc : npz_device_config_s) (s : State)
    {adc0 adc1 : npz_adc_config_channels_s} (h0 : dc.adc_channel_at 0 = some adc0)
    (h1 : dc.adc_channel_at 1 = some adc1) :
    npz_device_configure hal (some dc) s =
      match configure_global_settings hal dc s with
      | none => none
      | some (false, s1) => some s1
      | some (true, s1) =>
        (device_tail hal dc adc0 adc1 (validate_peripherals dc s1).2).map Prod.snd := by
  simp only [npz_device_configure, h0, h1, device_tail]
  rcases configure_global_settings hal dc s with _ | ⟨b, s1⟩
  · rfl
  · cases b
    · rfl
    · simp only [validate_peripherals, if_true]
      rcases configure_peripherals hal dc _ with _ | ⟨b2, s2⟩
      · rfl
      · cases b2
        · rfl
        · simp only [GRes.andThen]
          split_ifs with c1 c2 c2
          · rcases configure_internal_adc hal dc s2 with _ | ⟨b3, s3⟩
            · rfl
            · cases b3
              · rfl
              · simp only [GRes.andThen]
                rcases configure_external_adc hal dc s3 with _ | ⟨b4, s4⟩ <;> rfl
          · rcases configure_internal_adc hal dc s2 with _ | ⟨b3, s3⟩
            · rfl
            · cases b3 <;> rfl
          · simp only [GRes.andThen]
            rcases configure_external_adc hal dc s2 with _ | ⟨b4, s4⟩ <;> rfl
          · rfl

theorem device_tail_sim (hal : Transport) (dc : npz_device_config_s) (s : State)
    {adc0 adc1 : npz_adc_config_channels_s} (h0 : dc.adc_channel_at 0 = some adc0)
    (h1 : dc.adc_channel_at 1 = some adc1)
    (hall : ∀ j, j < s.m_configured_count →
      ∃ p, dc.peripheral_at (s.m_configured_indices.getD j (-1)) = some p) :
    GSim hal s (device_tail hal dc adc0 adc1 s) (device_tail hal_ok dc adc0 adc1 s) := by
  unfold device_tail
  refine gsim_andThen (configure_peripherals_sim hal dc s hall) fun l1 k1 => ?_
  refine gsim_andThen ?_ fun l2 k2 => ?_
  · split
    · exact configure_internal_adc_sim hal dc _ h0
    · exact gsim_refl hal true _
  · split
    · exact configure_external_adc_sim hal dc _ h1
    · exact gsim_refl hal true _

/-! ### The global group under a succeeding transport -/

theorem gdone_single (reg val : Nat) (s : State) (hreg : reg < 256) :
    GDone [reg] s
      (if (npz_hal_write hal_ok reg val s).1 ≠ OK
        then some (false, (npz_hal_write hal_ok reg val s).2)
       else some (true, (npz_hal_write hal_ok reg val s).2)) :=
  ⟨[(reg, val % 256)], by simp [npz_hal_write_eq, hal_ok, Nat.mod_eq_of_lt hreg], rfl⟩

theorem gdone_andThen {R1 R2 : List Nat} {s : State} {r : GRes} {rest : State → GRes}
    (h1 : GDone R1 s r) (h2 : ∀ s1, GDone R2 s1 (rest s1)) :
    GDone (R1 ++ R2) s (r.andThen rest) := by
  obtain ⟨l, hr, he⟩ := h1
  subst hr
  obtain ⟨l2, hr2, he2⟩ := h2 (s.after l)
  exact ⟨l ++ l2, by simp only [GRes.andThen, hr2, state_after_after],
    by rw [regs_of_append, he, he2]⟩

theorem set_global_timeout_done (dc : npz_device_config_s) (s : State)
    (h : dc.global_timeout % 65536 ≠ 0) :
    GDone [REG_TOUT_L, REG_TOUT_H] s (set_global_timeout hal_ok dc s) := by
  have h' : dc.global_timeout % 65536 > 0 := Nat.pos_of_ne_zero h
  simp only [set_global_timeout, h', if_true]
  exact ⟨[(REG_TOUT_L, _), (REG_TOUT_H, _)],
    by simp [npz_write_TOUT, npz_hal_write_eq, hal_ok, state_after_after]; rfl, rfl⟩

theorem set_system_config1_done (dc : npz_device_config_s) (s : State)
    {adc0 adc1 : npz_adc_config_channels_s} (h0 : dc.adc_channel_at 0 = some adc0)
    (h1 : dc.adc_channel_at 1 = some adc1) :
    GDone [REG_SYSCFG1] s (set_system_config1 hal_ok dc s) := by
  simp only [set_system_config1, h0, h1]
  exact gdone_single REG_SYSCFG1 _ s (by decide)

theorem set_system_config2_done (dc : npz_device_config_s) (s : State)
    (hd : (sclk_div_switch dc.system_clock_divider).isSome)
    (hc : (adc_clk_switch dc.adc_clock_sel).isSome) :
    GDone [REG_SYSCFG2] s (set_system_config2 hal_ok dc s) := by
  obtain ⟨x, hx⟩ := Option.isSome_iff_exists.mp hd
  obtain ⟨y, hy⟩ := Option.isSome_iff_exists.mp hc
  simp only [set_system_config2, hx, hy]
  exact gdone_single REG_SYSCFG2 _ s (by decide)

theorem set_system_config3_done (dc : npz_device_config_s) (s : State) :
    GDone [REG_SYSCFG3] s (set_system_config3 hal_ok dc s) := by
  simp only [set_system_config3]
  exact gdone_single REG_SYSCFG3 _ s (by decide)

theorem set_power_switch_control_done (dc : npz_device_config_s) (s : State)
    (hh : dc.host_power_mode = HOST_POWER_MODE_SWITCH
      ∨ dc.host_power_mode = HOST_POWER_MODE_LOGIC_OUTPUT
      ∨ dc.host_power_mode = HOST_POWER_MODE_LOGIC_OUTPUT_INV) :
    GDone [REG_PSWCTL] s (set_power_switch_control hal_ok dc s) := by
  have b1 : ¬ dc.power_switch_normal_mode_per1 % 2 > 1 := by omega
  have b2 : ¬ dc.power_switch_normal_mode_per2 % 2 > 1 := by omega
  have b3 : ¬ dc.power_switch_normal_mode_per3 % 2 > 1 := by omega
  have b4 : ¬ dc.power_switch_normal_mode_per4 % 2 > 1 := by omega
  have b5 : ¬ dc.power_switch_gate_boost % 2 > 1 := by omega
  simp only [set_power_switch_control, b1, b2, b3, b4, b5, hh, not_true_eq_false, if_false]
  exact gdone_single REG_PSWCTL _ s (by decide)

theorem set_interrupt_pin_config_done (dc : npz_device_config_s) (s : State)
    (h1 : (int_pin_switch dc.interrupt_pin_pull_up_pin1).isSome)
    (h2 : (int_pin_switch dc.interrupt_pin_pull_up_pin2).isSome)
    (h3 : (int_pin_switch dc.interrupt_pin_pull_up_pin3).isSome)
    (h4 : (int_pin_switch dc.interrupt_pin_pull_up_pin4).isSome) :
    GDone [REG_INTCFG] s (set_interrupt_pin_config hal_ok dc s) := by
  obtain ⟨x1, e1⟩ := Option.isSome_iff_exists.mp h1
  obtain ⟨x2, e2⟩ := Option.isSome_iff_exists.mp h2
  obtain ⟨x3, e3⟩ := Option.isSome_iff_exists.mp h3
  obtain ⟨x4, e4⟩ := Option.isSome_iff_exists.mp h4
  simp only [set_interrupt_pin_config, e1, e2, e3, e4]
  exact gdone_single REG_INTCFG _ s (by decide)

/-! ### The sequence of an I2C peripheral under a succeeding transport -/

theorem set_peripheral_polling_period_ok (dc : npz_device_config_s)
    (im : Images) (i : Int) (sw : Nat) (s : State) {p : npz_peripheral_config_s}
    (hp : dc.peripheral_at i = some p) (hz : p.polling_period % 65536 ≠ 0) :
    ∃ im1 d1 d2, set_peripheral_polling_period hal_ok dc im i sw s
      = some (true, im1, s.after [(REG_PERP_L sw, d1), (REG_PERP_H sw, d2)]) := by
  simp only [set_peripheral_polling_period, hp, images_set_self]
  obtain ⟨d, hd⟩ := npz_write_PERP_nonzero hal_ok sw
    { perp_l := p.polling_period % 65536 % 256
      perp_h := p.polling_period % 65536 / 256 % 256 } s (by simp only; omega)
  rw [hd]
  exact ⟨_, _, _, two_ok _ _ _ _ _ s (REG_PERP_L_lt sw) (REG_PERP_H_lt sw)⟩

theorem arena_image_regs (src : Nat → Nat) (n : Nat) :
    ∀ (c i : Nat), regs_of (arena_image src n c i)
      = (List.range n).map fun j => (SRAM_START + (c + j)) % 256 := by
  induction n with
  | zero => intro c i; rfl
  | succ n ih =>
    intro c i
    rw [arena_image, List.range_succ_eq_map, List.map_cons, List.map_map]
    simp only [regs_of, List.map_cons] at ih ⊢
    rw [ih (c + 1) (i + 1)]
    simp only [Nat.add_zero, List.cons.injEq, true_and]
    apply List.map_congr_left
    intro j _
    simp only [Function.comp, Nat.succ_eq_add_one]
    congr 2
    omega

theorem arena_image_regs_fit (src : Nat → Nat) (n c i : Nat) (h : c + n ≤ SRAM_SIZE) :
    regs_of (arena_image src n c i) = (List.range n).map fun j => SRAM_START + c + j := by
  rw [arena_image_regs]
  apply List.map_congr_left
  intro j hj
  have hj' := List.mem_range.mp hj
  have hs : SRAM_SIZE = 128 := rfl
  have hst : SRAM_START = 128 := rfl
  omega

theorem set_peripheral_init_cmds_number_i2c (dc : npz_device_config_s)
    (im : Images) (i : Int) (sw : Nat) (s : State) {p : npz_peripheral_config_s}
    (hp : dc.peripheral_at i = some p) (hi : p.communication_protocol = COM_I2C)
    (hc : s.m_sram_count ≤ SRAM_SIZE) :
    ∃ im1 s1 d, set_peripheral_init_cmds_number hal_ok dc im i sw s = some (true, im1, s1)
      ∧ s1.log = s.log ++ arena_image (i2c_cfg_bytes_from_sram p)
          ((i2c_cfg_command_num p * 2) % 256) s.m_sram_count 0 ++ [(REG_NCMDP sw, d)] := by
  have ha : init_cmds_arena hal_ok p s = (true,
      { s with
        log := s.log ++ arena_image (i2c_cfg_bytes_from_sram p)
          ((i2c_cfg_command_num p * 2) % 256) s.m_sram_count 0
        m_sram_count := s.m_sram_count + (i2c_cfg_command_num p * 2) % 256 }) := by
    simp only [init_cmds_arena, hi, if_true, hc, sram_write_loop_ok]
  simp only [set_peripheral_init_cmds_number, hp, ha, npz_write_NCMDP]
  rw [if_neg (by simp), single_ok _ _ _ _ (REG_NCMDP_lt sw)]
  exact ⟨_, _, _, rfl, rfl⟩

theorem slot_targets_once (sw : Nat)
    (hsw : sw = PSW_LP1 ∨ sw = PSW_LP2 ∨ sw = PSW_LP3 ∨ sw = PSW_LP4) :
    ∀ x ∈ slot_registers sw, x < SRAM_START
      ∧ ([REG_CFGP sw, REG_MODP sw, REG_PERP_L sw, REG_PERP_H sw]
          ++ [REG_NCMDP sw, REG_ADDRP sw, REG_RREGP sw, REG_THRUNP_L sw, REG_THRUNP_H sw,
            REG_THROVP_L sw, REG_THROVP_H sw, REG_TWTP sw, REG_TCFGP sw]).count x = 1 := by
  rcases hsw with rfl | rfl | rfl | rfl <;> decide

/-! ## Aborted runs, the codec tables and the write order (C11 to C20) -/

/-- C11. Abort without rollback. Let both `adc_channels` pointers be non-null (they are
dereferenced unconditionally) and let `m_configured_indices` be the four-entry array of the
source. For every transport, `npz_device_configure` returns, and so does the run with the
always-succeeding transport; the transfers of the former are a prefix of the transfers of
the latter. Either every transfer was accepted and the two runs end in the same state
(this includes a run that validation stopped), or the transfers end with the first one the
transport refused: nothing is issued after it, in particular no second transfer to a
register already written. -/
theorem abort_without_rollback (hal : Transport) (dc : npz_device_config_s) (s : State)
    {adc0 adc1 : npz_adc_config_channels_s} (h0 : dc.adc_channel_at 0 = some adc0)
    (h1 : dc.adc_channel_at 1 = some adc1) (hlen : s.m_configured_indices.length = 4) :
    ∃ s_ok s1 l_ok, npz_device_configure hal_ok (some dc) s = some s_ok
      ∧ s_ok.log = s.log ++ l_ok
      ∧ npz_device_configure hal (some dc) s = some s1
      ∧ s1.log <+: s_ok.log
      ∧ ((s1 = s_ok ∧ accepted hal s.log l_ok = true)
        ∨ ∃ l0 w t, l_ok = l0 ++ w :: t ∧ accepted hal s.log l0 = true
            ∧ hal (s.log ++ l0) w ≠ OK ∧ s1.log = s.log ++ l0 ++ [w]) := by
  rw [npz_device_configure_eq hal dc s h0 h1, npz_device_configure_eq hal_ok dc s h0 h1]
  obtain ⟨b, l, k, e, h⟩ := configure_global_settings_sim hal dc s h0 h1
  rw [e]
  have abort_case : ∀ (s1 : State) (l_ok : List Write), Aborts hal s l_ok s1 →
      s1.log <+: s.log ++ l_ok ∧ ∃ l0 w t, l_ok = l0 ++ w :: t ∧ accepted hal s.log l0 = true
        ∧ hal (s.log ++ l0) w ≠ OK ∧ s1.log = s.log ++ l0 ++ [w] := by
    rintro s1 l_ok ⟨l0, w, t, k0, e1, ha, hw, hs⟩
    refine ⟨?_, l0, w, t, e1, ha, hw, by rw [hs, grow_log, List.append_assoc]⟩
    rw [hs, grow_log, e1]
    exact ⟨t, by simp⟩
  cases b with
  | false =>
    rcases h with ⟨e1, hacc⟩ | ⟨s1, e1, ha⟩
    · rw [e1, e]
      exact ⟨_, _, l, rfl, rfl, rfl, List.prefix_refl _, Or.inl ⟨rfl, hacc⟩⟩
    · rw [e1]
      obtain ⟨hp, hx⟩ := abort_case s1 l ha
      exact ⟨_, s1, l, rfl, rfl, rfl, hp, Or.inr hx⟩
  | true =>
    obtain ⟨-, hvl, -, -, -, hvlen⟩ := validate_peripherals_spec dc (s.grow l k) hlen
    have hall := validated_slots_present dc (s.grow l k) hlen
    obtain ⟨b2, l2, k2, e2, h2⟩ := device_tail_sim hal dc (validate_peripherals dc (s.grow l k)).2
      h0 h1 hall
    have hlog : ((validate_peripherals dc (s.grow l k)).2.grow l2 k2).log
        = s.log ++ (l ++ l2) := by
      rw [grow_log, hvl, grow_log, List.append_assoc]
    rcases h with ⟨e1, hacc⟩ | ⟨s1, e1, ha⟩
    · rw [e1, e]
      simp only [e2, Option.map_some']
      rcases h2 with ⟨e3, hacc2⟩ | ⟨s2, e3, ha2⟩
      · rw [e3, e2]
        refine ⟨_, _, l ++ l2, rfl, hlog, rfl, List.prefix_refl _, Or.inl ⟨rfl, ?_⟩⟩
        rw [accepted_append, hacc]
        simpa [hvl, grow_log] using hacc2
      · rw [e3]
        obtain ⟨l0, w, t, k0, e4, ha4, hw4, hs4⟩ := ha2
        rw [hvl, grow_log] at ha4 hw4
        have hs1 : s2.log = s.log ++ (l ++ l0) ++ [w] := by
          rw [hs4, grow_log, hvl, grow_log]; simp
        refine ⟨_, s2, l ++ l2, rfl, hlog, rfl, ?_, Or.inr ⟨l ++ l0, w, t, by simp [e4], ?_,
          by simpa using hw4, hs1⟩⟩
        · show s2.log <+: ((validate_peripherals dc (s.grow l k)).2.grow l2 k2).log
          rw [hlog, hs1, e4]
          exact ⟨t, by simp⟩
        · rw [accepted_append, hacc]; simpa using ha4
    · rw [e1]
      simp only [e2, Option.map_some']
      obtain ⟨hp, l0, w, t, e4, ha4, hw4, hs4⟩ := abort_case s1 l ha
      refine ⟨_, s1, l ++ l2, rfl, hlog, rfl, ?_, Or.inr ⟨l0, w, t ++ l2, by simp [e4], ha4, hw4,
        hs4⟩⟩
      show s1.log <+: ((validate_peripherals dc (s.grow l k)).2.grow l2 k2).log
      rw [hlog]
      obtain ⟨t', ht'⟩ := hp
      exact ⟨t' ++ l2, by rw [← List.append_assoc, ht', List.append_assoc]⟩

/-- C11 (witness). The configuration of main.c with its ADC channels wired in, from the
start-up state, with a transport that refuses the tenth transfer; the run then issues ten
transfers. -/
theorem abort_without_rollback_witness :
    (npz_configuration_adc.adc_channel_at 0 = some npz_adc_internal_config
      ∧ npz_configuration_adc.adc_channel_at 1 = some npz_adc_external_config
      ∧ State.init.m_configured_indices.length = 4)
    ∧ ∃ s_ok s1 l_ok, npz_device_configure hal_ok (some npz_configuration_adc) State.init
          = some s_ok
      ∧ s_ok.log = State.init.log ++ l_ok
      ∧ npz_device_configure (hal_fail_at 9) (some npz_configuration_adc) State.init = some s1
      ∧ s1.log <+: s_ok.log
      ∧ ((s1 = s_ok ∧ accepted (hal_fail_at 9) State.init.log l_ok = true)
        ∨ ∃ l0 w t, l_ok = l0 ++ w :: t ∧ accepted (hal_fail_at 9) State.init.log l0 = true
            ∧ hal_fail_at 9 (State.init.log ++ l0) w ≠ OK
            ∧ s1.log = State.init.log ++ l0 ++ [w]) :=
  ⟨⟨rfl, rfl, rfl⟩,
    abort_without_rollback (hal_fail_at 9) npz_configuration_adc State.init rfl rfl rfl⟩

/-- C12 (counter-example). `npz_write_PERP` for slot 1 with the period bytes `0, 0` and a
succeeding transport returns `INVALID_PARAM` and issues no transfer at all: the low byte is
not written. -/
theorem zero_period_writer_issues_nothing :
    (npz_write_PERP hal_ok 1 { perp_l := 0, perp_h := 0 } State.init).1 = INVALID_PARAM
    ∧ (npz_write_PERP hal_ok 1 { perp_l := 0, perp_h := 0 } State.init).2.log = [] := by
  decide

/-- C12 (as amended). For every transport, `npz_write_TOUT`, and for every slot 1..4
`npz_write_THROVP`, `npz_write_THRUNP` and `npz_write_PERP` with a period that is not
zero, write the low byte to the family's address `A`; if that transfer is refused they
return `ERR` and issue nothing else; otherwise they write the high byte to `A + 1` and
return that transfer's status, so the result is `OK` only if both transfers succeeded.
`npz_write_PERP` with the period bytes `0, 0` returns `INVALID_PARAM` without a
transfer. -/
theorem two_byte_writers_split (hal : Transport) (s : State) :
    (∀ v : npz_register_tout_s,
      split_write hal 0x08 (v.tout_l % 256) (v.tout_h % 256) s (npz_write_TOUT hal v s))
    ∧ ∀ k ∈ [1, 2, 3, 4],
      (∀ v : npz_register_throvp_s, split_write hal (REG_THROVP_L k) (v.throvp_l % 256)
          (v.throvp_h % 256) s (npz_write_THROVP hal k v s))
      ∧ (∀ v : npz_register_thrunp_s, split_write hal (REG_THRUNP_L k) (v.thrunp_l % 256)
          (v.thrunp_h % 256) s (npz_write_THRUNP hal k v s))
      ∧ (∀ v : npz_register_perp_s, ¬ (v.perp_l % 256 = 0 ∧ v.perp_h % 256 = 0) →
          split_write hal (REG_PERP_L k) (v.perp_l % 256) (v.perp_h % 256) s
            (npz_write_PERP hal k v s))
      ∧ (∀ v : npz_register_perp_s, v.perp_l % 256 = 0 ∧ v.perp_h % 256 = 0 →
          npz_write_PERP hal k v s = (INVALID_PARAM, s)) := by
  refine ⟨fun v => two_byte_write_split hal 0x08 _ _ s (by decide), ?_⟩
  intro k hk
  simp only [List.mem_cons, List.mem_singleton, List.not_mem_nil, or_false] at hk
  refine ⟨?_, ?_, ?_, ?_⟩
  · intro v
    rcases hk with rfl | rfl | rfl | rfl <;>
      exact two_byte_write_split hal _ _ _ s (by decide)
  · intro v
    rcases hk with rfl | rfl | rfl | rfl <;>
      exact two_byte_write_split hal _ _ _ s (by decide)
  · intro v hv
    rcases hk with rfl | rfl | rfl | rfl <;>
      (simp only [npz_write_PERP, hv, if_false]
       exact two_byte_write_split hal _ _ _ s (by decide))
  · intro v hv
    simp [npz_write_PERP, hv]

/-- C12 (witness). The amended statement for `npz_write_THROVP` at slot 4. -/
theorem two_byte_writers_split_witness : (4 : Nat) ∈ [1, 2, 3, 4]
    ∧ split_write hal_ok 0x3E 0x34 0x12 State.init
        (npz_write_THROVP hal_ok 4 { throvp_l := 0x34, throvp_h := 0x12 } State.init) :=
  ⟨by decide, ((two_byte_writers_split hal_ok State.init).2 4 (by decide)).1
    { throvp_l := 0x34, throvp_h := 0x12 }⟩

/-- C13. `set_global_timeout` returns `false` without a transfer when `global_timeout` is
0, for every transport. For every 16-bit `global_timeout` other than 0 and the succeeding
transport it returns `true` having issued exactly the two transfers
`(0x08, global_timeout mod 256)` and `(0x09, global_timeout div 256)`, in that order, and
the low byte plus 256 times the high byte is `global_timeout`. -/
theorem global_timeout_two_writes (hal : Transport) (dc : npz_device_config_s) (s : State) :
    (dc.global_timeout = 0 → set_global_timeout hal dc s = some (false, s))
    ∧ (0 < dc.global_timeout → dc.global_timeout < 65536 →
        set_global_timeout hal_ok dc s
          = some (true, s.after [(0x08, dc.global_timeout % 256), (0x09, dc.global_timeout / 256)])
        ∧ dc.global_timeout % 256 + 256 * (dc.global_timeout / 256) = dc.global_timeout) := by
  refine ⟨fun h => set_global_timeout_zero hal dc s (by simp [h]), fun h0 h1 => ⟨?_, by omega⟩⟩
  have e : dc.global_timeout % 65536 = dc.global_timeout := Nat.mod_eq_of_lt h1
  have h2 : dc.global_timeout / 256 % 256 = dc.global_timeout / 256 :=
    Nat.mod_eq_of_lt (by omega)
  simp [set_global_timeout, e, h0, npz_write_TOUT, npz_hal_write_eq, hal_ok, state_after_after, h2]
  rfl

/-- C13 (witness). The timeout `0x0BB8` of main.c: the transfers are `(0x08, 0xB8)` then
`(0x09, 0x0B)`. -/
theorem global_timeout_main_witness :
    0 < npz_configuration.global_timeout ∧ npz_configuration.global_timeout < 65536
    ∧ npz_configuration.global_timeout = 0x0BB8
    ∧ set_global_timeout hal_ok npz_configuration State.init
        = some (true, State.init.after [(0x08, 0xB8), (0x09, 0x0B)]) :=
  ⟨by decide, by decide, rfl,
    ((global_timeout_two_writes hal_ok npz_configuration State.init).2
      (by decide) (by decide)).1⟩

/-- C14. Slot address table. For every slot `k` in 1..4, the ten slot writers of npz.c
(whatever the register values, the period not zero) target exactly the thirteen constants
`REG_*k` of npz_registers.h, in the order of `slot_block k`, and the ten slot readers ask
for exactly the same thirteen addresses; the 52 addresses of the four slots are pairwise
distinct and all lie in `0x10..0x43`. -/
theorem slot_address_table :
    (∀ k ∈ [1, 2, 3, 4],
      (∀ (cfgp : npz_register_cfgp_s) (modp : npz_register_modp_s) (perp : npz_register_perp_s)
        (ncmdp : npz_register_ncmdp_s) (addrp : npz_register_addrp_s)
        (rregp : npz_register_rregp_s) (throvp : npz_register_throvp_s)
        (thrunp : npz_register_thrunp_s) (twtp : npz_register_twtp_s)
        (tcfgp : npz_register_tcfgp_s),
        ¬ (perp.perp_l % 256 = 0 ∧ perp.perp_h % 256 = 0) →
        write_targets k cfgp modp perp ncmdp addrp rregp throvp thrunp twtp tcfgp
          = slot_block k)
      ∧ (∀ rd : ReadTransport, (∀ l r, (rd l r).1 = OK) → read_targets rd k = slot_block k))
    ∧ (slot_block 1 ++ slot_block 2 ++ slot_block 3 ++ slot_block 4).Nodup
    ∧ (slot_block 1 ++ slot_block 2 ++ slot_block 3 ++ slot_block 4).length = 52
    ∧ ∀ a ∈ slot_block 1 ++ slot_block 2 ++ slot_block 3 ++ slot_block 4,
        0x10 ≤ a ∧ a ≤ 0x43 := by
  refine ⟨?_, by decide, by decide, by decide⟩
  intro k hk
  simp only [List.mem_cons, List.mem_singleton, List.not_mem_nil, or_false] at hk
  constructor
  · intro cfgp modp perp ncmdp addrp rregp throvp thrunp twtp tcfgp hp
    rcases hk with rfl | rfl | rfl | rfl <;>
      simp [write_targets, npz_write_CFGP, npz_write_MODP, npz_write_PERP, npz_write_NCMDP,
        npz_write_ADDRP, npz_write_RREGP, npz_write_THROVP, npz_write_THRUNP, npz_write_TWTP,
        npz_write_TCFGP, npz_hal_write, hal_ok, hp, regs_of, State.init, slot_block,
        REG_CFGP, REG_MODP, REG_PERP_L, REG_PERP_H, REG_NCMDP, REG_ADDRP, REG_RREGP,
        REG_THROVP_L, REG_THROVP_H, REG_THRUNP_L, REG_THRUNP_H, REG_TWTP, REG_TCFGP,
        psw_switch] <;> decide
  · intro rd hrd
    rcases hk with rfl | rfl | rfl | rfl <;>
      simp [read_targets, npz_read_CFGP, npz_read_MODP, npz_read_PERP, npz_read_NCMDP,
        npz_read_ADDRP, npz_read_RREGP, npz_read_THROVP, npz_read_THRUNP, npz_read_TWTP,
        npz_read_TCFGP, npz_hal_read, hrd, slot_block, psw_switch] <;> decide

/-- C14 (witness). The writers and the readers at slot 3. -/
theorem slot_address_table_witness : (3 : Nat) ∈ [1, 2, 3, 4]
    ∧ write_targets 3 {} {} { perp_l := 1 } {} {} {} {} {} {} {} = slot_block 3
    ∧ read_targets (fun _ _ => (OK, 0)) 3 = slot_block 3 :=
  ⟨by decide,
    (slot_address_table.1 3 (by decide)).1 {} {} { perp_l := 1 } {} {} {} {} {} {} {}
      (by decide),
    (slot_address_table.1 3 (by decide)).2 (fun _ _ => (OK, 0)) (fun _ _ => rfl)⟩

/-- C15 (counter-example). The address the codec selects for `CFGP` of slot 2 is 13 above
the one of slot 1, not 19. -/
theorem block_stride_is_not_19 :
    REG_CFGP 2 - REG_CFGP 1 = 13 ∧ REG_CFGP 2 - REG_CFGP 1 ≠ 19 := by
  decide

/-- C15 (as amended). The four per-peripheral register blocks repeat with a 13-byte stride:
for each of the thirteen register families and every slot `k` in 1..3, the address selected
for slot `k + 1` is the address selected for slot `k` plus 13. -/
theorem block_stride_is_13 (k : Nat) (h1 : 1 ≤ k) (h3 : k ≤ 3) :
    REG_CFGP (k + 1) = REG_CFGP k + 13 ∧ REG_MODP (k + 1) = REG_MODP k + 13
    ∧ REG_PERP_L (k + 1) = REG_PERP_L k + 13 ∧ REG_PERP_H (k + 1) = REG_PERP_H k + 13
    ∧ REG_NCMDP (k + 1) = REG_NCMDP k + 13 ∧ REG_ADDRP (k + 1) = REG_ADDRP k + 13
    ∧ REG_RREGP (k + 1) = REG_RREGP k + 13 ∧ REG_THROVP_L (k + 1) = REG_THROVP_L k + 13
    ∧ REG_THROVP_H (k + 1) = REG_THROVP_H k + 13 ∧ REG_THRUNP_L (k + 1) = REG_THRUNP_L k + 13
    ∧ REG_THRUNP_H (k + 1) = REG_THRUNP_H k + 13 ∧ REG_TWTP (k + 1) = REG_TWTP k + 13
    ∧ REG_TCFGP (k + 1) = REG_TCFGP k + 13 := by
  interval_cases k <;> decide

/-- C15 (witness). The stride between slot 1 and slot 2 for `CFGP`. -/
theorem block_stride_witness : 1 ≤ 1 ∧ 1 ≤ 3 ∧ REG_CFGP 2 = REG_CFGP 1 + 13 :=
  ⟨by decide, by decide, (block_stride_is_13 1 (by decide) (by decide)).1⟩

/-- C16 (counter-example). A `npz_register_pswctl_s` whose status bit `psw_vn_on` is 1 fits
its bit widths, yet `npz_write_PSWCTL` writes the byte 0 (the writer does not encode that
bit), and a read that returns this byte yields `psw_vn_on = 0`. -/
theorem pswctl_status_bit_not_round_tripped :
    (npz_write_PSWCTL hal_ok { psw_vn_on := 1 } State.init).2.log = [(REG_PSWCTL, 0)]
    ∧ (npz_read_PSWCTL (fun _ _ => (OK, 0)) []).1 = OK
    ∧ (npz_read_PSWCTL (fun _ _ => (OK, 0)) []).2.1.psw_vn_on = 0 := by
  decide

/-- C16 (as amended). Round trip of the codec. For every register family with a writer and
a reader and every struct value whose fields fit their declared bit widths, the writer
issues one transfer `(register, byte)`, and a read of that register that returns this byte
makes the reader yield the original value of every field the writer encodes; the members the
writers do not encode (the status bit `psw_vn_on` of PSWCTL and the `padding` members) come
back as 0. For the two-byte families and the succeeding transport, the pair of bytes
written (a period not zero for PERP) is the pair read back. -/
theorem register_round_trip :
    (∀ v : npz_register_pswctl_s, v.fits →
      round_trip_byte (fun hal s => npz_write_PSWCTL hal v s) npz_read_PSWCTL REG_PSWCTL
        { v with psw_vn_on := 0 })
    ∧ (∀ v : npz_register_syscfg1_s, v.fits →
      round_trip_byte (fun hal s => npz_write_SYSCFG1 hal v s) npz_read_SYSCFG1 REG_SYSCFG1
        { v with padding := 0 })
    ∧ (∀ v : npz_register_syscfg2_s, v.fits →
      round_trip_byte (fun hal s => npz_write_SYSCFG2 hal v s) npz_read_SYSCFG2 REG_SYSCFG2
        { v with padding := 0 })
    ∧ (∀ v : npz_register_syscfg3_s, v.fits →
      round_trip_byte (fun hal s => npz_write_SYSCFG3 hal v s) npz_read_SYSCFG3 REG_SYSCFG3 v)
    ∧ (∀ v : npz_register_intcfg_s, v.fits →
      round_trip_byte (fun hal s => npz_write_INTCFG hal v s) npz_read_INTCFG REG_INTCFG v)
    ∧ (∀ v : npz_register_throva_s, v.fits →
      round_trip_byte (fun hal s => npz_write_THROVA1 hal v s) npz_read_THROVA1 REG_THROVA1
        { v with padding := 0 }
      ∧ round_trip_byte (fun hal s => npz_write_THROVA2 hal v s) npz_read_THROVA2
          REG_THROVA2 { v with padding := 0 })
    ∧ (∀ v : npz_register_thruna_s, v.fits →
      round_trip_byte (fun hal s => npz_write_THRUNA1 hal v s) npz_read_THRUNA1 REG_THRUNA1
        { v with padding := 0 }
      ∧ round_trip_byte (fun hal s => npz_write_THRUNA2 hal v s) npz_read_THRUNA2
          REG_THRUNA2 { v with padding := 0 })
    ∧ (∀ v : npz_register_tout_s, v.tout_l < 256 → v.tout_h < 256 →
      round_trip_pair (fun hal s => npz_write_TOUT hal v s) npz_read_TOUT REG_TOUT_L
        REG_TOUT_H v)
    ∧ ∀ k ∈ [1, 2, 3, 4],
      (∀ v : npz_register_cfgp_s, v.fits →
        round_trip_byte (fun hal s => npz_write_CFGP hal k v s)
          (fun rd rlog => npz_read_CFGP rd k rlog) (REG_CFGP k) v)
      ∧ (∀ v : npz_register_modp_s, v.fits →
        round_trip_byte (fun hal s => npz_write_MODP hal k v s)
          (fun rd rlog => npz_read_MODP rd k rlog) (REG_MODP k) v)
      ∧ (∀ v : npz_register_ncmdp_s, v.fits →
        round_trip_byte (fun hal s => npz_write_NCMDP hal k v s)
          (fun rd rlog => npz_read_NCMDP rd k rlog) (REG_NCMDP k) { v with padding := 0 })
      ∧ (∀ v : npz_register_addrp_s, v.fits →
        round_trip_byte (fun hal s => npz_write_ADDRP hal k v s)
          (fun rd rlog => npz_read_ADDRP rd k rlog) (REG_ADDRP k) v)
      ∧ (∀ v : npz_register_tcfgp_s, v.fits →
        round_trip_byte (fun hal s => npz_write_TCFGP hal k v s)
          (fun rd rlog => npz_read_TCFGP rd k rlog) (REG_TCFGP k) { v with padding := 0 })
      ∧ (∀ v : npz_register_perp_s, v.perp_l < 256 → v.perp_h < 256 →
        ¬ (v.perp_l = 0 ∧ v.perp_h = 0) →
        round_trip_pair (fun hal s => npz_write_PERP hal k v s)
          (fun rd v0 rlog => npz_read_PERP rd k v0 rlog) (REG_PERP_L k) (REG_PERP_H k) v)
      ∧ (∀ v : npz_register_throvp_s, v.throvp_l < 256 → v.throvp_h < 256 →
        round_trip_pair (fun hal s => npz_write_THROVP hal k v s)
          (fun rd v0 rlog => npz_read_THROVP rd k v0 rlog) (REG_THROVP_L k)
          (REG_THROVP_H k) v)
      ∧ (∀ v : npz_register_thrunp_s, v.thrunp_l < 256 → v.thrunp_h < 256 →
        round_trip_pair (fun hal s => npz_write_THRUNP hal k v s)
          (fun rd v0 rlog => npz_read_THRUNP rd k v0 rlog) (REG_THRUNP_L k)
          (REG_THRUNP_H k) v) := by
  refine ⟨?_, ?_, ?_, ?_, ?_, ?_, ?_, ?_, ?_⟩
  · intro v hv
    refine round_trip_byte_of _ _ _ _ _ (fun hal s => rfl) fun rd rlog h => ?_
    simp only [npz_read_PSWCTL, npz_hal_read_eq rd rlog _ _ (by decide) h, overlay_pswctl_pack v hv]
  · intro v hv
    refine round_trip_byte_of _ _ _ _ _ (fun hal s => rfl) fun rd rlog h => ?_
    simp only [npz_read_SYSCFG1, npz_hal_read_eq rd rlog _ _ (by decide) h, overlay_syscfg1_pack v hv]
  · intro v hv
    refine round_trip_byte_of _ _ _ _ _ (fun hal s => rfl) fun rd rlog h => ?_
    simp only [npz_read_SYSCFG2, npz_hal_read_eq rd rlog _ _ (by decide) h, overlay_syscfg2_pack v hv]
  · intro v hv
    refine round_trip_byte_of _ _ _ _ _ (fun hal s => rfl) fun rd rlog h => ?_
    simp only [npz_read_SYSCFG3, npz_hal_read_eq rd rlog _ _ (by decide) h, overlay_syscfg3_pack v hv]
  · intro v hv
    refine round_trip_byte_of _ _ _ _ _ (fun hal s => rfl) fun rd rlog h => ?_
    simp only [npz_read_INTCFG, npz_hal_read_eq rd rlog _ _ (by decide) h, overlay_intcfg_pack v hv]
  · intro v hv
    constructor
    · refine round_trip_byte_of _ _ _ _ _ (fun hal s => rfl) fun rd rlog h => ?_
      simp only [npz_read_THROVA1, npz_hal_read_eq rd rlog _ _ (by decide) h, overlay_throva_pack v hv]
    · refine round_trip_byte_of _ _ _ _ _ (fun hal s => rfl) fun rd rlog h => ?_
      simp only [npz_read_THROVA2, npz_hal_read_eq rd rlog _ _ (by decide) h, overlay_throva_pack v hv]
  · intro v hv
    constructor
    · refine round_trip_byte_of _ _ _ _ _ (fun hal s => rfl) fun rd rlog h => ?_
      simp only [npz_read_THRUNA1, npz_hal_read_eq rd rlog _ _ (by decide) h, overlay_thruna_pack v hv]
    · refine round_trip_byte_of _ _ _ _ _ (fun hal s => rfl) fun rd rlog h => ?_
      simp only [npz_read_THRUNA2, npz_hal_read_eq rd rlog _ _ (by decide) h, overlay_thruna_pack v hv]
  · intro v hl hh
    obtain ⟨a, b⟩ := v
    have ea : a % 256 % 256 = a := by simp only [] at hl; omega
    have eb : b % 256 % 256 = b := by simp only [] at hh; omega
    refine round_trip_pair_of _ _ _ _ _ (a % 256) (b % 256) (fun s => ?_)
      fun rd rlog v0 h1 h2 => ?_
    · simp [npz_write_TOUT, npz_hal_write, hal_ok, REG_TOUT_L, REG_TOUT_H]
    · simp only [npz_read_TOUT, npz_hal_read_eq rd rlog _ _ (by decide) h1,
        npz_hal_read_eq rd _ _ _ (by decide) h2, ea, eb, if_true]
      simp
  · intro k hk
    simp only [List.mem_cons, List.mem_singleton, List.not_mem_nil, or_false] at hk
    refine ⟨?_, ?_, ?_, ?_, ?_, ?_, ?_, ?_⟩
    · intro v hv
      rcases hk with rfl | rfl | rfl | rfl <;>
        (refine round_trip_byte_of _ _ _ _ _ (fun hal s => rfl) fun rd rlog h => ?_
         simp only [npz_read_CFGP_eq, npz_hal_read_eq rd rlog _ _ (by decide) h, overlay_cfgp_pack v hv])
    · intro v hv
      rcases hk with rfl | rfl | rfl | rfl <;>
        (refine round_trip_byte_of _ _ _ _ _ (fun hal s => rfl) fun rd rlog h => ?_
         simp only [npz_read_MODP_eq, npz_hal_read_eq rd rlog _ _ (by decide) h, overlay_modp_pack v hv])
    · intro v hv
      rcases hk with rfl | rfl | rfl | rfl <;>
        (refine round_trip_byte_of _ _ _ _ _ (fun hal s => rfl) fun rd rlog h => ?_
         simp only [npz_read_NCMDP_eq, npz_hal_read_eq rd rlog _ _ (by decide) h, overlay_ncmdp_pack v hv])
    · intro v hv
      rcases hk with rfl | rfl | rfl | rfl <;>
        (refine round_trip_byte_of _ _ _ _ _ (fun hal s => rfl) fun rd rlog h => ?_
         simp only [npz_read_ADDRP_eq, npz_hal_read_eq rd rlog _ _ (by decide) h, overlay_addrp_pack v hv])
    · intro v hv
      rcases hk with rfl | rfl | rfl | rfl <;>
        (refine round_trip_byte_of _ _ _ _ _ (fun hal s => rfl) fun rd rlog h => ?_
         simp only [npz_read_TCFGP_eq, npz_hal_read_eq rd rlog _ _ (by decide) h, overlay_tcfgp_pack v hv])
    · intro v hl hh hz
      obtain ⟨a, b⟩ := v
      have ea : a % 256 % 256 = a := by simp only [] at hl; omega
      have eb : b % 256 % 256 = b := by simp only [] at hh; omega
      have hz' : ¬ (a % 256 = 0 ∧ b % 256 = 0) := by simp only [] at hl hh hz; omega
      rcases hk with rfl | rfl | rfl | rfl <;>
        (refine round_trip_pair_of _ _ _ _ _ (a % 256) (b % 256) (fun s => ?_)
           fun rd rlog v0 h1 h2 => ?_
         · simp [npz_write_PERP, hz', npz_hal_write, hal_ok, REG_PERP_L, REG_PERP_H, psw_switch]
           decide
         · simp only [npz_read_PERP_eq, npz_hal_read_eq rd rlog _ _ (by decide) h1,
             npz_hal_read_eq rd _ _ _ (by decide) h2, ea, eb, if_true]
           simp)
    · intro v hl hh
      obtain ⟨a, b⟩ := v
      have ea : a % 256 % 256 = a := by simp only [] at hl; omega
      have eb : b % 256 % 256 = b := by simp only [] at hh; omega
      rcases hk with rfl | rfl | rfl | rfl <;>
        (refine round_trip_pair_of _ _ _ _ _ (a % 256) (b % 256) (fun s => ?_)
           fun rd rlog v0 h1 h2 => ?_
         · simp [npz_write_THROVP, npz_hal_write, hal_ok, REG_THROVP_L, REG_THROVP_H, psw_switch]
           decide
         · simp only [npz_read_THROVP_eq, npz_hal_read_eq rd rlog _ _ (by decide) h1,
             npz_hal_read_eq rd _ _ _ (by decide) h2, ea, eb, if_true]
           simp)
    · intro v hl hh
      obtain ⟨a, b⟩ := v
      have ea : a % 256 % 256 = a := by simp only [] at hl; omega
      have eb : b % 256 % 256 = b := by simp only [] at hh; omega
      rcases hk with rfl | rfl | rfl | rfl <;>
        (refine round_trip_pair_of _ _ _ _ _ (a % 256) (b % 256) (fun s => ?_)
           fun rd rlog v0 h1 h2 => ?_
         · simp [npz_write_THRUNP, npz_hal_write, hal_ok, REG_THRUNP_L, REG_THRUNP_H, psw_switch]
           decide
         · simp only [npz_read_THRUNP_eq, npz_hal_read_eq rd rlog _ _ (by decide) h1,
             npz_hal_read_eq rd _ _ _ (by decide) h2, ea, eb, if_true]
           simp)

/-- C16 (witness). The round trip of `CFGP` at slot 3. -/
theorem register_round_trip_witness :
    ((3 : Nat) ∈ [1, 2, 3, 4]
      ∧ npz_register_cfgp_s.fits { pwmod := 1, tmod := 2, pswmod := 1, intmod := 3 })
    ∧ round_trip_byte
        (fun hal s => npz_write_CFGP hal 3 { pwmod := 1, tmod := 2, pswmod := 1, intmod := 3 } s)
        (fun rd rlog => npz_read_CFGP rd 3 rlog) (REG_CFGP 3)
        { pwmod := 1, tmod := 2, pswmod := 1, intmod := 3 } :=
  ⟨⟨by decide, by simp [npz_register_cfgp_s.fits]⟩,
    (register_round_trip.2.2.2.2.2.2.2.2 3 (by decide)).1
      { pwmod := 1, tmod := 2, pswmod := 1, intmod := 3 } (by simp [npz_register_cfgp_s.fits])⟩

/-- C17. Global write order. For a valid device configuration (timeout not zero, mapped
clock divider, ADC clock, host power mode and interrupt pin policies, both ADC channel
objects present) and the succeeding transport, `configure_global_settings` returns `true`
having issued exactly seven transfers, to `0x08`, `0x09`, `0x05`, `0x06`, `0x07`, `0x04`,
`0x0A` in that order; `npz_device_configure` returns, and its transfers are those seven
followed by the transfers `l1` of the rest of the function, the peripheral sequences and
the ADC channels. -/
theorem global_write_order (dc : npz_device_config_s) (s : State)
    {adc0 adc1 : npz_adc_config_channels_s} (h0 : dc.adc_channel_at 0 = some adc0)
    (h1 : dc.adc_channel_at 1 = some adc1) (hlen : s.m_configured_indices.length = 4)
    (ht : dc.global_timeout % 65536 ≠ 0)
    (hd : (sclk_div_switch dc.system_clock_divider).isSome)
    (hc : (adc_clk_switch dc.adc_clock_sel).isSome)
    (hh : dc.host_power_mode = HOST_POWER_MODE_SWITCH
      ∨ dc.host_power_mode = HOST_POWER_MODE_LOGIC_OUTPUT
      ∨ dc.host_power_mode = HOST_POWER_MODE_LOGIC_OUTPUT_INV)
    (hp1 : (int_pin_switch dc.interrupt_pin_pull_up_pin1).isSome)
    (hp2 : (int_pin_switch dc.interrupt_pin_pull_up_pin2).isSome)
    (hp3 : (int_pin_switch dc.interrupt_pin_pull_up_pin3).isSome)
    (hp4 : (int_pin_switch dc.interrupt_pin_pull_up_pin4).isSome) :
    ∃ l b s1 l1, configure_global_settings hal_ok dc s = some (true, s.after l)
      ∧ regs_of l = [0x08, 0x09, 0x05, 0x06, 0x07, 0x04, 0x0A]
      ∧ device_tail hal_ok dc adc0 adc1 (validate_peripherals dc (s.after l)).2 = some (b, s1)
      ∧ npz_device_configure hal_ok (some dc) s = some s1
      ∧ s1.log = s.log ++ l ++ l1 := by
  have hg : GDone ([REG_TOUT_L, REG_TOUT_H] ++ ([REG_SYSCFG1] ++ ([REG_SYSCFG2]
      ++ ([REG_SYSCFG3] ++ ([REG_PSWCTL] ++ ([REG_INTCFG] ++ []))))))
      s (configure_global_settings hal_ok dc s) :=
    gdone_andThen (set_global_timeout_done dc s ht) fun s1 =>
    gdone_andThen (set_system_config1_done dc s1 h0 h1) fun s2 =>
    gdone_andThen (set_system_config2_done dc s2 hd hc) fun s3 =>
    gdone_andThen (set_system_config3_done dc s3) fun s4 =>
    gdone_andThen (set_power_switch_control_done dc s4 hh) fun s5 =>
    gdone_andThen (set_interrupt_pin_config_done dc s5 hp1 hp2 hp3 hp4) fun s6 =>
    ⟨[], by rw [state_after_nil], rfl⟩
  obtain ⟨l, e, hl⟩ := hg
  have hlen' : (s.after l).m_configured_indices.length = 4 := hlen
  obtain ⟨-, hvl, -, -, -, -⟩ := validate_peripherals_spec dc (s.after l) hlen'
  obtain ⟨b, l2, k2, e2, -⟩ := device_tail_sim hal_ok dc (validate_peripherals dc (s.after l)).2
    h0 h1 (validated_slots_present dc (s.after l) hlen')
  refine ⟨l, b, _, l2, e, hl, e2, ?_, ?_⟩
  · rw [npz_device_configure_eq hal_ok dc s h0 h1, e]
    simp only [e2, Option.map_some']
  · rw [grow_log, hvl, state_after_log]

/-- C17 (witness). The configuration of main.c with its ADC channels wired in, from the
start-up state. -/
theorem global_write_order_witness :
    ∃ l b s1 l1, configure_global_settings hal_ok npz_configuration_adc State.init
          = some (true, State.init.after l)
      ∧ regs_of l = [0x08, 0x09, 0x05, 0x06, 0x07, 0x04, 0x0A]
      ∧ device_tail hal_ok npz_configuration_adc npz_adc_internal_config
          npz_adc_external_config
          (validate_peripherals npz_configuration_adc (State.init.after l)).2 = some (b, s1)
      ∧ npz_device_configure hal_ok (some npz_configuration_adc) State.init = some s1
      ∧ s1.log = State.init.log ++ l ++ l1 :=
  global_write_order npz_configuration_adc State.init rfl rfl rfl (by decide) (by decide)
    (by decide) (by decide) (by decide) (by decide) (by decide) (by decide)

/-- Write order of one I2C peripheral whose arena request fits. For an I2C peripheral
(period not zero, mapped wait-time selectors) in polling mode 0 or 1 whose
`2 * command_num` arena bytes fit below offset 128 from the entry cursor, and the
succeeding transport, the peripheral's sequence returns `true` and its transfers go, in
order, to `CFGP`, `MODP`, `PERP_L`, `PERP_H` of the slot, the arena addresses
`0x80 + cursor + j`, then `NCMDP`, `ADDRP`, `RREGP`, `THRUNP_L`, `THRUNP_H`, `THROVP_L`,
`THROVP_H`, `TWTP`, `TCFGP` of the slot; each of the thirteen registers of the slot is
targeted exactly once among them. -/
theorem i2c_peripheral_write_order (dc : npz_device_config_s) (images : Images) (i : Int)
    (p : npz_peripheral_config_s) (s : State)
    (hp : dc.peripheral_at i = some p)
    (hi : p.communication_protocol = COM_I2C)
    (hmode : p.polling_mode = POLLING_MODE_PERIODIC_READ_COMPARE_THRESHOLD
      ∨ p.polling_mode = POLLING_MODE_PERIODIC_WAIT_INTERRUPT_COMPARE_THRESHOLD)
    (hper : p.polling_period % 65536 ≠ 0)
    (hpre : p.pre_wait_time = PRE_WAIT_TIME_DISABLED
      ∨ p.pre_wait_time = PRE_WAIT_TIME_EXTEND_256
      ∨ p.pre_wait_time = PRE_WAIT_TIME_EXTEND_4096)
    (hpost : p.post_wait_time = POST_WAIT_TIME_DISABLED
      ∨ p.post_wait_time = POST_WAIT_TIME_EXTEND_256
      ∨ p.post_wait_time = POST_WAIT_TIME_EXTEND_4096)
    (hfit : s.m_sram_count + (i2c_cfg_command_num p * 2) % 256 ≤ SRAM_SIZE) :
    ∃ im s1 l, configure_peripherals_body hal_ok dc images i s = some (true, im, s1)
      ∧ s1.log = s.log ++ l
      ∧ regs_of l =
        [REG_CFGP (switches i), REG_MODP (switches i), REG_PERP_L (switches i),
          REG_PERP_H (switches i)]
        ++ ((List.range ((i2c_cfg_command_num p * 2) % 256)).map
            fun j => SRAM_START + s.m_sram_count + j)
        ++ [REG_NCMDP (switches i), REG_ADDRP (switches i), REG_RREGP (switches i),
          REG_THRUNP_L (switches i), REG_THRUNP_H (switches i), REG_THROVP_L (switches i),
          REG_THROVP_H (switches i), REG_TWTP (switches i), REG_TCFGP (switches i)]
      ∧ ∀ x ∈ slot_registers (switches i), (regs_of l).count x = 1 := by
  have hm3 : p.polling_mode = POLLING_MODE_PERIODIC_READ_COMPARE_THRESHOLD
      ∨ p.polling_mode = POLLING_MODE_PERIODIC_WAIT_INTERRUPT_COMPARE_THRESHOLD
      ∨ p.polling_mode = POLLING_MODE_PERIODIC_WAIT_INTERRUPT := by
    rcases hmode with h | h
    · exact Or.inl h
    · exact Or.inr (Or.inl h)
  have tail : ∀ im1 s1, PDone _ s1 _ := fun im1 s1 =>
    pdone_andThen (set_peripheral_address_done dc im1 i (switches i) s1 hp) fun im2 s2 =>
    pdone_andThen
      (pdone_andThen (set_peripheral_i2c_read_register_done dc im2 i (switches i) s2 hp)
        fun im3 s3 =>
        pdone_andThen (set_peripheral_under_threshold_done dc im3 i (switches i) s3 hp)
        fun im4 s4 => set_peripheral_over_threshold_done dc im4 i (switches i) s4 hp)
    fun im5 s5 =>
    pdone_andThen (set_peripheral_time_to_wait_done dc im5 i (switches i) s5 hp)
    fun im6 s6 =>
    set_peripheral_time_to_wait_config_done dc im6 i (switches i) s6 hp hpre hpost
  obtain ⟨im1, d1, e1⟩ := set_peripheral_power_mode_ok dc images i (switches i) s hp
  obtain ⟨im2, d2, e2⟩ := set_peripheral_mode_ok dc im1 i (switches i)
    (s.after [(REG_CFGP (switches i), d1)]) hp
  obtain ⟨im3, d3, d4, e3⟩ := set_peripheral_polling_period_ok dc im2 i (switches i)
    ((s.after [(REG_CFGP (switches i), d1)]).after [(REG_MODP (switches i), d2)]) hp hper
  have hs : SRAM_SIZE = 128 := rfl
  obtain ⟨im4, s4, d5, e4, hl4⟩ := set_peripheral_init_cmds_number_i2c dc im3 i (switches i)
    (((s.after [(REG_CFGP (switches i), d1)]).after [(REG_MODP (switches i), d2)]).after
      [(REG_PERP_L (switches i), d3), (REG_PERP_H (switches i), d4)]) hp hi
    (by simp only [state_after_sram]; omega)
  obtain ⟨im5, s5, l5, e5, hl5, hr5⟩ := tail im4 s4
  simp only [hi, if_true] at hr5
  simp only [state_after_log, state_after_sram] at hl4
  have hreg := arena_image_regs_fit (i2c_cfg_bytes_from_sram p)
    ((i2c_cfg_command_num p * 2) % 256) s.m_sram_count 0 hfit
  have hregs : regs_of ([(REG_CFGP (switches i), d1), (REG_MODP (switches i), d2),
        (REG_PERP_L (switches i), d3), (REG_PERP_H (switches i), d4)]
      ++ arena_image (i2c_cfg_bytes_from_sram p) ((i2c_cfg_command_num p * 2) % 256)
          s.m_sram_count 0
      ++ [(REG_NCMDP (switches i), d5)] ++ l5)
      = [REG_CFGP (switches i), REG_MODP (switches i), REG_PERP_L (switches i),
          REG_PERP_H (switches i)]
        ++ ((List.range ((i2c_cfg_command_num p * 2) % 256)).map
            fun j => SRAM_START + s.m_sram_count + j)
        ++ [REG_NCMDP (switches i), REG_ADDRP (switches i), REG_RREGP (switches i),
          REG_THRUNP_L (switches i), REG_THRUNP_H (switches i), REG_THROVP_L (switches i),
          REG_THROVP_H (switches i), REG_TWTP (switches i), REG_TCFGP (switches i)] := by
    simp only [regs_of_append, hreg, hr5]
    simp [regs_of]
  refine ⟨im5, s5, _, ?_, ?_, hregs, ?_⟩
  · simp only [configure_peripherals_body, hp, e1, PRes.andThen, e2, e3, e4, hm3, hmode,
      if_true]
    exact e5
  · rw [hl5, hl4]
    simp only [List.append_assoc, List.cons_append, List.nil_append]
  · intro x hx
    obtain ⟨hlt, hcount⟩ := slot_targets_once (switches i)
      (switches_of_range i (peripheral_at_range dc i hp)) x hx
    have harena : List.count x ((List.range ((i2c_cfg_command_num p * 2) % 256)).map
        fun j => SRAM_START + s.m_sram_count + j) = 0 := by
      apply List.count_eq_zero.mpr
      intro hmem
      obtain ⟨j, -, hj⟩ := List.mem_map.mp hmem
      omega
    rw [hregs, List.count_append, List.count_append, harena]
    rw [List.count_append] at hcount
    omega

/-- Instance of the write order where the request fits: slot 1 of `four_i2c_configuration`
(20 commands, polling mode 0) from the start-up state. -/
theorem i2c_peripheral_write_order_witness :
    ∃ im s1 l, configure_peripherals_body hal_ok four_i2c_configuration Images.zero 0 State.init
          = some (true, im, s1)
      ∧ s1.log = State.init.log ++ l
      ∧ regs_of l =
        [REG_CFGP (switches 0), REG_MODP (switches 0), REG_PERP_L (switches 0),
          REG_PERP_H (switches 0)]
        ++ ((List.range ((i2c_cfg_command_num i2c_full * 2) % 256)).map
            fun j => SRAM_START + State.init.m_sram_count + j)
        ++ [REG_NCMDP (switches 0), REG_ADDRP (switches 0), REG_RREGP (switches 0),
          REG_THRUNP_L (switches 0), REG_THRUNP_H (switches 0), REG_THROVP_L (switches 0),
          REG_THROVP_H (switches 0), REG_TWTP (switches 0), REG_TCFGP (switches 0)]
      ∧ ∀ x ∈ slot_registers (switches 0), (regs_of l).count x = 1 :=
  i2c_peripheral_write_order four_i2c_configuration Images.zero 0 i2c_full State.init rfl rfl
    (Or.inl rfl) (by decide) (Or.inl rfl) (Or.inl rfl) (by decide)

set_option maxRecDepth 100000 in
/-- C18 (evaluation at the failing input). Slot 1 of `four_i2c_configuration` holds a valid
I2C peripheral with polling mode 0, period 50 and 20 commands, and one call of
`npz_device_configure` from the start-up state over the succeeding transport returns with
every one of the thirteen registers of slot 1 targeted twice, not once: the forty arena
bytes of slot 4, entered at cursor 120, run past offset 128 and their 8-bit addresses wrap
onto `0x00..0x1F`, so that `REG_CFGP1` receives its configuration byte `0x01` and later
the command byte `0x22`.  After one call with `three_i2c_configuration` the cursor is 120,
and the loop body for slot 1 entered there returns `true` with each register of slot 1
targeted twice among its own transfers. -/
theorem slot_registers_targeted_twice :
    (four_i2c_configuration.peripheral_at 0).map
        (fun p => (p.communication_protocol, p.polling_mode, p.polling_period,
          i2c_cfg_command_num p))
      = some (COM_I2C, POLLING_MODE_PERIODIC_READ_COMPARE_THRESHOLD, 50, 20)
    ∧ (npz_device_configure hal_ok (some four_i2c_configuration) State.init).map
        (fun s => (s.m_sram_count,
          (slot_registers 1).map (fun x => (regs_of s.log).count x),
          s.log.filter (fun w => w.1 = REG_CFGP 1)))
      = some (160, List.replicate 13 2, [(0x10, 0x01), (0x10, 0x22)])
    ∧ ((npz_device_configure hal_ok (some three_i2c_configuration) State.init).bind fun s =>
        (configure_peripherals_body hal_ok three_i2c_configuration Images.zero 0 s).map
          (fun r => (s.m_sram_count, r.1,
            (slot_registers 1).map
              (fun x => (regs_of (r.2.2.log.drop s.log.length)).count x))))
      = some (120, true, List.replicate 13 2) := by
  decide

set_option maxRecDepth 100000 in
/-- C19 (failing input). In `null_slot_configuration` slot 1 is null and slots 2 and 3 each
hold an SPI peripheral with 40 initialisation and 40 read-sequence bytes. From the start-up
state and with the succeeding transport, `validate_peripherals` stores the count 2 and the
indices 1, 2 as claimed and the pass returns `true`; yet transfer 155 of the pass goes to
`REG_CFGP1`, a register of the null slot 1, and transfer 168 goes to `REG_CFGP2`, a
register of slot 2, after transfer 87, the `CFGP` write of slot 3: both are arena bytes of
slot 3 written past offset 128, whose 8-bit address wraps. -/
theorem null_slot_register_targeted :
    (null_slot_configuration.peripheral_at 0).isNone = true
    ∧ (peripheral_pass hal_ok null_slot_configuration State.init).map
        (fun r => (r.1, r.2.m_configured_count, r.2.m_configured_indices.take 2))
      = some (true, 2, [1, 2])
    ∧ (peripheral_pass hal_ok null_slot_configuration State.init).map
        (fun r => (r.2.log[87]?, r.2.log[155]?, r.2.log[168]?))
      = some (some (REG_CFGP3, 13), some (REG_CFGP1, 0xFF), some (REG_CFGP2, 0xFF)) := by
  decide

/-- C20. `set_interrupt_pin_config`, for every transport: if one of the four pin policies is
outside `{0, 1, 3}` it returns `false` without a transfer; otherwise it issues exactly one
transfer, to `0x0A`, whose value is `p1 + 4 * p2 + 16 * p3 + 64 * p4`, and returns whether
the transport accepted it. -/
theorem interrupt_pin_config_byte (hal : Transport) (dc : npz_device_config_s) (s : State) :
    let p1 := dc.interrupt_pin_pull_up_pin1
    let p2 := dc.interrupt_pin_pull_up_pin2
    let p3 := dc.interrupt_pin_pull_up_pin3
    let p4 := dc.interrupt_pin_pull_up_pin4
    let valid := fun p : Nat => p = 0 ∨ p = 1 ∨ p = 3
    (¬ (valid p1 ∧ valid p2 ∧ valid p3 ∧ valid p4) →
        set_interrupt_pin_config hal dc s = some (false, s))
    ∧ (valid p1 → valid p2 → valid p3 → valid p4 →
        set_interrupt_pin_config hal dc s
          = some (decide (hal s.log (0x0A, p1 + 4 * p2 + 16 * p3 + 64 * p4) = OK),
              s.after [(0x0A, p1 + 4 * p2 + 16 * p3 + 64 * p4)])) := by
  intro p1 p2 p3 p4 valid
  constructor
  · intro h
    apply set_interrupt_pin_config_invalid
    by_contra hc
    simp only [not_or] at hc
    obtain ⟨c1, c2, c3, c4⟩ := hc
    apply h
    refine ⟨?_, ?_, ?_, ?_⟩
    · by_contra hv; exact c1 (int_pin_switch_none _ hv)
    · by_contra hv; exact c2 (int_pin_switch_none _ hv)
    · by_contra hv; exact c3 (int_pin_switch_none _ hv)
    · by_contra hv; exact c4 (int_pin_switch_none _ hv)
  · intro h1 h2 h3 h4
    have e : (p1 % 2 + 2 * (p1 / 2 % 2) + 4 * (p2 % 2) + 8 * (p2 / 2 % 2) + 16 * (p3 % 2)
        + 32 * (p3 / 2 % 2) + 64 * (p4 % 2) + 128 * (p4 / 2 % 2)) % 256
        = p1 + 4 * p2 + 16 * p3 + 64 * p4 := by
      have b1 : p1 ≤ 3 ∧ p1 % 2 + 2 * (p1 / 2 % 2) = p1 := by simp only [valid] at h1; omega
      have b2 : p2 ≤ 3 ∧ p2 % 2 + 2 * (p2 / 2 % 2) = p2 := by simp only [valid] at h2; omega
      have b3 : p3 ≤ 3 ∧ p3 % 2 + 2 * (p3 / 2 % 2) = p3 := by simp only [valid] at h3; omega
      have b4 : p4 ≤ 3 ∧ p4 % 2 + 2 * (p4 / 2 % 2) = p4 := by simp only [valid] at h4; omega
      clear h1 h2 h3 h4
      omega
    simp only [set_interrupt_pin_config, int_pin_switch_valid _ h1, int_pin_switch_valid _ h2,
      int_pin_switch_valid _ h3, int_pin_switch_valid _ h4, npz_write_INTCFG, npz_hal_write_eq,
      pack_intcfg, Nat.mod_mod, REG_INTCFG, Nat.reduceMod, p1, p2, p3, p4] at e ⊢
    rw [e]
    split <;> simp_all

/-- C20 (witness). Pin 2 pulled high and pins 1, 3, 4 disabled: the byte is `0x0C`, in
which exactly bits 2 and 3 are set. -/
theorem interrupt_pin_config_witness :
    set_interrupt_pin_config hal_ok pin2_high_configuration State.init
        = some (true, State.init.after [(0x0A, 0x0C)])
    ∧ (List.range 8).filter (fun b => Nat.testBit 0x0C b) = [2, 3] :=
  ⟨(interrupt_pin_config_byte hal_ok pin2_high_configuration State.init).2
      (Or.inl rfl) (Or.inr (Or.inr rfl)) (Or.inl rfl) (Or.inl rfl),
    by decide⟩

/-! ## The register bytes written by the steps of the pass (C21 to C30) -/

/-- A step of the global group that ends in one transfer of a byte `val` to `reg`: it
returns whether the transport accepted the transfer, which is in the log either way. -/
theorem gres_single (hal : Transport) (reg val : Nat) (s : State) (hreg : reg < 256)
    (hval : val < 256) :
    (if (npz_hal_write hal reg val s).1 ≠ OK then some (false, (npz_hal_write hal reg val s).2)
      else some (true, (npz_hal_write hal reg val s).2) : GRes)
      = some (decide (hal s.log (reg, val) = OK), s.after [(reg, val)]) := by
  rw [npz_hal_write_eq, Nat.mod_eq_of_lt hreg, Nat.mod_eq_of_lt hval]
  by_cases h : hal s.log (reg, val) = OK <;> simp [h]

/-- A step of the peripheral group that ends in one transfer of a byte `val` to `reg`. -/
theorem pres_single (hal : Transport) (reg val : Nat) (im : Images) (s : State)
    (hreg : reg < 256) (hval : val < 256) :
    (if (npz_hal_write hal reg val s).1 ≠ OK
      then some (false, im, (npz_hal_write hal reg val s).2)
      else some (true, im, (npz_hal_write hal reg val s).2) : PRes)
      = some (decide (hal s.log (reg, val) = OK), im, s.after [(reg, val)]) := by
  rw [npz_hal_write_eq, Nat.mod_eq_of_lt hreg, Nat.mod_eq_of_lt hval]
  by_cases h : hal s.log (reg, val) = OK <;> simp [h]

theorem sclk_div_switch_valid (d : Nat) (h : d = 0 ∨ d = 1 ∨ d = 3 ∨ d = 5 ∨ d = 7) :
    sclk_div_switch d = some (d % 2, d / 2) := by
  rcases h with rfl | rfl | rfl | rfl | rfl <;> rfl

theorem adc_clk_switch_valid (a : Nat) (h : a = 0 ∨ a = 1 ∨ a = 2 ∨ a = 3) :
    adc_clk_switch a = some a := by
  rcases h with rfl | rfl | rfl | rfl <;> rfl

theorem REG_CFGP_slot (k : Nat) (hk : k = 1 ∨ k = 2 ∨ k = 3 ∨ k = 4) :
    REG_CFGP k = 0x10 + 13 * (k - 1) := by
  rcases hk with rfl | rfl | rfl | rfl <;> rfl

theorem REG_MODP_slot (k : Nat) (hk : k = 1 ∨ k = 2 ∨ k = 3 ∨ k = 4) :
    REG_MODP k = 0x11 + 13 * (k - 1) := by
  rcases hk with rfl | rfl | rfl | rfl <;> rfl

theorem REG_NCMDP_slot (k : Nat) (hk : k = 1 ∨ k = 2 ∨ k = 3 ∨ k = 4) :
    REG_NCMDP k = 0x14 + 13 * (k - 1) := by
  rcases hk with rfl | rfl | rfl | rfl <;> rfl

theorem REG_ADDRP_slot (k : Nat) (hk : k = 1 ∨ k = 2 ∨ k = 3 ∨ k = 4) :
    REG_ADDRP k = 0x15 + 13 * (k - 1) := by
  rcases hk with rfl | rfl | rfl | rfl <;> rfl

theorem REG_TCFGP_slot (k : Nat) (hk : k = 1 ∨ k = 2 ∨ k = 3 ∨ k = 4) :
    REG_TCFGP k = 0x1C + 13 * (k - 1) := by
  rcases hk with rfl | rfl | rfl | rfl <;> rfl

theorem pre_wait_switch_valid (t : Nat) (h : t = 0 ∨ t = 1 ∨ t = 3) :
    pre_wait_switch t = some (t % 2, t / 2) := by
  rcases h with rfl | rfl | rfl <;> rfl

theorem post_wait_switch_valid (t : Nat) (h : t = 0 ∨ t = 1 ∨ t = 3) :
    post_wait_switch t = some (t % 2, t / 2) := by
  rcases h with rfl | rfl | rfl <;> rfl

theorem pre_wait_switch_invalid (t : Nat) (h : ¬ (t = 0 ∨ t = 1 ∨ t = 3)) :
    pre_wait_switch t = none := by
  simp only [not_or] at h
  obtain ⟨h1, h2, h3⟩ := h
  simp [pre_wait_switch, h1, h2, h3]

theorem post_wait_switch_invalid (t : Nat) (h : ¬ (t = 0 ∨ t = 1 ∨ t = 3)) :
    post_wait_switch t = none := by
  simp only [not_or] at h
  obtain ⟨h1, h2, h3⟩ := h
  simp [post_wait_switch, h1, h2, h3]

/-- The last transfer of `n + 1` accepted iterations of the arena loop. -/
theorem arena_image_succ_last (src : Nat → Nat) (n : Nat) :
    ∀ c i, arena_image src (n + 1) c i
      = arena_image src n c i ++ [((SRAM_START + (c + n)) % 256, src (i + n) % 256)] := by
  induction n with
  | zero => intro c i; rfl
  | succ n ih =>
    intro c i
    rw [arena_image, ih (c + 1) (i + 1), arena_image, List.cons_append]
    have e1 : c + 1 + n = c + (n + 1) := by omega
    have e2 : i + 1 + n = i + (n + 1) := by omega
    rw [e1, e2]

/-- Inside the arena the 8-bit address does not wrap: the transfers of `n` accepted
iterations over `i2c_cfg.bytes_from_sram` are the staged sequence. -/
theorem arena_image_staged (p : npz_peripheral_config_s) (n c : Nat)
    (h : c + n ≤ SRAM_SIZE) :
    arena_image (i2c_cfg_bytes_from_sram p) n c 0 = staged p c n := by
  induction n with
  | zero => rfl
  | succ n ih =>
    have hs : SRAM_SIZE = 128 := rfl
    have hst : SRAM_START = 128 := rfl
    rw [arena_image_succ_last, ih (by omega), staged, staged, List.range_succ, List.map_append]
    have e1 : (SRAM_START + (c + n)) % 256 = SRAM_START + c + n := by omega
    have e2 : i2c_cfg_bytes_from_sram p (0 + n) % 256 = i2c_cfg_bytes_from_sram p n := by
      rw [Nat.zero_add]; unfold i2c_cfg_bytes_from_sram; exact Nat.mod_mod _ _
    rw [e1, e2]
    rfl

/-- The arena loop under any transport: when the first `j` transfers are accepted and
transfer `j` is refused, the loop returns `false`, having issued those `j + 1` transfers and
advanced the cursor by `j`. -/
theorem sram_write_loop_abort (hal : Transport) (src : Nat → Nat) (n : Nat) :
    ∀ (i : Nat) (s : State) (j : Nat), j < n →
      accepted hal s.log (arena_image src j s.m_sram_count i) = true →
      hal (s.log ++ arena_image src j s.m_sram_count i)
        ((SRAM_START + (s.m_sram_count + j)) % 256, src (i + j) % 256) ≠ OK →
      sram_write_loop hal src n i s
        = (false, s.grow (arena_image src (j + 1) s.m_sram_count i) j) := by
  induction n with
  | zero => intro i s j hj; omega
  | succ n ih =>
    intro i s j hj hacc hrej
    rw [sram_write_loop]
    simp only [npz_write_SRAM, npz_hal_write_eq, Nat.mod_mod, sram_step_grow]
    cases j with
    | zero =>
      simp only [arena_image, List.append_nil, Nat.add_zero] at hrej
      simp only [hrej, ne_eq, not_false_eq_true, if_true, arena_image, after_eq_grow]
    | succ j =>
      simp only [arena_image, accepted, Bool.and_eq_true, decide_eq_true_eq] at hacc
      obtain ⟨h0, hacc⟩ := hacc
      simp only [h0, ne_eq, not_true_eq_false, if_false]
      have := ih (i + 1) (s.grow [((SRAM_START + s.m_sram_count) % 256, src i % 256)] 1) j
        (by omega) (by simpa [grow_log] using hacc)
        (by
          have e1 : s.m_sram_count + 1 + j = s.m_sram_count + (j + 1) := by omega
          have e2 : i + 1 + j = i + (j + 1) := by omega
          simp only [grow_log, State.grow, List.append_assoc, List.singleton_append, e1, e2]
          simpa [arena_image] using hrej)
      rw [this, grow_grow]
      simp only [arena_image, State.grow, List.singleton_append, Nat.add_comm 1 j]

/-- C21. Sleep and reset, for every transport `hal` and every state: `npz_device_go_to_sleep`
issues exactly one transfer, the register address `0x00` followed by the byte `0xFF`, and
`npz_device_soft_reset` exactly one transfer, `0x00` followed by `0xA5`; the status the
transport returns does not change the resulting state.  `npz_write_SLEEP_RST` issues one
transfer of its 8-bit argument to `0x00`, whatever the byte, and returns the transport's
status. -/
theorem sleep_and_reset_single_write (hal : Transport) (s : State) :
    npz_device_go_to_sleep hal s = s.after [(0x00, 0xFF)]
    ∧ npz_device_soft_reset hal s = s.after [(0x00, 0xA5)]
    ∧ ∀ v : Nat, npz_write_SLEEP_RST hal v s
        = (hal s.log (0x00, v % 256), s.after [(0x00, v % 256)]) := by
  refine ⟨?_, ?_, fun v => rfl⟩
  · simp only [npz_device_go_to_sleep, npz_write_SLEEP_RST, npz_hal_write_eq, ite_self]
    rfl
  · simp only [npz_device_soft_reset, npz_write_SLEEP_RST, npz_hal_write_eq, ite_self]
    rfl

/-- C22. `set_power_switch_control`, for every transport: when `host_power_mode` is none of
1, 2, 3 it returns `false` and the state (hence the log) is unchanged; otherwise it issues
exactly one transfer, to `0x04`, of the byte `v` below and returns whether the transport
accepted it.  Bit 7 of `v` is 0.  The four normal-mode members and the gate-boost member are
1-bit fields of the configuration, so the reductions mod 2 in `v` leave their values
unchanged: `v = per1 + 2*per2 + 4*per3 + 8*per4 + 16*host_power_mode + 64*gate_boost`. -/
theorem power_switch_control_byte (hal : Transport) (dc : npz_device_config_s) (s : State) :
    let per1 := dc.power_switch_normal_mode_per1
    let per2 := dc.power_switch_normal_mode_per2
    let per3 := dc.power_switch_normal_mode_per3
    let per4 := dc.power_switch_normal_mode_per4
    let m := dc.host_power_mode
    let boost := dc.power_switch_gate_boost
    let v := per1 % 2 + 2 * (per2 % 2) + 4 * (per3 % 2) + 8 * (per4 % 2) + 16 * m
      + 64 * (boost % 2)
    (¬ (m = 1 ∨ m = 2 ∨ m = 3) → set_power_switch_control hal dc s = some (false, s))
    ∧ (m = 1 ∨ m = 2 ∨ m = 3 →
        set_power_switch_control hal dc s
          = some (decide (hal s.log (0x04, v) = OK), s.after [(0x04, v)])
        ∧ v / 128 = 0
        ∧ (per1 < 2 → per2 < 2 → per3 < 2 → per4 < 2 → boost < 2 →
            v = per1 + 2 * per2 + 4 * per3 + 8 * per4 + 16 * m + 64 * boost)) := by
  intro per1 per2 per3 per4 m boost v
  refine ⟨fun h => set_power_switch_control_invalid hal dc s h, fun h => ?_⟩
  have h1 : ¬ dc.power_switch_normal_mode_per1 % 2 > 1 := by omega
  have h2 : ¬ dc.power_switch_normal_mode_per2 % 2 > 1 := by omega
  have h3 : ¬ dc.power_switch_normal_mode_per3 % 2 > 1 := by omega
  have h4 : ¬ dc.power_switch_normal_mode_per4 % 2 > 1 := by omega
  have h5 : ¬ dc.power_switch_gate_boost % 2 > 1 := by omega
  have hm : dc.host_power_mode % 4 = m := by omega
  have hv : (dc.host_power_mode = HOST_POWER_MODE_SWITCH
      ∨ dc.host_power_mode = HOST_POWER_MODE_LOGIC_OUTPUT
      ∨ dc.host_power_mode = HOST_POWER_MODE_LOGIC_OUTPUT_INV) := h
  have hb : v < 128 := by omega
  simp only [set_power_switch_control, h1, h2, h3, h4, h5, hv, not_true_eq_false, if_false,
    npz_write_PSWCTL, pack_pswctl, Nat.mod_mod]
  rw [hm]
  exact ⟨gres_single hal REG_PSWCTL v s (by decide) (by omega), by omega,
    fun _ _ _ _ _ => by omega⟩

/-- C22 (witness). The configuration of main.c writes `0x2C` to `0x04`; a configuration
whose host power mode is 0 is refused without a transfer. -/
theorem power_switch_control_main_witness :
    set_power_switch_control hal_ok npz_configuration State.init
      = some (true, State.init.after [(0x04, 0x2C)])
    ∧ (0x2C : Nat) = 0 + 2 * 0 + 4 * 1 + 8 * 1 + 16 * 2 + 64 * 0
    ∧ set_power_switch_control hal_ok invalid_host_mode_configuration State.init
      = some (false, State.init) :=
  ⟨((power_switch_control_byte hal_ok npz_configuration State.init).2
      (Or.inr (Or.inl rfl))).1,
    ((power_switch_control_byte hal_ok npz_configuration State.init).2
      (Or.inr (Or.inl rfl))).2.2 (by decide) (by decide) (by decide) (by decide) (by decide),
    (power_switch_control_byte hal_ok invalid_host_mode_configuration State.init).1
      (by decide)⟩

/-- C23. `set_system_config2`, for every transport: when `system_clock_divider` is not one
of 0, 1, 3, 5, 7 or `adc_clock_sel` is not one of 0, 1, 2, 3 it returns `false` and the
state (hence the log) is unchanged; otherwise it issues exactly one transfer, to `0x06`, of
the byte `v = divider + 8*(clock_source mod 2) + 16*(adc_ext_sampling_enable mod 2)
+ 32*adc_clock_sel` and returns whether the transport accepted it.  The pair
`(sclk_div_en, sclk_div_sel)` chosen by the `switch` satisfies `en + 2*sel = divider`, which
is bits 0..2 of `v`, and bit 7 of `v` is 0.  For a clock source that is one of the two
enumerators and the 1-bit member `adc_ext_sampling_enable` the reductions mod 2 change
nothing: `v = divider + 8*clock_source + 16*adc_ext_sampling_enable + 32*adc_clock_sel`. -/
theorem system_config2_byte (hal : Transport) (dc : npz_device_config_s) (s : State) :
    let d := dc.system_clock_divider
    let a := dc.adc_clock_sel
    let src := dc.system_clock_source
    let ext := dc.adc_ext_sampling_enable
    let v := d + 8 * (src % 2) + 16 * (ext % 2) + 32 * a
    let valid := (d = 0 ∨ d = 1 ∨ d = 3 ∨ d = 5 ∨ d = 7) ∧ (a = 0 ∨ a = 1 ∨ a = 2 ∨ a = 3)
    (¬ valid → set_system_config2 hal dc s = some (false, s))
    ∧ (valid →
        set_system_config2 hal dc s
          = some (decide (hal s.log (0x06, v) = OK), s.after [(0x06, v)])
        ∧ (∃ en sel, sclk_div_switch d = some (en, sel) ∧ en < 2 ∧ sel < 4
            ∧ en + 2 * sel = d ∧ v % 8 = en + 2 * sel)
        ∧ v / 128 = 0
        ∧ (src < 2 → ext < 2 → v = d + 8 * src + 16 * ext + 32 * a)) := by
  intro d a src ext v valid
  constructor
  · intro h
    apply set_system_config2_invalid
    by_contra hc
    simp only [not_or] at hc
    obtain ⟨c1, c2⟩ := hc
    apply h
    constructor
    · by_contra hv; exact c1 (sclk_div_switch_none _ hv)
    · by_contra hv; exact c2 (adc_clk_switch_none _ hv)
  · rintro ⟨hd, ha⟩
    have e : d % 2 + 2 * (d / 2 % 4) + 8 * (src % 2) + 16 * (ext % 2) + 32 * (a % 4) = v := by
      omega
    have hb : v < 128 := by omega
    simp only [set_system_config2, sclk_div_switch_valid _ hd, adc_clk_switch_valid _ ha,
      npz_write_SYSCFG2, pack_syscfg2, Nat.mod_mod]
    rw [e]
    exact ⟨gres_single hal REG_SYSCFG2 v s (by decide) (by omega),
      ⟨d % 2, d / 2, rfl, by omega, by omega, by omega, by omega⟩,
      by omega, fun _ _ => by omega⟩

/-- C23 (witness). The configuration of main.c (divider disabled, ADC clock 256 Hz) writes
`0x40` to `0x06`; the same configuration with the divider value 2 is refused without a
transfer. -/
theorem system_config2_main_witness :
    set_system_config2 hal_ok npz_configuration State.init
      = some (true, State.init.after [(0x06, 0x40)])
    ∧ set_system_config2 hal_ok { npz_configuration with system_clock_divider := 2 } State.init
      = some (false, State.init) :=
  ⟨((system_config2_byte hal_ok npz_configuration State.init).2
      ⟨Or.inl rfl, Or.inr (Or.inr (Or.inl rfl))⟩).1,
    (system_config2_byte hal_ok { npz_configuration with system_clock_divider := 2 }
      State.init).1 (by decide)⟩

/-- C24. `set_system_config3`, for every transport and every device configuration: it
issues exactly one transfer, to `0x07`, of the byte `v = (io_strength mod 2)
+ 2*(i2c_pull_mode mod 2) + 4*((i2c_pull_mode / 2) mod 2) + 8*(spi_auto mod 2)
+ 16*(xo_clock_out_sel mod 8)` and returns whether the transport accepted it.  Bit 1 of `v`
is bit 0 of the pull-up policy (enable), bit 2 of `v` is bit 1 of the policy (auto-disable),
and bit 7 of `v` is 0.  For `I2C_PULL_AUTO` with every other field 0 the byte is `0x06`. -/
theorem system_config3_byte (hal : Transport) (dc : npz_device_config_s) (s : State) :
    let pull := dc.i2c_pull_mode
    let v := dc.io_strength % 2 + 2 * (pull % 2) + 4 * (pull / 2 % 2) + 8 * (dc.spi_auto % 2)
      + 16 * (dc.xo_clock_out_sel % 8)
    set_system_config3 hal dc s
        = some (decide (hal s.log (0x07, v) = OK), s.after [(0x07, v)])
    ∧ v / 2 % 2 = pull % 2 ∧ v / 4 % 2 = pull / 2 % 2 ∧ v / 128 = 0
    ∧ set_system_config3 hal pull_auto_configuration s
        = some (decide (hal s.log (0x07, 0x06) = OK), s.after [(0x07, 0x06)]) := by
  intro pull v
  have key : ∀ dc : npz_device_config_s,
      set_system_config3 hal dc s
        = some (decide (hal s.log (0x07, dc.io_strength % 2 + 2 * (dc.i2c_pull_mode % 2)
            + 4 * (dc.i2c_pull_mode / 2 % 2) + 8 * (dc.spi_auto % 2)
            + 16 * (dc.xo_clock_out_sel % 8)) = OK),
          s.after [(0x07, dc.io_strength % 2 + 2 * (dc.i2c_pull_mode % 2)
            + 4 * (dc.i2c_pull_mode / 2 % 2) + 8 * (dc.spi_auto % 2)
            + 16 * (dc.xo_clock_out_sel % 8))]) := by
    intro dc
    simp only [set_system_config3, npz_write_SYSCFG3, pack_syscfg3, Nat.mod_mod]
    simp only [Nat.zero_mod, Nat.mul_zero, Nat.add_zero]
    exact gres_single hal REG_SYSCFG3 (dc.io_strength % 2 + 2 * (dc.i2c_pull_mode % 2)
      + 4 * (dc.i2c_pull_mode / 2 % 2) + 8 * (dc.spi_auto % 2)
      + 16 * (dc.xo_clock_out_sel % 8)) s (by decide) (by omega)
  exact ⟨key dc, by omega, by omega, by omega, key pull_auto_configuration⟩

/-- C25. `set_system_config1`, for every transport, when both `adc_channels` pointers are
non-null: it issues exactly one transfer, to `0x05`, of the byte `v` below, and returns
whether the transport accepted it: no value of the configuration makes it return `false`.
Bit 7 of `v` is 0.  The seven members are 1-bit fields, so the reductions mod 2 in `v` leave
their values unchanged: `v = wake_up_per1 + 2*wake_up_per2 + 4*wake_up_per3
+ 8*wake_up_per4 + 16*(internal wakeup_enable) + 32*(external wakeup_enable)
+ 64*wake_up_any_or_all`. -/
theorem system_config1_byte (hal : Transport) (dc : npz_device_config_s) (s : State)
    (adc0 adc1 : npz_adc_config_channels_s)
    (h0 : dc.adc_channel_at 0 = some adc0) (h1 : dc.adc_channel_at 1 = some adc1) :
    let w1 := dc.wake_up_per1
    let w2 := dc.wake_up_per2
    let w3 := dc.wake_up_per3
    let w4 := dc.wake_up_per4
    let e0 := adc0.wakeup_enable
    let e1 := adc1.wakeup_enable
    let m := dc.wake_up_any_or_all
    let v := w1 % 2 + 2 * (w2 % 2) + 4 * (w3 % 2) + 8 * (w4 % 2) + 16 * (e0 % 2)
      + 32 * (e1 % 2) + 64 * (m % 2)
    set_system_config1 hal dc s
        = some (decide (hal s.log (0x05, v) = OK), s.after [(0x05, v)])
    ∧ v / 128 = 0
    ∧ (w1 < 2 → w2 < 2 → w3 < 2 → w4 < 2 → e0 < 2 → e1 < 2 → m < 2 →
        v = w1 + 2 * w2 + 4 * w3 + 8 * w4 + 16 * e0 + 32 * e1 + 64 * m) := by
  intro w1 w2 w3 w4 e0 e1 m v
  simp only [set_system_config1, h0, h1, npz_write_SYSCFG1, pack_syscfg1, Nat.mod_mod]
  exact ⟨gres_single hal REG_SYSCFG1 v s (by decide) (by omega), by omega,
    fun _ _ _ _ _ _ _ => by omega⟩

/-- C25 (witness). The configuration of main.c with its two ADC channel objects wired in
(wake-up on peripherals 3 and 4) writes `0x0C` to `0x05`; under a transport that refuses the
transfer the function returns `false` after that one transfer. -/
theorem system_config1_main_witness :
    set_system_config1 hal_ok npz_configuration_adc State.init
      = some (true, State.init.after [(0x05, 0x0C)])
    ∧ (0x0C : Nat) = 0 + 2 * 0 + 4 * 1 + 8 * 1 + 16 * 0 + 32 * 0 + 64 * 0
    ∧ set_system_config1 (hal_fail_at 0) npz_configuration_adc State.init
      = some (false, State.init.after [(0x05, 0x0C)]) :=
  ⟨(system_config1_byte hal_ok npz_configuration_adc State.init npz_adc_internal_config
      npz_adc_external_config rfl rfl).1,
    (system_config1_byte hal_ok npz_configuration_adc State.init npz_adc_internal_config
      npz_adc_external_config rfl rfl).2.2 (by decide) (by decide) (by decide) (by decide)
      (by decide) (by decide) (by decide),
    (system_config1_byte (hal_fail_at 0) npz_configuration_adc State.init
      npz_adc_internal_config npz_adc_external_config rfl rfl).1⟩

/-- C26. `set_peripheral_power_mode`, for every transport, every slot `k` of 1..4 and every
non-null peripheral configuration: it issues exactly one transfer, to `REG_CFGPk`
(`0x10 + 13*(k - 1)`), of the byte `v = (power_mode mod 4) + 4*(polling_mode mod 4)
+ 16*(power_switch_mode mod 4) + 64*(interrupt_pin_mode mod 4)`, and returns whether the
transport accepted it.  The four fields lie in `v` from the least-significant bit upward in
the order of their declaration in `npz_register_cfgp_s`: bits 0..1, 2..3, 4..5, 6..7. -/
theorem peripheral_config_byte (hal : Transport) (dc : npz_device_config_s)
    (peripheral : Images) (index : Int) (k : Nat) (s : State) (p : npz_peripheral_config_s)
    (hp : dc.peripheral_at index = some p) (hk : k = 1 ∨ k = 2 ∨ k = 3 ∨ k = 4) :
    let reg := 0x10 + 13 * (k - 1)
    let v := p.power_mode % 4 + 4 * (p.polling_mode % 4) + 16 * (p.power_switch_mode % 4)
      + 64 * (p.interrupt_pin_mode % 4)
    (∃ im1, set_peripheral_power_mode hal dc peripheral index k s
        = some (decide (hal s.log (reg, v) = OK), im1, s.after [(reg, v)]))
    ∧ v % 4 = p.power_mode % 4 ∧ v / 4 % 4 = p.polling_mode % 4
    ∧ v / 16 % 4 = p.power_switch_mode % 4 ∧ v / 64 = p.interrupt_pin_mode % 4 := by
  intro reg v
  refine ⟨?_, by omega, by omega, by omega, by omega⟩
  simp only [set_peripheral_power_mode, hp, images_set_self, npz_write_CFGP, pack_cfgp,
    Nat.mod_mod, REG_CFGP_slot k hk]
  exact ⟨_, pres_single hal reg v _ s (by omega) (by omega)⟩

/-- C26 (witness). Both peripherals of main.c (periodic power, polling mode 0, logic-output-
high switch, active-high interrupt) give the byte `0x21`: to `0x2A` for slot 3 and to `0x37`
for slot 4. -/
theorem peripheral_config_main_witness :
    (∃ im1, set_peripheral_power_mode hal_ok npz_configuration Images.zero 2 3 State.init
        = some (true, im1, State.init.after [(0x2A, 0x21)]))
    ∧ ∃ im1, set_peripheral_power_mode hal_ok npz_configuration Images.zero 3 4 State.init
        = some (true, im1, State.init.after [(0x37, 0x21)]) :=
  ⟨(peripheral_config_byte hal_ok npz_configuration Images.zero 2 3 State.init peripheral_3
      rfl (Or.inr (Or.inr (Or.inl rfl)))).1,
    (peripheral_config_byte hal_ok npz_configuration Images.zero 3 4 State.init peripheral_4
      rfl (Or.inr (Or.inr (Or.inr rfl)))).1⟩

/-- C27. `set_peripheral_mode`, for every transport, every slot `k` of 1..4 and every
non-null peripheral configuration, exactly one transfer goes to `REG_MODPk`
(`0x11 + 13*(k - 1)`) and the function returns whether the transport accepted it.  With
`base = (comparison_mode mod 2) + 2*(sensor_data_type mod 4)
+ 8*(multi_byte_transfer_enable mod 2) + 32*(swap_registers mod 2)`:
for an I2C peripheral the byte is `base + 16*wake_on_nak`, bits 6..7 being zero, when the
`spimod` field of the slot's register image is still zero, as in the zero-initialised array
`configure_peripherals` passes; for an SPI peripheral the byte is
`base + 64*(spi_cfg.mode mod 4)`, bit 4 being zero, when the `wunak` field of the image is
still zero.  In both cases bit 5 is `swap_registers`.  For members within the range of
their enumerators or of their 1-bit width, `base` is `comparison_mode
+ 2*sensor_data_type + 8*multi_byte_transfer_enable + 32*swap_registers`. -/
theorem peripheral_mode_byte (hal : Transport) (dc : npz_device_config_s)
    (peripheral : Images) (index : Int) (k : Nat) (s : State) (p : npz_peripheral_config_s)
    (hp : dc.peripheral_at index = some p) (hk : k = 1 ∨ k = 2 ∨ k = 3 ∨ k = 4) :
    let reg := 0x11 + 13 * (k - 1)
    let base := p.comparison_mode % 2 + 2 * (p.sensor_data_type % 4)
      + 8 * (p.multi_byte_transfer_enable % 2) + 32 * (p.swap_registers % 2)
    let i2c := base + 16 * i2c_cfg_wake_on_nak p
    let spi := base + 64 * (spi_cfg_mode p % 4)
    (p.communication_protocol = COM_I2C → (peripheral index).modp.spimod = 0 →
      (∃ im1, set_peripheral_mode hal dc peripheral index k s
        = some (decide (hal s.log (reg, i2c) = OK), im1, s.after [(reg, i2c)]))
      ∧ i2c / 64 = 0 ∧ i2c / 32 % 2 = p.swap_registers % 2)
    ∧ (p.communication_protocol = COM_SPI → (peripheral index).modp.wunak = 0 →
      (∃ im1, set_peripheral_mode hal dc peripheral index k s
        = some (decide (hal s.log (reg, spi) = OK), im1, s.after [(reg, spi)]))
      ∧ spi / 16 % 2 = 0 ∧ spi / 32 % 2 = p.swap_registers % 2)
    ∧ (p.comparison_mode < 2 → p.sensor_data_type < 4 → p.multi_byte_transfer_enable < 2 →
        p.swap_registers < 2 →
        base = p.comparison_mode + 2 * p.sensor_data_type + 8 * p.multi_byte_transfer_enable
          + 32 * p.swap_registers) := by
  intro reg base i2c spi
  have hw : i2c_cfg_wake_on_nak p < 2 := by unfold i2c_cfg_wake_on_nak; omega
  refine ⟨fun hi hz => ⟨?_, by omega, by omega⟩, fun hs hz => ⟨?_, by omega, by omega⟩,
    fun _ _ _ _ => by omega⟩
  · have e : p.comparison_mode % 2 + 2 * (p.sensor_data_type % 4)
        + 8 * (p.multi_byte_transfer_enable % 2) + 16 * (i2c_cfg_wake_on_nak p % 2)
        + 32 * (p.swap_registers % 2) + 64 * (0 % 4) = i2c := by omega
    simp only [set_peripheral_mode, hp, hi, if_true, images_set_self, npz_write_MODP, pack_modp,
      Nat.mod_mod, REG_MODP_slot k hk, hz]
    rw [e]
    exact ⟨_, pres_single hal reg i2c _ s (by omega) (by omega)⟩
  · have hn : ¬ (COM_SPI = COM_I2C) := by decide
    have e : p.comparison_mode % 2 + 2 * (p.sensor_data_type % 4)
        + 8 * (p.multi_byte_transfer_enable % 2) + 16 * (0 % 2)
        + 32 * (p.swap_registers % 2) + 64 * (spi_cfg_mode p % 4) = spi := by omega
    simp only [set_peripheral_mode, hp, hn, if_false, hs, if_true, images_set_self,
      npz_write_MODP, pack_modp, Nat.mod_mod, REG_MODP_slot k hk, hz]
    rw [e]
    exact ⟨_, pres_single hal reg spi _ s (by omega) (by omega)⟩

/-- C27 (witness). From the zero-initialised images, `peripheral_4` of main.c (I2C, slot 4)
gives the byte `0x3A` at `0x38` and `peripheral_3` (SPI, slot 3) the byte `0x02` at
`0x2B`. -/
theorem peripheral_mode_main_witness :
    (∃ im1, set_peripheral_mode hal_ok npz_configuration Images.zero 3 4 State.init
        = some (true, im1, State.init.after [(0x38, 0x3A)]))
    ∧ (∃ im1, set_peripheral_mode hal_ok npz_configuration Images.zero 2 3 State.init
        = some (true, im1, State.init.after [(0x2B, 0x02)]))
    ∧ (0x3A : Nat) = 0 + 2 * 1 + 8 * 1 + 32 * 1 + 16 * 1 :=
  ⟨((peripheral_mode_byte hal_ok npz_configuration Images.zero 3 4 State.init peripheral_4
      rfl (Or.inr (Or.inr (Or.inr rfl)))).1 rfl rfl).1,
    ((peripheral_mode_byte hal_ok npz_configuration Images.zero 2 3 State.init peripheral_3
      rfl (Or.inr (Or.inr (Or.inl rfl)))).2.1 rfl rfl).1,
    congrArg (· + 16 * 1)
      ((peripheral_mode_byte hal_ok npz_configuration Images.zero 3 4 State.init peripheral_4
        rfl (Or.inr (Or.inr (Or.inr rfl)))).2.2 (by decide) (by decide) (by decide)
        (by decide))⟩

/-- C28. `set_peripheral_address`, for every transport, every slot `k` of 1..4 and every
non-null peripheral configuration: exactly one transfer goes to `REG_ADDRPk`
(`0x15 + 13*(k - 1)`) and the function returns whether the transport accepted it.  The byte
is `(a mod 128) + 128*b`, where for an I2C peripheral `a = i2c_cfg.sensor_address` and
`b = 0`, and for an SPI peripheral `a = spi_cfg.bytes_from_sram_read_num` and `b = 1`. -/
theorem peripheral_address_byte (hal : Transport) (dc : npz_device_config_s)
    (peripheral : Images) (index : Int) (k : Nat) (s : State) (p : npz_peripheral_config_s)
    (hp : dc.peripheral_at index = some p) (hk : k = 1 ∨ k = 2 ∨ k = 3 ∨ k = 4) :
    let reg := 0x15 + 13 * (k - 1)
    let i2c := i2c_cfg_sensor_address p % 128 + 128 * 0
    let spi := spi_cfg_bytes_from_sram_read_num p % 128 + 128 * 1
    (p.communication_protocol = COM_I2C →
      ∃ im1, set_peripheral_address hal dc peripheral index k s
        = some (decide (hal s.log (reg, i2c) = OK), im1, s.after [(reg, i2c)]))
    ∧ (p.communication_protocol = COM_SPI →
      ∃ im1, set_peripheral_address hal dc peripheral index k s
        = some (decide (hal s.log (reg, spi) = OK), im1, s.after [(reg, spi)])) := by
  intro reg i2c spi
  refine ⟨fun hi => ?_, fun hs => ?_⟩
  · have e : i2c_cfg_sensor_address p % 128 + 128 * (COM_I2C % 2) = i2c := rfl
    simp only [set_peripheral_address, hp, hi, if_true, images_set_self, npz_write_ADDRP,
      pack_addrp, Nat.mod_mod, REG_ADDRP_slot k hk]
    rw [e]
    exact ⟨_, pres_single hal reg i2c _ s (by omega) (by omega)⟩
  · have hn : ¬ (COM_SPI = COM_I2C) := by decide
    have e : spi_cfg_bytes_from_sram_read_num p % 128 + 128 * (COM_SPI % 2) = spi := rfl
    simp only [set_peripheral_address, hp, hn, if_false, hs, if_true, images_set_self,
      npz_write_ADDRP, pack_addrp, Nat.mod_mod, REG_ADDRP_slot k hk]
    rw [e]
    exact ⟨_, pres_single hal reg spi _ s (by omega) (by omega)⟩

/-- C28 (witness). In main.c slot 4 (I2C, sensor address `0x49`) gets the byte `0x49` at
`0x3C` and slot 3 (SPI, one read-sequence byte) the byte `0x81` at `0x2F`. -/
theorem peripheral_address_main_witness :
    (∃ im1, set_peripheral_address hal_ok npz_configuration Images.zero 3 4 State.init
        = some (true, im1, State.init.after [(0x3C, 0x49)]))
    ∧ ∃ im1, set_peripheral_address hal_ok npz_configuration Images.zero 2 3 State.init
        = some (true, im1, State.init.after [(0x2F, 0x81)]) :=
  ⟨(peripheral_address_byte hal_ok npz_configuration Images.zero 3 4 State.init peripheral_4
      rfl (Or.inr (Or.inr (Or.inr rfl)))).1 rfl,
    (peripheral_address_byte hal_ok npz_configuration Images.zero 2 3 State.init peripheral_3
      rfl (Or.inr (Or.inr (Or.inl rfl)))).2 rfl⟩

/-- C29. `set_peripheral_time_to_wait_config`, for every transport, every slot `k` of 1..4
and every non-null peripheral configuration: when `pre_wait_time` or `post_wait_time` is
not one of 0, 1, 3 it returns `false` and the state (hence the log) is unchanged; otherwise
it issues exactly one transfer, to `REG_TCFGPk` (`0x1C + 13*(k - 1)`), and returns whether
the transport accepted it.  The byte is `pre_wait_time + 4*post_wait_time + 16*r`, bits 6..7
being zero, where `r = i2c_cfg.num_of_retries_on_nak` for an I2C peripheral, and `r = 0`
for an SPI peripheral when the `i2cret` field of the slot's register image is still zero,
as in the zero-initialised array `configure_peripherals` passes. -/
theorem wait_time_config_byte (hal : Transport) (dc : npz_device_config_s)
    (peripheral : Images) (index : Int) (k : Nat) (s : State) (p : npz_peripheral_config_s)
    (hp : dc.peripheral_at index = some p) (hk : k = 1 ∨ k = 2 ∨ k = 3 ∨ k = 4) :
    let reg := 0x1C + 13 * (k - 1)
    let pre := p.pre_wait_time
    let post := p.post_wait_time
    let valid := fun t : Nat => t = 0 ∨ t = 1 ∨ t = 3
    let i2c := pre + 4 * post + 16 * i2c_cfg_num_of_retries_on_nak p
    let spi := pre + 4 * post + 16 * 0
    (¬ (valid pre ∧ valid post) →
      ∃ im1, set_peripheral_time_to_wait_config hal dc peripheral index k s
        = some (false, im1, s))
    ∧ (valid pre → valid post → p.communication_protocol = COM_I2C →
      (∃ im1, set_peripheral_time_to_wait_config hal dc peripheral index k s
        = some (decide (hal s.log (reg, i2c) = OK), im1, s.after [(reg, i2c)]))
      ∧ i2c / 64 = 0)
    ∧ (valid pre → valid post → p.communication_protocol = COM_SPI →
      (peripheral index).tcfgp.i2cret = 0 →
      (∃ im1, set_peripheral_time_to_wait_config hal dc peripheral index k s
        = some (decide (hal s.log (reg, spi) = OK), im1, s.after [(reg, spi)]))
      ∧ spi / 64 = 0) := by
  intro reg pre post valid i2c spi
  have hr : i2c_cfg_num_of_retries_on_nak p < 4 := by
    unfold i2c_cfg_num_of_retries_on_nak; omega
  refine ⟨fun h => ?_, fun h1 h2 hi => ?_, fun h1 h2 hs hz => ?_⟩
  · by_cases h1 : valid pre
    · have h2 : ¬ valid post := fun h2 => h ⟨h1, h2⟩
      simp only [set_peripheral_time_to_wait_config, hp, pre_wait_switch_valid _ h1,
        post_wait_switch_invalid _ h2]
      exact ⟨_, rfl⟩
    · simp only [set_peripheral_time_to_wait_config, hp, pre_wait_switch_invalid _ h1]
      exact ⟨_, rfl⟩
  · have e : pre % 2 + 2 * (pre / 2 % 2) + 4 * (post % 2) + 8 * (post / 2 % 2)
        + 16 * (i2c_cfg_num_of_retries_on_nak p % 4) = i2c := by
      simp only [valid] at h1 h2; omega
    have hb : i2c < 64 := by simp only [valid] at h1 h2; omega
    simp only [set_peripheral_time_to_wait_config, hp, pre_wait_switch_valid _ h1,
      post_wait_switch_valid _ h2, hi, if_true, images_set_self, npz_write_TCFGP, pack_tcfgp,
      Nat.mod_mod, REG_TCFGP_slot k hk]
    rw [e]
    exact ⟨⟨_, pres_single hal reg i2c _ s (by omega) (by omega)⟩, by omega⟩
  · have hn : ¬ (COM_SPI = COM_I2C) := by decide
    have e : pre % 2 + 2 * (pre / 2 % 2) + 4 * (post % 2) + 8 * (post / 2 % 2)
        + 16 * (0 % 4) = spi := by
      simp only [valid] at h1 h2; omega
    have hb : spi < 64 := by simp only [valid] at h1 h2; omega
    simp only [set_peripheral_time_to_wait_config, hp, pre_wait_switch_valid _ h1,
      post_wait_switch_valid _ h2, hs, hn, if_false, images_set_self, npz_write_TCFGP,
      pack_tcfgp, Nat.mod_mod, REG_TCFGP_slot k hk, hz]
    rw [e]
    exact ⟨⟨_, pres_single hal reg spi _ s (by omega) (by omega)⟩, by omega⟩

/-- C29 (witness). From the zero-initialised images, `peripheral_4` of main.c (I2C, three
retries, both waits x256) gives the byte `0x35` at `0x43` and `peripheral_3` (SPI, both
waits x256) the byte `0x05` at `0x36`; `peripheral_4` with the pre-wait value 2 is refused
without a transfer. -/
theorem wait_time_config_main_witness :
    (∃ im1, set_peripheral_time_to_wait_config hal_ok npz_configuration Images.zero 3 4
        State.init = some (true, im1, State.init.after [(0x43, 0x35)]))
    ∧ (∃ im1, set_peripheral_time_to_wait_config hal_ok npz_configuration Images.zero 2 3
        State.init = some (true, im1, State.init.after [(0x36, 0x05)]))
    ∧ ∃ im1, set_peripheral_time_to_wait_config hal_ok
        { npz_configuration with
          peripherals := [none, none, none, some { peripheral_4 with pre_wait_time := 2 }] }
        Images.zero 3 4 State.init = some (false, im1, State.init) :=
  ⟨((wait_time_config_byte hal_ok npz_configuration Images.zero 3 4 State.init peripheral_4
      rfl (Or.inr (Or.inr (Or.inr rfl)))).2.1 (Or.inr (Or.inl rfl)) (Or.inr (Or.inl rfl))
      rfl).1,
    ((wait_time_config_byte hal_ok npz_configuration Images.zero 2 3 State.init peripheral_3
      rfl (Or.inr (Or.inr (Or.inl rfl)))).2.2 (Or.inr (Or.inl rfl)) (Or.inr (Or.inl rfl))
      rfl rfl).1,
    (wait_time_config_byte hal_ok
      { npz_configuration with
        peripherals := [none, none, none, some { peripheral_4 with pre_wait_time := 2 }] }
      Images.zero 3 4 State.init { peripheral_4 with pre_wait_time := 2 }
      rfl (Or.inr (Or.inr (Or.inr rfl)))).1 (by decide)⟩

/-- C30. `set_peripheral_init_cmds_number` for an I2C peripheral in slot `k` of 1..4 with
`command_num = n <= 20` and entry cursor `c` such that `c + 2n <= 128`.  Under the
succeeding transport it issues the transfers of `bytes_from_sram[i]` to `0x80 + c + i` for
`i = 0, ..., 2n - 1` in increasing `i`, then the transfer of `n` to `REG_NCMDPk`
(`0x14 + 13*(k - 1)`), returns `true`, and leaves the cursor at `c + 2n`.  Under any
transport that accepts the first `j` arena transfers and refuses the one of index `j < 2n`,
it returns `false` having issued exactly those `j + 1` transfers, none of them to
`REG_NCMDPk`, and leaves the cursor at `c + j`.  Every index read lies inside the 40-byte
array. -/
theorem i2c_command_staging (dc : npz_device_config_s) (peripheral : Images) (index : Int)
    (k : Nat) (s : State) (p : npz_peripheral_config_s)
    (hp : dc.peripheral_at index = some p) (hk : k = 1 ∨ k = 2 ∨ k = 3 ∨ k = 4)
    (hi : p.communication_protocol = COM_I2C) (hn : i2c_cfg_command_num p ≤ 20)
    (hc : s.m_sram_count + 2 * i2c_cfg_command_num p ≤ 128) :
    let n := i2c_cfg_command_num p
    let c := s.m_sram_count
    (∃ im1, set_peripheral_init_cmds_number hal_ok dc peripheral index k s
        = some (true, im1, s.grow (staged p c (2 * n) ++ [(0x14 + 13 * (k - 1), n)]) (2 * n)))
    ∧ (∀ (hal : Transport) (j : Nat), j < 2 * n →
        accepted hal s.log (staged p c j) = true →
        hal (s.log ++ staged p c j) (0x80 + c + j, i2c_cfg_bytes_from_sram p j) ≠ OK →
        (∃ im1, set_peripheral_init_cmds_number hal dc peripheral index k s
          = some (false, im1, s.grow (staged p c (j + 1)) j))
        ∧ (0x14 + 13 * (k - 1)) ∉ regs_of (staged p c (j + 1)))
    ∧ ∀ i, i < 2 * n → i < 40 := by
  intro n c
  have hs : SRAM_SIZE = 128 := rfl
  have hst : SRAM_START = 128 := rfl
  have h2 : (i2c_cfg_command_num p * 2) % 256 = 2 * n := by omega
  have hcur : s.m_sram_count ≤ SRAM_SIZE := by omega
  refine ⟨?_, fun hal j hj hacc hrej => ⟨?_, ?_⟩, fun i h => by omega⟩
  · have ha : init_cmds_arena hal_ok p s = (true, s.grow (staged p c (2 * n)) (2 * n)) := by
      simp only [init_cmds_arena, hi, if_true, hcur, sram_write_loop_ok, h2]
      rw [arena_image_staged p (2 * n) s.m_sram_count (by omega)]
      rfl
    simp only [set_peripheral_init_cmds_number, hp, hi, if_true, ha, images_set_self,
      npz_write_NCMDP, Nat.mod_mod, REG_NCMDP_slot k hk]
    rw [if_neg (by simp), pres_single hal_ok _ _ _ _ (by omega) (by omega)]
    have e : n % 128 = n := by omega
    simp only [hal_ok, e, after_eq_grow, grow_grow, decide_True, Nat.add_zero]
    exact ⟨_, rfl⟩
  · have ha : init_cmds_arena hal p s = (false, s.grow (staged p c (j + 1)) j) := by
      simp only [init_cmds_arena, hi, if_true, hcur, h2]
      rw [sram_write_loop_abort hal _ (2 * n) 0 s j hj
        (by rw [arena_image_staged p j s.m_sram_count (by omega)]; exact hacc)
        (by
          rw [arena_image_staged p j s.m_sram_count (by omega)]
          have e1 : (SRAM_START + (s.m_sram_count + j)) % 256 = 0x80 + c + j := by omega
          have e2 : i2c_cfg_bytes_from_sram p (0 + j) % 256 = i2c_cfg_bytes_from_sram p j := by
            rw [Nat.zero_add]; unfold i2c_cfg_bytes_from_sram; exact Nat.mod_mod _ _
          rw [e1, e2]; exact hrej),
        arena_image_staged p (j + 1) s.m_sram_count (by omega)]
    simp only [set_peripheral_init_cmds_number, hp, hi, if_true, ha]
    exact ⟨_, rfl⟩
  · intro hmem
    simp only [regs_of, staged, List.map_map, List.mem_map, List.mem_range, Function.comp] at hmem
    obtain ⟨a, _, ha⟩ := hmem
    rcases hk with rfl | rfl | rfl | rfl <;> omega

/-- C30 (witness). `peripheral_4` of main.c (two commands) from the cursor 0: four arena
bytes at `0x80..0x83`, then the count 2 at `0x3B`, cursor 4; under a transport that refuses
the third transfer the function returns `false` after three transfers, with cursor 2. -/
theorem i2c_command_staging_main_witness :
    (∃ im1, set_peripheral_init_cmds_number hal_ok npz_configuration Images.zero 3 4 State.init
        = some (true, im1, State.init.grow
            [(0x80, 0x01), (0x81, 0x82), (0x82, 0x02), (0x83, 0xA0), (0x3B, 2)] 4))
    ∧ ∃ im1, set_peripheral_init_cmds_number (hal_fail_at 2) npz_configuration Images.zero 3 4
        State.init
        = some (false, im1, State.init.grow [(0x80, 0x01), (0x81, 0x82), (0x82, 0x02)] 2) :=
  ⟨(i2c_command_staging npz_configuration Images.zero 3 4 State.init peripheral_4 rfl
      (Or.inr (Or.inr (Or.inr rfl))) rfl (by decide) (by decide)).1,
    ((i2c_command_staging npz_configuration Images.zero 3 4 State.init peripheral_4 rfl
      (Or.inr (Or.inr (Or.inr rfl))) rfl (by decide) (by decide)).2.1 (hal_fail_at 2) 2
      (by decide) (by decide) (by decide)).1⟩

/-! ## Staging for SPI, the ADC channels and the telemetry (C31 to C39) -/

/-- Inside the arena the 8-bit address does not wrap: the transfers of `n` accepted
iterations over a byte array `src` are the staged sequence. -/
theorem arena_image_staged_bytes (src : Nat → Nat) (hsrc : ∀ i, src i % 256 = src i)
    (n c : Nat) (h : c + n ≤ SRAM_SIZE) :
    arena_image src n c 0 = staged_bytes src c n := by
  induction n with
  | zero => rfl
  | succ n ih =>
    have hs : SRAM_SIZE = 128 := rfl
    have hst : SRAM_START = 128 := rfl
    rw [arena_image_succ_last, ih (by omega), staged_bytes, staged_bytes, List.range_succ,
      List.map_append]
    have e1 : (SRAM_START + (c + n)) % 256 = SRAM_START + c + n := by omega
    rw [e1, Nat.zero_add, hsrc]
    rfl

theorem spi_bytes_from_sram_byte (p : npz_peripheral_config_s) (i : Nat) :
    spi_cfg_bytes_from_sram p i % 256 = spi_cfg_bytes_from_sram p i := by
  unfold spi_cfg_bytes_from_sram; exact Nat.mod_mod _ _

theorem spi_bytes_from_sram_read_byte (p : npz_peripheral_config_s) (i : Nat) :
    spi_cfg_bytes_from_sram_read p i % 256 = spi_cfg_bytes_from_sram_read p i := by
  unfold spi_cfg_bytes_from_sram_read; exact Nat.mod_mod _ _

/-- C31. `set_peripheral_init_cmds_number` for an SPI peripheral in slot `k` of 1..4 with
`bytes_from_sram_num = n <= 40`, `bytes_from_sram_read_num = r <= 40` and entry cursor `c`
such that `c + n + r <= 128`, under the succeeding transport: it issues the transfers of
`spi_cfg.bytes_from_sram[i]` to `0x80 + c + i` for `i` below `n`, then those of
`spi_cfg.bytes_from_sram_read[i]` to `0x80 + c + n + i` for `i` below `r`, then the
transfer of `n` to `REG_NCMDPk` (`0x14 + 13*(k - 1)`), returns `true`, and leaves the cursor
at `c + n + r`.  The count of the first loop is read through `i2c_cfg.command_num`, which is
the same byte of the union as `spi_cfg.bytes_from_sram_num`.  Every index read lies inside
its 40-byte array. -/
theorem spi_command_staging (dc : npz_device_config_s) (peripheral : Images) (index : Int)
    (k : Nat) (s : State) (p : npz_peripheral_config_s)
    (hp : dc.peripheral_at index = some p) (hk : k = 1 ∨ k = 2 ∨ k = 3 ∨ k = 4)
    (hs : p.communication_protocol = COM_SPI)
    (hn : spi_cfg_bytes_from_sram_num p ≤ 40) (hr : spi_cfg_bytes_from_sram_read_num p ≤ 40)
    (hc : s.m_sram_count + spi_cfg_bytes_from_sram_num p
      + spi_cfg_bytes_from_sram_read_num p ≤ 128) :
    let n := spi_cfg_bytes_from_sram_num p
    let r := spi_cfg_bytes_from_sram_read_num p
    let c := s.m_sram_count
    (∃ im1, set_peripheral_init_cmds_number hal_ok dc peripheral index k s
        = some (true, im1, s.grow
            (staged_bytes (spi_cfg_bytes_from_sram p) c n
              ++ staged_bytes (spi_cfg_bytes_from_sram_read p) (c + n) r
              ++ [(0x14 + 13 * (k - 1), n)]) (n + r)))
    ∧ i2c_cfg_command_num p = n
    ∧ (∀ i, i < n → i < 40) ∧ (∀ i, i < r → i < 40) := by
  intro n r c
  have hsz : SRAM_SIZE = 128 := rfl
  have hst : SRAM_START = 128 := rfl
  have hnum : i2c_cfg_command_num p = n := rfl
  have hcur : s.m_sram_count ≤ SRAM_SIZE := by omega
  have hne : ¬ (COM_SPI = COM_I2C) := by decide
  refine ⟨?_, rfl, fun i h => by omega, fun i h => by omega⟩
  have ha : init_cmds_arena hal_ok p s
      = (true, s.grow (staged_bytes (spi_cfg_bytes_from_sram p) c n
          ++ staged_bytes (spi_cfg_bytes_from_sram_read p) (c + n) r) (n + r)) := by
    simp only [init_cmds_arena, hs, hne, if_false, if_true, hcur, sram_write_loop_ok, hnum]
    rw [arena_image_staged_bytes _ (spi_bytes_from_sram_byte p) n s.m_sram_count (by omega)]
    by_cases hr0 : 0 < r
    · have hr1 : spi_cfg_bytes_from_sram_read_num p > 0 := hr0
      simp only [Bool.true_eq_false, if_false, hr1, if_true, sram_write_loop_ok]
      rw [arena_image_staged_bytes _ (spi_bytes_from_sram_read_byte p) r (s.m_sram_count + n)
        (by omega)]
      simp [State.grow, List.append_assoc, Nat.add_assoc, c]
    · have hr1 : ¬ spi_cfg_bytes_from_sram_read_num p > 0 := hr0
      have hr2 : r = 0 := by omega
      simp only [Bool.true_eq_false, if_false, hr1]
      simp [State.grow, hr2, staged_bytes, c]
  simp only [set_peripheral_init_cmds_number, hp, hs, hne, if_false, if_true, ha,
    images_set_self, npz_write_NCMDP, Nat.mod_mod, REG_NCMDP_slot k hk]
  rw [if_neg (by simp), pres_single hal_ok _ _ _ _ (by omega) (by omega)]
  have e : n % 128 = n := by omega
  simp only [hal_ok, e, after_eq_grow, grow_grow, decide_True, Nat.add_zero]
  exact ⟨_, rfl⟩

set_option maxRecDepth 100000 in
/-- C31 (witness). `peripheral_3` of main.c (two initialisation bytes, one read-sequence
byte) from the cursor 0: arena bytes at `0x80..0x82`, then the count 2 at `0x2E`, cursor
3. -/
theorem spi_command_staging_main_witness :
    ∃ im1, set_peripheral_init_cmds_number hal_ok npz_configuration Images.zero 2 3 State.init
        = some (true, im1, State.init.grow
            [(0x80, 0x20), (0x81, 0x10), (0x82, 0xA8), (0x2E, 2)] 3) :=
  (spi_command_staging npz_configuration Images.zero 2 3 State.init peripheral_3 rfl
      (Or.inr (Or.inr (Or.inl rfl))) rfl (by decide) (by decide) (by decide)).1

/-- With the cursor above `SRAM_SIZE` on entry, an I2C peripheral stages no arena byte:
the only transfer is the command count, and the cursor is unchanged. -/
theorem exhausted_arena_i2c (dc : npz_device_config_s) (peripheral : Images) (index : Int)
    (k : Nat) (s : State) (p : npz_peripheral_config_s)
    (hp : dc.peripheral_at index = some p) (hk : k = 1 ∨ k = 2 ∨ k = 3 ∨ k = 4)
    (hi : p.communication_protocol = COM_I2C) (hc : SRAM_SIZE < s.m_sram_count) :
    ∃ im1, set_peripheral_init_cmds_number hal_ok dc peripheral index k s
      = some (true, im1, s.grow [(0x14 + 13 * (k - 1), i2c_cfg_command_num p % 128)] 0) := by
  have hcur : ¬ s.m_sram_count ≤ SRAM_SIZE := by omega
  have ha : init_cmds_arena hal_ok p s = (true, s) := by
    simp only [init_cmds_arena, hi, if_true, hcur, if_false]
  simp only [set_peripheral_init_cmds_number, hp, hi, if_true, ha, images_set_self,
    npz_write_NCMDP, Nat.mod_mod, REG_NCMDP_slot k hk]
  rw [if_neg (by simp), pres_single hal_ok _ _ _ _ (by omega) (by omega)]
  simp only [hal_ok, after_eq_grow, decide_True]
  exact ⟨_, rfl⟩

/-- With the cursor above `SRAM_SIZE` on entry, an SPI peripheral skips its initialisation
bytes, but its read-sequence bytes are staged all the same, at the wrapped 8-bit addresses,
and the cursor advances by their number. -/
theorem exhausted_arena_spi (dc : npz_device_config_s) (peripheral : Images) (index : Int)
    (k : Nat) (s : State) (p : npz_peripheral_config_s)
    (hp : dc.peripheral_at index = some p) (hk : k = 1 ∨ k = 2 ∨ k = 3 ∨ k = 4)
    (hs : p.communication_protocol = COM_SPI) (hc : SRAM_SIZE < s.m_sram_count) :
    ∃ im1, set_peripheral_init_cmds_number hal_ok dc peripheral index k s
      = some (true, im1, s.grow
          (arena_image (spi_cfg_bytes_from_sram_read p) (spi_cfg_bytes_from_sram_read_num p)
              s.m_sram_count 0
            ++ [(0x14 + 13 * (k - 1), spi_cfg_bytes_from_sram_num p % 128)])
          (spi_cfg_bytes_from_sram_read_num p)) := by
  have hcur : ¬ s.m_sram_count ≤ SRAM_SIZE := by omega
  have hne : ¬ (COM_SPI = COM_I2C) := by decide
  have ha : init_cmds_arena hal_ok p s
      = (true, s.grow (arena_image (spi_cfg_bytes_from_sram_read p)
          (spi_cfg_bytes_from_sram_read_num p) s.m_sram_count 0)
          (spi_cfg_bytes_from_sram_read_num p)) := by
    simp only [init_cmds_arena, hs, hne, if_false, if_true, hcur, Bool.true_eq_false]
    by_cases hr0 : spi_cfg_bytes_from_sram_read_num p > 0
    · simp only [hr0, if_true, sram_write_loop_ok]
      rfl
    · have hr2 : spi_cfg_bytes_from_sram_read_num p = 0 := by omega
      simp only [hr2, gt_iff_lt, Nat.lt_irrefl, if_false, arena_image, grow_nil]
  simp only [set_peripheral_init_cmds_number, hp, hs, hne, if_false, if_true, ha,
    images_set_self, npz_write_NCMDP, Nat.mod_mod, REG_NCMDP_slot k hk]
  rw [if_neg (by simp), pres_single hal_ok _ _ _ _ (by omega) (by omega)]
  simp only [hal_ok, after_eq_grow, grow_grow, decide_True, Nat.add_zero]
  exact ⟨_, rfl⟩

set_option maxRecDepth 100000 in
/-- C32 (evaluation at the failing input). Three SPI peripherals of 40 + 40 bytes each, one
call of `npz_device_configure` from the start-up state with the succeeding transport.  The
first 181 transfers are those of the pass over two such peripherals, which ends with the
cursor at 160: the third peripheral enters `set_peripheral_init_cmds_number` with the
cursor above `SRAM_SIZE`.  Its 40 initialisation bytes (`0x11`) are skipped, but its 40
read-sequence bytes (`0xFF`) are transferred, to the wrapped addresses `0x20..0x47`, before
the count goes to `REG_NCMDP3`, and the cursor ends at 200. -/
theorem exhausted_arena_read_sequence_written :
    (npz_device_configure hal_ok (some two_spi_configuration) State.init).map
        (fun s => (s.log.length, s.m_sram_count)) = some (181, 160)
    ∧ (npz_device_configure hal_ok (some three_spi_configuration) State.init).map
        (fun s => s.log.take 181)
      = (npz_device_configure hal_ok (some two_spi_configuration) State.init).map
        (fun s => s.log)
    ∧ (npz_device_configure hal_ok (some three_spi_configuration) State.init).map
        (fun s => (s.log.drop 181, s.m_sram_count))
      = some ([(0x2A, 13), (0x2B, 0), (0x2C, 50), (0x2D, 0)]
          ++ (List.range 40).map (fun i => (0x20 + i, 0xFF))
          ++ [(0x2E, 40), (0x35, 0), (0x36, 0)], 200) := by
  decide

/-- The two transfers of an ADC channel: the over-threshold byte, then (only if that
transfer succeeded) the under-threshold byte. -/
theorem gres_pair (hal : Transport) (r1 r2 a b : Nat) (s : State) (h1 : r1 < 256)
    (h2 : r2 < 256) (ha : a < 256) (hb : b < 256) :
    (if (npz_hal_write hal r1 a s).1 ≠ OK then some (false, (npz_hal_write hal r1 a s).2)
      else if (npz_hal_write hal r2 b (npz_hal_write hal r1 a s).2).1 ≠ OK
        then some (false, (npz_hal_write hal r2 b (npz_hal_write hal r1 a s).2).2)
        else some (true, (npz_hal_write hal r2 b (npz_hal_write hal r1 a s).2).2) : GRes)
      = if hal s.log (r1, a) ≠ OK then some (false, s.after [(r1, a)])
        else some (decide (hal (s.log ++ [(r1, a)]) (r2, b) = OK),
          s.after [(r1, a), (r2, b)]) := by
  simp only [npz_hal_write_eq, Nat.mod_eq_of_lt h1, Nat.mod_eq_of_lt h2, Nat.mod_eq_of_lt ha,
    Nat.mod_eq_of_lt hb, state_after_after, state_after_log]
  by_cases e1 : hal s.log (r1, a) = OK
  · by_cases e2 : hal (s.log ++ [(r1, a)]) (r2, b) = OK <;> simp [e1, e2]
  · simp [e1]

theorem configure_internal_adc_eq (hal : Transport) (dc : npz_device_config_s) (s : State)
    (adc0 : npz_adc_config_channels_s) (h0 : dc.adc_channel_at 0 = some adc0) :
    configure_internal_adc hal dc s
      = if adc0.over_threshold % 256 = 0 ∨ adc0.under_threshold % 256 = 0 then
          some (false, s)
        else if hal s.log (0x44, adc0.over_threshold % 256 % 32) ≠ OK then
          some (false, s.after [(0x44, adc0.over_threshold % 256 % 32)])
        else some (decide (hal (s.log ++ [(0x44, adc0.over_threshold % 256 % 32)])
            (0x45, adc0.under_threshold % 256 % 32) = OK),
          s.after [(0x44, adc0.over_threshold % 256 % 32),
            (0x45, adc0.under_threshold % 256 % 32)]) := by
  by_cases hv : adc0.over_threshold % 256 = 0 ∨ adc0.under_threshold % 256 = 0
  · have hn : ¬ (adc0.over_threshold % 256 > 0 ∧ adc0.under_threshold % 256 > 0) := by omega
    simp only [configure_internal_adc, h0, hn, if_false, hv, if_true]
  · have hn : adc0.over_threshold % 256 > 0 ∧ adc0.under_threshold % 256 > 0 := by omega
    simp only [configure_internal_adc, h0, hn, and_self, if_true, hv, if_false,
      npz_write_THROVA1, npz_write_THRUNA1, Nat.mod_mod]
    exact gres_pair hal REG_THROVA1 REG_THRUNA1 _ _ s (by decide) (by decide) (by omega)
      (by omega)

theorem configure_external_adc_eq (hal : Transport) (dc : npz_device_config_s) (s : State)
    (adc1 : npz_adc_config_channels_s) (h1 : dc.adc_channel_at 1 = some adc1) :
    configure_external_adc hal dc s
      = if adc1.over_threshold % 256 = 0 ∨ adc1.under_threshold % 256 = 0 then
          some (false, s)
        else if hal s.log (0x46, adc1.over_threshold % 256 % 32) ≠ OK then
          some (false, s.after [(0x46, adc1.over_threshold % 256 % 32)])
        else some (decide (hal (s.log ++ [(0x46, adc1.over_threshold % 256 % 32)])
            (0x47, adc1.under_threshold % 256 % 32) = OK),
          s.after [(0x46, adc1.over_threshold % 256 % 32),
            (0x47, adc1.under_threshold % 256 % 32)]) := by
  by_cases hv : adc1.over_threshold % 256 = 0 ∨ adc1.under_threshold % 256 = 0
  · have hn : ¬ (adc1.over_threshold % 256 > 0 ∧ adc1.under_threshold % 256 > 0) := by omega
    simp only [configure_external_adc, h1, hn, if_false, hv, if_true]
  · have hn : adc1.over_threshold % 256 > 0 ∧ adc1.under_threshold % 256 > 0 := by omega
    simp only [configure_external_adc, h1, hn, and_self, if_true, hv, if_false,
      npz_write_THROVA2, npz_write_THRUNA2, Nat.mod_mod]
    exact gres_pair hal REG_THROVA2 REG_THRUNA2 _ _ s (by decide) (by decide) (by omega)
      (by omega)

theorem configure_internal_adc_ok (dc : npz_device_config_s) (s : State)
    (adc0 : npz_adc_config_channels_s) (h0 : dc.adc_channel_at 0 = some adc0) :
    configure_internal_adc hal_ok dc s
      = if adc0.over_threshold % 256 = 0 ∨ adc0.under_threshold % 256 = 0 then
          some (false, s)
        else some (true, s.after [(0x44, adc0.over_threshold % 256 % 32),
            (0x45, adc0.under_threshold % 256 % 32)]) := by
  rw [configure_internal_adc_eq hal_ok dc s adc0 h0]
  simp [hal_ok]

theorem configure_external_adc_ok (dc : npz_device_config_s) (s : State)
    (adc1 : npz_adc_config_channels_s) (h1 : dc.adc_channel_at 1 = some adc1) :
    configure_external_adc hal_ok dc s
      = if adc1.over_threshold % 256 = 0 ∨ adc1.under_threshold % 256 = 0 then
          some (false, s)
        else some (true, s.after [(0x46, adc1.over_threshold % 256 % 32),
            (0x47, adc1.under_threshold % 256 % 32)]) := by
  rw [configure_external_adc_eq hal_ok dc s adc1 h1]
  simp [hal_ok]

/-- C33. `configure_internal_adc` and `configure_external_adc` when both `adc_channels`
pointers are non-null, for every transport `hal`.  If the 8-bit `over_threshold` or
`under_threshold` of the channel is 0 the function returns `false` and the state (hence the
log) is unchanged.  Otherwise, under the succeeding transport it returns `true` having
issued exactly two transfers, the over-threshold to `0x44` (external: `0x46`) and then the
under-threshold to `0x45` (external: `0x47`); under any transport, if the first transfer is
refused the function returns `false` after that one transfer, and if it is accepted the
second transfer is issued and the result is whether it was accepted.  The byte transferred
is the threshold as held by the 5-bit field of the register structure. -/
theorem adc_channel_thresholds (hal : Transport) (dc : npz_device_config_s) (s : State)
    (adc0 adc1 : npz_adc_config_channels_s)
    (h0 : dc.adc_channel_at 0 = some adc0) (h1 : dc.adc_channel_at 1 = some adc1) :
    let o0 := adc0.over_threshold % 256
    let u0 := adc0.under_threshold % 256
    let o1 := adc1.over_threshold % 256
    let u1 := adc1.under_threshold % 256
    (o0 = 0 ∨ u0 = 0 → configure_internal_adc hal dc s = some (false, s))
    ∧ (o0 ≠ 0 → u0 ≠ 0 →
        configure_internal_adc hal_ok dc s
          = some (true, s.after [(0x44, o0 % 32), (0x45, u0 % 32)])
        ∧ (hal s.log (0x44, o0 % 32) ≠ OK →
            configure_internal_adc hal dc s = some (false, s.after [(0x44, o0 % 32)]))
        ∧ (hal s.log (0x44, o0 % 32) = OK →
            configure_internal_adc hal dc s
              = some (decide (hal (s.log ++ [(0x44, o0 % 32)]) (0x45, u0 % 32) = OK),
                  s.after [(0x44, o0 % 32), (0x45, u0 % 32)])))
    ∧ (o1 = 0 ∨ u1 = 0 → configure_external_adc hal dc s = some (false, s))
    ∧ (o1 ≠ 0 → u1 ≠ 0 →
        configure_external_adc hal_ok dc s
          = some (true, s.after [(0x46, o1 % 32), (0x47, u1 % 32)])
        ∧ (hal s.log (0x46, o1 % 32) ≠ OK →
            configure_external_adc hal dc s = some (false, s.after [(0x46, o1 % 32)]))
        ∧ (hal s.log (0x46, o1 % 32) = OK →
            configure_external_adc hal dc s
              = some (decide (hal (s.log ++ [(0x46, o1 % 32)]) (0x47, u1 % 32) = OK),
                  s.after [(0x46, o1 % 32), (0x47, u1 % 32)]))) := by
  intro o0 u0 o1 u1
  refine ⟨fun h => ?_, fun ho hu => ⟨?_, fun hf => ?_, fun hf => ?_⟩, fun h => ?_,
    fun ho hu => ⟨?_, fun hf => ?_, fun hf => ?_⟩⟩
  · rw [configure_internal_adc_eq hal dc s adc0 h0, if_pos h]
  · have hv : ¬ (o0 = 0 ∨ u0 = 0) := by omega
    rw [configure_internal_adc_eq hal_ok dc s adc0 h0, if_neg hv, if_neg (by simp [hal_ok])]
    simp [hal_ok]
  · have hv : ¬ (o0 = 0 ∨ u0 = 0) := by omega
    rw [configure_internal_adc_eq hal dc s adc0 h0, if_neg hv, if_pos hf]
  · have hv : ¬ (o0 = 0 ∨ u0 = 0) := by omega
    rw [configure_internal_adc_eq hal dc s adc0 h0, if_neg hv, if_neg (not_not.mpr hf)]
  · rw [configure_external_adc_eq hal dc s adc1 h1, if_pos h]
  · have hv : ¬ (o1 = 0 ∨ u1 = 0) := by omega
    rw [configure_external_adc_eq hal_ok dc s adc1 h1, if_neg hv, if_neg (by simp [hal_ok])]
    simp [hal_ok]
  · have hv : ¬ (o1 = 0 ∨ u1 = 0) := by omega
    rw [configure_external_adc_eq hal dc s adc1 h1, if_neg hv, if_pos hf]
  · have hv : ¬ (o1 = 0 ∨ u1 = 0) := by omega
    rw [configure_external_adc_eq hal dc s adc1 h1, if_neg hv, if_neg (not_not.mpr hf)]

/-- C33 (witness). Thresholds `0x0B`/`0x08` (internal) and `0x0D`/`0x06` (external): two
transfers per channel; a transport that refuses the first transfer stops the internal
channel after it; an external under-threshold of 0 is refused without a transfer. -/
theorem adc_channel_thresholds_witness :
    configure_internal_adc hal_ok (adc_configuration 0x0B 0x08 0x0D 0x06) State.init
      = some (true, State.init.after [(0x44, 0x0B), (0x45, 0x08)])
    ∧ configure_internal_adc (hal_fail_at 0) (adc_configuration 0x0B 0x08 0x0D 0x06) State.init
      = some (false, State.init.after [(0x44, 0x0B)])
    ∧ configure_external_adc hal_ok (adc_configuration 0x0B 0x08 0x0D 0x06) State.init
      = some (true, State.init.after [(0x46, 0x0D), (0x47, 0x06)])
    ∧ configure_external_adc hal_ok (adc_configuration 0x0B 0x08 0x0D 0) State.init
      = some (false, State.init) :=
  ⟨((adc_channel_thresholds hal_ok (adc_configuration 0x0B 0x08 0x0D 0x06) State.init _ _
      rfl rfl).2.1 (by decide) (by decide)).1,
    ((adc_channel_thresholds (hal_fail_at 0) (adc_configuration 0x0B 0x08 0x0D 0x06) State.init
      _ _ rfl rfl).2.1 (by decide) (by decide)).2.1 (by decide),
    ((adc_channel_thresholds hal_ok (adc_configuration 0x0B 0x08 0x0D 0x06) State.init _ _
      rfl rfl).2.2.2 (by decide) (by decide)).1,
    (adc_channel_thresholds hal_ok (adc_configuration 0x0B 0x08 0x0D 0) State.init _ _
      rfl rfl).2.2.1 (Or.inr rfl)⟩

/-- C34 (counterexample). Both channels have `wakeup_enable = 1` and external sampling is
enabled, but the internal over-threshold is 0: `npz_device_configure` issues the seven
transfers of the global group and nothing else, so neither the internal nor the external
thresholds are written. -/
theorem enabled_adc_channel_not_written :
    (adc_configuration 0 0x28 0x2D 0x26).adc_ext_sampling_enable = 1
    ∧ (adc_configuration 0 0x28 0x2D 0x26).adc_channels.map (Option.map (·.wakeup_enable))
      = [some 1, some 1]
    ∧ (npz_device_configure hal_ok (some (adc_configuration 0 0x28 0x2D 0x26)) State.init).map
        (fun s => s.log)
      = some [(0x08, 0xB8), (0x09, 0x0B), (0x05, 0x3C), (0x06, 0x50), (0x07, 0x06),
          (0x04, 0x2C), (0x0A, 0xFF)] := by
  decide

/-- C34. ADC channel gating and order in `npz_device_configure`, under the succeeding
transport, when both `adc_channels` pointers are non-null and the global group and the
peripheral sequences have succeeded, ending in the state `s2`.  The function returns, and
after `s2` it issues exactly: the internal thresholds to `0x44`, `0x45` if and only if
`adc_channels[0].wakeup_enable = 1` and both internal thresholds are non-zero; then the
external thresholds to `0x46`, `0x47` if and only if `adc_channels[1].wakeup_enable = 1`
and `adc_ext_sampling_enable = 1`, both external thresholds are non-zero, and the internal
channel was not refused (it is disabled or its thresholds are non-zero). -/
theorem adc_channel_gating (dc : npz_device_config_s) (s s1 s2 : State)
    (adc0 adc1 : npz_adc_config_channels_s)
    (h0 : dc.adc_channel_at 0 = some adc0) (h1 : dc.adc_channel_at 1 = some adc1)
    (hg : configure_global_settings hal_ok dc s = some (true, s1))
    (hpz : configure_peripherals hal_ok dc (validate_peripherals dc s1).2 = some (true, s2)) :
    let o0 := adc0.over_threshold % 256
    let u0 := adc0.under_threshold % 256
    let o1 := adc1.over_threshold % 256
    let u1 := adc1.under_threshold % 256
    let int_enabled := adc0.wakeup_enable % 2 = 1
    let ext_enabled := adc1.wakeup_enable % 2 = 1 ∧ dc.adc_ext_sampling_enable % 2 = 1
    let int_writes := if int_enabled ∧ o0 ≠ 0 ∧ u0 ≠ 0
      then [(0x44, o0 % 32), (0x45, u0 % 32)] else []
    let ext_writes := if ext_enabled ∧ (o1 ≠ 0 ∧ u1 ≠ 0) ∧ (int_enabled → o0 ≠ 0 ∧ u0 ≠ 0)
      then [(0x46, o1 % 32), (0x47, u1 % 32)] else []
    npz_device_configure hal_ok (some dc) s = some (s2.after (int_writes ++ ext_writes)) := by
  intro o0 u0 o1 u1 int_enabled ext_enabled int_writes ext_writes
  rw [npz_device_configure_eq hal_ok dc s h0 h1, hg]
  simp only [device_tail, hpz, GRes.andThen, configure_internal_adc_ok dc _ adc0 h0,
    configure_external_adc_ok dc _ adc1 h1]
  by_cases he0 : adc0.wakeup_enable % 2 = 1
  · by_cases hv0 : o0 = 0 ∨ u0 = 0
    · have hi : ¬ (int_enabled ∧ o0 ≠ 0 ∧ u0 ≠ 0) := by
        rintro ⟨_, a, b⟩; rcases hv0 with h | h <;> contradiction
      have hx : ¬ (ext_enabled ∧ (o1 ≠ 0 ∧ u1 ≠ 0) ∧ (int_enabled → o0 ≠ 0 ∧ u0 ≠ 0)) := by
        rintro ⟨_, _, h⟩; exact hi ⟨he0, h he0⟩
      simp only [he0, if_true, hv0, Option.map, int_writes, ext_writes, if_neg hi, if_neg hx,
        List.append_nil, state_after_nil]
    · have hi : int_enabled ∧ o0 ≠ 0 ∧ u0 ≠ 0 := ⟨he0, by omega, by omega⟩
      simp only [he0, if_true, hv0, if_false, int_writes, if_pos hi]
      by_cases hx : ext_enabled
      · by_cases hv1 : o1 = 0 ∨ u1 = 0
        · have hxx : ¬ (ext_enabled ∧ (o1 ≠ 0 ∧ u1 ≠ 0)
              ∧ (int_enabled → o0 ≠ 0 ∧ u0 ≠ 0)) := by
            rintro ⟨_, ⟨a, b⟩, _⟩; rcases hv1 with h | h <;> contradiction
          have hx2 : adc1.wakeup_enable % 2 = 1 ∧ dc.adc_ext_sampling_enable % 2 = 1 := hx
          simp only [hx2, and_self, if_true, hv1, Option.map, ext_writes, if_neg hxx,
            List.append_nil]
        · have hxx : ext_enabled ∧ (o1 ≠ 0 ∧ u1 ≠ 0) ∧ (int_enabled → o0 ≠ 0 ∧ u0 ≠ 0) :=
            ⟨hx, ⟨by omega, by omega⟩, fun _ => hi.2⟩
          have hx2 : adc1.wakeup_enable % 2 = 1 ∧ dc.adc_ext_sampling_enable % 2 = 1 := hx
          simp only [hx2, and_self, if_true, hv1, if_false, Option.map, ext_writes, if_pos hxx,
            state_after_after]
      · have hxx : ¬ (ext_enabled ∧ (o1 ≠ 0 ∧ u1 ≠ 0)
            ∧ (int_enabled → o0 ≠ 0 ∧ u0 ≠ 0)) := fun h => hx h.1
        have hx2 : ¬ (adc1.wakeup_enable % 2 = 1 ∧ dc.adc_ext_sampling_enable % 2 = 1) := hx
        simp only [hx2, if_false, Option.map, ext_writes, if_neg hxx, List.append_nil]
  · have hi : ¬ (int_enabled ∧ o0 ≠ 0 ∧ u0 ≠ 0) := fun h => he0 h.1
    simp only [he0, if_false, int_writes, if_neg hi, List.nil_append]
    by_cases hx : ext_enabled
    · by_cases hv1 : o1 = 0 ∨ u1 = 0
      · have hxx : ¬ (ext_enabled ∧ (o1 ≠ 0 ∧ u1 ≠ 0)
            ∧ (int_enabled → o0 ≠ 0 ∧ u0 ≠ 0)) := by
          rintro ⟨_, ⟨a, b⟩, _⟩; rcases hv1 with h | h <;> contradiction
        have hx2 : adc1.wakeup_enable % 2 = 1 ∧ dc.adc_ext_sampling_enable % 2 = 1 := hx
        simp only [hx2, and_self, if_true, hv1, Option.map, ext_writes, if_neg hxx,
          state_after_nil]
      · have hxx : ext_enabled ∧ (o1 ≠ 0 ∧ u1 ≠ 0) ∧ (int_enabled → o0 ≠ 0 ∧ u0 ≠ 0) :=
          ⟨hx, ⟨by omega, by omega⟩, fun h => absurd h he0⟩
        have hx2 : adc1.wakeup_enable % 2 = 1 ∧ dc.adc_ext_sampling_enable % 2 = 1 := hx
        simp only [hx2, and_self, if_true, hv1, if_false, Option.map, ext_writes, if_pos hxx]
    · have hxx : ¬ (ext_enabled ∧ (o1 ≠ 0 ∧ u1 ≠ 0)
          ∧ (int_enabled → o0 ≠ 0 ∧ u0 ≠ 0)) := fun h => hx h.1
      have hx2 : ¬ (adc1.wakeup_enable % 2 = 1 ∧ dc.adc_ext_sampling_enable % 2 = 1) := hx
      simp only [hx2, if_false, Option.map, ext_writes, if_neg hxx, state_after_nil]

set_option maxRecDepth 100000 in
/-- C34 (witness). With both channels enabled and non-zero thresholds the transfers after
the seven of the global group are `0x44`, `0x45`, `0x46`, `0x47` in that order; with the
ADC objects of main.c (both `wakeup_enable = 0`) no threshold register is written. -/
theorem adc_channel_gating_witness :
    (npz_device_configure hal_ok (some (adc_configuration 0x0B 0x08 0x0D 0x06)) State.init).map
        (fun s => s.log.drop 7)
      = some [(0x44, 0x0B), (0x45, 0x08), (0x46, 0x0D), (0x47, 0x06)]
    ∧ (npz_device_configure hal_ok (some npz_configuration_adc) State.init).map
        (fun s => s.log.filter fun w => decide (0x44 ≤ w.1 ∧ w.1 ≤ 0x47)) = some [] :=
  ⟨congrArg (Option.map fun s => s.log.drop 7)
      (adc_channel_gating (adc_configuration 0x0B 0x08 0x0D 0x06) State.init _ _ _ _ rfl rfl
        rfl rfl),
    congrArg (Option.map fun s => s.log.filter fun w => decide (0x44 ≤ w.1 ∧ w.1 ≤ 0x47))
      (adc_channel_gating npz_configuration_adc State.init _ _ _ _ rfl rfl rfl rfl)⟩

theorem REG_PERP_L_slot (k : Nat) (hk : k = 1 ∨ k = 2 ∨ k = 3 ∨ k = 4) :
    REG_PERP_L k = 0x12 + 13 * (k - 1) := by
  rcases hk with rfl | rfl | rfl | rfl <;> rfl

theorem REG_PERP_H_slot (k : Nat) (hk : k = 1 ∨ k = 2 ∨ k = 3 ∨ k = 4) :
    REG_PERP_H k = 0x13 + 13 * (k - 1) := by
  rcases hk with rfl | rfl | rfl | rfl <;> rfl

/-- The writer `npz_write_PERP` at a slot of 1..4, for every transport, by cases on the
period and on the status of the first transfer. -/
theorem npz_write_PERP_eq (hal : Transport) (k : Nat) (perp : npz_register_perp_s) (s : State)
    (hk : k = 1 ∨ k = 2 ∨ k = 3 ∨ k = 4) :
    npz_write_PERP hal k perp s
      = if perp.perp_l % 256 = 0 ∧ perp.perp_h % 256 = 0 then (INVALID_PARAM, s)
        else if hal s.log (0x12 + 13 * (k - 1), perp.perp_l % 256) ≠ OK then
          (ERR, s.after [(0x12 + 13 * (k - 1), perp.perp_l % 256)])
        else (hal (s.log ++ [(0x12 + 13 * (k - 1), perp.perp_l % 256)])
            (0x13 + 13 * (k - 1), perp.perp_h % 256),
          s.after [(0x12 + 13 * (k - 1), perp.perp_l % 256),
            (0x13 + 13 * (k - 1), perp.perp_h % 256)]) := by
  have hsw : k = PSW_LP1 ∨ k = PSW_LP2 ∨ k = PSW_LP3 ∨ k = PSW_LP4 := hk
  have e1 : (0x12 + 13 * (k - 1)) % 256 = 0x12 + 13 * (k - 1) := by omega
  have e2 : (0x13 + 13 * (k - 1)) % 256 = 0x13 + 13 * (k - 1) := by omega
  simp only [npz_write_PERP, hsw, if_true, npz_hal_write_eq, REG_PERP_L_slot k hk,
    REG_PERP_H_slot k hk, e1, e2, state_after_after, state_after_log]
  rfl

/-- C35. The polling-period codec, for every transport, every slot `k` of 1..4 and every
state.  `npz_write_PERP` returns `INVALID_PARAM` without a transfer if and only if `perp_l`
and `perp_h` are both 0; for every other value it issues the transfer of `perp_l` to
`PERP_L` of the slot (`0x12 + 13*(k - 1)`), returns `ERR` if that transfer is refused, and
otherwise issues the transfer of `perp_h` to `PERP_H` (`0x13 + 13*(k - 1)`) and returns its
status.  Hence, for a non-null peripheral, `set_peripheral_polling_period` returns `false`
exactly when the 16-bit `polling_period` is 0 or the transport refuses one of the two
transfers, and otherwise returns `true` after both transfers. -/
theorem polling_period_codec (hal : Transport) (k : Nat) (s : State)
    (hk : k = 1 ∨ k = 2 ∨ k = 3 ∨ k = 4) :
    let reg_l := 0x12 + 13 * (k - 1)
    let reg_h := 0x13 + 13 * (k - 1)
    (∀ perp : npz_register_perp_s,
      let l := perp.perp_l % 256
      let h := perp.perp_h % 256
      (((npz_write_PERP hal k perp s).1 = INVALID_PARAM
          ∧ (npz_write_PERP hal k perp s).2.log = s.log) ↔ (l = 0 ∧ h = 0))
      ∧ (¬ (l = 0 ∧ h = 0) →
          (hal s.log (reg_l, l) ≠ OK →
            npz_write_PERP hal k perp s = (ERR, s.after [(reg_l, l)]))
          ∧ (hal s.log (reg_l, l) = OK →
            npz_write_PERP hal k perp s
              = (hal (s.log ++ [(reg_l, l)]) (reg_h, h), s.after [(reg_l, l), (reg_h, h)]))))
    ∧ ∀ (dc : npz_device_config_s) (peripheral : Images) (index : Int)
        (p : npz_peripheral_config_s), dc.peripheral_at index = some p →
      let period := p.polling_period % 65536
      ((∃ im1 s1, set_peripheral_polling_period hal dc peripheral index k s
          = some (false, im1, s1))
        ↔ (period = 0 ∨ hal s.log (reg_l, period % 256) ≠ OK
            ∨ hal (s.log ++ [(reg_l, period % 256)]) (reg_h, period / 256) ≠ OK))
      ∧ ((∃ im1, set_peripheral_polling_period hal dc peripheral index k s
          = some (true, im1, s.after [(reg_l, period % 256), (reg_h, period / 256)]))
        ↔ ¬ (period = 0 ∨ hal s.log (reg_l, period % 256) ≠ OK
            ∨ hal (s.log ++ [(reg_l, period % 256)]) (reg_h, period / 256) ≠ OK)) := by
  intro reg_l reg_h
  constructor
  · intro perp l h
    rw [npz_write_PERP_eq hal k perp s hk]
    by_cases hz : l = 0 ∧ h = 0
    · have hz2 : perp.perp_l % 256 = 0 ∧ perp.perp_h % 256 = 0 := hz
      simp only [hz2, and_self, if_true]
      exact ⟨⟨fun _ => hz, fun _ => trivial⟩, fun hn => absurd hz hn⟩
    · have hz2 : ¬ (perp.perp_l % 256 = 0 ∧ perp.perp_h % 256 = 0) := hz
      simp only [if_neg hz2]
      refine ⟨?_, fun _ => ⟨fun hf => by rw [if_pos hf], fun hf => by
        rw [if_neg (not_not.mpr hf)]⟩⟩
      constructor
      · rintro ⟨_, hlog⟩
        exfalso
        by_cases hf : hal s.log (0x12 + 13 * (k - 1), perp.perp_l % 256) = OK
        · rw [if_neg (not_not.mpr hf)] at hlog
          simp [State.after] at hlog
        · rw [if_pos hf] at hlog
          simp [State.after] at hlog
      · intro h'; exact absurd h' hz
  · intro dc peripheral index p hp period
    have hdiv : period / 256 % 256 = period / 256 := by omega
    have key : set_peripheral_polling_period hal dc peripheral index k s
        = if period = 0 then
            some (false, peripheral.set index fun im =>
              { im with perp := { perp_l := period % 256, perp_h := period / 256 % 256 } }, s)
          else if hal s.log (reg_l, period % 256) ≠ OK then
            some (false, peripheral.set index fun im =>
              { im with perp := { perp_l := period % 256, perp_h := period / 256 % 256 } },
              s.after [(reg_l, period % 256)])
          else some (decide (hal (s.log ++ [(reg_l, period % 256)]) (reg_h, period / 256) = OK),
              peripheral.set index fun im =>
              { im with perp := { perp_l := period % 256, perp_h := period / 256 % 256 } },
              s.after [(reg_l, period % 256), (reg_h, period / 256)]) := by
      simp only [set_peripheral_polling_period, hp, images_set_self,
        npz_write_PERP_eq hal k _ s hk, Nat.mod_mod, hdiv]
      by_cases hz : period = 0
      · have hz2 : p.polling_period % 65536 % 256 = 0
            ∧ p.polling_period % 65536 / 256 = 0 := by omega
        simp only [hz, hz2, and_self, if_true]
        simp
      · have hz2 : ¬ (p.polling_period % 65536 % 256 = 0
            ∧ p.polling_period % 65536 / 256 = 0) := by omega
        simp only [hz, hz2, if_false]
        by_cases hf : hal s.log (reg_l, period % 256) = OK
        · simp only [hf, not_true_eq_false, if_false]
          by_cases hf2 : hal (s.log ++ [(reg_l, period % 256)]) (reg_h, period / 256) = OK
            <;> simp [hf2]
        · have hf' : ¬ hal s.log (0x12 + 13 * (k - 1), p.polling_period % 65536 % 256) = OK := hf
          simp [hf', reg_l, period]
    rw [key]
    by_cases hz : period = 0
    · simp [hz]
    · by_cases hf : hal s.log (reg_l, period % 256) = OK
      · by_cases hf2 : hal (s.log ++ [(reg_l, period % 256)]) (reg_h, period / 256) = OK
        · simp [hz, hf, hf2]
        · simp [hz, hf, hf2]
      · simp [hz, hf]

/-- C35 (witness). Slot 3: the period 50 is written as `(0x2C, 50)`, `(0x2D, 0)`; the period
0 gives `INVALID_PARAM` without a transfer; `peripheral_3` of main.c is accepted, and it is
refused when the transport refuses the second transfer. -/
theorem polling_period_codec_witness :
    npz_write_PERP hal_ok 3 { perp_l := 50, perp_h := 0 } State.init
      = (OK, State.init.after [(0x2C, 50), (0x2D, 0)])
    ∧ ((npz_write_PERP hal_ok 3 { perp_l := 0, perp_h := 0 } State.init).1 = INVALID_PARAM
      ∧ (npz_write_PERP hal_ok 3 { perp_l := 0, perp_h := 0 } State.init).2.log
        = State.init.log)
    ∧ (∃ im1, set_peripheral_polling_period hal_ok npz_configuration Images.zero 2 3 State.init
        = some (true, im1, State.init.after [(0x2C, 50), (0x2D, 0)]))
    ∧ ∃ im1 s1, set_peripheral_polling_period (hal_fail_at 1) npz_configuration Images.zero 2 3
        State.init = some (false, im1, s1) :=
  ⟨(((polling_period_codec hal_ok 3 State.init (Or.inr (Or.inr (Or.inl rfl)))).1
      { perp_l := 50, perp_h := 0 }).2 (by decide)).2 rfl,
    (((polling_period_codec hal_ok 3 State.init (Or.inr (Or.inr (Or.inl rfl)))).1
      { perp_l := 0, perp_h := 0 }).1).mpr ⟨rfl, rfl⟩,
    (((polling_period_codec hal_ok 3 State.init (Or.inr (Or.inr (Or.inl rfl)))).2
      npz_configuration Images.zero 2 peripheral_3 rfl).2).mpr (by decide),
    (((polling_period_codec (hal_fail_at 1) 3 State.init (Or.inr (Or.inr (Or.inl rfl)))).2
      npz_configuration Images.zero 2 peripheral_3 rfl).1).mpr (Or.inr (Or.inr (by decide)))⟩

/-- The search loop finds a code exactly when it occurs among the codes of the table. -/
theorem code_map_loop_found (code : Nat) :
    ∀ map : List (Nat × Nat),
      (code_map_loop map code).1 = true ↔ code ∈ map.map Prod.fst := by
  intro map
  induction map with
  | nil => simp [code_map_loop]
  | cons e rest ih =>
    obtain ⟨c, mv⟩ := e
    by_cases h : c = code
    · simp [code_map_loop, h]
    · have h' : ¬ code = c := fun e => h e.symm
      simp [code_map_loop, h, h', ih]

/-- When nothing is found nothing is printed. -/
theorem code_map_loop_silent (code : Nat) :
    ∀ map : List (Nat × Nat), (code_map_loop map code).1 = false →
      (code_map_loop map code).2 = none := by
  intro map
  induction map with
  | nil => intro _; rfl
  | cons e rest ih =>
    obtain ⟨c, mv⟩ := e
    by_cases h : c = code
    · simp [code_map_loop, h]
    · simpa [code_map_loop, h] using ih

/-- In a table without repeated codes the voltage printed for a code is the one of its
entry. -/
theorem code_map_loop_report (code mv : Nat) :
    ∀ map : List (Nat × Nat), (map.map Prod.fst).Nodup → (code, mv) ∈ map →
      code_map_loop map code = (true, some (mv / 1000, mv % 1000)) := by
  intro map
  induction map with
  | nil => intro _ h; simp at h
  | cons e rest ih =>
    obtain ⟨c, m⟩ := e
    intro hnd hmem
    rw [List.map_cons, List.nodup_cons] at hnd
    rcases List.mem_cons.mp hmem with heq | hin
    · obtain ⟨rfl, rfl⟩ := Prod.mk.inj heq
      simp [code_map_loop]
    · have hne : c ≠ code := by
        intro hc
        apply hnd.1
        rw [hc]
        exact List.mem_map.mpr ⟨(code, mv), hin, rfl⟩
      simp only [code_map_loop, hne, if_false]
      exact ih hnd.2 hin

theorem adc_ext_codes_nodup : (adc_ext_code_map.map Prod.fst).Nodup := by decide

theorem adc_core_codes_nodup : (adc_core_code_map.map Prod.fst).Nodup := by decide

theorem adc_to_voltage_eq (map : List (Nat × Nat)) (c : Nat) :
    (if ¬ (code_map_loop map c).1 then (false, (code_map_loop map c).2)
      else (true, (code_map_loop map c).2)) = code_map_loop map c := by
  cases h : (code_map_loop map c).1
  · simp only [Bool.false_eq_true, not_false_eq_true, if_true]
    exact Prod.ext h.symm rfl
  · simp only [not_true_eq_false, if_false]
    exact Prod.ext h.symm rfl

/-- C36. Telemetry lookup, for every code `c` (8 bits): `adc_ext_code_to_voltage` returns
`true` if and only if `c` is a code of `adc_ext_code_map`; for an entry `(c, mv)` of the
table it returns `true` and prints `mv / 1000` and `mv % 1000`, that is `mv` millivolts; for
a code outside the table it returns `false` and prints no voltage.  The same holds for
`adc_core_code_to_voltage` and `adc_core_code_map`, whose codes are exactly those of
`0x24..0x34` other than `0x25` and `0x27`. -/
theorem telemetry_lookup (code : Nat) :
    ((adc_ext_code_to_voltage code).1 = true ↔ code % 256 ∈ adc_ext_code_map.map Prod.fst)
    ∧ (∀ mv, (code % 256, mv) ∈ adc_ext_code_map →
        adc_ext_code_to_voltage code = (true, some (mv / 1000, mv % 1000))
        ∧ 1000 * (mv / 1000) + mv % 1000 = mv)
    ∧ (code % 256 ∉ adc_ext_code_map.map Prod.fst →
        adc_ext_code_to_voltage code = (false, none))
    ∧ ((adc_core_code_to_voltage code).1 = true ↔ code % 256 ∈ adc_core_code_map.map Prod.fst)
    ∧ (∀ mv, (code % 256, mv) ∈ adc_core_code_map →
        adc_core_code_to_voltage code = (true, some (mv / 1000, mv % 1000))
        ∧ 1000 * (mv / 1000) + mv % 1000 = mv)
    ∧ (code % 256 ∉ adc_core_code_map.map Prod.fst →
        adc_core_code_to_voltage code = (false, none))
    ∧ (code % 256 ∈ adc_core_code_map.map Prod.fst
        ↔ 0x24 ≤ code % 256 ∧ code % 256 ≤ 0x34 ∧ code % 256 ≠ 0x25 ∧ code % 256 ≠ 0x27) := by
  have silent : ∀ map : List (Nat × Nat), code % 256 ∉ map.map Prod.fst →
      code_map_loop map (code % 256) = (false, none) := by
    intro map h
    have h1 : (code_map_loop map (code % 256)).1 = false := by
      cases hb : (code_map_loop map (code % 256)).1
      · rfl
      · exact absurd ((code_map_loop_found (code % 256) map).mp hb) h
    exact Prod.ext h1 (code_map_loop_silent (code % 256) map h1)
  refine ⟨?_, fun mv h => ⟨?_, by omega⟩, fun h => ?_, ?_, fun mv h => ⟨?_, by omega⟩,
    fun h => ?_, ?_⟩
  · simp only [adc_ext_code_to_voltage, adc_to_voltage_eq]
    exact code_map_loop_found (code % 256) adc_ext_code_map
  · simp only [adc_ext_code_to_voltage, adc_to_voltage_eq]
    exact code_map_loop_report (code % 256) mv adc_ext_code_map adc_ext_codes_nodup h
  · simp only [adc_ext_code_to_voltage, adc_to_voltage_eq]
    exact silent adc_ext_code_map h
  · simp only [adc_core_code_to_voltage, adc_to_voltage_eq]
    exact code_map_loop_found (code % 256) adc_core_code_map
  · simp only [adc_core_code_to_voltage, adc_to_voltage_eq]
    exact code_map_loop_report (code % 256) mv adc_core_code_map adc_core_codes_nodup h
  · simp only [adc_core_code_to_voltage, adc_to_voltage_eq]
    exact silent adc_core_code_map h
  · simp only [adc_core_code_map, List.map_cons, List.map_nil, List.mem_cons,
      List.mem_singleton, List.not_mem_nil, or_false]
    omega

/-- C36 (witness). Code `0x2B` of the external table is 2.000 V, code `0x30` of the core
table is 2.600 V; `0x01` is not in the external table and `0x25` not in the core table. -/
theorem telemetry_lookup_witness :
    adc_ext_code_to_voltage 0x2B = (true, some (2, 0))
    ∧ adc_core_code_to_voltage 0x30 = (true, some (2, 600))
    ∧ adc_ext_code_to_voltage 0x01 = (false, none)
    ∧ adc_core_code_to_voltage 0x25 = (false, none) :=
  ⟨((telemetry_lookup 0x2B).2.1 2000 (by decide)).1,
    ((telemetry_lookup 0x30).2.2.2.2.1 2600 (by decide)).1,
    (telemetry_lookup 0x01).2.2.1 (by decide),
    (telemetry_lookup 0x25).2.2.2.2.2.1 (by decide)⟩

/-- C37 (evaluation of the tables). The codes of both tables are strictly increasing and
the millivolts of `adc_core_code_map` are strictly increasing, but the millivolts of
`adc_ext_code_map` are not: entry 19 is `(0x30, 3600)` and entry 20 is `(0x31, 2700)`, so
`adc_ext_code_to_voltage` reports 3.600 V for the code `0x30` and 2.700 V for `0x31`.  The
core table pairs `0x30` with 2600. -/
theorem adc_ext_millivolts_not_increasing :
    (adc_ext_code_map.map Prod.fst).Sorted (· < ·)
    ∧ (adc_core_code_map.map Prod.fst).Sorted (· < ·)
    ∧ (adc_core_code_map.map Prod.snd).Sorted (· < ·)
    ∧ ¬ (adc_ext_code_map.map Prod.snd).Sorted (· < ·)
    ∧ (adc_ext_code_map.get? 19, adc_ext_code_map.get? 20)
      = (some (0x30, 3600), some (0x31, 2700))
    ∧ adc_ext_code_to_voltage 0x30 = (true, some (3, 600))
    ∧ adc_ext_code_to_voltage 0x31 = (true, some (2, 700))
    ∧ adc_core_code_map.get? 10 = some (0x30, 2600) := by
  decide

/-- C38 (evaluation at the failing input). With both ADC channels enabled and the
thresholds of main.c, `0x2B` and `0x28` (internal), `0x2D` and `0x26` (external), one call
of `npz_device_configure` over the succeeding transport writes `0x0B`, `0x08`, `0x0D`,
`0x06` to the registers `0x44..0x47`: each threshold passes the 8-bit test `> 0` and is
then stored in a 5-bit register field.  The configured values are codes of the driver's
tables (2.000 V and 1.700 V in `adc_core_code_map`, 2.200 V and 1.600 V in
`adc_ext_code_map`); the bytes written are codes of neither channel's table.  The non-zero
over-threshold `0x20` is accepted and written as `0x00`. -/
theorem adc_threshold_not_written_unchanged :
    (configure_internal_adc hal_ok npz_configuration_adc State.init).map
        (fun r => (r.1, r.2.log)) = some (true, [(0x44, 0x0B), (0x45, 0x08)])
    ∧ (configure_external_adc hal_ok npz_configuration_adc State.init).map
        (fun r => (r.1, r.2.log)) = some (true, [(0x46, 0x0D), (0x47, 0x06)])
    ∧ (npz_adc_internal_config.over_threshold, npz_adc_internal_config.under_threshold,
        npz_adc_external_config.over_threshold, npz_adc_external_config.under_threshold)
      = (0x2B, 0x28, 0x2D, 0x26)
    ∧ (configure_internal_adc hal_ok (adc_configuration 0x20 0x28 0x2D 0x26) State.init).map
        (fun r => (r.1, r.2.log)) = some (true, [(0x44, 0x00), (0x45, 0x08)])
    ∧ (npz_device_configure hal_ok (some (adc_configuration 0x2B 0x28 0x2D 0x26))
          State.init).map (fun s => s.log.drop 7)
      = some [(0x44, 0x0B), (0x45, 0x08), (0x46, 0x0D), (0x47, 0x06)]
    ∧ [0x2B, 0x28, 0x0B, 0x08, 0x00].map adc_core_code_to_voltage
      = [(true, some (2, 0)), (true, some (1, 700)), (false, none), (false, none),
          (false, none)]
    ∧ [0x2D, 0x26, 0x0D, 0x06].map adc_ext_code_to_voltage
      = [(true, some (2, 200)), (true, some (1, 600)), (false, none), (false, none)] := by
  decide

theorem REG_VALP_L_slot (k : Nat) (hk : k = 1 ∨ k = 2 ∨ k = 3 ∨ k = 4) :
    REG_VALP_L k = 0x50 + 2 * (k - 1) := by
  rcases hk with rfl | rfl | rfl | rfl <;> rfl

theorem REG_VALP_H_slot (k : Nat) (hk : k = 1 ∨ k = 2 ∨ k = 3 ∨ k = 4) :
    REG_VALP_H k = 0x51 + 2 * (k - 1) := by
  rcases hk with rfl | rfl | rfl | rfl <;> rfl

/-- The value stored by `npz_device_read_peripheral_value`: `(valp_h << 8) | valp_l` of two
bytes is `valp_l + 256 * valp_h`. -/
theorem valp_value (l h : Nat) (hl : l < 256) : (h <<< 8) ||| l = l + 256 * h := by
  rw [Nat.lor_comm]
  exact or_shift_eq_add l h 8 hl

/-- The function `npz_device_read_peripheral_value` at a slot of 1..4, by cases on the
statuses of its reads and on the polling mode decoded from the CFGP byte. -/
theorem npz_device_read_peripheral_value_eq (rd : ReadTransport) (k : Nat) (index : Int)
    (pv : Int) (rlog : List Nat) (hk : k = 1 ∨ k = 2 ∨ k = 3 ∨ k = 4) :
    npz_device_read_peripheral_value rd k index pv rlog
      = if (rd rlog (0x10 + 13 * (k - 1))).1 ≠ OK then (false, pv, rlog ++ [0x10 + 13 * (k - 1)])
        else if 2 ≤ (rd rlog (0x10 + 13 * (k - 1))).2 % 256 / 4 % 4 then
          (true, pv, rlog ++ [0x10 + 13 * (k - 1)])
        else if (rd (rlog ++ [0x10 + 13 * (k - 1)]) (0x50 + 2 * (k - 1))).1 ≠ OK then
          (false, pv, rlog ++ [0x10 + 13 * (k - 1), 0x50 + 2 * (k - 1)])
        else if (rd (rlog ++ [0x10 + 13 * (k - 1), 0x50 + 2 * (k - 1)])
            (0x51 + 2 * (k - 1))).1 ≠ OK then
          (false, pv, rlog ++ [0x10 + 13 * (k - 1), 0x50 + 2 * (k - 1), 0x51 + 2 * (k - 1)])
        else if (rd (rlog ++ [0x10 + 13 * (k - 1), 0x50 + 2 * (k - 1), 0x51 + 2 * (k - 1)])
            (0x15 + 13 * (k - 1))).1 ≠ OK then
          (false, pv, rlog ++ [0x10 + 13 * (k - 1), 0x50 + 2 * (k - 1), 0x51 + 2 * (k - 1),
            0x15 + 13 * (k - 1)])
        else (true,
          Int.ofNat ((rd (rlog ++ [0x10 + 13 * (k - 1)]) (0x50 + 2 * (k - 1))).2 % 256
            + 256 * ((rd (rlog ++ [0x10 + 13 * (k - 1), 0x50 + 2 * (k - 1)])
                (0x51 + 2 * (k - 1))).2 % 256)),
          rlog ++ [0x10 + 13 * (k - 1), 0x50 + 2 * (k - 1), 0x51 + 2 * (k - 1),
            0x15 + 13 * (k - 1)]) := by
  have e0 : (0x10 + 13 * (k - 1)) % 256 = 0x10 + 13 * (k - 1) := by omega
  have e1 : (0x50 + 2 * (k - 1)) % 256 = 0x50 + 2 * (k - 1) := by omega
  have e2 : (0x51 + 2 * (k - 1)) % 256 = 0x51 + 2 * (k - 1) := by omega
  have e3 : (0x15 + 13 * (k - 1)) % 256 = 0x15 + 13 * (k - 1) := by omega
  simp only [npz_device_read_peripheral_value, npz_read_CFGP_eq, npz_read_ADDRP_eq,
    npz_read_VALP, npz_hal_read, REG_CFGP_slot k hk, REG_ADDRP_slot k hk, REG_VALP_L_slot k hk,
    REG_VALP_H_slot k hk, e0, e1, e2, e3, overlay_cfgp, overlay_addrp, ite_self,
    List.append_assoc, List.singleton_append, List.cons_append, List.nil_append]
  by_cases h0 : (rd rlog (0x10 + 13 * (k - 1))).1 = OK
  · simp only [h0, ne_eq, not_true_eq_false, if_false]
    by_cases hm : 2 ≤ (rd rlog (0x10 + 13 * (k - 1))).2 % 256 / 4 % 4
    · have hm' : ¬ ((rd rlog (0x10 + 13 * (k - 1))).2 % 256 / 4 % 4
          = POLLING_MODE_PERIODIC_READ_COMPARE_THRESHOLD
          ∨ (rd rlog (0x10 + 13 * (k - 1))).2 % 256 / 4 % 4
            = POLLING_MODE_PERIODIC_WAIT_INTERRUPT_COMPARE_THRESHOLD) := by
        show ¬ (_ = 0 ∨ _ = 1)
        omega
      simp only [hm, hm', if_true, if_false]
    · have hm' : ((rd rlog (0x10 + 13 * (k - 1))).2 % 256 / 4 % 4
          = POLLING_MODE_PERIODIC_READ_COMPARE_THRESHOLD
          ∨ (rd rlog (0x10 + 13 * (k - 1))).2 % 256 / 4 % 4
            = POLLING_MODE_PERIODIC_WAIT_INTERRUPT_COMPARE_THRESHOLD) := by
        show (_ = 0 ∨ _ = 1)
        omega
      simp only [hm, hm', if_true, if_false]
      by_cases h1 : (rd (rlog ++ [0x10 + 13 * (k - 1)]) (0x50 + 2 * (k - 1))).1 = OK
      · simp only [h1, if_true, not_true_eq_false, if_false]
        by_cases h2 : (rd (rlog ++ [0x10 + 13 * (k - 1), 0x50 + 2 * (k - 1)])
            (0x51 + 2 * (k - 1))).1 = OK
        · simp only [h2, not_true_eq_false, if_false]
          rw [valp_value _ _ (Nat.mod_lt _ (by decide))]
          simp only [List.append_assoc, List.cons_append, List.nil_append]
        · simp only [h2, not_false_eq_true, if_true]
      · simp only [h1, if_false, not_false_eq_true, if_true]
  · simp only [h0, ne_eq, not_false_eq_true, if_true]

/-- C39. `npz_device_read_peripheral_value` at a slot `k` of 1..4, for every read
transport.  It reads `CFGP` of the slot; if that read fails it returns `false`.  With the
polling mode `mode` decoded from bits 2..3 of the byte read: for `mode` 2 or 3 it issues no
further read, leaves `*peripheral_value` unchanged and returns `true`; for `mode` 0 or 1 it
reads `VALP_L` (`0x50 + 2*(k - 1)`), then `VALP_H`, then `ADDRP`, returns `false` at the
first of these reads that fails, leaving `*peripheral_value` unchanged, and otherwise
stores `valp_l + 256*valp_h`, a value of `0..65535`, and returns `true`.  So the result is
`false` if and only if one of the reads issued fails. -/
theorem read_peripheral_value_spec (rd : ReadTransport) (k : Nat) (index : Int) (pv : Int)
    (rlog : List Nat) (hk : k = 1 ∨ k = 2 ∨ k = 3 ∨ k = 4) :
    let cfgp := 0x10 + 13 * (k - 1)
    let valp_l := 0x50 + 2 * (k - 1)
    let valp_h := 0x51 + 2 * (k - 1)
    let addrp := 0x15 + 13 * (k - 1)
    let r0 := rd rlog cfgp
    let mode := r0.2 % 256 / 4 % 4
    let r1 := rd (rlog ++ [cfgp]) valp_l
    let r2 := rd (rlog ++ [cfgp, valp_l]) valp_h
    let r3 := rd (rlog ++ [cfgp, valp_l, valp_h]) addrp
    let value := r1.2 % 256 + 256 * (r2.2 % 256)
    let out := npz_device_read_peripheral_value rd k index pv rlog
    (r0.1 ≠ OK → out = (false, pv, rlog ++ [cfgp]))
    ∧ (r0.1 = OK → 2 ≤ mode → out = (true, pv, rlog ++ [cfgp]))
    ∧ (r0.1 = OK → mode ≤ 1 → r1.1 ≠ OK → out = (false, pv, rlog ++ [cfgp, valp_l]))
    ∧ (r0.1 = OK → mode ≤ 1 → r1.1 = OK → r2.1 ≠ OK →
        out = (false, pv, rlog ++ [cfgp, valp_l, valp_h]))
    ∧ (r0.1 = OK → mode ≤ 1 → r1.1 = OK → r2.1 = OK → r3.1 ≠ OK →
        out = (false, pv, rlog ++ [cfgp, valp_l, valp_h, addrp]))
    ∧ (r0.1 = OK → mode ≤ 1 → r1.1 = OK → r2.1 = OK → r3.1 = OK →
        out = (true, Int.ofNat value, rlog ++ [cfgp, valp_l, valp_h, addrp])
        ∧ value ≤ 65535)
    ∧ (out.1 = false ↔
        r0.1 ≠ OK ∨ (r0.1 = OK ∧ mode ≤ 1
          ∧ (r1.1 ≠ OK ∨ (r1.1 = OK ∧ (r2.1 ≠ OK ∨ (r2.1 = OK ∧ r3.1 ≠ OK)))))) := by
  intro cfgp valp_l valp_h addrp r0 mode r1 r2 r3 value out
  have key := npz_device_read_peripheral_value_eq rd k index pv rlog hk
  refine ⟨fun h0 => ?_, fun h0 hm => ?_, fun h0 hm h1 => ?_, fun h0 hm h1 h2 => ?_,
    fun h0 hm h1 h2 h3 => ?_, fun h0 hm h1 h2 h3 => ⟨?_, by omega⟩, ?_⟩
  · rw [show out = _ from key, if_pos h0]
  · rw [show out = _ from key, if_neg (not_not.mpr h0), if_pos hm]
  · rw [show out = _ from key, if_neg (not_not.mpr h0),
      if_neg (Nat.not_le.mpr (Nat.lt_succ_of_le hm)), if_pos h1]
  · rw [show out = _ from key, if_neg (not_not.mpr h0),
      if_neg (Nat.not_le.mpr (Nat.lt_succ_of_le hm)),
      if_neg (not_not.mpr h1), if_pos h2]
  · rw [show out = _ from key, if_neg (not_not.mpr h0),
      if_neg (Nat.not_le.mpr (Nat.lt_succ_of_le hm)),
      if_neg (not_not.mpr h1), if_neg (not_not.mpr h2), if_pos h3]
  · rw [show out = _ from key, if_neg (not_not.mpr h0),
      if_neg (Nat.not_le.mpr (Nat.lt_succ_of_le hm)),
      if_neg (not_not.mpr h1), if_neg (not_not.mpr h2), if_neg (not_not.mpr h3)]
  · rw [show out = _ from key]
    by_cases h0 : r0.1 = OK
    · by_cases hm : 2 ≤ mode
      · rw [if_neg (not_not.mpr h0), if_pos hm]
        simp only [Bool.true_eq_false, false_iff, not_or, not_and, not_not]
        exact ⟨h0, fun _ hle => absurd hle (by omega)⟩
      · rw [if_neg (not_not.mpr h0), if_neg hm]
        have hle : mode ≤ 1 := by omega
        by_cases h1 : r1.1 = OK
        · by_cases h2 : r2.1 = OK
          · by_cases h3 : r3.1 = OK
            · rw [if_neg (not_not.mpr h1), if_neg (not_not.mpr h2), if_neg (not_not.mpr h3)]
              simp [h0, h1, h2, h3]
            · rw [if_neg (not_not.mpr h1), if_neg (not_not.mpr h2), if_pos h3]
              simp [h0, h1, h2, h3, hle]
          · rw [if_neg (not_not.mpr h1), if_pos h2]
            simp [h0, h1, h2, hle]
        · rw [if_pos h1]
          simp [h0, h1, hle]
    · rw [if_pos h0]
      simp [h0]

/-- C39 (witness). Slot 3 with polling mode 0 and the bytes `0x34`, `0x12` in the value
registers: the value is `0x1234` after four reads; with polling mode 2 only `CFGP` is read
and the value stays `-1`; when the third read fails the result is `false`. -/
theorem read_peripheral_value_witness :
    npz_device_read_peripheral_value
        (rd_mem fun r => if r = 0x2A then 0x21 else if r = 0x54 then 0x34 else 0x12) 3 2 (-1) []
      = (true, 0x1234, [0x2A, 0x54, 0x55, 0x2F])
    ∧ npz_device_read_peripheral_value (rd_mem fun _ => 0x2A) 3 2 (-1) [] = (true, -1, [0x2A])
    ∧ npz_device_read_peripheral_value (rd_fail_at 2 fun _ => 0x21) 3 2 (-1) []
      = (false, -1, [0x2A, 0x54, 0x55]) :=
  ⟨((read_peripheral_value_spec
      (rd_mem fun r => if r = 0x2A then 0x21 else if r = 0x54 then 0x34 else 0x12) 3 2 (-1) []
      (Or.inr (Or.inr (Or.inl rfl)))).2.2.2.2.2.1 rfl (by decide) rfl rfl rfl).1,
    (read_peripheral_value_spec (rd_mem fun _ => 0x2A) 3 2 (-1) []
      (Or.inr (Or.inr (Or.inl rfl)))).2.1 rfl (by decide),
    (read_peripheral_value_spec (rd_fail_at 2 fun _ => 0x21) 3 2 (-1) []
      (Or.inr (Or.inr (Or.inl rfl)))).2.2.2.1 rfl (by decide) rfl (by decide)⟩

end NPZ
